import Mathlib

/-
Command parameter marshalling of `host/xtest/regression_4000.c`

A shallow embedding of the `ta_crypt_cmd_*` wrappers of the crypto regression
suite.  Each wrapper fills a four-slot `TEEC_Operation`, hands it to
`TEEC_InvokeCommand` with one command identifier, classifies the result and
copies the output sizes back to the caller.

Conventions of the embedding
* handles (`TEE_OperationHandle`, `TEE_ObjectHandle`) are the numeric value of
  `(uintptr_t)handle`, a `Nat`; the cast `(uint32_t)` is `% 2 ^ 32`;
* a pointer to a buffer is modelled by what it points to, `none` being `NULL`;
* `assert` aborts the process: a wrapper returns `none` when an assertion fails;
* the trusted application behind `TEEC_InvokeCommand` and the helper
  `pack_attrs` are parameters of every wrapper;
* `size_t *len` in/out arguments are passed in by value and returned in `out`.
-/

namespace Regression4000

/- Client API data model -/

/-- Largest value of `uint32_t`. -/
def UINT32_MAX : Nat := 4294967295

/-- Modelled from the spec: the parameter type tags of tee_client_api.h, which is not part of
the sources; the six tags a slot can carry. -/
inductive ParamType where
  | TEEC_NONE
  | TEEC_VALUE_INPUT
  | TEEC_VALUE_OUTPUT
  | TEEC_VALUE_INOUT
  | TEEC_MEMREF_TEMP_INPUT
  | TEEC_MEMREF_TEMP_OUTPUT
  deriving DecidableEq, Repr

open ParamType

/-- Modelled from the spec: the type-tag vector `TEEC_PARAM_TYPES(p0, p1, p2, p3)` of
tee_client_api.h (not part of the sources), kept as the four tags it packs. -/
structure ParamTypes where
  p0 : ParamType
  p1 : ParamType
  p2 : ParamType
  p3 : ParamType
  deriving DecidableEq, Repr

/-- The macro `TEEC_PARAM_TYPES`. -/
def TEEC_PARAM_TYPES (p0 p1 p2 p3 : ParamType) : ParamTypes := ⟨p0, p1, p2, p3⟩

/-- Tag of slot `i` in a tag vector. -/
def ParamTypes.get (t : ParamTypes) (i : Fin 4) : ParamType :=
  match i with
  | 0 => t.p0
  | 1 => t.p1
  | 2 => t.p2
  | 3 => t.p3

/-- A pointer to bytes: `none` is `NULL`, `some bs` points to the bytes `bs`. -/
abbrev Ptr := Option (List Nat)

/-- The view `value` of a parameter: two `uint32_t` fields. -/
structure TEEC_Value where
  a : Nat
  b : Nat
  deriving DecidableEq, Repr

/-- The view `tmpref` of a parameter: buffer pointer and `size_t` size. -/
structure TEEC_TempMemoryReference where
  buffer : Ptr
  size : Nat
  deriving DecidableEq, Repr

/-- One parameter slot.  `TEEC_Parameter` is a C union; no wrapper uses two views of the
same slot, so the views are kept as separate fields. -/
structure TEEC_Parameter where
  tmpref : TEEC_TempMemoryReference
  value : TEEC_Value
  deriving DecidableEq, Repr

/-- The zero content a slot has after `TEEC_OPERATION_INITIALIZER`. -/
def TEEC_Parameter.zero : TEEC_Parameter := ⟨⟨none, 0⟩, ⟨0, 0⟩⟩

/-- The four slots `params[0..3]`. -/
structure Params where
  s0 : TEEC_Parameter
  s1 : TEEC_Parameter
  s2 : TEEC_Parameter
  s3 : TEEC_Parameter
  deriving DecidableEq, Repr

/-- Read of `params[i]`. -/
def Params.get (p : Params) (i : Fin 4) : TEEC_Parameter :=
  match i with
  | 0 => p.s0
  | 1 => p.s1
  | 2 => p.s2
  | 3 => p.s3

/-- Write of `params[i]`. -/
def Params.set (p : Params) (i : Fin 4) (v : TEEC_Parameter) : Params :=
  match i with
  | 0 => { p with s0 := v }
  | 1 => { p with s1 := v }
  | 2 => { p with s2 := v }
  | 3 => { p with s3 := v }

/-- The parameter block `TEEC_Operation`. -/
structure TEEC_Operation where
  started : Nat
  paramTypes : ParamTypes
  params : Params
  deriving DecidableEq, Repr

/-- The initializer `TEEC_OPERATION_INITIALIZER`, that is `{ 0 }`: every field zero, every tag
`TEEC_NONE` (whose value is 0). -/
def TEEC_OPERATION_INITIALIZER : TEEC_Operation :=
  { started := 0
    paramTypes := TEEC_PARAM_TYPES TEEC_NONE TEEC_NONE TEEC_NONE TEEC_NONE
    params := ⟨TEEC_Parameter.zero, TEEC_Parameter.zero, TEEC_Parameter.zero,
      TEEC_Parameter.zero⟩ }

/-- Modelled from the spec: `TEEC_SUCCESS` of tee_client_api.h (not part of the sources), the
single well-known success status. -/
def TEEC_SUCCESS : Nat := 0

/-- Modelled from the spec: `TEEC_ERROR_SHORT_BUFFER` of tee_client_api.h (not part of the
sources), the short-buffer status. -/
def TEEC_ERROR_SHORT_BUFFER : Nat := 0xFFFF0010

/-- Modelled from the spec: `TEEC_ERROR_OUT_OF_MEMORY` of tee_client_api.h (not part of the
sources), a failure status. -/
def TEEC_ERROR_OUT_OF_MEMORY : Nat := 0xFFFF000C

/-- Modelled from the spec: `TEEC_ORIGIN_TRUSTED_APP` of tee_client_api.h (not part of the
sources), the origin code of the trusted application. -/
def TEEC_ORIGIN_TRUSTED_APP : Nat := 4

/-- Modelled from the spec: `TEEC_ORIGIN_COMMS` of tee_client_api.h (not part of the sources),
an origin code other than the trusted application. -/
def TEEC_ORIGIN_COMMS : Nat := 2

/-- Modelled from the spec: the command identifiers of ta_crypt.h (not part of the sources)
that the wrappers of this file issue; a closed enumeration of distinct identifiers. -/
inductive TA_CRYPT_CMD where
  | TA_CRYPT_CMD_RESET_OPERATION
  | TA_CRYPT_CMD_COPY_OPERATION
  | TA_CRYPT_CMD_DIGEST_UPDATE
  | TA_CRYPT_CMD_DIGEST_DO_FINAL
  | TA_CRYPT_CMD_SET_OPERATION_KEY2
  | TA_CRYPT_CMD_MAC_INIT
  | TA_CRYPT_CMD_MAC_UPDATE
  | TA_CRYPT_CMD_MAC_FINAL_COMPUTE
  | TA_CRYPT_CMD_CIPHER_INIT
  | TA_CRYPT_CMD_CIPHER_UPDATE
  | TA_CRYPT_CMD_CIPHER_DO_FINAL
  | TA_CRYPT_CMD_RANDOM_NUMBER_GENEREATE
  | TA_CRYPT_CMD_AE_INIT
  | TA_CRYPT_CMD_AE_UPDATE_AAD
  | TA_CRYPT_CMD_AE_UPDATE
  | TA_CRYPT_CMD_AE_ENCRYPT_FINAL
  | TA_CRYPT_CMD_AE_DECRYPT_FINAL
  | TA_CRYPT_CMD_ASYMMETRIC_ENCRYPT
  | TA_CRYPT_CMD_ASYMMETRIC_DECRYPT
  | TA_CRYPT_CMD_ASYMMETRIC_SIGN_DIGEST
  | TA_CRYPT_CMD_ASYMMETRIC_VERIFY_DIGEST
  | TA_CRYPT_CMD_GET_OBJECT_VALUE_ATTRIBUTE
  | TA_CRYPT_CMD_GENERATE_KEY
  deriving DecidableEq, Repr

open TA_CRYPT_CMD

/-- What `TEEC_InvokeCommand` hands back: the status, the origin written to `ret_orig` and
the parameter block as the callee left it. -/
structure InvokeResult where
  res : Nat
  ret_orig : Nat
  op : TEEC_Operation
  deriving DecidableEq, Repr

/-- The session with the trusted application, as seen through `TEEC_InvokeCommand`. -/
abbrev Invoker := TA_CRYPT_CMD → TEEC_Operation → InvokeResult

/-- An attribute `TEE_Attribute` (tee_api_types.h): an identifier and a union `content`
with the views `ref` (buffer and length, here the bytes of the buffer) and `value`
(two `uint32_t`).  Which view is meant is told by the flag `TEE_ATTR_BIT_VALUE` of the
identifier. -/
structure TEE_Attribute where
  attributeID : Nat
  ref_buffer : List Nat
  value_a : Nat
  value_b : Nat
  deriving DecidableEq, Repr

/-- What `pack_attrs(params, paramCount, &buf, &blen)` hands back. -/
structure PackResult where
  res : Nat
  buf : Ptr
  blen : Nat
  deriving DecidableEq, Repr

/-- The helper `pack_attrs` as the wrappers see it. -/
abbrev Packer := List TEE_Attribute → PackResult

/- Test harness (ADBG) -/

/-- A failure recorded against the running test case. -/
inductive Failure where
  | teec_result (res : Nat)
  | error_origin (expected actual : Nat)
  | compare_unsigned (lhs rhs : Nat)
  | compare_signed (lhs rhs : Int)
  | buffer (expected actual : List Nat)
  | not_true
  deriving DecidableEq, Repr

/-- The test case `ADBG_Case_t`: the failures recorded so far, latest first. -/
structure ADBG_Case_t where
  failures : List Failure
  deriving DecidableEq, Repr

/-- Modelled from the spec: `ADBG_EXPECT_TEEC_SUCCESS` of the ADBG harness (not part of the
sources): records a failure unless the status is the success status, and tells whether
it was. -/
def ADBG_EXPECT_TEEC_SUCCESS (c : ADBG_Case_t) (res : Nat) : Bool × ADBG_Case_t :=
  if res = TEEC_SUCCESS then (true, c) else (false, ⟨Failure.teec_result res :: c.failures⟩)

/-- Modelled from the spec: `ADBG_EXPECT_TEEC_ERROR_ORIGIN` of the ADBG harness (not part of
the sources): records a failure unless the origin is the expected one. -/
def ADBG_EXPECT_TEEC_ERROR_ORIGIN (c : ADBG_Case_t) (expected actual : Nat) :
    Bool × ADBG_Case_t :=
  if expected = actual then (true, c)
  else (false, ⟨Failure.error_origin expected actual :: c.failures⟩)

/-- Modelled from the spec: `ADBG_EXPECT_COMPARE_UNSIGNED(c, lhs, ==, rhs)` of the ADBG
harness (not part of the sources): records a failure unless both sides are equal. -/
def ADBG_EXPECT_COMPARE_UNSIGNED_EQ (c : ADBG_Case_t) (lhs rhs : Nat) : Bool × ADBG_Case_t :=
  if lhs = rhs then (true, c) else (false, ⟨Failure.compare_unsigned lhs rhs :: c.failures⟩)

/- Building the parameter block -/

/-- The block under construction, with the slots assigned so far (a ghost record). -/
structure Binder where
  op : TEEC_Operation
  filled : List (Fin 4)
  deriving DecidableEq, Repr

/-- The declaration `TEEC_Operation op = TEEC_OPERATION_INITIALIZER`. -/
def Binder.init : Binder := ⟨TEEC_OPERATION_INITIALIZER, []⟩

/-- The assignment `op.params[i].value.a = v`. -/
def Binder.value_a (s : Binder) (i : Fin 4) (v : Nat) : Binder :=
  let p := s.op.params.get i
  { op := { s.op with params := s.op.params.set i { p with value := { p.value with a := v } } }
    filled := i :: s.filled }

/-- The assignment `op.params[i].value.b = v`. -/
def Binder.value_b (s : Binder) (i : Fin 4) (v : Nat) : Binder :=
  let p := s.op.params.get i
  { op := { s.op with params := s.op.params.set i { p with value := { p.value with b := v } } }
    filled := i :: s.filled }

/-- The assignment `op.params[i].tmpref.buffer = p`. -/
def Binder.tmpref_buffer (s : Binder) (i : Fin 4) (b : Ptr) : Binder :=
  let p := s.op.params.get i
  { op := { s.op with
      params := s.op.params.set i { p with tmpref := { p.tmpref with buffer := b } } }
    filled := i :: s.filled }

/-- The assignment `op.params[i].tmpref.size = n`. -/
def Binder.tmpref_size (s : Binder) (i : Fin 4) (n : Nat) : Binder :=
  let p := s.op.params.get i
  { op := { s.op with
      params := s.op.params.set i { p with tmpref := { p.tmpref with size := n } } }
    filled := i :: s.filled }

/-- The assignment `op.paramTypes = t`. -/
def Binder.set_paramTypes (s : Binder) (t : ParamTypes) : Binder :=
  { s with op := { s.op with paramTypes := t } }

/-- An event the outside can observe during a wrapper call. -/
inductive Event where
  | pack_attrs (params : List TEE_Attribute)
  | invoke (cmd : TA_CRYPT_CMD) (op : TEEC_Operation)
  deriving DecidableEq, Repr

/-- What a wrapper leaves behind: the status it returns, the test case, the calls it made in
order, the values stored through its output pointers, and two ghost records: the slots
it assigned before the call and the slots its code reads after the call. -/
structure Ret (α : Type) where
  res : Nat
  c : ADBG_Case_t
  trace : List Event
  filled : List (Fin 4)
  read : List (Fin 4)
  out : α
  deriving DecidableEq, Repr

/-- The check of the origin every wrapper makes after the call:
`if (res != TEEC_SUCCESS) (void)ADBG_EXPECT_TEEC_ERROR_ORIGIN(c, TEEC_ORIGIN_TRUSTED_APP,
ret_orig);`. -/
def check_origin (c : ADBG_Case_t) (r : InvokeResult) : ADBG_Case_t :=
  if r.res ≠ TEEC_SUCCESS then
    (ADBG_EXPECT_TEEC_ERROR_ORIGIN c TEEC_ORIGIN_TRUSTED_APP r.ret_orig).2
  else c

/- The wrappers -/

/-- Source: `ta_crypt_cmd_reset_operation`. -/
def ta_crypt_cmd_reset_operation (inv : Invoker) (c : ADBG_Case_t)
    (oph : Nat) : Option (Ret Unit) :=
  let op := Binder.init
  if ¬ oph ≤ UINT32_MAX then none else
  let op := op.value_a 0 (oph % 2 ^ 32)
  let op := op.set_paramTypes
    (TEEC_PARAM_TYPES TEEC_VALUE_INPUT TEEC_NONE TEEC_NONE TEEC_NONE)
  let r := inv TA_CRYPT_CMD_RESET_OPERATION op.op
  let c := check_origin c r
  some { res := r.res, c := c, trace := [Event.invoke TA_CRYPT_CMD_RESET_OPERATION op.op],
         filled := op.filled, read := [], out := () }

/-- Source: `ta_crypt_cmd_copy_operation`. -/
def ta_crypt_cmd_copy_operation (inv : Invoker) (c : ADBG_Case_t)
    (dst_oph src_oph : Nat) : Option (Ret Unit) :=
  let op := Binder.init
  if ¬ dst_oph ≤ UINT32_MAX then none else
  let op := op.value_a 0 (dst_oph % 2 ^ 32)
  if ¬ src_oph ≤ UINT32_MAX then none else
  let op := op.value_b 0 (src_oph % 2 ^ 32)
  let op := op.set_paramTypes
    (TEEC_PARAM_TYPES TEEC_VALUE_INPUT TEEC_NONE TEEC_NONE TEEC_NONE)
  let r := inv TA_CRYPT_CMD_COPY_OPERATION op.op
  let c := check_origin c r
  some { res := r.res, c := c, trace := [Event.invoke TA_CRYPT_CMD_COPY_OPERATION op.op],
         filled := op.filled, read := [], out := () }

/-- Source: `ta_crypt_cmd_digest_update`. -/
def ta_crypt_cmd_digest_update (inv : Invoker) (c : ADBG_Case_t)
    (oph : Nat) (chunk : Ptr) (chunk_size : Nat) : Option (Ret Unit) :=
  let op := Binder.init
  if ¬ oph ≤ UINT32_MAX then none else
  let op := op.value_a 0 (oph % 2 ^ 32)
  let op := op.tmpref_buffer 1 chunk
  let op := op.tmpref_size 1 chunk_size
  let op := op.set_paramTypes
    (TEEC_PARAM_TYPES TEEC_VALUE_INPUT TEEC_MEMREF_TEMP_INPUT TEEC_NONE TEEC_NONE)
  let r := inv TA_CRYPT_CMD_DIGEST_UPDATE op.op
  let c := check_origin c r
  some { res := r.res, c := c, trace := [Event.invoke TA_CRYPT_CMD_DIGEST_UPDATE op.op],
         filled := op.filled, read := [], out := () }

/-- Source: `ta_crypt_cmd_digest_do_final`. -/
def ta_crypt_cmd_digest_do_final (inv : Invoker) (c : ADBG_Case_t)
    (oph : Nat) (chunk : Ptr) (chunk_len : Nat) (hash : Ptr) (hash_len : Nat) : Option (Ret Nat) :=
  let op := Binder.init
  if ¬ oph ≤ UINT32_MAX then none else
  let op := op.value_a 0 (oph % 2 ^ 32)
  let op := op.tmpref_buffer 1 chunk
  let op := op.tmpref_size 1 chunk_len
  let op := op.tmpref_buffer 2 hash
  let op := op.tmpref_size 2 hash_len
  let op := op.set_paramTypes
    (TEEC_PARAM_TYPES TEEC_VALUE_INPUT TEEC_MEMREF_TEMP_INPUT TEEC_MEMREF_TEMP_OUTPUT TEEC_NONE)
  let r := inv TA_CRYPT_CMD_DIGEST_DO_FINAL op.op
  let c := check_origin c r
  let hash_len := if r.res = TEEC_SUCCESS then (r.op.params.get 2).tmpref.size else hash_len
  some { res := r.res, c := c, trace := [Event.invoke TA_CRYPT_CMD_DIGEST_DO_FINAL op.op],
         filled := op.filled, read := [2], out := hash_len }

/-- Source: `ta_crypt_cmd_set_operation_key2`. -/
def ta_crypt_cmd_set_operation_key2 (inv : Invoker) (c : ADBG_Case_t)
    (oph key1 key2 : Nat) : Option (Ret Unit) :=
  let op := Binder.init
  if ¬ oph ≤ UINT32_MAX then none else
  let op := op.value_a 0 (oph % 2 ^ 32)
  if ¬ key1 ≤ UINT32_MAX then none else
  let op := op.value_b 0 (key1 % 2 ^ 32)
  if ¬ key2 ≤ UINT32_MAX then none else
  let op := op.value_a 1 (key2 % 2 ^ 32)
  let op := op.set_paramTypes
    (TEEC_PARAM_TYPES TEEC_VALUE_INPUT TEEC_VALUE_INPUT TEEC_NONE TEEC_NONE)
  let r := inv TA_CRYPT_CMD_SET_OPERATION_KEY2 op.op
  let c := check_origin c r
  some { res := r.res, c := c, trace := [Event.invoke TA_CRYPT_CMD_SET_OPERATION_KEY2 op.op],
         filled := op.filled, read := [], out := () }

/-- Source: `ta_crypt_cmd_mac_init`. -/
def ta_crypt_cmd_mac_init (inv : Invoker) (c : ADBG_Case_t)
    (oph : Nat) (iv : Ptr) (iv_len : Nat) : Option (Ret Unit) :=
  let op := Binder.init
  if ¬ oph ≤ UINT32_MAX then none else
  let op := op.value_a 0 (oph % 2 ^ 32)
  let op :=
    if iv ≠ none then
      let op := op.tmpref_buffer 1 iv
      let op := op.tmpref_size 1 iv_len
      op.set_paramTypes
        (TEEC_PARAM_TYPES TEEC_VALUE_INPUT TEEC_MEMREF_TEMP_INPUT TEEC_NONE TEEC_NONE)
    else
      op.set_paramTypes
        (TEEC_PARAM_TYPES TEEC_VALUE_INPUT TEEC_NONE TEEC_NONE TEEC_NONE)
  let r := inv TA_CRYPT_CMD_MAC_INIT op.op
  let c := check_origin c r
  some { res := r.res, c := c, trace := [Event.invoke TA_CRYPT_CMD_MAC_INIT op.op],
         filled := op.filled, read := [], out := () }

/-- Source: `ta_crypt_cmd_mac_update`. -/
def ta_crypt_cmd_mac_update (inv : Invoker) (c : ADBG_Case_t)
    (oph : Nat) (chunk : Ptr) (chunk_size : Nat) : Option (Ret Unit) :=
  let op := Binder.init
  if ¬ oph ≤ UINT32_MAX then none else
  let op := op.value_a 0 (oph % 2 ^ 32)
  let op := op.tmpref_buffer 1 chunk
  let op := op.tmpref_size 1 chunk_size
  let op := op.set_paramTypes
    (TEEC_PARAM_TYPES TEEC_VALUE_INPUT TEEC_MEMREF_TEMP_INPUT TEEC_NONE TEEC_NONE)
  let r := inv TA_CRYPT_CMD_MAC_UPDATE op.op
  let c := check_origin c r
  some { res := r.res, c := c, trace := [Event.invoke TA_CRYPT_CMD_MAC_UPDATE op.op],
         filled := op.filled, read := [], out := () }

/-- Source: `ta_crypt_cmd_mac_final_compute`. -/
def ta_crypt_cmd_mac_final_compute (inv : Invoker) (c : ADBG_Case_t)
    (oph : Nat) (chunk : Ptr) (chunk_len : Nat) (hash : Ptr) (hash_len : Nat) : Option (Ret Nat) :=
  let op := Binder.init
  if ¬ oph ≤ UINT32_MAX then none else
  let op := op.value_a 0 (oph % 2 ^ 32)
  let op := op.tmpref_buffer 1 chunk
  let op := op.tmpref_size 1 chunk_len
  let op := op.tmpref_buffer 2 hash
  let op := op.tmpref_size 2 hash_len
  let op := op.set_paramTypes
    (TEEC_PARAM_TYPES TEEC_VALUE_INPUT TEEC_MEMREF_TEMP_INPUT TEEC_MEMREF_TEMP_OUTPUT TEEC_NONE)
  let r := inv TA_CRYPT_CMD_MAC_FINAL_COMPUTE op.op
  let c := check_origin c r
  let hash_len := if r.res = TEEC_SUCCESS then (r.op.params.get 2).tmpref.size else hash_len
  some { res := r.res, c := c, trace := [Event.invoke TA_CRYPT_CMD_MAC_FINAL_COMPUTE op.op],
         filled := op.filled, read := [2], out := hash_len }

/-- Source: `ta_crypt_cmd_cipher_init`. -/
def ta_crypt_cmd_cipher_init (inv : Invoker) (c : ADBG_Case_t)
    (oph : Nat) (iv : Ptr) (iv_len : Nat) : Option (Ret Unit) :=
  let op := Binder.init
  if ¬ oph ≤ UINT32_MAX then none else
  let op := op.value_a 0 (oph % 2 ^ 32)
  let op :=
    if iv ≠ none then
      let op := op.tmpref_buffer 1 iv
      let op := op.tmpref_size 1 iv_len
      op.set_paramTypes
        (TEEC_PARAM_TYPES TEEC_VALUE_INPUT TEEC_MEMREF_TEMP_INPUT TEEC_NONE TEEC_NONE)
    else
      op.set_paramTypes
        (TEEC_PARAM_TYPES TEEC_VALUE_INPUT TEEC_NONE TEEC_NONE TEEC_NONE)
  let r := inv TA_CRYPT_CMD_CIPHER_INIT op.op
  let c := check_origin c r
  some { res := r.res, c := c, trace := [Event.invoke TA_CRYPT_CMD_CIPHER_INIT op.op],
         filled := op.filled, read := [], out := () }

/-- Source: `ta_crypt_cmd_cipher_update`. -/
def ta_crypt_cmd_cipher_update (inv : Invoker) (c : ADBG_Case_t)
    (oph : Nat) (src : Ptr) (src_len : Nat) (dst : Ptr) (dst_len : Nat) : Option (Ret Nat) :=
  let op := Binder.init
  if ¬ oph ≤ UINT32_MAX then none else
  let op := op.value_a 0 (oph % 2 ^ 32)
  let op := op.tmpref_buffer 1 src
  let op := op.tmpref_size 1 src_len
  let op := op.tmpref_buffer 2 dst
  let op := op.tmpref_size 2 dst_len
  let op := op.set_paramTypes
    (TEEC_PARAM_TYPES TEEC_VALUE_INPUT TEEC_MEMREF_TEMP_INPUT TEEC_MEMREF_TEMP_OUTPUT TEEC_NONE)
  let r := inv TA_CRYPT_CMD_CIPHER_UPDATE op.op
  let c := check_origin c r
  let dst_len := if r.res = TEEC_SUCCESS then (r.op.params.get 2).tmpref.size else dst_len
  some { res := r.res, c := c, trace := [Event.invoke TA_CRYPT_CMD_CIPHER_UPDATE op.op],
         filled := op.filled, read := [2], out := dst_len }

/-- Source: `ta_crypt_cmd_cipher_do_final`. -/
def ta_crypt_cmd_cipher_do_final (inv : Invoker) (c : ADBG_Case_t)
    (oph : Nat) (src : Ptr) (src_len : Nat) (dst : Ptr) (dst_len : Nat) : Option (Ret Nat) :=
  let op := Binder.init
  if ¬ oph ≤ UINT32_MAX then none else
  let op := op.value_a 0 (oph % 2 ^ 32)
  let op := op.tmpref_buffer 1 src
  let op := op.tmpref_size 1 src_len
  let op := op.tmpref_buffer 2 dst
  let op := op.tmpref_size 2 dst_len
  let op := op.set_paramTypes
    (TEEC_PARAM_TYPES TEEC_VALUE_INPUT TEEC_MEMREF_TEMP_INPUT TEEC_MEMREF_TEMP_OUTPUT TEEC_NONE)
  let r := inv TA_CRYPT_CMD_CIPHER_DO_FINAL op.op
  let c := check_origin c r
  let dst_len := if r.res = TEEC_SUCCESS then (r.op.params.get 2).tmpref.size else dst_len
  some { res := r.res, c := c, trace := [Event.invoke TA_CRYPT_CMD_CIPHER_DO_FINAL op.op],
         filled := op.filled, read := [2], out := dst_len }

/-- Source: `ta_crypt_cmd_random_number_generate`. -/
def ta_crypt_cmd_random_number_generate (inv : Invoker) (c : ADBG_Case_t)
    (buf : Ptr) (blen : Nat) : Option (Ret Unit) :=
  let op := Binder.init
  let op := op.tmpref_buffer 0 buf
  let op := op.tmpref_size 0 blen
  let op := op.set_paramTypes
    (TEEC_PARAM_TYPES TEEC_MEMREF_TEMP_OUTPUT TEEC_NONE TEEC_NONE TEEC_NONE)
  let r := inv TA_CRYPT_CMD_RANDOM_NUMBER_GENEREATE op.op
  let c := check_origin c r
  let c := (ADBG_EXPECT_COMPARE_UNSIGNED_EQ c blen (r.op.params.get 0).tmpref.size).2
  some { res := r.res, c := c, trace := [Event.invoke TA_CRYPT_CMD_RANDOM_NUMBER_GENEREATE op.op],
         filled := op.filled, read := [0], out := () }

/-- Source: `ta_crypt_cmd_ae_init`. -/
def ta_crypt_cmd_ae_init (inv : Invoker) (c : ADBG_Case_t)
    (oph : Nat) (nonce : Ptr) (nonce_len : Nat) (tag_len aad_len payload_len : Nat) :
    Option (Ret Unit) :=
  let op := Binder.init
  if ¬ oph ≤ UINT32_MAX then none else
  let op := op.value_a 0 (oph % 2 ^ 32)
  let op := op.value_b 0 (tag_len % 2 ^ 32)
  let op := op.tmpref_buffer 1 nonce
  let op := op.tmpref_size 1 nonce_len
  let op := op.value_a 2 (aad_len % 2 ^ 32)
  let op := op.value_b 2 (payload_len % 2 ^ 32)
  let op := op.set_paramTypes
    (TEEC_PARAM_TYPES TEEC_VALUE_INPUT TEEC_MEMREF_TEMP_INPUT TEEC_VALUE_INPUT TEEC_NONE)
  let r := inv TA_CRYPT_CMD_AE_INIT op.op
  let c := check_origin c r
  some { res := r.res, c := c, trace := [Event.invoke TA_CRYPT_CMD_AE_INIT op.op],
         filled := op.filled, read := [], out := () }

/-- Source: `ta_crypt_cmd_ae_update_aad`. -/
def ta_crypt_cmd_ae_update_aad (inv : Invoker) (c : ADBG_Case_t)
    (oph : Nat) (aad : Ptr) (aad_len : Nat) : Option (Ret Unit) :=
  let op := Binder.init
  if ¬ oph ≤ UINT32_MAX then none else
  let op := op.value_a 0 (oph % 2 ^ 32)
  let op := op.tmpref_buffer 1 aad
  let op := op.tmpref_size 1 aad_len
  let op := op.set_paramTypes
    (TEEC_PARAM_TYPES TEEC_VALUE_INPUT TEEC_MEMREF_TEMP_INPUT TEEC_NONE TEEC_NONE)
  let r := inv TA_CRYPT_CMD_AE_UPDATE_AAD op.op
  let c := check_origin c r
  some { res := r.res, c := c, trace := [Event.invoke TA_CRYPT_CMD_AE_UPDATE_AAD op.op],
         filled := op.filled, read := [], out := () }

/-- Source: `ta_crypt_cmd_ae_update`. -/
def ta_crypt_cmd_ae_update (inv : Invoker) (c : ADBG_Case_t)
    (oph : Nat) (src : Ptr) (src_len : Nat) (dst : Ptr) (dst_len : Nat) : Option (Ret Nat) :=
  let op := Binder.init
  if ¬ oph ≤ UINT32_MAX then none else
  let op := op.value_a 0 (oph % 2 ^ 32)
  let op := op.tmpref_buffer 1 src
  let op := op.tmpref_size 1 src_len
  let op := op.tmpref_buffer 2 dst
  let op := op.tmpref_size 2 dst_len
  let op := op.set_paramTypes
    (TEEC_PARAM_TYPES TEEC_VALUE_INPUT TEEC_MEMREF_TEMP_INPUT TEEC_MEMREF_TEMP_OUTPUT TEEC_NONE)
  let r := inv TA_CRYPT_CMD_AE_UPDATE op.op
  let c := check_origin c r
  let dst_len := if r.res = TEEC_SUCCESS then (r.op.params.get 2).tmpref.size else dst_len
  some { res := r.res, c := c, trace := [Event.invoke TA_CRYPT_CMD_AE_UPDATE op.op],
         filled := op.filled, read := [2], out := dst_len }

/-- Source: `ta_crypt_cmd_ae_encrypt_final`. -/
def ta_crypt_cmd_ae_encrypt_final (inv : Invoker) (c : ADBG_Case_t)
    (oph : Nat) (src : Ptr) (src_len : Nat) (dst : Ptr) (dst_len : Nat) (tag : Ptr)
    (tag_len : Nat) : Option (Ret (Nat × Nat)) :=
  let op := Binder.init
  if ¬ oph ≤ UINT32_MAX then none else
  let op := op.value_a 0 (oph % 2 ^ 32)
  let op := op.tmpref_buffer 1 src
  let op := op.tmpref_size 1 src_len
  let op := op.tmpref_buffer 2 dst
  let op := op.tmpref_size 2 dst_len
  let op := op.tmpref_buffer 3 tag
  let op := op.tmpref_size 3 tag_len
  let op := op.set_paramTypes
    (TEEC_PARAM_TYPES TEEC_VALUE_INPUT TEEC_MEMREF_TEMP_INPUT
      TEEC_MEMREF_TEMP_OUTPUT TEEC_MEMREF_TEMP_OUTPUT)
  let r := inv TA_CRYPT_CMD_AE_ENCRYPT_FINAL op.op
  let c := check_origin c r
  let dst_len := if r.res = TEEC_SUCCESS then (r.op.params.get 2).tmpref.size else dst_len
  let tag_len := if r.res = TEEC_SUCCESS then (r.op.params.get 3).tmpref.size else tag_len
  some { res := r.res, c := c, trace := [Event.invoke TA_CRYPT_CMD_AE_ENCRYPT_FINAL op.op],
         filled := op.filled, read := [2, 3], out := (dst_len, tag_len) }

/-- Source: `ta_crypt_cmd_ae_decrypt_final`. -/
def ta_crypt_cmd_ae_decrypt_final (inv : Invoker) (c : ADBG_Case_t)
    (oph : Nat) (src : Ptr) (src_len : Nat) (dst : Ptr) (dst_len : Nat) (tag : Ptr)
    (tag_len : Nat) : Option (Ret Nat) :=
  let op := Binder.init
  if ¬ oph ≤ UINT32_MAX then none else
  let op := op.value_a 0 (oph % 2 ^ 32)
  let op := op.tmpref_buffer 1 src
  let op := op.tmpref_size 1 src_len
  let op := op.tmpref_buffer 2 dst
  let op := op.tmpref_size 2 dst_len
  let op := op.tmpref_buffer 3 tag
  let op := op.tmpref_size 3 tag_len
  let op := op.set_paramTypes
    (TEEC_PARAM_TYPES TEEC_VALUE_INPUT TEEC_MEMREF_TEMP_INPUT
      TEEC_MEMREF_TEMP_OUTPUT TEEC_MEMREF_TEMP_INPUT)
  let r := inv TA_CRYPT_CMD_AE_DECRYPT_FINAL op.op
  let c := check_origin c r
  let dst_len := if r.res = TEEC_SUCCESS then (r.op.params.get 2).tmpref.size else dst_len
  some { res := r.res, c := c, trace := [Event.invoke TA_CRYPT_CMD_AE_DECRYPT_FINAL op.op],
         filled := op.filled, read := [2], out := dst_len }

/-- Source: `ta_crypt_cmd_asymmetric_operate`. -/
def ta_crypt_cmd_asymmetric_operate (pack : Packer) (inv : Invoker) (c : ADBG_Case_t)
    (oph : Nat) (cmd : TA_CRYPT_CMD) (params : List TEE_Attribute) (src : Ptr)
    (src_len : Nat) (dst : Ptr) (dst_len : Nat) : Option (Ret Nat) :=
  let op := Binder.init
  let packed := pack params
  let expect := ADBG_EXPECT_TEEC_SUCCESS c packed.res
  if ¬ expect.1 then
    some { res := packed.res, c := expect.2, trace := [Event.pack_attrs params],
           filled := op.filled, read := [], out := dst_len }
  else
  let c := expect.2
  if ¬ oph ≤ UINT32_MAX then none else
  let op := op.value_a 0 (oph % 2 ^ 32)
  let op := op.tmpref_buffer 1 packed.buf
  let op := op.tmpref_size 1 packed.blen
  let op := op.tmpref_buffer 2 src
  let op := op.tmpref_size 2 src_len
  let op := op.tmpref_buffer 3 dst
  let op := op.tmpref_size 3 dst_len
  let op := op.set_paramTypes
    (TEEC_PARAM_TYPES TEEC_VALUE_INPUT TEEC_MEMREF_TEMP_INPUT
      TEEC_MEMREF_TEMP_INPUT TEEC_MEMREF_TEMP_OUTPUT)
  let r := inv cmd op.op
  let c := check_origin c r
  let dst_len := if r.res = TEEC_SUCCESS then (r.op.params.get 3).tmpref.size else dst_len
  some { res := r.res, c := c, trace := [Event.pack_attrs params, Event.invoke cmd op.op],
         filled := op.filled, read := [3], out := dst_len }

/-- Source: `ta_crypt_cmd_asymmetric_encrypt`. -/
def ta_crypt_cmd_asymmetric_encrypt (pack : Packer) (inv : Invoker) (c : ADBG_Case_t)
    (oph : Nat) (params : List TEE_Attribute) (src : Ptr) (src_len : Nat) (dst : Ptr)
    (dst_len : Nat) : Option (Ret Nat) :=
  ta_crypt_cmd_asymmetric_operate pack inv c oph TA_CRYPT_CMD_ASYMMETRIC_ENCRYPT params
    src src_len dst dst_len

/-- Source: `ta_crypt_cmd_asymmetric_decrypt`. -/
def ta_crypt_cmd_asymmetric_decrypt (pack : Packer) (inv : Invoker) (c : ADBG_Case_t)
    (oph : Nat) (params : List TEE_Attribute) (src : Ptr) (src_len : Nat) (dst : Ptr)
    (dst_len : Nat) : Option (Ret Nat) :=
  ta_crypt_cmd_asymmetric_operate pack inv c oph TA_CRYPT_CMD_ASYMMETRIC_DECRYPT params
    src src_len dst dst_len

/-- Source: `ta_crypt_cmd_asymmetric_sign`. -/
def ta_crypt_cmd_asymmetric_sign (pack : Packer) (inv : Invoker) (c : ADBG_Case_t)
    (oph : Nat) (params : List TEE_Attribute) (digest : Ptr) (digest_len : Nat) (signature : Ptr)
    (signature_len : Nat) : Option (Ret Nat) :=
  ta_crypt_cmd_asymmetric_operate pack inv c oph TA_CRYPT_CMD_ASYMMETRIC_SIGN_DIGEST params
    digest digest_len signature signature_len

/-- Source: `ta_crypt_cmd_asymmetric_verify`. -/
def ta_crypt_cmd_asymmetric_verify (pack : Packer) (inv : Invoker) (c : ADBG_Case_t)
    (oph : Nat) (params : List TEE_Attribute) (digest : Ptr) (digest_len : Nat)
    (signature : Ptr) (signature_len : Nat) : Option (Ret Unit) :=
  let op := Binder.init
  let packed := pack params
  let expect := ADBG_EXPECT_TEEC_SUCCESS c packed.res
  if ¬ expect.1 then
    some { res := packed.res, c := expect.2, trace := [Event.pack_attrs params],
           filled := op.filled, read := [], out := () }
  else
  let c := expect.2
  if ¬ oph ≤ UINT32_MAX then none else
  let op := op.value_a 0 (oph % 2 ^ 32)
  let op := op.tmpref_buffer 1 packed.buf
  let op := op.tmpref_size 1 packed.blen
  let op := op.tmpref_buffer 2 digest
  let op := op.tmpref_size 2 digest_len
  let op := op.tmpref_buffer 3 signature
  let op := op.tmpref_size 3 signature_len
  let op := op.set_paramTypes
    (TEEC_PARAM_TYPES TEEC_VALUE_INPUT TEEC_MEMREF_TEMP_INPUT
      TEEC_MEMREF_TEMP_INPUT TEEC_MEMREF_TEMP_INPUT)
  let r := inv TA_CRYPT_CMD_ASYMMETRIC_VERIFY_DIGEST op.op
  let c := check_origin c r
  some { res := r.res, c := c, trace :=
           [Event.pack_attrs params, Event.invoke TA_CRYPT_CMD_ASYMMETRIC_VERIFY_DIGEST op.op],
         filled := op.filled, read := [], out := () }

/-- Source: `ta_crypt_cmd_get_object_value_attribute`. -/
def ta_crypt_cmd_get_object_value_attribute (inv : Invoker) (c : ADBG_Case_t)
    (o : Nat) (attr_id : Nat) (valuea valueb : Nat) : Option (Ret (Nat × Nat)) :=
  let op := Binder.init
  if ¬ o ≤ UINT32_MAX then none else
  let op := op.value_a 0 (o % 2 ^ 32)
  let op := op.value_b 0 attr_id
  let op := op.set_paramTypes
    (TEEC_PARAM_TYPES TEEC_VALUE_INPUT TEEC_VALUE_OUTPUT TEEC_NONE TEEC_NONE)
  let r := inv TA_CRYPT_CMD_GET_OBJECT_VALUE_ATTRIBUTE op.op
  let c := check_origin c r
  let valuea := if r.res = TEEC_SUCCESS then (r.op.params.get 1).value.a else valuea
  let valueb := if r.res = TEEC_SUCCESS then (r.op.params.get 1).value.b else valueb
  some { res := r.res, c := c, trace :=
           [Event.invoke TA_CRYPT_CMD_GET_OBJECT_VALUE_ATTRIBUTE op.op],
         filled := op.filled, read := [1], out := (valuea, valueb) }

/-- Source: `ta_crypt_cmd_generate_key`. -/
def ta_crypt_cmd_generate_key (pack : Packer) (inv : Invoker) (c : ADBG_Case_t)
    (o : Nat) (key_size : Nat) (params : List TEE_Attribute) : Option (Ret Unit) :=
  let op := Binder.init
  let packed := pack params
  let expect := ADBG_EXPECT_TEEC_SUCCESS c packed.res
  if ¬ expect.1 then
    some { res := packed.res, c := expect.2, trace := [Event.pack_attrs params],
           filled := op.filled, read := [], out := () }
  else
  let c := expect.2
  if ¬ o ≤ UINT32_MAX then none else
  let op := op.value_a 0 (o % 2 ^ 32)
  let op := op.value_b 0 key_size
  let op := op.tmpref_buffer 1 packed.buf
  let op := op.tmpref_size 1 packed.blen
  let op := op.set_paramTypes
    (TEEC_PARAM_TYPES TEEC_VALUE_INPUT TEEC_MEMREF_TEMP_INPUT TEEC_NONE TEEC_NONE)
  let r := inv TA_CRYPT_CMD_GENERATE_KEY op.op
  let c := check_origin c r
  some { res := r.res, c := c, trace :=
           [Event.pack_attrs params, Event.invoke TA_CRYPT_CMD_GENERATE_KEY op.op],
         filled := op.filled, read := [], out := () }

/- Every wrapper call, for statements about all wrappers at once -/

/-- A call of one of the wrappers of the file, with its arguments (in the order of the C
signature, without the test case and the session). -/
inductive Call where
  | reset_operation (oph : Nat)
  | copy_operation (dst_oph src_oph : Nat)
  | digest_update (oph : Nat) (chunk : Ptr) (chunk_size : Nat)
  | digest_do_final (oph : Nat) (chunk : Ptr) (chunk_len : Nat) (hash : Ptr) (hash_len : Nat)
  | set_operation_key2 (oph key1 key2 : Nat)
  | mac_init (oph : Nat) (iv : Ptr) (iv_len : Nat)
  | mac_update (oph : Nat) (chunk : Ptr) (chunk_size : Nat)
  | mac_final_compute (oph : Nat) (chunk : Ptr) (chunk_len : Nat) (hash : Ptr) (hash_len : Nat)
  | cipher_init (oph : Nat) (iv : Ptr) (iv_len : Nat)
  | cipher_update (oph : Nat) (src : Ptr) (src_len : Nat) (dst : Ptr) (dst_len : Nat)
  | cipher_do_final (oph : Nat) (src : Ptr) (src_len : Nat) (dst : Ptr) (dst_len : Nat)
  | random_number_generate (buf : Ptr) (blen : Nat)
  | ae_init (oph : Nat) (nonce : Ptr) (nonce_len : Nat) (tag_len aad_len payload_len : Nat)
  | ae_update_aad (oph : Nat) (aad : Ptr) (aad_len : Nat)
  | ae_update (oph : Nat) (src : Ptr) (src_len : Nat) (dst : Ptr) (dst_len : Nat)
  | ae_encrypt_final (oph : Nat) (src : Ptr) (src_len : Nat) (dst : Ptr) (dst_len : Nat)
      (tag : Ptr) (tag_len : Nat)
  | ae_decrypt_final (oph : Nat) (src : Ptr) (src_len : Nat) (dst : Ptr) (dst_len : Nat)
      (tag : Ptr) (tag_len : Nat)
  | asymmetric_operate (oph : Nat) (cmd : TA_CRYPT_CMD) (params : List TEE_Attribute)
      (src : Ptr) (src_len : Nat) (dst : Ptr) (dst_len : Nat)
  | asymmetric_encrypt (oph : Nat) (params : List TEE_Attribute)
      (src : Ptr) (src_len : Nat) (dst : Ptr) (dst_len : Nat)
  | asymmetric_decrypt (oph : Nat) (params : List TEE_Attribute)
      (src : Ptr) (src_len : Nat) (dst : Ptr) (dst_len : Nat)
  | asymmetric_sign (oph : Nat) (params : List TEE_Attribute)
      (digest : Ptr) (digest_len : Nat) (signature : Ptr) (signature_len : Nat)
  | asymmetric_verify (oph : Nat) (params : List TEE_Attribute)
      (digest : Ptr) (digest_len : Nat) (signature : Ptr) (signature_len : Nat)
  | get_object_value_attribute (o : Nat) (attr_id : Nat) (valuea valueb : Nat)
  | generate_key (o : Nat) (key_size : Nat) (params : List TEE_Attribute)
  deriving DecidableEq, Repr

/-- Drops the values stored through the output pointers. -/
def Ret.forget {α : Type} (r : Ret α) : Ret Unit :=
  { res := r.res, c := r.c, trace := r.trace, filled := r.filled, read := r.read, out := () }

/-- Runs the wrapper a call names. -/
def Call.run (pack : Packer) (inv : Invoker) (c : ADBG_Case_t) : Call → Option (Ret Unit)
  | .reset_operation oph => ta_crypt_cmd_reset_operation inv c oph
  | .copy_operation d s => ta_crypt_cmd_copy_operation inv c d s
  | .digest_update oph p n => ta_crypt_cmd_digest_update inv c oph p n
  | .digest_do_final oph p n q m =>
      (ta_crypt_cmd_digest_do_final inv c oph p n q m).map Ret.forget
  | .set_operation_key2 oph k1 k2 => ta_crypt_cmd_set_operation_key2 inv c oph k1 k2
  | .mac_init oph iv n => ta_crypt_cmd_mac_init inv c oph iv n
  | .mac_update oph p n => ta_crypt_cmd_mac_update inv c oph p n
  | .mac_final_compute oph p n q m =>
      (ta_crypt_cmd_mac_final_compute inv c oph p n q m).map Ret.forget
  | .cipher_init oph iv n => ta_crypt_cmd_cipher_init inv c oph iv n
  | .cipher_update oph p n q m =>
      (ta_crypt_cmd_cipher_update inv c oph p n q m).map Ret.forget
  | .cipher_do_final oph p n q m =>
      (ta_crypt_cmd_cipher_do_final inv c oph p n q m).map Ret.forget
  | .random_number_generate buf blen => ta_crypt_cmd_random_number_generate inv c buf blen
  | .ae_init oph p n t a l => ta_crypt_cmd_ae_init inv c oph p n t a l
  | .ae_update_aad oph p n => ta_crypt_cmd_ae_update_aad inv c oph p n
  | .ae_update oph p n q m => (ta_crypt_cmd_ae_update inv c oph p n q m).map Ret.forget
  | .ae_encrypt_final oph p n q m t l =>
      (ta_crypt_cmd_ae_encrypt_final inv c oph p n q m t l).map Ret.forget
  | .ae_decrypt_final oph p n q m t l =>
      (ta_crypt_cmd_ae_decrypt_final inv c oph p n q m t l).map Ret.forget
  | .asymmetric_operate oph cmd ps p n q m =>
      (ta_crypt_cmd_asymmetric_operate pack inv c oph cmd ps p n q m).map Ret.forget
  | .asymmetric_encrypt oph ps p n q m =>
      (ta_crypt_cmd_asymmetric_encrypt pack inv c oph ps p n q m).map Ret.forget
  | .asymmetric_decrypt oph ps p n q m =>
      (ta_crypt_cmd_asymmetric_decrypt pack inv c oph ps p n q m).map Ret.forget
  | .asymmetric_sign oph ps p n q m =>
      (ta_crypt_cmd_asymmetric_sign pack inv c oph ps p n q m).map Ret.forget
  | .asymmetric_verify oph ps p n q m => ta_crypt_cmd_asymmetric_verify pack inv c oph ps p n q m
  | .get_object_value_attribute o id a b =>
      (ta_crypt_cmd_get_object_value_attribute inv c o id a b).map Ret.forget
  | .generate_key o ks ps => ta_crypt_cmd_generate_key pack inv c o ks ps

/-- One of the two `uint32_t` fields of the view `value`. -/
inductive ValueField where
  | a
  | b
  deriving DecidableEq, Repr

/-- Read of `params[i].value.a` or `params[i].value.b`. -/
def TEEC_Operation.value_field (op : TEEC_Operation) (i : Fin 4) (f : ValueField) : Nat :=
  match f with
  | .a => (op.params.get i).value.a
  | .b => (op.params.get i).value.b

/-- The handle arguments of a call (`TEE_OperationHandle` and `TEE_ObjectHandle` parameters of
the C signature), each with the value field it is destined for. -/
def Call.handle_args : Call → List (Nat × Fin 4 × ValueField)
  | .reset_operation oph => [(oph, 0, .a)]
  | .copy_operation d s => [(d, 0, .a), (s, 0, .b)]
  | .digest_update oph _ _ => [(oph, 0, .a)]
  | .digest_do_final oph _ _ _ _ => [(oph, 0, .a)]
  | .set_operation_key2 oph k1 k2 => [(oph, 0, .a), (k1, 0, .b), (k2, 1, .a)]
  | .mac_init oph _ _ => [(oph, 0, .a)]
  | .mac_update oph _ _ => [(oph, 0, .a)]
  | .mac_final_compute oph _ _ _ _ => [(oph, 0, .a)]
  | .cipher_init oph _ _ => [(oph, 0, .a)]
  | .cipher_update oph _ _ _ _ => [(oph, 0, .a)]
  | .cipher_do_final oph _ _ _ _ => [(oph, 0, .a)]
  | .random_number_generate _ _ => []
  | .ae_init oph _ _ _ _ _ => [(oph, 0, .a)]
  | .ae_update_aad oph _ _ => [(oph, 0, .a)]
  | .ae_update oph _ _ _ _ => [(oph, 0, .a)]
  | .ae_encrypt_final oph _ _ _ _ _ _ => [(oph, 0, .a)]
  | .ae_decrypt_final oph _ _ _ _ _ _ => [(oph, 0, .a)]
  | .asymmetric_operate oph _ _ _ _ _ _ => [(oph, 0, .a)]
  | .asymmetric_encrypt oph _ _ _ _ _ => [(oph, 0, .a)]
  | .asymmetric_decrypt oph _ _ _ _ _ => [(oph, 0, .a)]
  | .asymmetric_sign oph _ _ _ _ _ => [(oph, 0, .a)]
  | .asymmetric_verify oph _ _ _ _ _ => [(oph, 0, .a)]
  | .get_object_value_attribute o _ _ _ => [(o, 0, .a)]
  | .generate_key o _ _ => [(o, 0, .a)]

/-- All handle arguments of the call fit in 32 bits. -/
def Call.handles_fit (w : Call) : Prop := ∀ h ∈ w.handle_args, h.1 ≤ UINT32_MAX

/-- The attribute list the call packs first, for the three bodies that call `pack_attrs`. -/
def Call.attrs : Call → Option (List TEE_Attribute)
  | .asymmetric_operate _ _ ps _ _ _ _ => some ps
  | .asymmetric_encrypt _ ps _ _ _ _ => some ps
  | .asymmetric_decrypt _ ps _ _ _ _ => some ps
  | .asymmetric_sign _ ps _ _ _ _ => some ps
  | .asymmetric_verify _ ps _ _ _ _ => some ps
  | .generate_key _ _ ps => some ps
  | _ => none

/-- Packing, where the call packs at all, succeeds. -/
def Call.pack_ok (pack : Packer) (w : Call) : Prop :=
  ∀ ps, w.attrs = some ps → (pack ps).res = TEEC_SUCCESS

/-- The events that precede the invocation: the packing, where the call packs. -/
def Call.prelude (w : Call) : List Event :=
  match w.attrs with
  | some ps => [Event.pack_attrs ps]
  | none => []

/-- The static helper `ta_crypt_cmd_asymmetric_operate` is called from three places only, with
the encrypt, decrypt and sign-digest commands. -/
def Call.as_called : Call → Prop
  | .asymmetric_operate _ cmd _ _ _ _ _ =>
      cmd = TA_CRYPT_CMD_ASYMMETRIC_ENCRYPT ∨ cmd = TA_CRYPT_CMD_ASYMMETRIC_DECRYPT ∨
        cmd = TA_CRYPT_CMD_ASYMMETRIC_SIGN_DIGEST
  | _ => True

/-- The IV argument of the two init wrappers is not `NULL`. -/
def Call.iv_supplied : Call → Bool
  | .mac_init _ iv _ => iv ≠ none
  | .cipher_init _ iv _ => iv ≠ none
  | _ => false

/-- The call is the random-number wrapper. -/
def Call.is_random : Call → Bool
  | .random_number_generate _ _ => true
  | _ => false

instance (w : Call) : Decidable w.handles_fit := by
  unfold Call.handles_fit; infer_instance

instance (pack : Packer) (w : Call) : Decidable (w.pack_ok pack) := by
  unfold Call.pack_ok
  cases h : w.attrs with
  | none => exact isTrue (by simp)
  | some ps =>
    by_cases hp : (pack ps).res = TEEC_SUCCESS
    · exact isTrue (by intro ps2 h2; cases h2; exact hp)
    · exact isFalse (by intro hh; exact hp (hh ps rfl))

/- The attribute codec -/

/-- Modelled from the spec: the flag `TEE_ATTR_BIT_VALUE` of tee_api_defines.h (not part of the
sources, bit 29) that tells a value attribute from a reference attribute; the file tests
it the same way in `test_keygen_attributes`. -/
def TEE_ATTR_BIT_VALUE : Nat := 2 ^ 29

/-- The test `(attributeID & TEE_ATTR_BIT_VALUE) != 0`. -/
def is_value_id (id : Nat) : Bool := id &&& TEE_ATTR_BIT_VALUE ≠ 0

/-- Modelled from the spec: the status `EncodingError` with which packing fails, a status
other than success. -/
def EncodingError : Nat := TEEC_ERROR_OUT_OF_MEMORY

/-- Modelled from the spec: the largest size the packed format can express; offsets and
lengths of payloads are stored in the 32-bit positions of the fixed-size header that
hold the two scalars of a value attribute. -/
def PACKED_SIZE_MAX : Nat := UINT32_MAX

/-- Modelled from the spec: a `uint32_t` of the packed format as four bytes, least significant
first. -/
def le32 (x : Nat) : List Nat :=
  [x % 256, x / 256 % 256, x / 65536 % 256, x / 16777216 % 256]

/-- Modelled from the spec: the `uint32_t` that four bytes of the packed format stand for,
least significant first. -/
def of_le32 (b0 b1 b2 b3 : Nat) : Nat := b0 + 256 * b1 + 65536 * b2 + 16777216 * b3

/-- Modelled from the spec: the fixed-size headers of `pack_attrs`, one for each attribute in
list order: the identifier, then either the two scalars or the offset and the length of
the payload; `off` is the offset in the buffer at which the next payload will lie. -/
def pack_headers : List TEE_Attribute → Nat → List Nat
  | [], _ => []
  | a :: rest, off =>
    if is_value_id a.attributeID then
      le32 a.attributeID ++ le32 a.value_a ++ le32 a.value_b ++ pack_headers rest off
    else
      le32 a.attributeID ++ le32 off ++ le32 a.ref_buffer.length ++
        pack_headers rest (off + a.ref_buffer.length)

/-- Modelled from the spec: the payload region of `pack_attrs`, the payloads of the reference
attributes concatenated in list order. -/
def pack_payloads : List TEE_Attribute → List Nat
  | [] => []
  | a :: rest =>
    if is_value_id a.attributeID then pack_payloads rest
    else a.ref_buffer ++ pack_payloads rest

/-- Modelled from the spec: the size of the buffer of `pack_attrs`, computed before the
buffer is filled: the attribute count, the headers, the payloads. -/
def packed_size (attrs : List TEE_Attribute) : Nat :=
  4 + 12 * attrs.length + (pack_payloads attrs).length

/-- Modelled from the spec: `pack_attrs` of xtest_helpers.c, which is not part of the sources.
An empty list packs to a zero-length buffer.  Otherwise the buffer holds the attribute
count, a fixed-size header for each attribute (identifier and either the two scalars, or
the offset and length of the payload within the buffer) and then the payloads of the
reference attributes in list order.  Packing fails with `EncodingError` when the count
or the total size cannot be expressed in the format. -/
def pack_attrs (attrs : List TEE_Attribute) : PackResult :=
  if attrs = [] then
    { res := TEEC_SUCCESS, buf := none, blen := 0 }
  else if UINT32_MAX < attrs.length then
    { res := EncodingError, buf := none, blen := 0 }
  else if PACKED_SIZE_MAX < packed_size attrs then
    { res := EncodingError, buf := none, blen := 0 }
  else
    { res := TEEC_SUCCESS
      buf := some (le32 attrs.length ++ pack_headers attrs (4 + 12 * attrs.length) ++
        pack_payloads attrs)
      blen := packed_size attrs }

/-- An attribute as the receiving side reconstructs it: a value attribute with its identifier
and two scalars, or a reference attribute with its identifier and payload bytes. -/
inductive Unpacked where
  | value (attributeID a b : Nat)
  | ref (attributeID : Nat) (buffer : List Nat)
  deriving DecidableEq, Repr

/-- What an attribute of the caller means: its identifier with the two scalars when the
identifier carries the value flag, its identifier with the payload bytes otherwise. -/
def TEE_Attribute.meaning (a : TEE_Attribute) : Unpacked :=
  if is_value_id a.attributeID then Unpacked.value a.attributeID a.value_a a.value_b
  else Unpacked.ref a.attributeID a.ref_buffer

/-- Modelled from the spec: the decoding of `n` headers from `hdr` on the receiving side,
payloads being looked up in the whole buffer `buf` by offset and length. -/
def unpack_headers (buf : List Nat) : Nat → List Nat → Option (List Unpacked)
  | 0, _ => some []
  | n + 1, i0 :: i1 :: i2 :: i3 :: a0 :: a1 :: a2 :: a3 :: b0 :: b1 :: b2 :: b3 :: rest =>
    let id := of_le32 i0 i1 i2 i3
    let a := of_le32 a0 a1 a2 a3
    let b := of_le32 b0 b1 b2 b3
    if is_value_id id then
      (unpack_headers buf n rest).map (fun l => Unpacked.value id a b :: l)
    else if buf.length < a + b then none
    else (unpack_headers buf n rest).map (fun l => Unpacked.ref id ((buf.drop a).take b) :: l)
  | _ + 1, _ => none

/-- Modelled from the spec: the decoding of a packed attribute buffer on the receiving side
(the trusted application, not part of the sources), from the buffer and its length alone. -/
def unpack_attrs (buf : Ptr) (blen : Nat) : Option (List Unpacked) :=
  if blen = 0 then some []
  else
    match buf with
    | none => none
    | some bytes =>
      match bytes.take blen with
      | n0 :: n1 :: n2 :: n3 :: hdr =>
        unpack_headers (bytes.take blen) (of_le32 n0 n1 n2 n3) hdr
      | _ => none

/-- The fields of an attribute have the range of their C types (`uint32_t`). -/
def TEE_Attribute.in_range (a : TEE_Attribute) : Prop :=
  a.attributeID ≤ UINT32_MAX ∧ a.value_a ≤ UINT32_MAX ∧ a.value_b ≤ UINT32_MAX

instance (a : TEE_Attribute) : Decidable a.in_range := by
  unfold TEE_Attribute.in_range; infer_instance

/- Concrete environments used in examples -/

/-- A callee that reports a short buffer and rewrites the size of slot `i` to `required`. -/
def short_buffer_callee (i : Fin 4) (required : Nat) : Invoker := fun _ op =>
  let slot : TEEC_Parameter :=
    ⟨⟨(op.params.get i).tmpref.buffer, required⟩, (op.params.get i).value⟩
  { res := TEEC_ERROR_SHORT_BUFFER
    ret_orig := TEEC_ORIGIN_TRUSTED_APP
    op := { op with params := op.params.set i slot } }

/-- A callee that succeeds and sets the size of every slot to `n`. -/
def sizing_callee (n : Nat) : Invoker := fun _ op =>
  { res := TEEC_SUCCESS
    ret_orig := TEEC_ORIGIN_TRUSTED_APP
    op := { op with params :=
      ⟨{ op.params.s0 with tmpref := { op.params.s0.tmpref with size := n } },
       { op.params.s1 with tmpref := { op.params.s1.tmpref with size := n } },
       { op.params.s2 with tmpref := { op.params.s2.tmpref with size := n } },
       { op.params.s3 with tmpref := { op.params.s3.tmpref with size := n } }⟩ } }

/-- A callee that fails with status `res` and origin `orig`, leaving the block as it was. -/
def failing_callee (res orig : Nat) : Invoker := fun _ op =>
  { res := res, ret_orig := orig, op := op }

/-- A packer that runs out of memory. -/
def failing_packer : Packer := fun _ =>
  { res := TEEC_ERROR_OUT_OF_MEMORY, buf := none, blen := 0 }

/-- A test case with no failure recorded. -/
def fresh_case : ADBG_Case_t := ⟨[]⟩

/-- Two attributes: a value attribute (flag set) and a reference attribute of three bytes. -/
def sample_attrs : List TEE_Attribute :=
  [ { attributeID := 0xF0000441, ref_buffer := [], value_a := 3, value_b := 0 },
    { attributeID := 0xC0000130, ref_buffer := [1, 2, 3], value_a := 0, value_b := 0 } ]

/- Predicates used in the statements -/

/-- The wrapper returned `result` after the events `before` and one invocation of `cmd`, it
returned the status of that invocation, and if the invocation succeeded the length
`len` it stored for the caller is the size the callee left in slot `i`. -/
def ReadsBack {α : Type} (inv : Invoker) (before : List Event) (cmd : TA_CRYPT_CMD)
    (i : Fin 4) (len : α → Nat) (result : Option (Ret α)) : Prop :=
  ∃ r op, result = some r ∧ r.trace = before ++ [Event.invoke cmd op] ∧
    r.res = (inv cmd op).res ∧
    ((inv cmd op).res = TEEC_SUCCESS → len r.out = ((inv cmd op).op.params.get i).tmpref.size)

/-- The wrapper returned `result` after the events `before` and one invocation of `cmd`; if
that invocation reported a short buffer, the wrapper returned the short-buffer status and
the length it stored for the caller is the capacity `capacity` passed in. -/
def KeepsCapacity (inv : Invoker) (before : List Event) (cmd : TA_CRYPT_CMD)
    (capacity : Nat) (result : Option (Ret Nat)) : Prop :=
  ∃ r op, result = some r ∧ r.trace = before ++ [Event.invoke cmd op] ∧
    ((inv cmd op).res = TEEC_ERROR_SHORT_BUFFER →
      r.res = TEEC_ERROR_SHORT_BUFFER ∧ r.out = capacity)

/-- The reading of the short-buffer contract under which the wrapper passes the required size
on: the wrapper returned `result` after the events `before` and one invocation of `cmd`;
if that invocation reported a short buffer, the wrapper returned the short-buffer status
and the length it stored for the caller is the size the callee left in slot `i`. -/
def ReportsRequired (inv : Invoker) (before : List Event) (cmd : TA_CRYPT_CMD)
    (i : Fin 4) (result : Option (Ret Nat)) : Prop :=
  ∃ r op, result = some r ∧ r.trace = before ++ [Event.invoke cmd op] ∧
    ((inv cmd op).res = TEEC_ERROR_SHORT_BUFFER →
      r.res = TEEC_ERROR_SHORT_BUFFER ∧
        r.out = ((inv cmd op).op.params.get i).tmpref.size)

/-- The commands a wrapper issued, each with the tag vector of the block it handed over. -/
def issued {α : Type} (result : Option (Ret α)) : List (TA_CRYPT_CMD × ParamTypes) :=
  match result with
  | none => []
  | some r => r.trace.filterMap fun e =>
      match e with
      | Event.invoke cmd op => some (cmd, op.paramTypes)
      | Event.pack_attrs _ => none

/-- The tag vector each command is issued with; the two init commands have one vector for a
call with an IV and one for a call without. -/
def expected_tags (cmd : TA_CRYPT_CMD) (iv_supplied : Bool) : ParamTypes :=
  match cmd with
  | TA_CRYPT_CMD_RESET_OPERATION => TEEC_PARAM_TYPES TEEC_VALUE_INPUT TEEC_NONE TEEC_NONE TEEC_NONE
  | TA_CRYPT_CMD_COPY_OPERATION => TEEC_PARAM_TYPES TEEC_VALUE_INPUT TEEC_NONE TEEC_NONE TEEC_NONE
  | TA_CRYPT_CMD_DIGEST_UPDATE =>
      TEEC_PARAM_TYPES TEEC_VALUE_INPUT TEEC_MEMREF_TEMP_INPUT TEEC_NONE TEEC_NONE
  | TA_CRYPT_CMD_DIGEST_DO_FINAL =>
      TEEC_PARAM_TYPES TEEC_VALUE_INPUT TEEC_MEMREF_TEMP_INPUT TEEC_MEMREF_TEMP_OUTPUT TEEC_NONE
  | TA_CRYPT_CMD_SET_OPERATION_KEY2 =>
      TEEC_PARAM_TYPES TEEC_VALUE_INPUT TEEC_VALUE_INPUT TEEC_NONE TEEC_NONE
  | TA_CRYPT_CMD_MAC_INIT =>
      if iv_supplied then
        TEEC_PARAM_TYPES TEEC_VALUE_INPUT TEEC_MEMREF_TEMP_INPUT TEEC_NONE TEEC_NONE
      else TEEC_PARAM_TYPES TEEC_VALUE_INPUT TEEC_NONE TEEC_NONE TEEC_NONE
  | TA_CRYPT_CMD_MAC_UPDATE =>
      TEEC_PARAM_TYPES TEEC_VALUE_INPUT TEEC_MEMREF_TEMP_INPUT TEEC_NONE TEEC_NONE
  | TA_CRYPT_CMD_MAC_FINAL_COMPUTE =>
      TEEC_PARAM_TYPES TEEC_VALUE_INPUT TEEC_MEMREF_TEMP_INPUT TEEC_MEMREF_TEMP_OUTPUT TEEC_NONE
  | TA_CRYPT_CMD_CIPHER_INIT =>
      if iv_supplied then
        TEEC_PARAM_TYPES TEEC_VALUE_INPUT TEEC_MEMREF_TEMP_INPUT TEEC_NONE TEEC_NONE
      else TEEC_PARAM_TYPES TEEC_VALUE_INPUT TEEC_NONE TEEC_NONE TEEC_NONE
  | TA_CRYPT_CMD_CIPHER_UPDATE =>
      TEEC_PARAM_TYPES TEEC_VALUE_INPUT TEEC_MEMREF_TEMP_INPUT TEEC_MEMREF_TEMP_OUTPUT TEEC_NONE
  | TA_CRYPT_CMD_CIPHER_DO_FINAL =>
      TEEC_PARAM_TYPES TEEC_VALUE_INPUT TEEC_MEMREF_TEMP_INPUT TEEC_MEMREF_TEMP_OUTPUT TEEC_NONE
  | TA_CRYPT_CMD_RANDOM_NUMBER_GENEREATE =>
      TEEC_PARAM_TYPES TEEC_MEMREF_TEMP_OUTPUT TEEC_NONE TEEC_NONE TEEC_NONE
  | TA_CRYPT_CMD_AE_INIT =>
      TEEC_PARAM_TYPES TEEC_VALUE_INPUT TEEC_MEMREF_TEMP_INPUT TEEC_VALUE_INPUT TEEC_NONE
  | TA_CRYPT_CMD_AE_UPDATE_AAD =>
      TEEC_PARAM_TYPES TEEC_VALUE_INPUT TEEC_MEMREF_TEMP_INPUT TEEC_NONE TEEC_NONE
  | TA_CRYPT_CMD_AE_UPDATE =>
      TEEC_PARAM_TYPES TEEC_VALUE_INPUT TEEC_MEMREF_TEMP_INPUT TEEC_MEMREF_TEMP_OUTPUT TEEC_NONE
  | TA_CRYPT_CMD_AE_ENCRYPT_FINAL =>
      TEEC_PARAM_TYPES TEEC_VALUE_INPUT TEEC_MEMREF_TEMP_INPUT TEEC_MEMREF_TEMP_OUTPUT
        TEEC_MEMREF_TEMP_OUTPUT
  | TA_CRYPT_CMD_AE_DECRYPT_FINAL =>
      TEEC_PARAM_TYPES TEEC_VALUE_INPUT TEEC_MEMREF_TEMP_INPUT TEEC_MEMREF_TEMP_OUTPUT
        TEEC_MEMREF_TEMP_INPUT
  | TA_CRYPT_CMD_ASYMMETRIC_ENCRYPT =>
      TEEC_PARAM_TYPES TEEC_VALUE_INPUT TEEC_MEMREF_TEMP_INPUT TEEC_MEMREF_TEMP_INPUT
        TEEC_MEMREF_TEMP_OUTPUT
  | TA_CRYPT_CMD_ASYMMETRIC_DECRYPT =>
      TEEC_PARAM_TYPES TEEC_VALUE_INPUT TEEC_MEMREF_TEMP_INPUT TEEC_MEMREF_TEMP_INPUT
        TEEC_MEMREF_TEMP_OUTPUT
  | TA_CRYPT_CMD_ASYMMETRIC_SIGN_DIGEST =>
      TEEC_PARAM_TYPES TEEC_VALUE_INPUT TEEC_MEMREF_TEMP_INPUT TEEC_MEMREF_TEMP_INPUT
        TEEC_MEMREF_TEMP_OUTPUT
  | TA_CRYPT_CMD_ASYMMETRIC_VERIFY_DIGEST =>
      TEEC_PARAM_TYPES TEEC_VALUE_INPUT TEEC_MEMREF_TEMP_INPUT TEEC_MEMREF_TEMP_INPUT
        TEEC_MEMREF_TEMP_INPUT
  | TA_CRYPT_CMD_GET_OBJECT_VALUE_ATTRIBUTE =>
      TEEC_PARAM_TYPES TEEC_VALUE_INPUT TEEC_VALUE_OUTPUT TEEC_NONE TEEC_NONE
  | TA_CRYPT_CMD_GENERATE_KEY =>
      TEEC_PARAM_TYPES TEEC_VALUE_INPUT TEEC_MEMREF_TEMP_INPUT TEEC_NONE TEEC_NONE

/- PKCS#11 attribute helpers (built with CFG_SECURE_KEY_SERVICES) -/

/-- An entry `CK_ATTRIBUTE` of a PKCS#11 template: the attribute type, the pointer to its
value and the length of the value. -/
structure CK_ATTRIBUTE where
  type : Nat
  pValue : Ptr
  ulValueLen : Nat
  deriving DecidableEq, Repr

/-- Modelled from the spec: `CKA_EC_PARAMS` of pkcs11.h (not part of the sources), the type of
the attribute that holds the curve parameters. -/
def CKA_EC_PARAMS : Nat := 0x180

/-- Modelled from the spec: `TEE_ECC_CURVE_NIST_P192` of tee_api_defines.h (not part of the
sources); only that the five curve identifiers differ is used. -/
def TEE_ECC_CURVE_NIST_P192 : Nat := 1

/-- Modelled from the spec: `TEE_ECC_CURVE_NIST_P224` of tee_api_defines.h (not part of the
sources). -/
def TEE_ECC_CURVE_NIST_P224 : Nat := 2

/-- Modelled from the spec: `TEE_ECC_CURVE_NIST_P256` of tee_api_defines.h (not part of the
sources). -/
def TEE_ECC_CURVE_NIST_P256 : Nat := 3

/-- Modelled from the spec: `TEE_ECC_CURVE_NIST_P384` of tee_api_defines.h (not part of the
sources). -/
def TEE_ECC_CURVE_NIST_P384 : Nat := 4

/-- Modelled from the spec: `TEE_ECC_CURVE_NIST_P521` of tee_api_defines.h (not part of the
sources). -/
def TEE_ECC_CURVE_NIST_P521 : Nat := 5

/-- Modelled from the spec: `TEE_ALG_ECDSA_P192` of tee_api_defines.h (not part of the
sources); only that the five algorithm identifiers differ is used. -/
def TEE_ALG_ECDSA_P192 : Nat := 0x70001042

/-- Modelled from the spec: `TEE_ALG_ECDSA_P224` of tee_api_defines.h (not part of the
sources). -/
def TEE_ALG_ECDSA_P224 : Nat := 0x70002042

/-- Modelled from the spec: `TEE_ALG_ECDSA_P256` of tee_api_defines.h (not part of the
sources). -/
def TEE_ALG_ECDSA_P256 : Nat := 0x70003042

/-- Modelled from the spec: `TEE_ALG_ECDSA_P384` of tee_api_defines.h (not part of the
sources). -/
def TEE_ALG_ECDSA_P384 : Nat := 0x70004042

/-- Modelled from the spec: `TEE_ALG_ECDSA_P521` of tee_api_defines.h (not part of the
sources). -/
def TEE_ALG_ECDSA_P521 : Nat := 0x70005042

/-- Source: `nist_secp192r1_der`. -/
def nist_secp192r1_der : List Nat := [0x06, 0x08, 0x2a, 0x86, 0x48, 0xce, 0x3d, 0x03, 0x01, 0x01]

/-- Source: `nist_secp224r1_der`. -/
def nist_secp224r1_der : List Nat := [0x06, 0x05, 0x2b, 0x81, 0x04, 0x00, 0x21]

/-- Source: `nist_secp256r1_der`. -/
def nist_secp256r1_der : List Nat := [0x06, 0x08, 0x2a, 0x86, 0x48, 0xce, 0x3d, 0x03, 0x01, 0x07]

/-- Source: `nist_secp384r1_der`. -/
def nist_secp384r1_der : List Nat := [0x06, 0x05, 0x2b, 0x81, 0x04, 0x00, 0x22]

/-- Source: `nist_secp521r1_der`. -/
def nist_secp521r1_der : List Nat := [0x06, 0x05, 0x2b, 0x81, 0x04, 0x00, 0x23]

/-- The loop of `set_ck_attr` with `remaining` iterations left, at index `idx`: the first entry
whose type is `id` gets the value pointer and length, and the result is 0; the result is
1 when the loop runs out.  An entry is read only if the array has it. -/
def set_ck_attr_from (attrs : List CK_ATTRIBUTE) (id : Nat) (data : Ptr) (size : Nat) :
    Nat → Nat → Int × List CK_ATTRIBUTE
  | 0, _ => (1, attrs)
  | remaining + 1, idx =>
    match attrs.get? idx with
    | some a =>
      if a.type = id then
        (0, attrs.set idx { a with pValue := data, ulValueLen := size })
      else set_ck_attr_from attrs id data size remaining (idx + 1)
    | none => set_ck_attr_from attrs id data size remaining (idx + 1)

/-- Source: `set_ck_attr`, the loop `for (idx = 0; idx < count; idx++)`; the result and the
array as the call leaves it. -/
def set_ck_attr (attrs : List CK_ATTRIBUTE) (count : Nat) (id : Nat) (data : Ptr)
    (size : Nat) : Int × List CK_ATTRIBUTE :=
  set_ck_attr_from attrs id data size count 0

/-- Source: `ck_ec_params_attr_from_tee_curve`. -/
def ck_ec_params_attr_from_tee_curve (attrs : List CK_ATTRIBUTE) (count : Nat)
    (curve : Nat) : Int × List CK_ATTRIBUTE :=
  if curve = TEE_ECC_CURVE_NIST_P192 then
    set_ck_attr attrs count CKA_EC_PARAMS (some nist_secp192r1_der) nist_secp192r1_der.length
  else if curve = TEE_ECC_CURVE_NIST_P224 then
    set_ck_attr attrs count CKA_EC_PARAMS (some nist_secp224r1_der) nist_secp224r1_der.length
  else if curve = TEE_ECC_CURVE_NIST_P256 then
    set_ck_attr attrs count CKA_EC_PARAMS (some nist_secp256r1_der) nist_secp256r1_der.length
  else if curve = TEE_ECC_CURVE_NIST_P384 then
    set_ck_attr attrs count CKA_EC_PARAMS (some nist_secp384r1_der) nist_secp384r1_der.length
  else if curve = TEE_ECC_CURVE_NIST_P521 then
    set_ck_attr attrs count CKA_EC_PARAMS (some nist_secp521r1_der) nist_secp521r1_der.length
  else (-1, attrs)

/-- Source: `ck_ec_params_attr_from_tee_algo`. -/
def ck_ec_params_attr_from_tee_algo (attrs : List CK_ATTRIBUTE) (count : Nat)
    (algo : Nat) : Int × List CK_ATTRIBUTE :=
  if algo = TEE_ALG_ECDSA_P192 then
    set_ck_attr attrs count CKA_EC_PARAMS (some nist_secp192r1_der) nist_secp192r1_der.length
  else if algo = TEE_ALG_ECDSA_P224 then
    set_ck_attr attrs count CKA_EC_PARAMS (some nist_secp224r1_der) nist_secp224r1_der.length
  else if algo = TEE_ALG_ECDSA_P256 then
    set_ck_attr attrs count CKA_EC_PARAMS (some nist_secp256r1_der) nist_secp256r1_der.length
  else if algo = TEE_ALG_ECDSA_P384 then
    set_ck_attr attrs count CKA_EC_PARAMS (some nist_secp384r1_der) nist_secp384r1_der.length
  else if algo = TEE_ALG_ECDSA_P521 then
    set_ck_attr attrs count CKA_EC_PARAMS (some nist_secp521r1_der) nist_secp521r1_der.length
  else (-1, attrs)

/-- The five curves of the claim: the ECDSA algorithm, the NIST curve identifier and the DER
object identifier that belong together. -/
def ec_curves : List (Nat × Nat × List Nat) :=
  [ (TEE_ALG_ECDSA_P192, TEE_ECC_CURVE_NIST_P192, nist_secp192r1_der),
    (TEE_ALG_ECDSA_P224, TEE_ECC_CURVE_NIST_P224, nist_secp224r1_der),
    (TEE_ALG_ECDSA_P256, TEE_ECC_CURVE_NIST_P256, nist_secp256r1_der),
    (TEE_ALG_ECDSA_P384, TEE_ECC_CURVE_NIST_P384, nist_secp384r1_der),
    (TEE_ALG_ECDSA_P521, TEE_ECC_CURVE_NIST_P521, nist_secp521r1_der) ]

/-- What the claim says a call leaves behind for the object identifier `der`: the first entry
of type `CKA_EC_PARAMS` among the first `count` entries points to `der` with its length
and the result is 0, or there is no such entry, the array is as before and the result
is 1. -/
def SetsEcParams (attrs : List CK_ATTRIBUTE) (count : Nat) (der : List Nat)
    (result : Int × List CK_ATTRIBUTE) : Prop :=
  (∃ i a, i < count ∧ attrs.get? i = some a ∧ a.type = CKA_EC_PARAMS ∧
      (∀ j b, j < i → attrs.get? j = some b → b.type ≠ CKA_EC_PARAMS) ∧
      result = (0, attrs.set i ⟨CKA_EC_PARAMS, some der, der.length⟩)) ∨
  ((∀ j b, j < count → attrs.get? j = some b → b.type ≠ CKA_EC_PARAMS) ∧
      result = (1, attrs))

/-- A template with a class entry, an EC parameters entry and a second EC parameters entry. -/
def sample_template : List CK_ATTRIBUTE :=
  [ { type := 0, pValue := none, ulValueLen := 0 },
    { type := 0x180, pValue := none, ulValueLen := 0 },
    { type := 0x180, pValue := none, ulValueLen := 0 } ]

/- Arithmetic of `size_t` and the C library on buffers -/

/-- Number of values of `size_t` (64 bits on the hosts considered). -/
def SIZE_MOD : Nat := 2 ^ 64

/-- Addition of `size_t` values. -/
def size_add (a b : Nat) : Nat := (a + b) % SIZE_MOD

/-- Subtraction of `size_t` values, which wraps around below zero. -/
def size_sub (a b : Nat) : Nat := (a + SIZE_MOD - b % SIZE_MOD) % SIZE_MOD

/-- The library call `memmove(buf + dst, buf + src, len)` on a buffer, for ranges that lie in
the buffer. -/
def memmove (buf : List Nat) (dst src len : Nat) : List Nat :=
  buf.take dst ++ (buf.drop src).take len ++ buf.drop (dst + len)

/-- The library call `memset(buf + dst, v, len)` on a buffer, for a range that lies in the
buffer. -/
def memset (buf : List Nat) (dst v len : Nat) : List Nat :=
  buf.take dst ++ List.replicate len v ++ buf.drop (dst + len)

/-- The range of `len` bytes from index `start` lies in a buffer of `size` bytes. -/
def in_bounds (start len size : Nat) : Prop := start + len ≤ size

instance (start len size : Nat) : Decidable (in_bounds start len size) := by
  unfold in_bounds; infer_instance

/- The forging step of test 4011 -/

/-- A loop `for (k = start; k < start + remaining; k++) if (stop k) break;`: the value of `k`
behind the loop. -/
def scan (stop : Nat → Bool) : Nat → Nat → Nat
  | 0, k => k
  | remaining + 1, k => if stop k then k else scan stop remaining (k + 1)

/-- The quantities of steps 4.1 to 4.3 of `xtest_tee_test_4011`, for the `tmp_size` bytes `tmp`
that the encrypt operation produced and the iteration `i`. -/
structure ForgeStep where
  /-- the index at which the first loop stops -/
  n : Nat
  /-- the bound `tmp_size - i - 1` that `n` is compared with -/
  bound : Nat
  /-- the index at which the second loop stops -/
  m : Nat
  /-- the length `tmp_size - m` of the move -/
  move_len : Nat
  /-- the new value `n + i + tmp_size - m` of `n` -/
  n2 : Nat
  /-- the length `tmp_size - n` of the zero fill -/
  fill_len : Nat
  deriving DecidableEq, Repr

/-- Source: `xtest_tee_test_4011`, steps 4.1 to 4.3, the indices and lengths computed.  A byte
behind the end of `tmp` reads as 0. -/
def forge_step (tmp : List Nat) (i : Nat) : ForgeStep :=
  let tmp_size := tmp.length
  let n := scan (fun k => tmp.getD k 0 = 0xff) (size_sub tmp_size i) 0
  let bound := size_sub (size_sub tmp_size i) 1
  let m := scan (fun k => tmp.getD k 0 ≠ 0xff) (tmp_size - (n + 1)) (n + 1)
  let move_len := size_sub tmp_size m
  let n2 := size_sub (size_add (size_add n i) tmp_size) m
  let fill_len := size_sub tmp_size n2
  { n := n, bound := bound, m := m, move_len := move_len, n2 := n2, fill_len := fill_len }

/-- Source: `xtest_tee_test_4011`, steps 4.1 to 4.3, the buffer: `none` when the comparison
`n < tmp_size - i - 1` fails and the test leaves through `out`, otherwise `tmp` after the
move and the zero fill. -/
def forge (tmp : List Nat) (i : Nat) : Option (List Nat) :=
  let q := forge_step tmp i
  if ¬ q.n < q.bound then none
  else
    let tmp := memmove tmp (q.n + i) q.m q.move_len
    let tmp := memset tmp q.n2 0 q.fill_len
    some tmp

/-- A block as the RSA operation returns it: 00 01, six bytes 0xff, 00, and four bytes. -/
def sample_block : List Nat := [0, 1, 255, 255, 255, 255, 255, 255, 0, 10, 11, 12, 13]

/- Test 4004: random numbers -/

/-- The library call `memcmp(a, b, n)` on buffers that hold at least `n` bytes: zero when the
first `n` bytes agree, otherwise the sign of the first difference. -/
def memcmp : List Nat → List Nat → Nat → Int
  | _, _, 0 => 0
  | a :: as, b :: bs, n + 1 => if a < b then -1 else if b < a then 1 else memcmp as bs n
  | _, _, _ + 1 => 0

/-- Modelled from the spec: `ADBG_EXPECT_COMPARE_SIGNED(c, lhs, !=, rhs)` of the ADBG
harness (not part of the sources): records a failure unless the two sides differ. -/
def ADBG_EXPECT_COMPARE_SIGNED_NE (c : ADBG_Case_t) (lhs rhs : Int) : Bool × ADBG_Case_t :=
  if lhs ≠ rhs then (true, c) else (false, ⟨Failure.compare_signed lhs rhs :: c.failures⟩)

/-- The bytes of a caller's buffer after a call: the callee sees the buffer through the
pointer of a slot and leaves `after` at its start, the rest is as `before`. -/
def written (before : List Nat) (after : Ptr) : List Nat :=
  match after with
  | some bs => (bs ++ before.drop bs.length).take before.length
  | none => before

/-- The bytes of the caller's buffer behind slot `i` once the wrapper has returned: what the
invocation, the last event of the wrapper, left there. -/
def Ret.memory_after {α : Type} (r : Ret α) (inv : Invoker) (i : Fin 4)
    (before : List Nat) : List Nat :=
  match r.trace.getLast? with
  | some (Event.invoke cmd op) => written before ((inv cmd op).op.params.get i).tmpref.buffer
  | _ => before

/-- Source: `xtest_tee_test_4004`, as far as the recorded failures go: `open_res` is the result
of opening the session, `inv1` and `inv2` are the trusted application as it answers the
first and the second request.  The test case as the function leaves it. -/
def xtest_tee_test_4004 (open_res : Nat) (inv1 inv2 : Invoker) (c : ADBG_Case_t) :
    ADBG_Case_t :=
  let buf1 := List.replicate 45 0
  let buf2 := List.replicate 45 0
  let zeros := List.replicate 45 0
  let e := ADBG_EXPECT_TEEC_SUCCESS c open_res
  if ¬ e.1 then e.2 else
  let c := e.2
  match ta_crypt_cmd_random_number_generate inv1 c (some buf1) 45 with
  | none => c
  | some r1 =>
    let e := ADBG_EXPECT_TEEC_SUCCESS r1.c r1.res
    if ¬ e.1 then e.2 else
    let c := e.2
    let buf1 := r1.memory_after inv1 0 buf1
    let c := (ADBG_EXPECT_COMPARE_SIGNED_NE c 0 (memcmp buf1 zeros 45)).2
    match ta_crypt_cmd_random_number_generate inv2 c (some buf2) 45 with
    | none => c
    | some r2 =>
      let e := ADBG_EXPECT_TEEC_SUCCESS r2.c r2.res
      if ¬ e.1 then e.2 else
      let c := e.2
      let buf2 := r2.memory_after inv2 0 buf2
      let c := (ADBG_EXPECT_COMPARE_SIGNED_NE c 0 (memcmp buf2 zeros 45)).2
      let c := (ADBG_EXPECT_COMPARE_SIGNED_NE c 0 (memcmp buf2 buf1 45)).2
      c

/-- The block that a request for 45 random bytes into a zeroed buffer hands to the invoker. -/
def rng_block : TEEC_Operation :=
  { started := 0
    paramTypes := TEEC_PARAM_TYPES TEEC_MEMREF_TEMP_OUTPUT TEEC_NONE TEEC_NONE TEEC_NONE
    params :=
      { s0 := { tmpref := { buffer := some (List.replicate 45 0), size := 45 },
                value := { a := 0, b := 0 } }
        s1 := TEEC_Parameter.zero
        s2 := TEEC_Parameter.zero
        s3 := TEEC_Parameter.zero } }

/-- A callee that succeeds and fills the buffer of slot 0 with `n` bytes `v`. -/
def filling_callee (n v : Nat) : Invoker := fun _ op =>
  let slot : TEEC_Parameter := ⟨⟨some (List.replicate n v), n⟩, op.params.s0.value⟩
  { res := TEEC_SUCCESS
    ret_orig := TEEC_ORIGIN_TRUSTED_APP
    op := { op with params := op.params.set 0 slot } }

/-- The answer of the trusted application `inv` to a request for 45 random bytes. -/
def rng_answer (inv : Invoker) : InvokeResult :=
  inv TA_CRYPT_CMD_RANDOM_NUMBER_GENEREATE rng_block

/-- The 45 bytes of the caller's buffer after the trusted application `inv` has answered. -/
def rng_bytes (inv : Invoker) : List Nat :=
  written (List.replicate 45 0) ((rng_answer inv).op.params.get 0).tmpref.buffer
/- Identifiers of the TEE Internal API used by the tests 4001 to 4003 -/

/-- Modelled from the spec: `TEE_HANDLE_NULL` of tee_api_defines.h (not part of the sources),
the handle that names no object. -/
def TEE_HANDLE_NULL : Nat := 0

/-- Modelled from the spec: `TEE_MODE_ENCRYPT` of tee_api_defines.h (not part of the sources);
only that the identifiers of one kind differ is used. -/
def TEE_MODE_ENCRYPT : Nat := 0

/-- Modelled from the spec: `TEE_MODE_DECRYPT` of tee_api_defines.h (not part of the sources);
only that the identifiers of one kind differ is used. -/
def TEE_MODE_DECRYPT : Nat := 1

/-- Modelled from the spec: `TEE_MODE_MAC` of tee_api_defines.h (not part of the sources);
only that the identifiers of one kind differ is used. -/
def TEE_MODE_MAC : Nat := 4

/-- Modelled from the spec: `TEE_MODE_DIGEST` of tee_api_defines.h (not part of the sources);
only that the identifiers of one kind differ is used. -/
def TEE_MODE_DIGEST : Nat := 5

/-- Modelled from the spec: `TEE_ATTR_SECRET_VALUE` of tee_api_defines.h (not part of the sources);
only that the identifiers of one kind differ is used. -/
def TEE_ATTR_SECRET_VALUE : Nat := 0xC0000000

/-- Modelled from the spec: `TEE_ALG_MD5` of tee_api_defines.h (not part of the sources);
only that the identifiers of one kind differ is used. -/
def TEE_ALG_MD5 : Nat := 0x50000001

/-- Modelled from the spec: `TEE_ALG_SHA1` of tee_api_defines.h (not part of the sources);
only that the identifiers of one kind differ is used. -/
def TEE_ALG_SHA1 : Nat := 0x50000002

/-- Modelled from the spec: `TEE_ALG_SHA224` of tee_api_defines.h (not part of the sources);
only that the identifiers of one kind differ is used. -/
def TEE_ALG_SHA224 : Nat := 0x50000003

/-- Modelled from the spec: `TEE_ALG_SHA256` of tee_api_defines.h (not part of the sources);
only that the identifiers of one kind differ is used. -/
def TEE_ALG_SHA256 : Nat := 0x50000004

/-- Modelled from the spec: `TEE_ALG_SHA384` of tee_api_defines.h (not part of the sources);
only that the identifiers of one kind differ is used. -/
def TEE_ALG_SHA384 : Nat := 0x50000005

/-- Modelled from the spec: `TEE_ALG_SHA512` of tee_api_defines.h (not part of the sources);
only that the identifiers of one kind differ is used. -/
def TEE_ALG_SHA512 : Nat := 0x50000006

/-- Modelled from the spec: `TEE_ALG_HMAC_MD5` of tee_api_defines.h (not part of the sources);
only that the identifiers of one kind differ is used. -/
def TEE_ALG_HMAC_MD5 : Nat := 0x30000001

/-- Modelled from the spec: `TEE_ALG_HMAC_SHA1` of tee_api_defines.h (not part of the sources);
only that the identifiers of one kind differ is used. -/
def TEE_ALG_HMAC_SHA1 : Nat := 0x30000002

/-- Modelled from the spec: `TEE_ALG_HMAC_SHA224` of tee_api_defines.h (not part of the sources);
only that the identifiers of one kind differ is used. -/
def TEE_ALG_HMAC_SHA224 : Nat := 0x30000003

/-- Modelled from the spec: `TEE_ALG_HMAC_SHA256` of tee_api_defines.h (not part of the sources);
only that the identifiers of one kind differ is used. -/
def TEE_ALG_HMAC_SHA256 : Nat := 0x30000004

/-- Modelled from the spec: `TEE_ALG_HMAC_SHA384` of tee_api_defines.h (not part of the sources);
only that the identifiers of one kind differ is used. -/
def TEE_ALG_HMAC_SHA384 : Nat := 0x30000005

/-- Modelled from the spec: `TEE_ALG_HMAC_SHA512` of tee_api_defines.h (not part of the sources);
only that the identifiers of one kind differ is used. -/
def TEE_ALG_HMAC_SHA512 : Nat := 0x30000006

/-- Modelled from the spec: `TEE_ALG_AES_CBC_MAC_NOPAD` of tee_api_defines.h (not part of the sources);
only that the identifiers of one kind differ is used. -/
def TEE_ALG_AES_CBC_MAC_NOPAD : Nat := 0x30000110

/-- Modelled from the spec: `TEE_ALG_AES_CBC_MAC_PKCS5` of tee_api_defines.h (not part of the sources);
only that the identifiers of one kind differ is used. -/
def TEE_ALG_AES_CBC_MAC_PKCS5 : Nat := 0x30000510

/-- Modelled from the spec: `TEE_ALG_AES_CMAC` of tee_api_defines.h (not part of the sources);
only that the identifiers of one kind differ is used. -/
def TEE_ALG_AES_CMAC : Nat := 0x30000610

/-- Modelled from the spec: `TEE_ALG_DES_CBC_MAC_NOPAD` of tee_api_defines.h (not part of the sources);
only that the identifiers of one kind differ is used. -/
def TEE_ALG_DES_CBC_MAC_NOPAD : Nat := 0x30000111

/-- Modelled from the spec: `TEE_ALG_DES_CBC_MAC_PKCS5` of tee_api_defines.h (not part of the sources);
only that the identifiers of one kind differ is used. -/
def TEE_ALG_DES_CBC_MAC_PKCS5 : Nat := 0x30000511

/-- Modelled from the spec: `TEE_ALG_DES3_CBC_MAC_NOPAD` of tee_api_defines.h (not part of the sources);
only that the identifiers of one kind differ is used. -/
def TEE_ALG_DES3_CBC_MAC_NOPAD : Nat := 0x30000113

/-- Modelled from the spec: `TEE_ALG_DES3_CBC_MAC_PKCS5` of tee_api_defines.h (not part of the sources);
only that the identifiers of one kind differ is used. -/
def TEE_ALG_DES3_CBC_MAC_PKCS5 : Nat := 0x30000513

/-- Modelled from the spec: `TEE_ALG_AES_ECB_NOPAD` of tee_api_defines.h (not part of the sources);
only that the identifiers of one kind differ is used. -/
def TEE_ALG_AES_ECB_NOPAD : Nat := 0x10000010

/-- Modelled from the spec: `TEE_ALG_AES_CTR` of tee_api_defines.h (not part of the sources);
only that the identifiers of one kind differ is used. -/
def TEE_ALG_AES_CTR : Nat := 0x10000210

/-- Modelled from the spec: `TEE_ALG_AES_XTS` of tee_api_defines.h (not part of the sources);
only that the identifiers of one kind differ is used. -/
def TEE_ALG_AES_XTS : Nat := 0x10000410

/-- Modelled from the spec: `TEE_TYPE_AES` of tee_api_defines.h (not part of the sources);
only that the identifiers of one kind differ is used. -/
def TEE_TYPE_AES : Nat := 0xA0000010

/-- Modelled from the spec: `TEE_TYPE_DES` of tee_api_defines.h (not part of the sources);
only that the identifiers of one kind differ is used. -/
def TEE_TYPE_DES : Nat := 0xA0000011

/-- Modelled from the spec: `TEE_TYPE_DES3` of tee_api_defines.h (not part of the sources);
only that the identifiers of one kind differ is used. -/
def TEE_TYPE_DES3 : Nat := 0xA0000013

/-- Modelled from the spec: `TEE_TYPE_HMAC_MD5` of tee_api_defines.h (not part of the sources);
only that the identifiers of one kind differ is used. -/
def TEE_TYPE_HMAC_MD5 : Nat := 0xA0000001

/-- Modelled from the spec: `TEE_TYPE_HMAC_SHA1` of tee_api_defines.h (not part of the sources);
only that the identifiers of one kind differ is used. -/
def TEE_TYPE_HMAC_SHA1 : Nat := 0xA0000002

/-- Modelled from the spec: `TEE_TYPE_HMAC_SHA224` of tee_api_defines.h (not part of the sources);
only that the identifiers of one kind differ is used. -/
def TEE_TYPE_HMAC_SHA224 : Nat := 0xA0000003

/-- Modelled from the spec: `TEE_TYPE_HMAC_SHA256` of tee_api_defines.h (not part of the sources);
only that the identifiers of one kind differ is used. -/
def TEE_TYPE_HMAC_SHA256 : Nat := 0xA0000004

/-- Modelled from the spec: `TEE_TYPE_HMAC_SHA384` of tee_api_defines.h (not part of the sources);
only that the identifiers of one kind differ is used. -/
def TEE_TYPE_HMAC_SHA384 : Nat := 0xA0000005

/-- Modelled from the spec: `TEE_TYPE_HMAC_SHA512` of tee_api_defines.h (not part of the sources);
only that the identifiers of one kind differ is used. -/
def TEE_TYPE_HMAC_SHA512 : Nat := 0xA0000006

/- Test vectors of test 4001 (hash) -/

/-- Source: `hash_data_md5_in1`, 11 bytes. -/
def hash_data_md5_in1 : List Nat :=
  [0x63, 0x64, 0x65, 0x66, 0x67, 0x68, 0x69, 0x6a, 0x6b, 0x6c, 0x6d]

/-- Source: `hash_data_md5_out1`, 16 bytes. -/
def hash_data_md5_out1 : List Nat :=
  [0x61, 0x12, 0x71, 0x83, 0x70, 0x8d, 0x3a, 0xc7, 0xf1, 0x9b, 0x66, 0x06, 0xfc, 0xae, 0x7d, 0xf6]

/-- Source: `hash_data_sha1_in1`, 13 bytes. -/
def hash_data_sha1_in1 : List Nat :=
  [0x61, 0x62, 0x63, 0x64, 0x65, 0x66, 0x67, 0x68, 0x69, 0x6a, 0x6b, 0x6c, 0x6d]

/-- Source: `hash_data_sha1_out1`, 20 bytes. -/
def hash_data_sha1_out1 : List Nat :=
  [0x4b, 0x98, 0x92, 0xb6, 0x52, 0x72, 0x14, 0xaf, 0xc6, 0x55, 0xb8, 0xaa, 0x52, 0xf4, 0xd2,
   0x03, 0xc1, 0x5e, 0x7c, 0x9c]

/-- Source: `hash_data_sha224_in1`, 13 bytes. -/
def hash_data_sha224_in1 : List Nat :=
  [0x61, 0x62, 0x63, 0x64, 0x65, 0x66, 0x67, 0x68, 0x69, 0x6a, 0x6b, 0x6c, 0x6d]

/-- Source: `hash_data_sha224_out1`, 28 bytes. -/
def hash_data_sha224_out1 : List Nat :=
  [0x08, 0x21, 0x69, 0xf9, 0x77, 0x1b, 0x80, 0x15, 0xf3, 0x97, 0xae, 0xde, 0x5b, 0xba, 0xa2,
   0x72, 0x2d, 0x8f, 0x5c, 0x19, 0xfe, 0xd2, 0xe2, 0x68, 0x92, 0x49, 0xd8, 0x44]

/-- Source: `hash_data_sha256_in1`, 3 bytes. -/
def hash_data_sha256_in1 : List Nat :=
  [0x61, 0x62, 0x63]

/-- Source: `hash_data_sha256_out1`, 32 bytes. -/
def hash_data_sha256_out1 : List Nat :=
  [0xba, 0x78, 0x16, 0xbf, 0x8f, 0x01, 0xcf, 0xea, 0x41, 0x41, 0x40, 0xde, 0x5d, 0xae, 0x22,
   0x23, 0xb0, 0x03, 0x61, 0xa3, 0x96, 0x17, 0x7a, 0x9c, 0xb4, 0x10, 0xff, 0x61, 0xf2, 0x00,
   0x15, 0xad]

/-- Source: `hash_data_sha256_in2`, 3 bytes. -/
def hash_data_sha256_in2 : List Nat :=
  [0x65, 0x66, 0x67]

/-- Source: `hash_data_sha256_out2`, 32 bytes. -/
def hash_data_sha256_out2 : List Nat :=
  [0xd4, 0xff, 0xe8, 0xe9, 0xee, 0x0b, 0x48, 0xeb, 0xa7, 0x16, 0x70, 0x61, 0x23, 0xa7, 0x18,
   0x7f, 0x32, 0xea, 0xe3, 0xbd, 0xcb, 0x0e, 0x77, 0x63, 0xe4, 0x1e, 0x53, 0x32, 0x67, 0xbd,
   0x8a, 0x53]

/-- Source: `hash_data_sha384_in1`, 12 bytes. -/
def hash_data_sha384_in1 : List Nat :=
  [0x61, 0x62, 0x63, 0x65, 0x66, 0x67, 0x68, 0x69, 0x6a, 0x6b, 0x6c, 0x6d]

/-- Source: `hash_data_sha384_out1`, 48 bytes. -/
def hash_data_sha384_out1 : List Nat :=
  [0x4c, 0xab, 0x80, 0x9d, 0x96, 0x84, 0x01, 0x47, 0x67, 0x0a, 0xc1, 0x7a, 0xb6, 0xb9, 0xf7,
   0x6e, 0x35, 0xa6, 0xb0, 0x8c, 0xf5, 0x2a, 0x3d, 0x64, 0x9a, 0x8c, 0x7e, 0x0c, 0x55, 0x45,
   0xd3, 0x7d, 0x1f, 0x7f, 0x28, 0x34, 0x96, 0x14, 0x44, 0x2a, 0xf5, 0x98, 0xa2, 0x95, 0x24,
   0x76, 0x53, 0x97]

/-- Source: `hash_data_sha512_in1`, 12 bytes. -/
def hash_data_sha512_in1 : List Nat :=
  [0x61, 0x62, 0x63, 0x64, 0x66, 0x67, 0x68, 0x69, 0x6a, 0x6b, 0x6c, 0x6d]

/-- Source: `hash_data_sha512_out1`, 64 bytes. -/
def hash_data_sha512_out1 : List Nat :=
  [0x20, 0xd8, 0x64, 0x4f, 0x54, 0xa2, 0x5f, 0x6f, 0x0a, 0xf9, 0xd5, 0x27, 0x7d, 0x17, 0xa8,
   0x99, 0x4c, 0x64, 0x3f, 0xd0, 0xf3, 0x83, 0x36, 0xee, 0x93, 0x12, 0x55, 0xcd, 0x2e, 0x12,
   0x34, 0xa0, 0xc2, 0xaa, 0xf9, 0xbb, 0x15, 0xc5, 0xe9, 0xfa, 0xf7, 0xa7, 0xda, 0xb8, 0x2f,
   0x72, 0xa0, 0x47, 0xe3, 0x02, 0x04, 0xe8, 0xa0, 0x35, 0x0c, 0x96, 0x26, 0xd1, 0xcb, 0x8b,
   0x47, 0x45, 0x25, 0xd0]

/- Test vectors of test 4002 (MAC) -/

/-- Source: `mac_data_md5_key1[10]`, 3 bytes given, the remaining 7 zero. -/
def mac_data_md5_key1 : List Nat :=
  [0x6b, 0x65, 0x79, 0x00, 0x00, 0x00, 0x00, 0x00, 0x00, 0x00]

/-- Source: `mac_data_md5_in1`, 43 bytes. -/
def mac_data_md5_in1 : List Nat :=
  [0x54, 0x68, 0x65, 0x20, 0x71, 0x75, 0x69, 0x63, 0x6b, 0x20, 0x62, 0x72, 0x6f, 0x77, 0x6e,
   0x20, 0x66, 0x6f, 0x78, 0x20, 0x6a, 0x75, 0x6d, 0x70, 0x73, 0x20, 0x6f, 0x76, 0x65, 0x72,
   0x20, 0x74, 0x68, 0x65, 0x20, 0x6c, 0x61, 0x7a, 0x79, 0x20, 0x64, 0x6f, 0x67]

/-- Source: `mac_data_md5_out1`, 16 bytes. -/
def mac_data_md5_out1 : List Nat :=
  [0x80, 0x07, 0x07, 0x13, 0x46, 0x3e, 0x77, 0x49, 0xb9, 0x0c, 0x2d, 0xc2, 0x49, 0x11, 0xe2, 0x75]

/-- Source: `mac_data_sha1_key1[10]`, 3 bytes given, the remaining 7 zero. -/
def mac_data_sha1_key1 : List Nat :=
  [0x6b, 0x65, 0x79, 0x00, 0x00, 0x00, 0x00, 0x00, 0x00, 0x00]

/-- Source: `mac_data_sha1_in1`, 43 bytes. -/
def mac_data_sha1_in1 : List Nat :=
  [0x54, 0x68, 0x65, 0x20, 0x71, 0x75, 0x69, 0x63, 0x6b, 0x20, 0x62, 0x72, 0x6f, 0x77, 0x6e,
   0x20, 0x66, 0x6f, 0x78, 0x20, 0x6a, 0x75, 0x6d, 0x70, 0x73, 0x20, 0x6f, 0x76, 0x65, 0x72,
   0x20, 0x74, 0x68, 0x65, 0x20, 0x6c, 0x61, 0x7a, 0x79, 0x20, 0x64, 0x6f, 0x67]

/-- Source: `mac_data_sha1_out1`, 20 bytes. -/
def mac_data_sha1_out1 : List Nat :=
  [0xde, 0x7c, 0x9b, 0x85, 0xb8, 0xb7, 0x8a, 0xa6, 0xbc, 0x8a, 0x7a, 0x36, 0xf7, 0x0a, 0x90,
   0x70, 0x1c, 0x9d, 0xb4, 0xd9]

/-- Source: `mac_data_sha224_key1[24]`, 3 bytes given, the remaining 21 zero. -/
def mac_data_sha224_key1 : List Nat :=
  [0x6b, 0x65, 0x79, 0x00, 0x00, 0x00, 0x00, 0x00, 0x00, 0x00, 0x00, 0x00, 0x00, 0x00, 0x00,
   0x00, 0x00, 0x00, 0x00, 0x00, 0x00, 0x00, 0x00, 0x00]

/-- Source: `mac_data_sha224_in1`, 43 bytes. -/
def mac_data_sha224_in1 : List Nat :=
  [0x54, 0x68, 0x65, 0x20, 0x71, 0x75, 0x69, 0x63, 0x6b, 0x20, 0x62, 0x72, 0x6f, 0x77, 0x6e,
   0x20, 0x66, 0x6f, 0x78, 0x20, 0x6a, 0x75, 0x6d, 0x70, 0x73, 0x20, 0x6f, 0x76, 0x65, 0x72,
   0x20, 0x74, 0x68, 0x65, 0x20, 0x6c, 0x61, 0x7a, 0x79, 0x20, 0x64, 0x6f, 0x67]

/-- Source: `mac_data_sha224_out1`, 28 bytes. -/
def mac_data_sha224_out1 : List Nat :=
  [0x88, 0xff, 0x8b, 0x54, 0x67, 0x5d, 0x39, 0xb8, 0xf7, 0x23, 0x22, 0xe6, 0x5f, 0xf9, 0x45,
   0xc5, 0x2d, 0x96, 0x37, 0x99, 0x88, 0xad, 0xa2, 0x56, 0x39, 0x74, 0x7e, 0x69]

/-- Source: `mac_data_sha256_key1[24]`, 6 bytes given, the remaining 18 zero. -/
def mac_data_sha256_key1 : List Nat :=
  [0x51, 0x57, 0x45, 0x52, 0x54, 0x59, 0x00, 0x00, 0x00, 0x00, 0x00, 0x00, 0x00, 0x00, 0x00,
   0x00, 0x00, 0x00, 0x00, 0x00, 0x00, 0x00, 0x00, 0x00]

/-- Source: `mac_data_sha256_in1`, 3 bytes. -/
def mac_data_sha256_in1 : List Nat :=
  [0x61, 0x62, 0x63]

/-- Source: `mac_data_sha256_out1`, 32 bytes. -/
def mac_data_sha256_out1 : List Nat :=
  [0xee, 0x2e, 0x5d, 0x9b, 0x51, 0xe2, 0x9c, 0x1d, 0x49, 0xe9, 0xae, 0x6f, 0x0a, 0xcc, 0x15,
   0x18, 0xde, 0x1e, 0xa3, 0x88, 0x8e, 0xee, 0x48, 0xbb, 0x82, 0x77, 0xe9, 0x09, 0x74, 0x4b,
   0xa2, 0xf2]

/-- Source: `mac_data_sha256_key2[24]`, 3 bytes given, the remaining 21 zero. -/
def mac_data_sha256_key2 : List Nat :=
  [0x6b, 0x65, 0x79, 0x00, 0x00, 0x00, 0x00, 0x00, 0x00, 0x00, 0x00, 0x00, 0x00, 0x00, 0x00,
   0x00, 0x00, 0x00, 0x00, 0x00, 0x00, 0x00, 0x00, 0x00]

/-- Source: `mac_data_sha256_in2`, 43 bytes. -/
def mac_data_sha256_in2 : List Nat :=
  [0x54, 0x68, 0x65, 0x20, 0x71, 0x75, 0x69, 0x63, 0x6b, 0x20, 0x62, 0x72, 0x6f, 0x77, 0x6e,
   0x20, 0x66, 0x6f, 0x78, 0x20, 0x6a, 0x75, 0x6d, 0x70, 0x73, 0x20, 0x6f, 0x76, 0x65, 0x72,
   0x20, 0x74, 0x68, 0x65, 0x20, 0x6c, 0x61, 0x7a, 0x79, 0x20, 0x64, 0x6f, 0x67]

/-- Source: `mac_data_sha256_out2`, 32 bytes. -/
def mac_data_sha256_out2 : List Nat :=
  [0xf7, 0xbc, 0x83, 0xf4, 0x30, 0x53, 0x84, 0x24, 0xb1, 0x32, 0x98, 0xe6, 0xaa, 0x6f, 0xb1,
   0x43, 0xef, 0x4d, 0x59, 0xa1, 0x49, 0x46, 0x17, 0x59, 0x97, 0x47, 0x9d, 0xbc, 0x2d, 0x1a,
   0x3c, 0xd8]

/-- Source: `mac_data_sha384_key1[32]`, 3 bytes given, the remaining 29 zero. -/
def mac_data_sha384_key1 : List Nat :=
  [0x6b, 0x65, 0x79, 0x00, 0x00, 0x00, 0x00, 0x00, 0x00, 0x00, 0x00, 0x00, 0x00, 0x00, 0x00,
   0x00, 0x00, 0x00, 0x00, 0x00, 0x00, 0x00, 0x00, 0x00, 0x00, 0x00, 0x00, 0x00, 0x00, 0x00,
   0x00, 0x00]

/-- Source: `mac_data_sha384_in1`, 43 bytes. -/
def mac_data_sha384_in1 : List Nat :=
  [0x54, 0x68, 0x65, 0x20, 0x71, 0x75, 0x69, 0x63, 0x6b, 0x20, 0x62, 0x72, 0x6f, 0x77, 0x6e,
   0x20, 0x66, 0x6f, 0x78, 0x20, 0x6a, 0x75, 0x6d, 0x70, 0x73, 0x20, 0x6f, 0x76, 0x65, 0x72,
   0x20, 0x74, 0x68, 0x65, 0x20, 0x6c, 0x61, 0x7a, 0x79, 0x20, 0x64, 0x6f, 0x67]

/-- Source: `mac_data_sha384_out1`, 48 bytes. -/
def mac_data_sha384_out1 : List Nat :=
  [0xd7, 0xf4, 0x72, 0x7e, 0x2c, 0x0b, 0x39, 0xae, 0x0f, 0x1e, 0x40, 0xcc, 0x96, 0xf6, 0x02,
   0x42, 0xd5, 0xb7, 0x80, 0x18, 0x41, 0xce, 0xa6, 0xfc, 0x59, 0x2c, 0x5d, 0x3e, 0x1a, 0xe5,
   0x07, 0x00, 0x58, 0x2a, 0x96, 0xcf, 0x35, 0xe1, 0xe5, 0x54, 0x99, 0x5f, 0xe4, 0xe0, 0x33,
   0x81, 0xc2, 0x37]

/-- Source: `mac_data_sha512_key1[32]`, 3 bytes given, the remaining 29 zero. -/
def mac_data_sha512_key1 : List Nat :=
  [0x6b, 0x65, 0x79, 0x00, 0x00, 0x00, 0x00, 0x00, 0x00, 0x00, 0x00, 0x00, 0x00, 0x00, 0x00,
   0x00, 0x00, 0x00, 0x00, 0x00, 0x00, 0x00, 0x00, 0x00, 0x00, 0x00, 0x00, 0x00, 0x00, 0x00,
   0x00, 0x00]

/-- Source: `mac_data_sha512_in1`, 43 bytes. -/
def mac_data_sha512_in1 : List Nat :=
  [0x54, 0x68, 0x65, 0x20, 0x71, 0x75, 0x69, 0x63, 0x6b, 0x20, 0x62, 0x72, 0x6f, 0x77, 0x6e,
   0x20, 0x66, 0x6f, 0x78, 0x20, 0x6a, 0x75, 0x6d, 0x70, 0x73, 0x20, 0x6f, 0x76, 0x65, 0x72,
   0x20, 0x74, 0x68, 0x65, 0x20, 0x6c, 0x61, 0x7a, 0x79, 0x20, 0x64, 0x6f, 0x67]

/-- Source: `mac_data_sha512_out1`, 64 bytes. -/
def mac_data_sha512_out1 : List Nat :=
  [0xb4, 0x2a, 0xf0, 0x90, 0x57, 0xba, 0xc1, 0xe2, 0xd4, 0x17, 0x08, 0xe4, 0x8a, 0x90, 0x2e,
   0x09, 0xb5, 0xff, 0x7f, 0x12, 0xab, 0x42, 0x8a, 0x4f, 0xe8, 0x66, 0x53, 0xc7, 0x3d, 0xd2,
   0x48, 0xfb, 0x82, 0xf9, 0x48, 0xa5, 0x49, 0xf7, 0xb7, 0x91, 0xa5, 0xb4, 0x19, 0x15, 0xee,
   0x4d, 0x1e, 0xc3, 0x93, 0x53, 0x57, 0xe4, 0xe2, 0x31, 0x72, 0x50, 0xd0, 0x37, 0x2a, 0xfa,
   0x2e, 0xbe, 0xeb, 0x3a]

/-- Source: `mac_cbc_vect1_key`, 16 bytes. -/
def mac_cbc_vect1_key : List Nat :=
  [0x30, 0x31, 0x32, 0x33, 0x34, 0x35, 0x36, 0x37, 0x38, 0x39, 0x41, 0x42, 0x43, 0x44, 0x45, 0x46]

/-- Source: `mac_cbc_vect1_data`, 160 bytes. -/
def mac_cbc_vect1_data : List Nat :=
  [0x43, 0x69, 0x70, 0x68, 0x65, 0x72, 0x20, 0x62, 0x6c, 0x6f, 0x63, 0x6b, 0x20, 0x63, 0x68,
   0x61, 0x69, 0x6e, 0x69, 0x6e, 0x67, 0x20, 0x28, 0x43, 0x42, 0x43, 0x29, 0x20, 0x69, 0x73,
   0x20, 0x61, 0x20, 0x63, 0x6f, 0x6d, 0x6d, 0x6f, 0x6e, 0x20, 0x63, 0x68, 0x61, 0x69, 0x6e,
   0x69, 0x6e, 0x67, 0x20, 0x6d, 0x6f, 0x64, 0x65, 0x20, 0x69, 0x6e, 0x20, 0x77, 0x68, 0x69,
   0x63, 0x68, 0x20, 0x74, 0x68, 0x65, 0x20, 0x70, 0x72, 0x65, 0x76, 0x69, 0x6f, 0x75, 0x73,
   0x20, 0x62, 0x6c, 0x6f, 0x63, 0x6b, 0x27, 0x73, 0x20, 0x63, 0x69, 0x70, 0x68, 0x65, 0x72,
   0x74, 0x65, 0x78, 0x74, 0x20, 0x69, 0x73, 0x20, 0x78, 0x6f, 0x72, 0x65, 0x64, 0x20, 0x77,
   0x69, 0x74, 0x68, 0x20, 0x74, 0x68, 0x65, 0x20, 0x63, 0x75, 0x72, 0x72, 0x65, 0x6e, 0x74,
   0x20, 0x62, 0x6c, 0x6f, 0x63, 0x6b, 0x27, 0x73, 0x20, 0x70, 0x6c, 0x61, 0x69, 0x6e, 0x74,
   0x65, 0x78, 0x74, 0x20, 0x62, 0x65, 0x66, 0x6f, 0x72, 0x65, 0x20, 0x65, 0x6e, 0x63, 0x72,
   0x79, 0x70, 0x74, 0x69, 0x6f, 0x6e, 0x2e, 0x2e, 0x2e, 0x2e]

/-- Source: `mac_cbc_vect1_out`, 16 bytes. -/
def mac_cbc_vect1_out : List Nat :=
  [0xc9, 0x6e, 0x83, 0x7e, 0x35, 0xc8, 0xa7, 0xa0, 0x33, 0xa3, 0xb1, 0x4b, 0x5a, 0x92, 0x51, 0x2e]

/-- Source: `mac_cbc_vect2_key`, 8 bytes. -/
def mac_cbc_vect2_key : List Nat :=
  [0x30, 0x31, 0x32, 0x33, 0x34, 0x35, 0x36, 0x37]

/-- Source: `#define mac_cbc_vect2_data mac_cbc_vect1_data`. -/
def mac_cbc_vect2_data : List Nat := mac_cbc_vect1_data

/-- Source: `mac_cbc_vect2_out`, 8 bytes. -/
def mac_cbc_vect2_out : List Nat :=
  [0xe9, 0x41, 0x46, 0x30, 0x69, 0x32, 0xbd, 0xd6]

/-- Source: `mac_cbc_vect3_key`, 24 bytes. -/
def mac_cbc_vect3_key : List Nat :=
  [0x30, 0x31, 0x32, 0x33, 0x34, 0x35, 0x36, 0x37, 0x38, 0x39, 0x41, 0x42, 0x43, 0x44, 0x45,
   0x46, 0x31, 0x32, 0x33, 0x34, 0x35, 0x36, 0x37, 0x38]

/-- Source: `#define mac_cbc_vect3_data mac_cbc_vect2_data`. -/
def mac_cbc_vect3_data : List Nat := mac_cbc_vect2_data

/-- Source: `mac_cbc_vect3_out`, 8 bytes. -/
def mac_cbc_vect3_out : List Nat :=
  [0x1c, 0x17, 0xb7, 0xb5, 0x9f, 0x54, 0x9c, 0x63]

/-- Source: `mac_cbc_vect4_key`, 32 bytes. -/
def mac_cbc_vect4_key : List Nat :=
  [0x30, 0x31, 0x32, 0x33, 0x34, 0x35, 0x36, 0x37, 0x38, 0x39, 0x41, 0x42, 0x43, 0x44, 0x45,
   0x46, 0x30, 0x31, 0x32, 0x33, 0x34, 0x35, 0x36, 0x37, 0x38, 0x39, 0x41, 0x42, 0x43, 0x44,
   0x45, 0x46]

/-- Source: `#define mac_cbc_vect4_data mac_cbc_vect1_data`. -/
def mac_cbc_vect4_data : List Nat := mac_cbc_vect1_data

/-- Source: `mac_cbc_vect4_out`, 16 bytes. -/
def mac_cbc_vect4_out : List Nat :=
  [0x0b, 0x46, 0xc7, 0xa2, 0xe1, 0x5a, 0xe2, 0x23, 0x83, 0x34, 0x1c, 0x86, 0x53, 0xf8, 0x51, 0x24]

/-- Source: `mac_cbc_vect5_key`, 8 bytes. -/
def mac_cbc_vect5_key : List Nat :=
  [0x30, 0x31, 0x32, 0x33, 0x34, 0x35, 0x36, 0x37]

/-- Source: `#define mac_cbc_vect5_data mac_cbc_vect1_data`. -/
def mac_cbc_vect5_data : List Nat := mac_cbc_vect1_data

/-- Source: `mac_cbc_vect5_out`, 8 bytes. -/
def mac_cbc_vect5_out : List Nat :=
  [0x30, 0x81, 0x4f, 0x42, 0x03, 0x7e, 0xd8, 0xa9]

/-- Source: `mac_cbc_vect6_key`, 24 bytes. -/
def mac_cbc_vect6_key : List Nat :=
  [0x30, 0x31, 0x32, 0x33, 0x34, 0x35, 0x36, 0x37, 0x38, 0x39, 0x41, 0x42, 0x43, 0x44, 0x45,
   0x46, 0x31, 0x32, 0x33, 0x34, 0x35, 0x36, 0x37, 0x38]

/-- Source: `#define mac_cbc_vect6_data mac_cbc_vect1_data`. -/
def mac_cbc_vect6_data : List Nat := mac_cbc_vect1_data

/-- Source: `mac_cbc_vect6_out`, 8 bytes. -/
def mac_cbc_vect6_out : List Nat :=
  [0x6e, 0x37, 0x6e, 0x14, 0x5e, 0x21, 0xdd, 0xf8]

/-- Source: `#define mac_cbc_vect7_key mac_cbc_vect4_key`. -/
def mac_cbc_vect7_key : List Nat := mac_cbc_vect4_key

/-- Source: `mac_cbc_vect7_data`, 157 bytes. -/
def mac_cbc_vect7_data : List Nat :=
  [0x43, 0x69, 0x70, 0x68, 0x65, 0x72, 0x20, 0x62, 0x6c, 0x6f, 0x63, 0x6b, 0x20, 0x63, 0x68,
   0x61, 0x69, 0x6e, 0x69, 0x6e, 0x67, 0x20, 0x28, 0x43, 0x42, 0x43, 0x29, 0x20, 0x69, 0x73,
   0x20, 0x61, 0x20, 0x63, 0x6f, 0x6d, 0x6d, 0x6f, 0x6e, 0x20, 0x63, 0x68, 0x61, 0x69, 0x6e,
   0x69, 0x6e, 0x67, 0x20, 0x6d, 0x6f, 0x64, 0x65, 0x20, 0x69, 0x6e, 0x20, 0x77, 0x68, 0x69,
   0x63, 0x68, 0x20, 0x74, 0x68, 0x65, 0x20, 0x70, 0x72, 0x65, 0x76, 0x69, 0x6f, 0x75, 0x73,
   0x20, 0x62, 0x6c, 0x6f, 0x63, 0x6b, 0x27, 0x73, 0x20, 0x63, 0x69, 0x70, 0x68, 0x65, 0x72,
   0x74, 0x65, 0x78, 0x74, 0x20, 0x69, 0x73, 0x20, 0x78, 0x6f, 0x72, 0x65, 0x64, 0x20, 0x77,
   0x69, 0x74, 0x68, 0x20, 0x74, 0x68, 0x65, 0x20, 0x63, 0x75, 0x72, 0x72, 0x65, 0x6e, 0x74,
   0x20, 0x62, 0x6c, 0x6f, 0x63, 0x6b, 0x27, 0x73, 0x20, 0x70, 0x6c, 0x61, 0x69, 0x6e, 0x74,
   0x65, 0x78, 0x74, 0x20, 0x62, 0x65, 0x66, 0x6f, 0x72, 0x65, 0x20, 0x65, 0x6e, 0x63, 0x72,
   0x79, 0x70, 0x74, 0x69, 0x6f, 0x6e, 0x2e]

/-- Source: `mac_cbc_vect7_out`, 16 bytes. -/
def mac_cbc_vect7_out : List Nat :=
  [0xfd, 0x89, 0x35, 0xb3, 0x93, 0x7f, 0xbb, 0xa2, 0xfb, 0x65, 0x60, 0xc4, 0x0a, 0x62, 0xa0, 0xf9]

/-- Source: `#define mac_cbc_vect8_key mac_cbc_vect5_key`. -/
def mac_cbc_vect8_key : List Nat := mac_cbc_vect5_key

/-- Source: `#define mac_cbc_vect8_data mac_cbc_vect7_data`. -/
def mac_cbc_vect8_data : List Nat := mac_cbc_vect7_data

/-- Source: `mac_cbc_vect8_out`, 8 bytes. -/
def mac_cbc_vect8_out : List Nat :=
  [0x02, 0x2a, 0xa8, 0x2e, 0x47, 0xc6, 0xbb, 0x7c]

/-- Source: `#define mac_cbc_vect9_key mac_cbc_vect6_key`. -/
def mac_cbc_vect9_key : List Nat := mac_cbc_vect6_key

/-- Source: `#define mac_cbc_vect9_data mac_cbc_vect7_data`. -/
def mac_cbc_vect9_data : List Nat := mac_cbc_vect7_data

/-- Source: `mac_cbc_vect9_out`, 8 bytes. -/
def mac_cbc_vect9_out : List Nat :=
  [0xd4, 0xf7, 0x3e, 0x27, 0x78, 0x0e, 0x1c, 0x79]

/-- Source: `mac_cbc_vect10_key`, 16 bytes. -/
def mac_cbc_vect10_key : List Nat :=
  [0x30, 0x31, 0x32, 0x33, 0x34, 0x35, 0x36, 0x37, 0x38, 0x39, 0x41, 0x42, 0x43, 0x44, 0x45, 0x46]

/-- Source: `#define mac_cbc_vect10_data mac_cbc_vect1_data`. -/
def mac_cbc_vect10_data : List Nat := mac_cbc_vect1_data

/-- Source: `mac_cbc_vect10_out`, 8 bytes. -/
def mac_cbc_vect10_out : List Nat :=
  [0x30, 0x92, 0x60, 0x99, 0x66, 0xac, 0x8c, 0xa6]

/-- Source: `mac_cmac_vect1_key`, 16 bytes. -/
def mac_cmac_vect1_key : List Nat :=
  [0x2b, 0x7e, 0x15, 0x16, 0x28, 0xae, 0xd2, 0xa6, 0xab, 0xf7, 0x15, 0x88, 0x09, 0xcf, 0x4f, 0x3c]

/-- Source: `mac_cmac_vect1_out`, 16 bytes. -/
def mac_cmac_vect1_out : List Nat :=
  [0xbb, 0x1d, 0x69, 0x29, 0xe9, 0x59, 0x37, 0x28, 0x7f, 0xa3, 0x7d, 0x12, 0x9b, 0x75, 0x67, 0x46]

/-- Source: `#define mac_cmac_vect2_key mac_cmac_vect1_key`. -/
def mac_cmac_vect2_key : List Nat := mac_cmac_vect1_key

/-- Source: `mac_cmac_vect2_data`, 16 bytes. -/
def mac_cmac_vect2_data : List Nat :=
  [0x6b, 0xc1, 0xbe, 0xe2, 0x2e, 0x40, 0x9f, 0x96, 0xe9, 0x3d, 0x7e, 0x11, 0x73, 0x93, 0x17, 0x2a]

/-- Source: `mac_cmac_vect2_out`, 16 bytes. -/
def mac_cmac_vect2_out : List Nat :=
  [0x07, 0x0a, 0x16, 0xb4, 0x6b, 0x4d, 0x41, 0x44, 0xf7, 0x9b, 0xdd, 0x9d, 0xd0, 0x4a, 0x28, 0x7c]

/-- Source: `#define mac_cmac_vect3_key mac_cmac_vect1_key`. -/
def mac_cmac_vect3_key : List Nat := mac_cmac_vect1_key

/-- Source: `mac_cmac_vect3_data`, 40 bytes. -/
def mac_cmac_vect3_data : List Nat :=
  [0x6b, 0xc1, 0xbe, 0xe2, 0x2e, 0x40, 0x9f, 0x96, 0xe9, 0x3d, 0x7e, 0x11, 0x73, 0x93, 0x17,
   0x2a, 0xae, 0x2d, 0x8a, 0x57, 0x1e, 0x03, 0xac, 0x9c, 0x9e, 0xb7, 0x6f, 0xac, 0x45, 0xaf,
   0x8e, 0x51, 0x30, 0xc8, 0x1c, 0x46, 0xa3, 0x5c, 0xe4, 0x11]

/-- Source: `mac_cmac_vect3_out`, 16 bytes. -/
def mac_cmac_vect3_out : List Nat :=
  [0xdf, 0xa6, 0x67, 0x47, 0xde, 0x9a, 0xe6, 0x30, 0x30, 0xca, 0x32, 0x61, 0x14, 0x97, 0xc8, 0x27]

/-- Source: `#define mac_cmac_vect4_key mac_cmac_vect1_key`. -/
def mac_cmac_vect4_key : List Nat := mac_cmac_vect1_key

/-- Source: `mac_cmac_vect4_data`, 64 bytes. -/
def mac_cmac_vect4_data : List Nat :=
  [0x6b, 0xc1, 0xbe, 0xe2, 0x2e, 0x40, 0x9f, 0x96, 0xe9, 0x3d, 0x7e, 0x11, 0x73, 0x93, 0x17,
   0x2a, 0xae, 0x2d, 0x8a, 0x57, 0x1e, 0x03, 0xac, 0x9c, 0x9e, 0xb7, 0x6f, 0xac, 0x45, 0xaf,
   0x8e, 0x51, 0x30, 0xc8, 0x1c, 0x46, 0xa3, 0x5c, 0xe4, 0x11, 0xe5, 0xfb, 0xc1, 0x19, 0x1a,
   0x0a, 0x52, 0xef, 0xf6, 0x9f, 0x24, 0x45, 0xdf, 0x4f, 0x9b, 0x17, 0xad, 0x2b, 0x41, 0x7b,
   0xe6, 0x6c, 0x37, 0x10]

/-- Source: `mac_cmac_vect4_out`, 16 bytes. -/
def mac_cmac_vect4_out : List Nat :=
  [0x51, 0xf0, 0xbe, 0xbf, 0x7e, 0x3b, 0x9d, 0x92, 0xfc, 0x49, 0x74, 0x17, 0x79, 0x36, 0x3c, 0xfe]

/-- Source: `mac_cmac_vect5_key`, 24 bytes. -/
def mac_cmac_vect5_key : List Nat :=
  [0x8e, 0x73, 0xb0, 0xf7, 0xda, 0x0e, 0x64, 0x52, 0xc8, 0x10, 0xf3, 0x2b, 0x80, 0x90, 0x79,
   0xe5, 0x62, 0xf8, 0xea, 0xd2, 0x52, 0x2c, 0x6b, 0x7b]

/-- Source: `mac_cmac_vect5_out`, 16 bytes. -/
def mac_cmac_vect5_out : List Nat :=
  [0xd1, 0x7d, 0xdf, 0x46, 0xad, 0xaa, 0xcd, 0xe5, 0x31, 0xca, 0xc4, 0x83, 0xde, 0x7a, 0x93, 0x67]

/-- Source: `#define mac_cmac_vect6_key mac_cmac_vect5_key`. -/
def mac_cmac_vect6_key : List Nat := mac_cmac_vect5_key

/-- Source: `mac_cmac_vect6_data`, 16 bytes. -/
def mac_cmac_vect6_data : List Nat :=
  [0x6b, 0xc1, 0xbe, 0xe2, 0x2e, 0x40, 0x9f, 0x96, 0xe9, 0x3d, 0x7e, 0x11, 0x73, 0x93, 0x17, 0x2a]

/-- Source: `mac_cmac_vect6_out`, 16 bytes. -/
def mac_cmac_vect6_out : List Nat :=
  [0x9e, 0x99, 0xa7, 0xbf, 0x31, 0xe7, 0x10, 0x90, 0x06, 0x62, 0xf6, 0x5e, 0x61, 0x7c, 0x51, 0x84]

/-- Source: `#define mac_cmac_vect7_key mac_cmac_vect5_key`. -/
def mac_cmac_vect7_key : List Nat := mac_cmac_vect5_key

/-- Source: `mac_cmac_vect7_data`, 40 bytes. -/
def mac_cmac_vect7_data : List Nat :=
  [0x6b, 0xc1, 0xbe, 0xe2, 0x2e, 0x40, 0x9f, 0x96, 0xe9, 0x3d, 0x7e, 0x11, 0x73, 0x93, 0x17,
   0x2a, 0xae, 0x2d, 0x8a, 0x57, 0x1e, 0x03, 0xac, 0x9c, 0x9e, 0xb7, 0x6f, 0xac, 0x45, 0xaf,
   0x8e, 0x51, 0x30, 0xc8, 0x1c, 0x46, 0xa3, 0x5c, 0xe4, 0x11]

/-- Source: `mac_cmac_vect7_out`, 16 bytes. -/
def mac_cmac_vect7_out : List Nat :=
  [0x8a, 0x1d, 0xe5, 0xbe, 0x2e, 0xb3, 0x1a, 0xad, 0x08, 0x9a, 0x82, 0xe6, 0xee, 0x90, 0x8b, 0x0e]

/-- Source: `#define mac_cmac_vect8_key mac_cmac_vect5_key`. -/
def mac_cmac_vect8_key : List Nat := mac_cmac_vect5_key

/-- Source: `mac_cmac_vect8_data`, 64 bytes. -/
def mac_cmac_vect8_data : List Nat :=
  [0x6b, 0xc1, 0xbe, 0xe2, 0x2e, 0x40, 0x9f, 0x96, 0xe9, 0x3d, 0x7e, 0x11, 0x73, 0x93, 0x17,
   0x2a, 0xae, 0x2d, 0x8a, 0x57, 0x1e, 0x03, 0xac, 0x9c, 0x9e, 0xb7, 0x6f, 0xac, 0x45, 0xaf,
   0x8e, 0x51, 0x30, 0xc8, 0x1c, 0x46, 0xa3, 0x5c, 0xe4, 0x11, 0xe5, 0xfb, 0xc1, 0x19, 0x1a,
   0x0a, 0x52, 0xef, 0xf6, 0x9f, 0x24, 0x45, 0xdf, 0x4f, 0x9b, 0x17, 0xad, 0x2b, 0x41, 0x7b,
   0xe6, 0x6c, 0x37, 0x10]

/-- Source: `mac_cmac_vect8_out`, 16 bytes. -/
def mac_cmac_vect8_out : List Nat :=
  [0xa1, 0xd5, 0xdf, 0x0e, 0xed, 0x79, 0x0f, 0x79, 0x4d, 0x77, 0x58, 0x96, 0x59, 0xf3, 0x9a, 0x11]

/-- Source: `mac_cmac_vect9_key`, 32 bytes. -/
def mac_cmac_vect9_key : List Nat :=
  [0x60, 0x3d, 0xeb, 0x10, 0x15, 0xca, 0x71, 0xbe, 0x2b, 0x73, 0xae, 0xf0, 0x85, 0x7d, 0x77,
   0x81, 0x1f, 0x35, 0x2c, 0x07, 0x3b, 0x61, 0x08, 0xd7, 0x2d, 0x98, 0x10, 0xa3, 0x09, 0x14,
   0xdf, 0xf4]

/-- Source: `mac_cmac_vect9_out`, 16 bytes. -/
def mac_cmac_vect9_out : List Nat :=
  [0x02, 0x89, 0x62, 0xf6, 0x1b, 0x7b, 0xf8, 0x9e, 0xfc, 0x6b, 0x55, 0x1f, 0x46, 0x67, 0xd9, 0x83]

/-- Source: `#define mac_cmac_vect10_key mac_cmac_vect9_key`. -/
def mac_cmac_vect10_key : List Nat := mac_cmac_vect9_key

/-- Source: `mac_cmac_vect10_data`, 16 bytes. -/
def mac_cmac_vect10_data : List Nat :=
  [0x6b, 0xc1, 0xbe, 0xe2, 0x2e, 0x40, 0x9f, 0x96, 0xe9, 0x3d, 0x7e, 0x11, 0x73, 0x93, 0x17, 0x2a]

/-- Source: `mac_cmac_vect10_out`, 16 bytes. -/
def mac_cmac_vect10_out : List Nat :=
  [0x28, 0xa7, 0x02, 0x3f, 0x45, 0x2e, 0x8f, 0x82, 0xbd, 0x4b, 0xf2, 0x8d, 0x8c, 0x37, 0xc3, 0x5c]

/-- Source: `#define mac_cmac_vect11_key mac_cmac_vect9_key`. -/
def mac_cmac_vect11_key : List Nat := mac_cmac_vect9_key

/-- Source: `mac_cmac_vect11_data`, 40 bytes. -/
def mac_cmac_vect11_data : List Nat :=
  [0x6b, 0xc1, 0xbe, 0xe2, 0x2e, 0x40, 0x9f, 0x96, 0xe9, 0x3d, 0x7e, 0x11, 0x73, 0x93, 0x17,
   0x2a, 0xae, 0x2d, 0x8a, 0x57, 0x1e, 0x03, 0xac, 0x9c, 0x9e, 0xb7, 0x6f, 0xac, 0x45, 0xaf,
   0x8e, 0x51, 0x30, 0xc8, 0x1c, 0x46, 0xa3, 0x5c, 0xe4, 0x11]

/-- Source: `mac_cmac_vect11_out`, 16 bytes. -/
def mac_cmac_vect11_out : List Nat :=
  [0xaa, 0xf3, 0xd8, 0xf1, 0xde, 0x56, 0x40, 0xc2, 0x32, 0xf5, 0xb1, 0x69, 0xb9, 0xc9, 0x11, 0xe6]

/-- Source: `#define mac_cmac_vect12_key mac_cmac_vect9_key`. -/
def mac_cmac_vect12_key : List Nat := mac_cmac_vect9_key

/-- Source: `mac_cmac_vect12_data`, 64 bytes. -/
def mac_cmac_vect12_data : List Nat :=
  [0x6b, 0xc1, 0xbe, 0xe2, 0x2e, 0x40, 0x9f, 0x96, 0xe9, 0x3d, 0x7e, 0x11, 0x73, 0x93, 0x17,
   0x2a, 0xae, 0x2d, 0x8a, 0x57, 0x1e, 0x03, 0xac, 0x9c, 0x9e, 0xb7, 0x6f, 0xac, 0x45, 0xaf,
   0x8e, 0x51, 0x30, 0xc8, 0x1c, 0x46, 0xa3, 0x5c, 0xe4, 0x11, 0xe5, 0xfb, 0xc1, 0x19, 0x1a,
   0x0a, 0x52, 0xef, 0xf6, 0x9f, 0x24, 0x45, 0xdf, 0x4f, 0x9b, 0x17, 0xad, 0x2b, 0x41, 0x7b,
   0xe6, 0x6c, 0x37, 0x10]

/-- Source: `mac_cmac_vect12_out`, 16 bytes. -/
def mac_cmac_vect12_out : List Nat :=
  [0xe1, 0x99, 0x21, 0x90, 0x54, 0x9f, 0x6e, 0xd5, 0x69, 0x6a, 0x2c, 0x05, 0x6c, 0x31, 0x54, 0x10]

/- Test 4001: the table of hash cases -/

/-- Source: `struct xtest_hash_case`; the field `in` is written `in_`. -/
structure xtest_hash_case where
  algo : Nat
  in_incr : Nat
  in_ : Ptr
  in_len : Nat
  out : Ptr
  out_len : Nat
  deriving DecidableEq, Repr

/-- Source: the initialiser `XTEST_HASH_CASE(algo, in_incr, in, out)`, with `ARRAY_SIZE` of an
array the number of its bytes. -/
def XTEST_HASH_CASE (algo in_incr : Nat) (in_ out : List Nat) : xtest_hash_case :=
  ⟨algo, in_incr, some in_, in_.length, some out, out.length⟩

/-- Source: `hash_cases`. -/
def hash_cases : List xtest_hash_case :=
  [ XTEST_HASH_CASE TEE_ALG_MD5 6 hash_data_md5_in1 hash_data_md5_out1,
    XTEST_HASH_CASE TEE_ALG_SHA1 3 hash_data_sha1_in1 hash_data_sha1_out1,
    XTEST_HASH_CASE TEE_ALG_SHA224 7 hash_data_sha224_in1 hash_data_sha224_out1,
    XTEST_HASH_CASE TEE_ALG_SHA256 1 hash_data_sha256_in1 hash_data_sha256_out1,
    XTEST_HASH_CASE TEE_ALG_SHA256 1 hash_data_sha256_in2 hash_data_sha256_out2,
    XTEST_HASH_CASE TEE_ALG_SHA384 1 hash_data_sha384_in1 hash_data_sha384_out1,
    XTEST_HASH_CASE TEE_ALG_SHA512 1 hash_data_sha512_in1 hash_data_sha512_out1 ]

/- Test 4002: the table of MAC cases -/

/-- Source: `struct xtest_mac_case`; the field `in` is written `in_`. -/
structure xtest_mac_case where
  algo : Nat
  key_type : Nat
  key : Ptr
  key_len : Nat
  in_incr : Nat
  in_ : Ptr
  in_len : Nat
  out : Ptr
  out_len : Nat
  multiple_incr : Bool
  deriving DecidableEq, Repr

/-- Source: the initialiser `XTEST_MAC_CASE_1`. -/
def XTEST_MAC_CASE_1 (algo key_type : Nat) (key : List Nat) (in_incr : Nat)
    (in_ out : List Nat) : xtest_mac_case :=
  ⟨algo, key_type, some key, key.length, in_incr, some in_, in_.length, some out, out.length,
    false⟩

/-- Source: the initialiser `XTEST_MAC_CASE_MULT`. -/
def XTEST_MAC_CASE_MULT (algo key_type : Nat) (key : List Nat) (in_incr : Nat)
    (in_ out : List Nat) : xtest_mac_case :=
  ⟨algo, key_type, some key, key.length, in_incr, some in_, in_.length, some out, out.length,
    true⟩

/-- Source: `XTEST_MAC_CASE`, which expands to two entries of the table. -/
def XTEST_MAC_CASE (algo key_type : Nat) (key : List Nat) (in_incr : Nat)
    (in_ out : List Nat) : List xtest_mac_case :=
  [ XTEST_MAC_CASE_1 algo key_type key in_incr in_ out,
    XTEST_MAC_CASE_MULT algo key_type key in_incr in_ out ]

/-- Source: `XTEST_MAC_CBC_CASE(algo, key_type, vect, in_incr)`; the three arrays that the
macro names by pasting `vect` are passed in full. -/
def XTEST_MAC_CBC_CASE (algo key_type : Nat) (vect_key : List Nat) (in_incr : Nat)
    (vect_data vect_out : List Nat) : List xtest_mac_case :=
  XTEST_MAC_CASE algo key_type vect_key in_incr vect_data vect_out

/-- Source: `XTEST_MAC_CMAC_CASE(vect, in_incr)`; the three arrays that the macro names by
pasting `vect` are passed in full. -/
def XTEST_MAC_CMAC_CASE (vect_key : List Nat) (in_incr : Nat)
    (vect_data vect_out : List Nat) : List xtest_mac_case :=
  XTEST_MAC_CASE TEE_ALG_AES_CMAC TEE_TYPE_AES vect_key in_incr vect_data vect_out

/-- Source: the three entries of `mac_cases` written without a macro:
`{ TEE_ALG_AES_CMAC, TEE_TYPE_AES, key, ARRAY_SIZE(key), 0, NULL, 0, out, ARRAY_SIZE(out) }`,
the last field `multiple_incr` left to its default. -/
def cmac_no_input (key out : List Nat) : xtest_mac_case :=
  ⟨TEE_ALG_AES_CMAC, TEE_TYPE_AES, some key, key.length, 0, none, 0, some out, out.length,
    false⟩

/-- Source: `mac_cases`. -/
def mac_cases : List xtest_mac_case :=
  XTEST_MAC_CASE TEE_ALG_HMAC_MD5 TEE_TYPE_HMAC_MD5 mac_data_md5_key1
    4 mac_data_md5_in1 mac_data_md5_out1 ++
  XTEST_MAC_CASE TEE_ALG_HMAC_SHA1 TEE_TYPE_HMAC_SHA1 mac_data_sha1_key1
    5 mac_data_sha1_in1 mac_data_sha1_out1 ++
  XTEST_MAC_CASE TEE_ALG_HMAC_SHA224 TEE_TYPE_HMAC_SHA224 mac_data_sha224_key1
    8 mac_data_sha224_in1 mac_data_sha224_out1 ++
  XTEST_MAC_CASE TEE_ALG_HMAC_SHA256 TEE_TYPE_HMAC_SHA256 mac_data_sha256_key1
    1 mac_data_sha256_in1 mac_data_sha256_out1 ++
  XTEST_MAC_CASE TEE_ALG_HMAC_SHA256 TEE_TYPE_HMAC_SHA256 mac_data_sha256_key2
    7 mac_data_sha256_in2 mac_data_sha256_out2 ++
  XTEST_MAC_CASE TEE_ALG_HMAC_SHA384 TEE_TYPE_HMAC_SHA384 mac_data_sha384_key1
    11 mac_data_sha384_in1 mac_data_sha384_out1 ++
  XTEST_MAC_CASE TEE_ALG_HMAC_SHA512 TEE_TYPE_HMAC_SHA512 mac_data_sha512_key1
    13 mac_data_sha512_in1 mac_data_sha512_out1 ++
  XTEST_MAC_CBC_CASE TEE_ALG_AES_CBC_MAC_NOPAD TEE_TYPE_AES
    mac_cbc_vect1_key 14 mac_cbc_vect1_data mac_cbc_vect1_out ++
  XTEST_MAC_CBC_CASE TEE_ALG_DES_CBC_MAC_NOPAD TEE_TYPE_DES
    mac_cbc_vect2_key 16 mac_cbc_vect2_data mac_cbc_vect2_out ++
  XTEST_MAC_CBC_CASE TEE_ALG_DES3_CBC_MAC_NOPAD TEE_TYPE_DES3
    mac_cbc_vect3_key 17 mac_cbc_vect3_data mac_cbc_vect3_out ++
  XTEST_MAC_CBC_CASE TEE_ALG_AES_CBC_MAC_PKCS5 TEE_TYPE_AES
    mac_cbc_vect4_key 11 mac_cbc_vect4_data mac_cbc_vect4_out ++
  XTEST_MAC_CBC_CASE TEE_ALG_DES_CBC_MAC_PKCS5 TEE_TYPE_DES
    mac_cbc_vect5_key 9 mac_cbc_vect5_data mac_cbc_vect5_out ++
  XTEST_MAC_CBC_CASE TEE_ALG_DES3_CBC_MAC_PKCS5 TEE_TYPE_DES3
    mac_cbc_vect6_key 4 mac_cbc_vect6_data mac_cbc_vect6_out ++
  XTEST_MAC_CBC_CASE TEE_ALG_AES_CBC_MAC_PKCS5 TEE_TYPE_AES
    mac_cbc_vect7_key 3 mac_cbc_vect7_data mac_cbc_vect7_out ++
  XTEST_MAC_CBC_CASE TEE_ALG_DES_CBC_MAC_PKCS5 TEE_TYPE_DES
    mac_cbc_vect8_key 23 mac_cbc_vect8_data mac_cbc_vect8_out ++
  XTEST_MAC_CBC_CASE TEE_ALG_DES3_CBC_MAC_PKCS5 TEE_TYPE_DES3
    mac_cbc_vect9_key 34 mac_cbc_vect9_data mac_cbc_vect9_out ++
  XTEST_MAC_CBC_CASE TEE_ALG_DES3_CBC_MAC_PKCS5 TEE_TYPE_DES3
    mac_cbc_vect10_key 4 mac_cbc_vect10_data mac_cbc_vect10_out ++
  [cmac_no_input mac_cmac_vect1_key mac_cmac_vect1_out] ++
  XTEST_MAC_CMAC_CASE mac_cmac_vect2_key 9 mac_cmac_vect2_data mac_cmac_vect2_out ++
  XTEST_MAC_CMAC_CASE mac_cmac_vect3_key 9 mac_cmac_vect3_data mac_cmac_vect3_out ++
  XTEST_MAC_CMAC_CASE mac_cmac_vect4_key 9 mac_cmac_vect4_data mac_cmac_vect4_out ++
  [cmac_no_input mac_cmac_vect5_key mac_cmac_vect5_out] ++
  XTEST_MAC_CMAC_CASE mac_cmac_vect6_key 9 mac_cmac_vect6_data mac_cmac_vect6_out ++
  XTEST_MAC_CMAC_CASE mac_cmac_vect7_key 9 mac_cmac_vect7_data mac_cmac_vect7_out ++
  XTEST_MAC_CMAC_CASE mac_cmac_vect8_key 9 mac_cmac_vect8_data mac_cmac_vect8_out ++
  [cmac_no_input mac_cmac_vect9_key mac_cmac_vect9_out] ++
  XTEST_MAC_CMAC_CASE mac_cmac_vect10_key 9 mac_cmac_vect10_data mac_cmac_vect10_out ++
  XTEST_MAC_CMAC_CASE mac_cmac_vect11_key 9 mac_cmac_vect11_data mac_cmac_vect11_out ++
  XTEST_MAC_CMAC_CASE mac_cmac_vect12_key 9 mac_cmac_vect12_data mac_cmac_vect12_out

/- Test 4003: the cipher cases -/

/-- Source: `struct xtest_ciph_case`; the field `in` is written `in_`. -/
structure xtest_ciph_case where
  algo : Nat
  mode : Nat
  key_type : Nat
  key1 : Ptr
  key1_len : Nat
  key2 : Ptr
  key2_len : Nat
  iv : Ptr
  iv_len : Nat
  in_incr : Nat
  in_ : Ptr
  in_len : Nat
  out : Ptr
  out_len : Nat
  line : Nat
  deriving DecidableEq, Repr

/- Test functions: the calls a test makes on its session -/

/-- The pointer `p + n`: a pointer stands for the bytes from its address to the end of its
array, a null pointer stays null. -/
def ptr_add (p : Ptr) (n : Nat) : Ptr := p.map (fun bs => bs.drop n)

/-- The bytes a callee is handed with a pointer and a length. -/
def chunk (p : Ptr) (len : Nat) : List Nat := (p.getD []).take len

/-- The local `TEE_Attribute key_attr` of the tests: an identifier and the `ref` view of its
content, a pointer and a length. -/
structure KeyAttr where
  attributeID : Nat
  buffer : Ptr
  length : Nat
  deriving DecidableEq, Repr

/-- A call of a test function on its session, with the arguments it passes: the wrappers
`ta_crypt_cmd_*` (output pointers left out, an in/out length by its value at the call) and
`TEEC_CloseSession`. -/
inductive TestCall where
  | allocate_operation (algo mode max_key_size : Nat)
  | free_operation (oph : Nat)
  | allocate_transient_object (obj_type max_key_size : Nat)
  | populate_transient_object (o : Nat) (attrs : List KeyAttr)
  | free_transient_object (o : Nat)
  | set_operation_key (oph key : Nat)
  | set_operation_key2 (oph key1 key2 : Nat)
  | reset_operation (oph : Nat)
  | copy_operation (dst_oph src_oph : Nat)
  | digest_update (oph : Nat) (chunk : Ptr) (chunk_size : Nat)
  | digest_do_final (oph : Nat) (chunk : Ptr) (chunk_len : Nat) (hash_len : Nat)
  | mac_init (oph : Nat) (iv : Ptr) (iv_len : Nat)
  | mac_update (oph : Nat) (chunk : Ptr) (chunk_size : Nat)
  | mac_final_compute (oph : Nat) (chunk : Ptr) (chunk_len : Nat) (hash_len : Nat)
  | cipher_init (oph : Nat) (iv : Ptr) (iv_len : Nat)
  | cipher_update (oph : Nat) (src : Ptr) (src_len : Nat) (dst_len : Nat)
  | cipher_do_final (oph : Nat) (src : Ptr) (src_len : Nat) (dst_len : Nat)
  | generate_key (o key_size : Nat) (params : List KeyAttr)
  | get_object_buffer_attribute (o attr_id : Nat) (blen : Nat)
  | get_object_value_attribute (o attr_id : Nat)
  | close_session
  deriving DecidableEq, Repr

/-- What a call hands back: the status, the handle stored through an output pointer (for the
allocating calls), and the bytes and the length stored through an output buffer and its
length pointer. -/
structure Reply where
  res : Nat
  handle : Nat
  out : List Nat
  out_size : Nat
  deriving DecidableEq, Repr

/-- What `TEEC_CloseSession`, a function without a result, hands back. -/
def Reply.nothing : Reply := ⟨TEEC_SUCCESS, 0, [], 0⟩

/-- The trusted application and the wrappers as a test sees them: the reply to the first, the
second, ... call of the run. -/
abbrev World := Nat → Reply

/-- Where control is: in the body, at the label `out` after a `goto out`, or still inside a
loop when the steps allowed to a run are used up. -/
inductive Flow where
  | next
  | out
  | spin
  deriving DecidableEq, Repr

/-- A run of a test function so far: its local variables, the test case, the calls made with
their replies in order, the number of replies used, and where control is. -/
structure Run (σ : Type) where
  vars : σ
  c : ADBG_Case_t
  log : List (TestCall × Reply)
  calls : Nat
  flow : Flow

/-- A statement of a test body.
* `invoke call store`: `if (!ADBG_EXPECT_TEEC_SUCCESS(c, ta_crypt_cmd_...(...))) goto out;`
  with what the call stores through its output pointers;
* `assign f`: assignments to local variables;
* `expect check`: a check that only records, `(void)ADBG_EXPECT_...(c, ...)`;
* `loop cond call after leave`:
  `while (cond) { if (!ADBG_EXPECT_TEEC_SUCCESS(c, call)) goto out; after; if (leave) break; }`.
-/
inductive Stmt (σ : Type) where
  | invoke (call : σ → TestCall) (store : σ → Reply → σ)
  | assign (f : σ → σ)
  | expect (check : σ → ADBG_Case_t → ADBG_Case_t)
  | loop (cond : σ → Bool) (call : σ → TestCall) (after : σ → σ) (leave : σ → Bool)

/-- The statement `if (!ADBG_EXPECT_TEEC_SUCCESS(c, call)) goto out;` run in the body: the
call is made and answered by the world, a status other than success is recorded and sends
control to `out`; the outputs of the call are taken over on success. -/
def invoke_run {σ : Type} (w : World) (call : σ → TestCall) (store : σ → Reply → σ)
    (st : Run σ) : Run σ :=
  let r := w st.calls
  let e := ADBG_EXPECT_TEEC_SUCCESS st.c r.res
  { vars := if e.1 then store st.vars r else st.vars
    c := e.2
    log := st.log ++ [(call st.vars, r)]
    calls := st.calls + 1
    flow := if e.1 then Flow.next else Flow.out }

/-- The loop of `Stmt.loop` run in the body for at most `fuel` turns; when the turns are used
up and the loop would go on, control stays inside (`Flow.spin`). -/
def loop_run {σ : Type} (w : World) (cond : σ → Bool) (call : σ → TestCall) (after : σ → σ)
    (leave : σ → Bool) : Nat → Run σ → Run σ
  | 0, st => if cond st.vars then { st with flow := Flow.spin } else st
  | fuel + 1, st =>
    if cond st.vars then
      let st1 := invoke_run w call (fun v _ => v) st
      match st1.flow with
      | Flow.next =>
        let st2 := { st1 with vars := after st1.vars }
        if leave st2.vars then st2 else loop_run w cond call after leave fuel st2
      | _ => st1
    else st

/-- One statement: it runs when control is in the body and is skipped otherwise. -/
def Stmt.run {σ : Type} (w : World) (fuel : Nat) (s : Stmt σ) (st : Run σ) : Run σ :=
  match st.flow with
  | Flow.next =>
    match s with
    | Stmt.invoke call store => invoke_run w call store st
    | Stmt.assign f => { st with vars := f st.vars }
    | Stmt.expect check => { st with c := check st.vars st.c }
    | Stmt.loop cond call after leave => loop_run w cond call after leave fuel st
  | _ => st

/-- A list of statements, one after the other. -/
def exec {σ : Type} (w : World) (fuel : Nat) : List (Stmt σ) → Run σ → Run σ
  | [], st => st
  | s :: rest, st => exec w fuel rest (s.run w fuel st)

/-- The code at the label `out` of the tests: `TEEC_CloseSession(&session);`, reached by
falling out of the loop over the cases or by `goto out`, and not reached by a run that is
still inside a loop. -/
def at_out {σ : Type} (st : Run σ) : Run σ :=
  match st.flow with
  | Flow.spin => st
  | _ => { st with log := st.log ++ [(TestCall.close_session, Reply.nothing)] }

/-- A test function whose body is `for (n = 0; n < ARRAY_SIZE(cases); n++) { body }` between
opening the session (`return` when that fails) and the label `out`. -/
def run_cases {σ κ : Type} (w : World) (fuel : Nat) (cases : List κ) (body : κ → List (Stmt σ))
    (init : σ) (open_res : Nat) (c : ADBG_Case_t) : Run σ :=
  let e := ADBG_EXPECT_TEEC_SUCCESS c open_res
  let st : Run σ := { vars := init, c := e.2, log := [], calls := 0, flow := Flow.next }
  if ¬ e.1 then st else
  at_out (exec w fuel (cases.flatMap body) st)

/-- Modelled from the spec: `ADBG_EXPECT_BUFFER(c, exp, exp_len, act, act_len)` of the ADBG
harness (not part of the sources): records a failure unless the two lengths agree and the
bytes do. -/
def ADBG_EXPECT_BUFFER (c : ADBG_Case_t) (expected : Ptr) (expected_len : Nat)
    (actual : List Nat) (actual_len : Nat) : Bool × ADBG_Case_t :=
  let e := chunk expected expected_len
  let a := actual.take actual_len
  if expected_len = actual_len ∧ e = a then (true, c)
  else (false, ⟨Failure.buffer e a :: c.failures⟩)

/-- Every call of the run succeeds. -/
def AllSucceed (w : World) : Prop := ∀ k, (w k).res = TEEC_SUCCESS

/-- A world in which every call succeeds; the k-th call hands back the handle `k + 1`, and
no bytes. -/
def numbering_world : World := fun k => ⟨TEEC_SUCCESS, k + 1, [], 0⟩

/-- The world `w` but for the reply to call `k`, which carries the status `res`. -/
def failing_at (w : World) (k res : Nat) : World := fun j =>
  if j = k then { w j with res := res } else w j

/-- The bytes of an ASCII text. -/
def ascii (s : String) : List Nat := s.toList.map Char.toNat

/- Test 4001: hash operations -/

/-- The local variables of the loop body of `xtest_tee_test_4001`. -/
structure Vars4001 where
  op1 : Nat
  op2 : Nat
  out : List Nat
  out_size : Nat
  deriving DecidableEq, Repr

/-- The locals before the first case; none of them is read before it is assigned. -/
def Vars4001.init : Vars4001 := ⟨0, 0, List.replicate 64 0, 0⟩

/-- The statements `out_size = sizeof(out); memset(out, 0, sizeof(out));` of test 4001. -/
def Vars4001.clear_out (v : Vars4001) : Vars4001 :=
  { v with out_size := 64, out := List.replicate 64 0 }

/-- What a do-final call leaves in `out` and `out_size`. -/
def Vars4001.store_out (v : Vars4001) (r : Reply) : Vars4001 :=
  { v with out := written v.out (some r.out), out_size := r.out_size }

/-- Source: the body of the loop of `xtest_tee_test_4001` for the case `cs`. -/
def hash_case_body (cs : xtest_hash_case) : List (Stmt Vars4001) :=
  [ Stmt.invoke (fun _ => TestCall.allocate_operation cs.algo TEE_MODE_DIGEST 0)
      (fun v r => { v with op1 := r.handle }),
    Stmt.invoke (fun _ => TestCall.allocate_operation cs.algo TEE_MODE_DIGEST 0)
      (fun v r => { v with op2 := r.handle }),
    Stmt.invoke (fun v => TestCall.digest_update v.op1 cs.in_ cs.in_incr) (fun v _ => v),
    Stmt.invoke (fun v => TestCall.copy_operation v.op2 v.op1) (fun v _ => v),
    Stmt.assign Vars4001.clear_out,
    Stmt.invoke
      (fun v => TestCall.digest_do_final v.op2 (ptr_add cs.in_ cs.in_incr)
        (size_sub cs.in_len cs.in_incr) v.out_size)
      Vars4001.store_out,
    Stmt.expect (fun v c => (ADBG_EXPECT_BUFFER c cs.out cs.out_len v.out v.out_size).2),
    Stmt.invoke (fun v => TestCall.reset_operation v.op1) (fun v _ => v),
    Stmt.assign Vars4001.clear_out,
    Stmt.invoke (fun v => TestCall.digest_do_final v.op1 cs.in_ cs.in_len v.out_size)
      Vars4001.store_out,
    Stmt.expect (fun v c => (ADBG_EXPECT_BUFFER c cs.out cs.out_len v.out v.out_size).2),
    Stmt.assign Vars4001.clear_out,
    Stmt.invoke (fun v => TestCall.digest_do_final v.op1 cs.in_ cs.in_len v.out_size)
      Vars4001.store_out,
    Stmt.expect (fun v c => (ADBG_EXPECT_BUFFER c cs.out cs.out_len v.out v.out_size).2),
    Stmt.invoke (fun v => TestCall.free_operation v.op1) (fun v _ => v),
    Stmt.invoke (fun v => TestCall.free_operation v.op2) (fun v _ => v) ]

/-- Source: `xtest_tee_test_4001`; `open_res` is the result of opening the session. -/
def xtest_tee_test_4001 (w : World) (open_res : Nat) (c : ADBG_Case_t) : Run Vars4001 :=
  run_cases w 0 hash_cases hash_case_body Vars4001.init open_res c

/- Test 4002: MAC operations -/

/-- The local variables of `xtest_tee_test_4002` and of its loop body. -/
structure Vars4002 where
  op1 : Nat
  op2 : Nat
  key_handle : Nat
  out : List Nat
  out_size : Nat
  key_attr : KeyAttr
  key_size : Nat
  offs : Nat
  deriving DecidableEq, Repr

/-- The locals before the first case; none of them is read before it is assigned. -/
def Vars4002.init : Vars4002 := ⟨0, 0, 0, List.replicate 64 0, 0, ⟨0, none, 0⟩, 0, 0⟩

/-- The statements `out_size = sizeof(out); memset(out, 0, sizeof(out));` of test 4002. -/
def Vars4002.clear_out (v : Vars4002) : Vars4002 :=
  { v with out_size := 64, out := List.replicate 64 0 }

/-- What a final-compute call leaves in `out` and `out_size`. -/
def Vars4002.store_out (v : Vars4002) (r : Reply) : Vars4002 :=
  { v with out := written v.out (some r.out), out_size := r.out_size }

/-- Source: the loop of MAC updates of `xtest_tee_test_4002`,
`while (offs + in_incr < in_len) { update(op1, in + offs, in_incr); offs += in_incr;
if (!multiple_incr) break; }`, in `size_t` arithmetic. -/
def mac_update_loop (cs : xtest_mac_case) : Stmt Vars4002 :=
  Stmt.loop (fun v => decide (size_add v.offs cs.in_incr < cs.in_len))
    (fun v => TestCall.mac_update v.op1 (ptr_add cs.in_ v.offs) cs.in_incr)
    (fun v => { v with offs := size_add v.offs cs.in_incr })
    (fun _ => !cs.multiple_incr)

/-- Source: the body of the loop of `xtest_tee_test_4002` for the case `cs`, first part: from
the key attribute to `offs = 0`. -/
def mac_case_setup (cs : xtest_mac_case) : List (Stmt Vars4002) :=
  [ Stmt.assign (fun v => { v with key_attr := { v.key_attr with
      attributeID := TEE_ATTR_SECRET_VALUE } }),
    Stmt.assign (fun v => { v with key_attr := { v.key_attr with buffer := cs.key } }),
    Stmt.assign (fun v => { v with key_attr := { v.key_attr with length := cs.key_len } }),
    Stmt.assign (fun v => { v with key_size := v.key_attr.length * 8 % SIZE_MOD }) ] ++
  (if cs.key_type = TEE_TYPE_DES ∨ cs.key_type = TEE_TYPE_DES3 then
    [ Stmt.assign (fun v => { v with key_size := size_sub v.key_size (v.key_size / 8) }) ]
   else []) ++
  [ Stmt.invoke (fun v => TestCall.allocate_operation cs.algo TEE_MODE_MAC v.key_size)
      (fun v r => { v with op1 := r.handle }),
    Stmt.invoke (fun v => TestCall.allocate_operation cs.algo TEE_MODE_MAC v.key_size)
      (fun v r => { v with op2 := r.handle }),
    Stmt.invoke (fun v => TestCall.allocate_transient_object cs.key_type v.key_size)
      (fun v r => { v with key_handle := r.handle }),
    Stmt.invoke (fun v => TestCall.populate_transient_object v.key_handle [v.key_attr])
      (fun v _ => v),
    Stmt.invoke (fun v => TestCall.set_operation_key v.op1 v.key_handle) (fun v _ => v),
    Stmt.invoke (fun v => TestCall.free_transient_object v.key_handle) (fun v _ => v),
    Stmt.invoke (fun v => TestCall.mac_init v.op1 none 0) (fun v _ => v) ] ++
  [ Stmt.assign (fun v => { v with offs := 0 }) ]

/-- Source: the body of the loop of `xtest_tee_test_4002` for the case `cs`, second part:
`if (mac_cases[n].in != NULL) { while ... }`. -/
def mac_case_updates (cs : xtest_mac_case) : List (Stmt Vars4002) :=
  if cs.in_ ≠ none then [ mac_update_loop cs ] else []

/-- Source: the body of the loop of `xtest_tee_test_4002` for the case `cs`, third part: from
the copy of the operation to the end. -/
def mac_case_finish (cs : xtest_mac_case) : List (Stmt Vars4002) :=
  [ Stmt.invoke (fun v => TestCall.copy_operation v.op2 v.op1) (fun v _ => v),
    Stmt.assign Vars4002.clear_out,
    Stmt.invoke
      (fun v => TestCall.mac_final_compute v.op2 (ptr_add cs.in_ v.offs)
        (size_sub cs.in_len v.offs) v.out_size)
      Vars4002.store_out,
    Stmt.expect (fun v c => (ADBG_EXPECT_BUFFER c cs.out cs.out_len v.out v.out_size).2),
    Stmt.invoke (fun v => TestCall.mac_init v.op1 none 0) (fun v _ => v),
    Stmt.assign Vars4002.clear_out,
    Stmt.invoke (fun v => TestCall.mac_final_compute v.op1 cs.in_ cs.in_len v.out_size)
      Vars4002.store_out,
    Stmt.expect (fun v c => (ADBG_EXPECT_BUFFER c cs.out cs.out_len v.out v.out_size).2),
    Stmt.invoke (fun v => TestCall.free_operation v.op1) (fun v _ => v),
    Stmt.invoke (fun v => TestCall.free_operation v.op2) (fun v _ => v) ]

/-- Source: the body of the loop of `xtest_tee_test_4002` for the case `cs`. -/
def mac_case_body (cs : xtest_mac_case) : List (Stmt Vars4002) :=
  mac_case_setup cs ++ mac_case_updates cs ++ mac_case_finish cs

/-- Source: `xtest_tee_test_4002`; `open_res` is the result of opening the session, `fuel`
the number of turns allowed to each loop of updates. -/
def xtest_tee_test_4002 (w : World) (fuel : Nat) (open_res : Nat) (c : ADBG_Case_t) :
    Run Vars4002 :=
  run_cases w fuel mac_cases mac_case_body Vars4002.init open_res c

/- Test 4003: cipher operations -/

/-- The local variables of `xtest_tee_test_4003` and of its loop body. -/
structure Vars4003 where
  op : Nat
  key1_handle : Nat
  key2_handle : Nat
  out : List Nat
  out_size : Nat
  out_offs : Nat
  key_attr : KeyAttr
  key_size : Nat
  op_key_size : Nat
  deriving DecidableEq, Repr

/-- The locals before the first case: `key1_handle` and `key2_handle` are declared with the
initialiser `TEE_HANDLE_NULL`, the others are not read before they are assigned. -/
def Vars4003.init : Vars4003 :=
  ⟨0, TEE_HANDLE_NULL, TEE_HANDLE_NULL, List.replicate 2048 0, 0, 0, ⟨0, none, 0⟩, 0, 0⟩

/-- Source: the body of the loop of `xtest_tee_test_4003` for the case `cs`. -/
def ciph_case_body (cs : xtest_ciph_case) : List (Stmt Vars4003) :=
  [ Stmt.assign (fun v => { v with key_attr := { v.key_attr with
      attributeID := TEE_ATTR_SECRET_VALUE } }),
    Stmt.assign (fun v => { v with key_attr := { v.key_attr with buffer := cs.key1 } }),
    Stmt.assign (fun v => { v with key_attr := { v.key_attr with length := cs.key1_len } }),
    Stmt.assign (fun v => { v with key_size := v.key_attr.length * 8 % SIZE_MOD }) ] ++
  (if cs.key_type = TEE_TYPE_DES ∨ cs.key_type = TEE_TYPE_DES3 then
    [ Stmt.assign (fun v => { v with key_size := size_sub v.key_size (v.key_size / 8) }) ]
   else []) ++
  [ Stmt.assign (fun v => { v with op_key_size := v.key_size }) ] ++
  (if cs.key2 ≠ none then
    [ Stmt.assign (fun v => { v with op_key_size := v.op_key_size * 2 % SIZE_MOD }) ]
   else []) ++
  [ Stmt.invoke (fun v => TestCall.allocate_operation cs.algo cs.mode v.op_key_size)
      (fun v r => { v with op := r.handle }),
    Stmt.invoke (fun v => TestCall.allocate_transient_object cs.key_type v.key_size)
      (fun v r => { v with key1_handle := r.handle }),
    Stmt.invoke (fun v => TestCall.populate_transient_object v.key1_handle [v.key_attr])
      (fun v _ => v) ] ++
  (if cs.key2 ≠ none then
    [ Stmt.assign (fun v => { v with key_attr := { v.key_attr with buffer := cs.key2 } }),
      Stmt.assign (fun v => { v with key_attr := { v.key_attr with length := cs.key2_len } }),
      Stmt.invoke
        (fun v => TestCall.allocate_transient_object cs.key_type
          (v.key_attr.length * 8 % SIZE_MOD))
        (fun v r => { v with key2_handle := r.handle }),
      Stmt.invoke (fun v => TestCall.populate_transient_object v.key2_handle [v.key_attr])
        (fun v _ => v),
      Stmt.invoke (fun v => TestCall.set_operation_key2 v.op v.key1_handle v.key2_handle)
        (fun v _ => v) ]
   else
    [ Stmt.invoke (fun v => TestCall.set_operation_key v.op v.key1_handle) (fun v _ => v) ]) ++
  [ Stmt.invoke (fun v => TestCall.free_transient_object v.key1_handle) (fun v _ => v),
    Stmt.assign (fun v => { v with key1_handle := TEE_HANDLE_NULL }),
    Stmt.invoke (fun v => TestCall.free_transient_object v.key2_handle) (fun v _ => v),
    Stmt.assign (fun v => { v with key2_handle := TEE_HANDLE_NULL }),
    Stmt.invoke (fun v => TestCall.cipher_init v.op cs.iv cs.iv_len) (fun v _ => v),
    Stmt.assign (fun v => { v with out_offs := 0 }),
    Stmt.assign (fun v => { v with out_size := 2048, out := List.replicate 2048 0 }),
    Stmt.invoke (fun v => TestCall.cipher_update v.op cs.in_ cs.in_incr v.out_size)
      (fun v r => { v with out := written v.out (some r.out), out_size := r.out_size }) ] ++
  (if cs.algo = TEE_ALG_AES_CTR then
    [ Stmt.expect (fun v c => (ADBG_EXPECT_COMPARE_UNSIGNED_EQ c v.out_size cs.in_incr).2) ]
   else []) ++
  [ Stmt.assign (fun v => { v with out_offs := size_add v.out_offs v.out_size }),
    Stmt.assign (fun v => { v with out_size := size_sub 2048 v.out_offs }),
    Stmt.invoke
      (fun v => TestCall.cipher_do_final v.op (ptr_add cs.in_ cs.in_incr)
        (size_sub cs.in_len cs.in_incr) v.out_size)
      (fun v r => { v with
        out := v.out.take v.out_offs ++ written (v.out.drop v.out_offs) (some r.out),
        out_size := r.out_size }),
    Stmt.assign (fun v => { v with out_offs := size_add v.out_offs v.out_size }),
    Stmt.expect (fun v c => (ADBG_EXPECT_BUFFER c cs.out cs.out_len v.out v.out_offs).2),
    Stmt.invoke (fun v => TestCall.free_operation v.op) (fun v _ => v) ]

/-- Source: `xtest_tee_test_4003`, with the table `ciph_cases`, whose entries are built in
part from test vectors of other files, as the parameter `cases`; `open_res` is the result
of opening the session. -/
def xtest_tee_test_4003 (w : World) (cases : List xtest_ciph_case) (open_res : Nat)
    (c : ADBG_Case_t) : Run Vars4003 :=
  run_cases w 0 cases ciph_case_body Vars4003.init open_res c

/-- Source: `ciph_data_aes_key1`, 16 bytes. -/
def ciph_data_aes_key1 : List Nat :=
  [0x30, 0x31, 0x32, 0x33, 0x34, 0x35, 0x36, 0x37, 0x38, 0x39, 0x41, 0x42, 0x43, 0x44, 0x45,
   0x46]

/-- A case without a second key and without an IV, as `XTEST_CIPH_CASE_NO_IV` builds them:
AES-ECB encryption of one block of zeros under `ciph_data_aes_key1`, five bytes first. -/
def one_key_case : xtest_ciph_case :=
  { algo := TEE_ALG_AES_ECB_NOPAD, mode := TEE_MODE_ENCRYPT, key_type := TEE_TYPE_AES
    key1 := some ciph_data_aes_key1, key1_len := 16, key2 := none, key2_len := 0
    iv := none, iv_len := 0, in_incr := 5
    in_ := some (List.replicate 16 0), in_len := 16
    out := some (List.replicate 16 0), out_len := 16, line := 0 }

/-- A case with a second key, as `XTEST_CIPH_CASE_AES_XTS` builds them. -/
def two_key_case : xtest_ciph_case :=
  { algo := TEE_ALG_AES_XTS, mode := TEE_MODE_ENCRYPT, key_type := TEE_TYPE_AES
    key1 := some ciph_data_aes_key1, key1_len := 16
    key2 := some ciph_data_aes_key1, key2_len := 16
    iv := some (List.replicate 16 0), iv_len := 16, in_incr := 5
    in_ := some (List.replicate 32 0), in_len := 32
    out := some (List.replicate 32 0), out_len := 32, line := 0 }

/- Handles: which are live -/

/-- The two kinds of handles of the tests. -/
inductive Kind where
  | operation
  | object
  deriving DecidableEq, Repr

/-- Whether the call allocates a handle of the kind. -/
def TestCall.allocates (k : Kind) : TestCall → Bool
  | TestCall.allocate_operation _ _ _ => k = Kind.operation
  | TestCall.allocate_transient_object _ _ => k = Kind.object
  | _ => false

/-- The handle of the kind that the call frees, if it is a free call. -/
def TestCall.frees (k : Kind) : TestCall → Option Nat
  | TestCall.free_operation h => if k = Kind.operation then some h else none
  | TestCall.free_transient_object h => if k = Kind.object then some h else none
  | _ => none

/-- The handles of a kind that are live once the calls of a log have been made, starting
from the handles `live`: a successful allocation adds its handle, a free call takes its
handle away.  There is no answer (`none`) when a free call is applied to a handle that is
not live (unless `null_free` holds and the handle is `TEE_HANDLE_NULL`: then the call
changes nothing), or when the session is closed while a handle is live. -/
def audit (k : Kind) (null_free : Bool) : List (TestCall × Reply) → List Nat → Option (List Nat)
  | [], live => some live
  | (call, r) :: rest, live =>
    if call = TestCall.close_session then
      if live = [] then audit k null_free rest live else none
    else if call.allocates k then
      audit k null_free rest (if r.res = TEEC_SUCCESS then r.handle :: live else live)
    else
      match call.frees k with
      | some h =>
        if h ∈ live then audit k null_free rest (live.erase h)
        else if null_free ∧ h = TEE_HANDLE_NULL then audit k null_free rest live
        else none
      | none => audit k null_free rest live

/-- The calls of a log without their replies. -/
def calls_of (log : List (TestCall × Reply)) : List TestCall := log.map Prod.fst

/-- A run in which a failed call, if there is one, is the last call: with control at `out`
the log ends with the one call that failed, and otherwise every call so far succeeded. -/
def Run.Tidy {σ : Type} (st : Run σ) : Prop :=
  (st.flow ≠ Flow.out → ∀ e ∈ st.log, e.2.res = TEEC_SUCCESS) ∧
  (st.flow = Flow.out → ∃ pre e, st.log = pre ++ [e] ∧
    (∀ x ∈ pre, x.2.res = TEEC_SUCCESS) ∧ e.2.res ≠ TEEC_SUCCESS)

/- Test 4002: what the body of a case comes to -/

/-- The value of `key_size` of test 4002 once the first statements of the body have run: the
bits of the key, without the parity bits for DES and triple DES. -/
def mac_key_size (cs : xtest_mac_case) : Nat :=
  if cs.key_type = TEE_TYPE_DES ∨ cs.key_type = TEE_TYPE_DES3 then
    size_sub (cs.key_len * 8 % SIZE_MOD) (cs.key_len * 8 % SIZE_MOD / 8)
  else cs.key_len * 8 % SIZE_MOD

/-- The number of turns the loop of updates makes from the offset `o` when every update
succeeds and no sum wraps. -/
def updates_due (cs : xtest_mac_case) (o : Nat) : Nat :=
  if cs.multiple_incr then (cs.in_len - 1 - o) / cs.in_incr
  else if o + cs.in_incr < cs.in_len then 1 else 0

/-- The updates of `k` turns of the loop from the offset `o`, answered from reply `n` on. -/
def update_entries (w : World) (op1 : Nat) (cs : xtest_mac_case) :
    Nat → Nat → Nat → List (TestCall × Reply)
  | 0, _, _ => []
  | k + 1, o, n =>
    (TestCall.mac_update op1 (ptr_add cs.in_ o) cs.in_incr, w n) ::
      update_entries w op1 cs k (o + cs.in_incr) (n + 1)

/-- The chunks handed to the MAC updates of a log, in order. -/
def update_chunks : List (TestCall × Reply) → List (List Nat)
  | [] => []
  | (TestCall.mac_update _ p len, _) :: rest => chunk p len :: update_chunks rest
  | _ :: rest => update_chunks rest

/-- The operations and chunks handed to the MAC final-compute calls of a log, in order. -/
def final_chunks : List (TestCall × Reply) → List (Nat × Ptr × Nat)
  | [] => []
  | (TestCall.mac_final_compute oph p len _, _) :: rest => (oph, p, len) :: final_chunks rest
  | _ :: rest => final_chunks rest

/-- The destinations of the copy calls of a log, in order. -/
def copy_targets : List (TestCall × Reply) → List Nat
  | [] => []
  | (TestCall.copy_operation dst _, _) :: rest => dst :: copy_targets rest
  | _ :: rest => copy_targets rest

/-- The calls of the body of a MAC case of test 4002 that makes `k` updates, on a run where
every call succeeds: the handles are those handed back by the first three calls, replies
are taken from reply `n` on. -/
def mac_case_entries (w : World) (cs : xtest_mac_case) (k n : Nat) :
    List (TestCall × Reply) :=
  [ (TestCall.allocate_operation cs.algo TEE_MODE_MAC (mac_key_size cs), w n),
    (TestCall.allocate_operation cs.algo TEE_MODE_MAC (mac_key_size cs), w (n + 1)),
    (TestCall.allocate_transient_object cs.key_type (mac_key_size cs), w (n + 2)),
    (TestCall.populate_transient_object (w (n + 2)).handle
      [⟨TEE_ATTR_SECRET_VALUE, cs.key, cs.key_len⟩], w (n + 3)),
    (TestCall.set_operation_key (w n).handle (w (n + 2)).handle, w (n + 4)),
    (TestCall.free_transient_object (w (n + 2)).handle, w (n + 5)),
    (TestCall.mac_init (w n).handle none 0, w (n + 6)) ] ++
  update_entries w (w n).handle cs k 0 (n + 7) ++
  [ (TestCall.copy_operation (w (n + 1)).handle (w n).handle, w (n + 7 + k)),
    (TestCall.mac_final_compute (w (n + 1)).handle (ptr_add cs.in_ (k * cs.in_incr))
      (size_sub cs.in_len (k * cs.in_incr)) 64, w (n + 7 + k + 1)),
    (TestCall.mac_init (w n).handle none 0, w (n + 7 + k + 2)),
    (TestCall.mac_final_compute (w n).handle cs.in_ cs.in_len 64, w (n + 7 + k + 3)),
    (TestCall.free_operation (w n).handle, w (n + 7 + k + 4)),
    (TestCall.free_operation (w (n + 1)).handle, w (n + 7 + k + 5)) ]

/-- Whether a statement is a loop. -/
def Stmt.is_loop {σ : Type} : Stmt σ → Bool
  | Stmt.loop _ _ _ _ => true
  | _ => false

/- Test 4003: what the body of a case comes to -/

/-- The value of `key_size` of test 4003 once the first statements of the body have run: the
bits of the first key, without the parity bits for DES and triple DES. -/
def ciph_key_size (cs : xtest_ciph_case) : Nat :=
  if cs.key_type = TEE_TYPE_DES ∨ cs.key_type = TEE_TYPE_DES3 then
    size_sub (cs.key1_len * 8 % SIZE_MOD) (cs.key1_len * 8 % SIZE_MOD / 8)
  else cs.key1_len * 8 % SIZE_MOD

/-- The calls of the body of a cipher case of test 4003 on a run where every call succeeds:
`key2_before` is the value of `key2_handle` when the body starts, replies are taken from
reply `n` on. -/
def ciph_case_entries (w : World) (cs : xtest_ciph_case) (key2_before n : Nat) :
    List (TestCall × Reply) :=
  if cs.key2 ≠ none then
    [ (TestCall.allocate_operation cs.algo cs.mode (ciph_key_size cs * 2 % SIZE_MOD), w n),
      (TestCall.allocate_transient_object cs.key_type (ciph_key_size cs), w (n + 1)),
      (TestCall.populate_transient_object (w (n + 1)).handle
        [⟨TEE_ATTR_SECRET_VALUE, cs.key1, cs.key1_len⟩], w (n + 2)),
      (TestCall.allocate_transient_object cs.key_type (cs.key2_len * 8 % SIZE_MOD),
        w (n + 3)),
      (TestCall.populate_transient_object (w (n + 3)).handle
        [⟨TEE_ATTR_SECRET_VALUE, cs.key2, cs.key2_len⟩], w (n + 4)),
      (TestCall.set_operation_key2 (w n).handle (w (n + 1)).handle (w (n + 3)).handle,
        w (n + 5)),
      (TestCall.free_transient_object (w (n + 1)).handle, w (n + 6)),
      (TestCall.free_transient_object (w (n + 3)).handle, w (n + 7)),
      (TestCall.cipher_init (w n).handle cs.iv cs.iv_len, w (n + 8)),
      (TestCall.cipher_update (w n).handle cs.in_ cs.in_incr 2048, w (n + 9)),
      (TestCall.cipher_do_final (w n).handle (ptr_add cs.in_ cs.in_incr)
        (size_sub cs.in_len cs.in_incr) (size_sub 2048 (size_add 0 (w (n + 9)).out_size)),
        w (n + 10)),
      (TestCall.free_operation (w n).handle, w (n + 11)) ]
  else
    [ (TestCall.allocate_operation cs.algo cs.mode (ciph_key_size cs), w n),
      (TestCall.allocate_transient_object cs.key_type (ciph_key_size cs), w (n + 1)),
      (TestCall.populate_transient_object (w (n + 1)).handle
        [⟨TEE_ATTR_SECRET_VALUE, cs.key1, cs.key1_len⟩], w (n + 2)),
      (TestCall.set_operation_key (w n).handle (w (n + 1)).handle, w (n + 3)),
      (TestCall.free_transient_object (w (n + 1)).handle, w (n + 4)),
      (TestCall.free_transient_object key2_before, w (n + 5)),
      (TestCall.cipher_init (w n).handle cs.iv cs.iv_len, w (n + 6)),
      (TestCall.cipher_update (w n).handle cs.in_ cs.in_incr 2048, w (n + 7)),
      (TestCall.cipher_do_final (w n).handle (ptr_add cs.in_ cs.in_incr)
        (size_sub cs.in_len cs.in_incr) (size_sub 2048 (size_add 0 (w (n + 7)).out_size)),
        w (n + 8)),
      (TestCall.free_operation (w n).handle, w (n + 9)) ]

/-- The calls of a log that allocate or free a transient object, in order, with their
replies. -/
def object_entries (log : List (TestCall × Reply)) : List (TestCall × Reply) :=
  log.filter (fun e => e.1.allocates Kind.object || (e.1.frees Kind.object).isSome)

/- Identifiers of the TEE Internal API used by the key tests -/

/-- Modelled from the spec: `TEE_TYPE_GENERIC_SECRET` of tee_api_defines.h (not part of the sources);
only that the identifiers of one kind differ is used. -/
def TEE_TYPE_GENERIC_SECRET : Nat := 0xA0000000

/-- Modelled from the spec: `TEE_TYPE_RSA_KEYPAIR` of tee_api_defines.h (not part of the sources);
only that the identifiers of one kind differ is used. -/
def TEE_TYPE_RSA_KEYPAIR : Nat := 0xA1000030

/-- Modelled from the spec: `TEE_TYPE_DSA_KEYPAIR` of tee_api_defines.h (not part of the sources);
only that the identifiers of one kind differ is used. -/
def TEE_TYPE_DSA_KEYPAIR : Nat := 0xA1000031

/-- Modelled from the spec: `TEE_TYPE_DH_KEYPAIR` of tee_api_defines.h (not part of the sources);
only that the identifiers of one kind differ is used. -/
def TEE_TYPE_DH_KEYPAIR : Nat := 0xA1000032

/-- Modelled from the spec: `TEE_TYPE_ECDSA_KEYPAIR` of tee_api_defines.h (not part of the sources);
only that the identifiers of one kind differ is used. -/
def TEE_TYPE_ECDSA_KEYPAIR : Nat := 0xA1000041

/-- Modelled from the spec: `TEE_TYPE_ECDH_KEYPAIR` of tee_api_defines.h (not part of the sources);
only that the identifiers of one kind differ is used. -/
def TEE_TYPE_ECDH_KEYPAIR : Nat := 0xA1000042

/-- Modelled from the spec: `TEE_ATTR_RSA_MODULUS` of tee_api_defines.h (not part of the sources);
of an attribute the flag
`TEE_ATTR_BIT_VALUE` (bit 29) tells whether it is a value, and the identifiers differ. -/
def TEE_ATTR_RSA_MODULUS : Nat := 0xD0000130

/-- Modelled from the spec: `TEE_ATTR_RSA_PUBLIC_EXPONENT` of tee_api_defines.h (not part of the sources);
of an attribute the flag
`TEE_ATTR_BIT_VALUE` (bit 29) tells whether it is a value, and the identifiers differ. -/
def TEE_ATTR_RSA_PUBLIC_EXPONENT : Nat := 0xD0000230

/-- Modelled from the spec: `TEE_ATTR_RSA_PRIVATE_EXPONENT` of tee_api_defines.h (not part of the sources);
of an attribute the flag
`TEE_ATTR_BIT_VALUE` (bit 29) tells whether it is a value, and the identifiers differ. -/
def TEE_ATTR_RSA_PRIVATE_EXPONENT : Nat := 0xC0000330

/-- Modelled from the spec: `TEE_ATTR_RSA_PRIME1` of tee_api_defines.h (not part of the sources);
of an attribute the flag
`TEE_ATTR_BIT_VALUE` (bit 29) tells whether it is a value, and the identifiers differ. -/
def TEE_ATTR_RSA_PRIME1 : Nat := 0xC0000430

/-- Modelled from the spec: `TEE_ATTR_RSA_PRIME2` of tee_api_defines.h (not part of the sources);
of an attribute the flag
`TEE_ATTR_BIT_VALUE` (bit 29) tells whether it is a value, and the identifiers differ. -/
def TEE_ATTR_RSA_PRIME2 : Nat := 0xC0000530

/-- Modelled from the spec: `TEE_ATTR_RSA_EXPONENT1` of tee_api_defines.h (not part of the sources);
of an attribute the flag
`TEE_ATTR_BIT_VALUE` (bit 29) tells whether it is a value, and the identifiers differ. -/
def TEE_ATTR_RSA_EXPONENT1 : Nat := 0xC0000630

/-- Modelled from the spec: `TEE_ATTR_RSA_EXPONENT2` of tee_api_defines.h (not part of the sources);
of an attribute the flag
`TEE_ATTR_BIT_VALUE` (bit 29) tells whether it is a value, and the identifiers differ. -/
def TEE_ATTR_RSA_EXPONENT2 : Nat := 0xC0000730

/-- Modelled from the spec: `TEE_ATTR_RSA_COEFFICIENT` of tee_api_defines.h (not part of the sources);
of an attribute the flag
`TEE_ATTR_BIT_VALUE` (bit 29) tells whether it is a value, and the identifiers differ. -/
def TEE_ATTR_RSA_COEFFICIENT : Nat := 0xC0000830

/-- Modelled from the spec: `TEE_ATTR_DSA_PRIME` of tee_api_defines.h (not part of the sources);
of an attribute the flag
`TEE_ATTR_BIT_VALUE` (bit 29) tells whether it is a value, and the identifiers differ. -/
def TEE_ATTR_DSA_PRIME : Nat := 0xD0001031

/-- Modelled from the spec: `TEE_ATTR_DSA_SUBPRIME` of tee_api_defines.h (not part of the sources);
of an attribute the flag
`TEE_ATTR_BIT_VALUE` (bit 29) tells whether it is a value, and the identifiers differ. -/
def TEE_ATTR_DSA_SUBPRIME : Nat := 0xD0001131

/-- Modelled from the spec: `TEE_ATTR_DSA_BASE` of tee_api_defines.h (not part of the sources);
of an attribute the flag
`TEE_ATTR_BIT_VALUE` (bit 29) tells whether it is a value, and the identifiers differ. -/
def TEE_ATTR_DSA_BASE : Nat := 0xD0001231

/-- Modelled from the spec: `TEE_ATTR_DSA_PUBLIC_VALUE` of tee_api_defines.h (not part of the sources);
of an attribute the flag
`TEE_ATTR_BIT_VALUE` (bit 29) tells whether it is a value, and the identifiers differ. -/
def TEE_ATTR_DSA_PUBLIC_VALUE : Nat := 0xD0000131

/-- Modelled from the spec: `TEE_ATTR_DSA_PRIVATE_VALUE` of tee_api_defines.h (not part of the sources);
of an attribute the flag
`TEE_ATTR_BIT_VALUE` (bit 29) tells whether it is a value, and the identifiers differ. -/
def TEE_ATTR_DSA_PRIVATE_VALUE : Nat := 0xC0000231

/-- Modelled from the spec: `TEE_ATTR_DH_PRIME` of tee_api_defines.h (not part of the sources);
of an attribute the flag
`TEE_ATTR_BIT_VALUE` (bit 29) tells whether it is a value, and the identifiers differ. -/
def TEE_ATTR_DH_PRIME : Nat := 0xD0001032

/-- Modelled from the spec: `TEE_ATTR_DH_BASE` of tee_api_defines.h (not part of the sources);
of an attribute the flag
`TEE_ATTR_BIT_VALUE` (bit 29) tells whether it is a value, and the identifiers differ. -/
def TEE_ATTR_DH_BASE : Nat := 0xD0001232

/-- Modelled from the spec: `TEE_ATTR_DH_PUBLIC_VALUE` of tee_api_defines.h (not part of the sources);
of an attribute the flag
`TEE_ATTR_BIT_VALUE` (bit 29) tells whether it is a value, and the identifiers differ. -/
def TEE_ATTR_DH_PUBLIC_VALUE : Nat := 0xD0000132

/-- Modelled from the spec: `TEE_ATTR_DH_PRIVATE_VALUE` of tee_api_defines.h (not part of the sources);
of an attribute the flag
`TEE_ATTR_BIT_VALUE` (bit 29) tells whether it is a value, and the identifiers differ. -/
def TEE_ATTR_DH_PRIVATE_VALUE : Nat := 0xC0000232

/-- Modelled from the spec: `TEE_ATTR_DH_X_BITS` of tee_api_defines.h (not part of the sources);
of an attribute the flag
`TEE_ATTR_BIT_VALUE` (bit 29) tells whether it is a value, and the identifiers differ. -/
def TEE_ATTR_DH_X_BITS : Nat := 0xF0001332

/-- Modelled from the spec: `TEE_ATTR_ECC_PUBLIC_VALUE_X` of tee_api_defines.h (not part of the sources);
of an attribute the flag
`TEE_ATTR_BIT_VALUE` (bit 29) tells whether it is a value, and the identifiers differ. -/
def TEE_ATTR_ECC_PUBLIC_VALUE_X : Nat := 0xD0000141

/-- Modelled from the spec: `TEE_ATTR_ECC_PUBLIC_VALUE_Y` of tee_api_defines.h (not part of the sources);
of an attribute the flag
`TEE_ATTR_BIT_VALUE` (bit 29) tells whether it is a value, and the identifiers differ. -/
def TEE_ATTR_ECC_PUBLIC_VALUE_Y : Nat := 0xD0000241

/-- Modelled from the spec: `TEE_ATTR_ECC_PRIVATE_VALUE` of tee_api_defines.h (not part of the sources);
of an attribute the flag
`TEE_ATTR_BIT_VALUE` (bit 29) tells whether it is a value, and the identifiers differ. -/
def TEE_ATTR_ECC_PRIVATE_VALUE : Nat := 0xC0000341

/-- Modelled from the spec: `TEE_ATTR_ECC_CURVE` of tee_api_defines.h (not part of the sources);
of an attribute the flag
`TEE_ATTR_BIT_VALUE` (bit 29) tells whether it is a value, and the identifiers differ. -/
def TEE_ATTR_ECC_CURVE : Nat := 0xF0000441

/- Helper functions of the tests: calls with an early return -/

/-- What a helper function of the tests passes on: the test case, the calls made with their
replies in order, and the number of replies used. -/
structure Trail where
  c : ADBG_Case_t
  log : List (TestCall × Reply)
  calls : Nat
  deriving DecidableEq, Repr

/-- The condition `ADBG_EXPECT_TEEC_SUCCESS(c, ta_crypt_cmd_...(...))` of a helper function:
the call is made and answered by the world, a status other than success is recorded.
The reply, whether the status is success, and the trail behind the call. -/
def Trail.invoke (w : World) (t : Trail) (call : TestCall) : Reply × Bool × Trail :=
  let r := w t.calls
  let e := ADBG_EXPECT_TEEC_SUCCESS t.c r.res
  (r, e.1, ⟨e.2, t.log ++ [(call, r)], t.calls + 1⟩)

/-- Modelled from the spec: `ADBG_EXPECT_TRUE(c, b)` of the ADBG harness (not part of the
sources): records a failure unless `b` is true, and tells whether it was. -/
def ADBG_EXPECT_TRUE (c : ADBG_Case_t) (b : Bool) : Bool × ADBG_Case_t :=
  if b then (true, c) else (false, ⟨Failure.not_true :: c.failures⟩)

/-- Modelled from the spec: `ADBG_EXPECT_COMPARE_UNSIGNED(c, lhs, <, rhs)` of the ADBG
harness (not part of the sources): records a failure unless the left side is smaller. -/
def ADBG_EXPECT_COMPARE_UNSIGNED_LT (c : ADBG_Case_t) (lhs rhs : Nat) : Bool × ADBG_Case_t :=
  if lhs < rhs then (true, c) else (false, ⟨Failure.compare_unsigned lhs rhs :: c.failures⟩)

/- The helper `create_key` -/

/-- The arguments of the move and of the zero fill that `create_key` makes when fewer bytes
were read back than the attribute declares. -/
structure PadStep where
  /-- the offset `length - out_size` of the destination of the move -/
  dst : Nat
  /-- the offset 0 of the source of the move -/
  src : Nat
  /-- the length `length - out_size` of the zero fill, which starts at offset 0 -/
  fill_len : Nat
  /-- the length `length` of the move -/
  len : Nat
  deriving DecidableEq, Repr

/-- Source: `create_key`, the arguments of
`memmove(out + (length - out_size), out, length)` and `memset(out, 0, length - out_size)`
for an attribute of `length` bytes read back with `out_size` bytes. -/
def pad_step (out_size length : Nat) : PadStep :=
  { dst := size_sub length out_size, src := 0, fill_len := size_sub length out_size,
    len := length }

/-- Source: `create_key`, the statement `if (out_size < attrs[n].content.ref.length) { ... }`:
the buffer `out` and `out_size` behind it. -/
def pad_left (out : List Nat) (out_size length : Nat) : List Nat × Nat :=
  if out_size < length then
    let q := pad_step out_size length
    let out := memmove out q.dst q.src q.len
    let out := memset out 0 0 q.fill_len
    (out, length)
  else (out, out_size)

/-- One pass of the loop of `create_key` that reaches the comparison (a ghost record): the
attribute, the reply to the read-back, `out` and `out_size` behind the read-back and as
they are compared, and whether the two sides are equal. -/
structure Comparison where
  attr : KeyAttr
  reply : Reply
  read : List Nat
  read_size : Nat
  out : List Nat
  out_size : Nat
  equal : Bool
  deriving DecidableEq, Repr

/-- Source: `create_key`, the loop over the attributes, which are given by the `ref` view of
their content.  The result, the trail and the comparisons made. -/
def create_key_loop (w : World) (handle : Nat) :
    List KeyAttr → Trail → List Comparison → Bool × Trail × List Comparison
  | [], t, cmps => (true, t, cmps)
  | a :: rest, t, cmps =>
    let out_size := 512
    let out := List.replicate 512 0
    if a.attributeID = TEE_ATTR_ECC_CURVE then create_key_loop w handle rest t cmps
    else
      let x := t.invoke w (TestCall.get_object_buffer_attribute handle a.attributeID out_size)
      if ¬ x.2.1 then (false, x.2.2, cmps)
      else
        let t := x.2.2
        let read := written out (some x.1.out)
        let read_size := x.1.out_size
        let p := pad_left read read_size a.length
        let e := ADBG_EXPECT_BUFFER t.c a.buffer a.length p.1 p.2
        let t := { t with c := e.2 }
        let cmps := cmps ++ [⟨a, x.1, read, read_size, p.1, p.2, e.1⟩]
        if ¬ e.1 then (false, t, cmps)
        else create_key_loop w handle rest t cmps

/-- Source: `create_key`.  The result, the handle stored through `handle`, the trail and the
comparisons made. -/
def create_key (w : World) (t : Trail) (max_key_size key_type : Nat) (attrs : List KeyAttr)
    (handle : Nat) : Bool × Nat × Trail × List Comparison :=
  let x := t.invoke w (TestCall.allocate_transient_object key_type max_key_size)
  if ¬ x.2.1 then (false, handle, x.2.2, [])
  else
    let handle := x.1.handle
    let y := x.2.2.invoke w (TestCall.populate_transient_object handle attrs)
    if ¬ y.2.1 then (false, handle, y.2.2, [])
    else
      let z := create_key_loop w handle attrs y.2.2 []
      (z.1, handle, z.2.1, z.2.2)

/-- An attribute of 4 bytes. -/
def sample_key_attr : KeyAttr := ⟨TEE_ATTR_RSA_PUBLIC_EXPONENT, some [0, 1, 0, 1], 4⟩

/-- A world in which every call succeeds and a read-back hands over the three bytes
01 00 01. -/
def short_read_world : World := fun k => ⟨TEEC_SUCCESS, k + 1, [1, 0, 1], 3⟩

/- Generated keys: `test_keygen_attributes` and `generate_and_test_key` -/

/-- Source: `struct key_attrs`. -/
structure key_attrs where
  name : String
  attr : Nat
  keysize_check : Nat
  deriving DecidableEq, Repr

/-- Source: `KEY_ATTR(x, y)`, with the text `#x` of the identifier passed as `name`. -/
def KEY_ATTR (name : String) (x : Nat) (y : Nat) : key_attrs := ⟨name, x, y⟩

/-- Source: `test_keygen_attributes`.  A byte of `out` behind its end reads as 0. -/
def test_keygen_attributes (w : World) (key key_size : Nat) :
    List key_attrs → Trail → Bool × Trail
  | [], t => (true, t)
  | a :: rest, t =>
    if a.attr &&& TEE_ATTR_BIT_VALUE = 0 then
      let out_size := 2048
      let out := List.replicate 2048 0
      let x := t.invoke w (TestCall.get_object_buffer_attribute key a.attr out_size)
      if ¬ x.2.1 then (false, x.2.2)
      else
        let t := x.2.2
        let out := written out (some x.1.out)
        let out_size := x.1.out_size
        let t := if a.keysize_check ≠ 0 then
            { t with c := (ADBG_EXPECT_COMPARE_UNSIGNED_EQ t.c out_size (key_size / 8)).2 }
          else t
        if 0 < out_size then
          let n := scan (fun k => out.getD k 0 ≠ 0) out_size 0
          let e := ADBG_EXPECT_COMPARE_UNSIGNED_LT t.c n out_size
          let t := { t with c := e.2 }
          if ¬ e.1 then (false, t)
          else test_keygen_attributes w key key_size rest t
        else test_keygen_attributes w key key_size rest t
    else
      let x := t.invoke w (TestCall.get_object_value_attribute key a.attr)
      if ¬ x.2.1 then (false, x.2.2)
      else test_keygen_attributes w key key_size rest x.2.2

/-- Source: `test_secret_value`. -/
def test_secret_value (w : World) (t : Trail) (key key_size : Nat) : Bool × Trail :=
  test_keygen_attributes w key key_size
    [ KEY_ATTR "TEE_ATTR_SECRET_VALUE" TEE_ATTR_SECRET_VALUE 1 ] t

/-- Source: `test_rsa_key_pair`. -/
def test_rsa_key_pair (w : World) (t : Trail) (key key_size : Nat) : Bool × Trail :=
  test_keygen_attributes w key key_size
    [ KEY_ATTR "TEE_ATTR_RSA_MODULUS" TEE_ATTR_RSA_MODULUS 1,
      KEY_ATTR "TEE_ATTR_RSA_PUBLIC_EXPONENT" TEE_ATTR_RSA_PUBLIC_EXPONENT 0,
      KEY_ATTR "TEE_ATTR_RSA_PRIVATE_EXPONENT" TEE_ATTR_RSA_PRIVATE_EXPONENT 0,
      KEY_ATTR "TEE_ATTR_RSA_PRIME1" TEE_ATTR_RSA_PRIME1 0,
      KEY_ATTR "TEE_ATTR_RSA_PRIME2" TEE_ATTR_RSA_PRIME2 0,
      KEY_ATTR "TEE_ATTR_RSA_EXPONENT1" TEE_ATTR_RSA_EXPONENT1 0,
      KEY_ATTR "TEE_ATTR_RSA_EXPONENT2" TEE_ATTR_RSA_EXPONENT2 0,
      KEY_ATTR "TEE_ATTR_RSA_COEFFICIENT" TEE_ATTR_RSA_COEFFICIENT 0 ] t

/-- Source: `test_ecc_key_pair`. -/
def test_ecc_key_pair (w : World) (t : Trail) (key key_size : Nat) : Bool × Trail :=
  test_keygen_attributes w key key_size
    [ KEY_ATTR "TEE_ATTR_ECC_PRIVATE_VALUE" TEE_ATTR_ECC_PRIVATE_VALUE 0,
      KEY_ATTR "TEE_ATTR_ECC_PUBLIC_VALUE_X" TEE_ATTR_ECC_PUBLIC_VALUE_X 0,
      KEY_ATTR "TEE_ATTR_ECC_PUBLIC_VALUE_Y" TEE_ATTR_ECC_PUBLIC_VALUE_Y 0 ] t

/-- Source: `test_dh_key_pair`. -/
def test_dh_key_pair (w : World) (t : Trail) (key check_keysize : Nat) : Bool × Trail :=
  test_keygen_attributes w key check_keysize
    [ KEY_ATTR "TEE_ATTR_DH_PRIME" TEE_ATTR_DH_PRIME 0,
      KEY_ATTR "TEE_ATTR_DH_BASE" TEE_ATTR_DH_BASE 0,
      KEY_ATTR "TEE_ATTR_DH_PUBLIC_VALUE" TEE_ATTR_DH_PUBLIC_VALUE 0,
      KEY_ATTR "TEE_ATTR_DH_PRIVATE_VALUE" TEE_ATTR_DH_PRIVATE_VALUE check_keysize,
      KEY_ATTR "TEE_ATTR_DH_X_BITS" TEE_ATTR_DH_X_BITS 0 ] t

/-- Source: `test_dsa_key_pair`. -/
def test_dsa_key_pair (w : World) (t : Trail) (key key_size : Nat) : Bool × Trail :=
  test_keygen_attributes w key key_size
    [ KEY_ATTR "TEE_ATTR_DSA_PRIME" TEE_ATTR_DSA_PRIME 1,
      KEY_ATTR "TEE_ATTR_DSA_SUBPRIME" TEE_ATTR_DSA_SUBPRIME 0,
      KEY_ATTR "TEE_ATTR_DSA_BASE" TEE_ATTR_DSA_BASE 0,
      KEY_ATTR "TEE_ATTR_DSA_PUBLIC_VALUE" TEE_ATTR_DSA_PUBLIC_VALUE 0,
      KEY_ATTR "TEE_ATTR_DSA_PRIVATE_VALUE" TEE_ATTR_DSA_PRIVATE_VALUE 0 ] t

/-- Source: `generate_and_test_key`, the argument `key_size + key_size / 7` of the check of a
DES or triple DES key: the size with the parity bits, in `uint32_t` arithmetic. -/
def with_parity (key_size : Nat) : Nat := (key_size + key_size / 7) % 2 ^ 32

/-- Source: tests 4002 and 4003, the statement `key_size -= key_size / 8;` for a DES or triple
DES key: the size without the parity bits, in `size_t` arithmetic. -/
def without_parity (key_size : Nat) : Nat := size_sub key_size (key_size / 8)

/-- Source: `generate_and_test_key`, the `switch (key_type)`: the value of `ret_val` and the
trail behind it. -/
def check_generated (w : World) (t : Trail) (key_type check_keysize key_size key : Nat) :
    Bool × Trail :=
  let expect_true := fun (x : Bool × Trail) =>
    let e := ADBG_EXPECT_TRUE x.2.c x.1
    (e.1, { x.2 with c := e.2 })
  if key_type = TEE_TYPE_DES ∨ key_type = TEE_TYPE_DES3 then
    expect_true (test_secret_value w t key (with_parity key_size))
  else if key_type = TEE_TYPE_AES ∨ key_type = TEE_TYPE_HMAC_MD5 ∨
      key_type = TEE_TYPE_HMAC_SHA1 ∨ key_type = TEE_TYPE_HMAC_SHA224 ∨
      key_type = TEE_TYPE_HMAC_SHA256 ∨ key_type = TEE_TYPE_HMAC_SHA384 ∨
      key_type = TEE_TYPE_HMAC_SHA512 ∨ key_type = TEE_TYPE_GENERIC_SECRET then
    expect_true (test_secret_value w t key key_size)
  else if key_type = TEE_TYPE_RSA_KEYPAIR then
    expect_true (test_rsa_key_pair w t key key_size)
  else if key_type = TEE_TYPE_ECDSA_KEYPAIR ∨ key_type = TEE_TYPE_ECDH_KEYPAIR then
    expect_true (test_ecc_key_pair w t key key_size)
  else if key_type = TEE_TYPE_DH_KEYPAIR then
    expect_true (test_dh_key_pair w t key check_keysize)
  else if key_type = TEE_TYPE_DSA_KEYPAIR then
    expect_true (test_dsa_key_pair w t key key_size)
  else (false, t)

/-- Source: `generate_and_test_key`. -/
def generate_and_test_key (w : World) (t : Trail) (key_type check_keysize key_size : Nat)
    (params : List KeyAttr) : Bool × Trail :=
  let x := t.invoke w (TestCall.allocate_transient_object key_type key_size)
  if ¬ x.2.1 then (false, x.2.2)
  else
    let key := x.1.handle
    let y := x.2.2.invoke w (TestCall.generate_key key key_size params)
    if ¬ y.2.1 then (false, y.2.2)
    else
      let v := check_generated w y.2.2 key_type check_keysize key_size key
      let z := v.2.invoke w (TestCall.free_transient_object key)
      if ¬ z.2.1 then (false, z.2.2)
      else (v.1, z.2.2)

/- Test 4007: `keygen_noparams` -/

/-- Source: `struct key_types_noparam`. -/
structure key_types_noparam where
  level : Nat
  name : String
  key_type : Nat
  quanta : Nat
  min_size : Nat
  max_size : Nat
  deriving DecidableEq, Repr

/-- A call of `generate_and_test_key` by `keygen_noparams` (a ghost record): the trail
before the call, the key type, the key size, and whether the call was found true. -/
structure Attempt where
  before : Trail
  key_type : Nat
  key_size : Nat
  passed : Bool
  deriving DecidableEq, Repr

/-- A run of `keygen_noparams` so far: the trail, and the calls of `generate_and_test_key`
in order. -/
structure KeygenRun where
  trail : Trail
  tried : List Attempt
  deriving DecidableEq, Repr

/-- Source: `keygen_noparams`, the loop
`for (key_size = min_size; key_size <= max_size; key_size += quanta)` from the value
`key_size` on, the sum in `uint32_t` arithmetic, for at most `fuel` turns: `none` when the
turns are used up and the loop would go on. -/
def keygen_sizes (w : World) (key_type quanta max_size : Nat) :
    Nat → Nat → KeygenRun → Option KeygenRun
  | 0, key_size, r => if key_size ≤ max_size then none else some r
  | fuel + 1, key_size, r =>
    if key_size ≤ max_size then
      let x := generate_and_test_key w r.trail key_type 1 key_size []
      let e := ADBG_EXPECT_TRUE x.2.c x.1
      let r := { trail := { x.2 with c := e.2 },
                 tried := r.tried ++ [⟨r.trail, key_type, key_size, e.1⟩] }
      if ¬ e.1 then some r
      else keygen_sizes w key_type quanta max_size fuel ((key_size + quanta) % 2 ^ 32) r
    else some r

/-- Source: `keygen_noparams`, the body of the loop over the key types, for the entry
`kt`; `level` is the level at which the tests run, a global variable of the test
program. -/
def keygen_row (w : World) (level fuel : Nat) (kt : key_types_noparam) (r : KeygenRun) :
    Option KeygenRun :=
  let min_size := kt.min_size
  let max_size := kt.max_size
  let quanta := kt.quanta
  if kt.level > level then some r
  else keygen_sizes w kt.key_type quanta max_size fuel min_size r

/-- Source: `keygen_noparams`. -/
def keygen_noparams (w : World) (level fuel : Nat) :
    List key_types_noparam → KeygenRun → Option KeygenRun
  | [], r => some r
  | kt :: rest, r =>
    match keygen_row w level fuel kt r with
    | none => none
    | some r => keygen_noparams w level fuel rest r

/-- Source: `key_types` of `xtest_tee_test_4007_symmetric`. -/
def symmetric_key_types : List key_types_noparam :=
  [ ⟨0, "AES", TEE_TYPE_AES, 64, 128, 256⟩,
    ⟨0, "DES", TEE_TYPE_DES, 56, 56, 56⟩,
    ⟨0, "DES3", TEE_TYPE_DES3, 56, 112, 168⟩,
    ⟨0, "HMAC-MD5", TEE_TYPE_HMAC_MD5, 8, 64, 512⟩,
    ⟨0, "HMAC-SHA1", TEE_TYPE_HMAC_SHA1, 8, 80, 512⟩,
    ⟨0, "HMAC-SHA224", TEE_TYPE_HMAC_SHA224, 8, 112, 512⟩,
    ⟨0, "HMAC-SHA256", TEE_TYPE_HMAC_SHA256, 8, 192, 1024⟩,
    ⟨0, "HMAC-SHA384", TEE_TYPE_HMAC_SHA384, 8, 256, 1024⟩,
    ⟨0, "HMAC-SHA512", TEE_TYPE_HMAC_SHA512, 8, 256, 1024⟩,
    ⟨0, "Generic secret", TEE_TYPE_GENERIC_SECRET, 8, 128, 4096⟩ ]

/-- Source: `xtest_tee_test_4007_symmetric`; `open_res` is the result of opening the
session.  `none` when the turns allowed to a loop are used up. -/
def xtest_tee_test_4007_symmetric (w : World) (level fuel : Nat) (open_res : Nat)
    (c : ADBG_Case_t) : Option KeygenRun :=
  let e := ADBG_EXPECT_TEEC_SUCCESS c open_res
  if ¬ e.1 then some ⟨⟨e.2, [], 0⟩, []⟩
  else
    match keygen_noparams w level fuel symmetric_key_types ⟨⟨e.2, [], 0⟩, []⟩ with
    | none => none
    | some r =>
      some { r with trail := { r.trail with
        log := r.trail.log ++ [(TestCall.close_session, Reply.nothing)] } }

/-- The key sizes `min_size`, `min_size + quanta`, ... that do not exceed `max_size`. -/
def row_sizes (min_size quanta max_size : Nat) : List Nat :=
  if min_size ≤ max_size then
    (List.range ((max_size - min_size) / quanta + 1)).map (fun j => min_size + j * quanta)
  else []

/-- A world in which every call succeeds and a read-back hands over one byte 01. -/
def one_byte_world : World := fun k => ⟨TEEC_SUCCESS, k + 1, [1], 1⟩

/- Test 4003: the initialisers of the cipher cases -/

/-- Source: `XTEST_CIPH_CASE_NO_IV(algo, key_type, key, in_incr, ptx, ctx)`, which expands to
an encryption and a decryption entry; `line` stands for `__LINE__`. -/
def XTEST_CIPH_CASE_NO_IV (algo key_type : Nat) (key : List Nat) (in_incr : Nat)
    (ptx ctx : List Nat) (line : Nat) : List xtest_ciph_case :=
  [ ⟨algo, TEE_MODE_ENCRYPT, key_type, some key, key.length, none, 0, none, 0,
      in_incr, some ptx, ptx.length, some ctx, ctx.length, line⟩,
    ⟨algo, TEE_MODE_DECRYPT, key_type, some key, key.length, none, 0, none, 0,
      in_incr, some ctx, ctx.length, some ptx, ptx.length, line⟩ ]

/-- Source: `XTEST_CIPH_CASE(algo, key_type, key, iv, in_incr, ptx, ctx)`, which expands to an
encryption and a decryption entry; `line` stands for `__LINE__`.  The initialisers
`XTEST_CIPH_CASE_AES_CBC` and `XTEST_CIPH_CASE_AES_CTS` are instances of it. -/
def XTEST_CIPH_CASE (algo key_type : Nat) (key iv : List Nat) (in_incr : Nat)
    (ptx ctx : List Nat) (line : Nat) : List xtest_ciph_case :=
  [ ⟨algo, TEE_MODE_ENCRYPT, key_type, some key, key.length, none, 0, some iv, iv.length,
      in_incr, some ptx, ptx.length, some ctx, ctx.length, line⟩,
    ⟨algo, TEE_MODE_DECRYPT, key_type, some key, key.length, none, 0, some iv, iv.length,
      in_incr, some ctx, ctx.length, some ptx, ptx.length, line⟩ ]

/-- Source: `XTEST_CIPH_CASE_AES_XTS(vect, in_incr)`, which expands to an encryption and a
decryption entry; the five arrays that the macro names by pasting `vect` are passed in
full, `line` stands for `__LINE__`. -/
def XTEST_CIPH_CASE_AES_XTS (vect_key1 vect_key2 vect_iv : List Nat) (in_incr : Nat)
    (vect_ptx vect_ctx : List Nat) (line : Nat) : List xtest_ciph_case :=
  [ ⟨TEE_ALG_AES_XTS, TEE_MODE_ENCRYPT, TEE_TYPE_AES, some vect_key1, vect_key1.length,
      some vect_key2, vect_key2.length, some vect_iv, vect_iv.length,
      in_incr, some vect_ptx, vect_ptx.length, some vect_ctx, vect_ctx.length, line⟩,
    ⟨TEE_ALG_AES_XTS, TEE_MODE_DECRYPT, TEE_TYPE_AES, some vect_key1, vect_key1.length,
      some vect_key2, vect_key2.length, some vect_iv, vect_iv.length,
      in_incr, some vect_ctx, vect_ctx.length, some vect_ptx, vect_ptx.length, line⟩ ]

/-- A world in which every call succeeds; the k-th call hands back the handle `k + 1` and
the eight bytes 1 to 8. -/
def eight_byte_world : World := fun k => ⟨TEEC_SUCCESS, k + 1, [1, 2, 3, 4, 5, 6, 7, 8], 8⟩

/- Theorems -/

theorem teec_success_ne_short : TEEC_ERROR_SHORT_BUFFER ≠ TEEC_SUCCESS := by decide

/-- C1: for the eight wrappers with an output length, when the handle fits (and, for the
asymmetric wrapper, packing succeeded) the command is invoked once, and when it returns
success the caller's length variable is the size field the callee left in the output
slot: slot 2, slot 3 for the asymmetric wrapper, slots 2 (data) and 3 (tag) for
`ta_crypt_cmd_ae_encrypt_final`. -/
theorem output_length_read_back (pack : Packer) (inv : Invoker) (c : ADBG_Case_t) (oph : Nat)
    (src : Ptr) (src_len : Nat) (dst : Ptr) (dst_len : Nat) (tag : Ptr) (tag_len : Nat)
    (cmd : TA_CRYPT_CMD) (params : List TEE_Attribute) (hfit : oph ≤ UINT32_MAX) :
    ReadsBack inv [] TA_CRYPT_CMD_DIGEST_DO_FINAL 2 id
      (ta_crypt_cmd_digest_do_final inv c oph src src_len dst dst_len) ∧
    ReadsBack inv [] TA_CRYPT_CMD_MAC_FINAL_COMPUTE 2 id
      (ta_crypt_cmd_mac_final_compute inv c oph src src_len dst dst_len) ∧
    ReadsBack inv [] TA_CRYPT_CMD_CIPHER_UPDATE 2 id
      (ta_crypt_cmd_cipher_update inv c oph src src_len dst dst_len) ∧
    ReadsBack inv [] TA_CRYPT_CMD_CIPHER_DO_FINAL 2 id
      (ta_crypt_cmd_cipher_do_final inv c oph src src_len dst dst_len) ∧
    ReadsBack inv [] TA_CRYPT_CMD_AE_UPDATE 2 id
      (ta_crypt_cmd_ae_update inv c oph src src_len dst dst_len) ∧
    ReadsBack inv [] TA_CRYPT_CMD_AE_ENCRYPT_FINAL 2 Prod.fst
      (ta_crypt_cmd_ae_encrypt_final inv c oph src src_len dst dst_len tag tag_len) ∧
    ReadsBack inv [] TA_CRYPT_CMD_AE_ENCRYPT_FINAL 3 Prod.snd
      (ta_crypt_cmd_ae_encrypt_final inv c oph src src_len dst dst_len tag tag_len) ∧
    ReadsBack inv [] TA_CRYPT_CMD_AE_DECRYPT_FINAL 2 id
      (ta_crypt_cmd_ae_decrypt_final inv c oph src src_len dst dst_len tag tag_len) ∧
    ((pack params).res = TEEC_SUCCESS →
      ReadsBack inv [Event.pack_attrs params] cmd 3 id
        (ta_crypt_cmd_asymmetric_operate pack inv c oph cmd params src src_len dst dst_len)) := by
  have hn : ¬ ¬ oph ≤ UINT32_MAX := not_not.mpr hfit
  refine ⟨?_, ?_, ?_, ?_, ?_, ?_, ?_, ?_, ?_⟩
  · exact ⟨_, _, if_neg hn, rfl, rfl, fun h => if_pos h⟩
  · exact ⟨_, _, if_neg hn, rfl, rfl, fun h => if_pos h⟩
  · exact ⟨_, _, if_neg hn, rfl, rfl, fun h => if_pos h⟩
  · exact ⟨_, _, if_neg hn, rfl, rfl, fun h => if_pos h⟩
  · exact ⟨_, _, if_neg hn, rfl, rfl, fun h => if_pos h⟩
  · exact ⟨_, _, if_neg hn, rfl, rfl, fun h => if_pos h⟩
  · exact ⟨_, _, if_neg hn, rfl, rfl, fun h => if_pos h⟩
  · exact ⟨_, _, if_neg hn, rfl, rfl, fun h => if_pos h⟩
  · intro hp
    have he : ¬ ¬ (ADBG_EXPECT_TEEC_SUCCESS c (pack params).res).1 = true := by
      simp [ADBG_EXPECT_TEEC_SUCCESS, hp]
    exact ⟨_, _, (if_neg he).trans (if_neg hn), rfl, rfl, fun h => if_pos h⟩
/-- The cast to `uint32_t` keeps a value that fits. -/
theorem mod_u32 {h : Nat} (hh : h ≤ UINT32_MAX) : h % 4294967296 = h :=
  Nat.mod_eq_of_lt (by unfold UINT32_MAX at hh; omega)

set_option linter.unusedTactic false in
set_option maxHeartbeats 1000000 in
/-- A call whose handles fit and whose packing succeeded reaches the invoker once; the
block it hands over and the result it returns. -/
theorem run_reaches_invoker (pack : Packer) (inv : Invoker) (c : ADBG_Case_t) (w : Call)
    (hfit : w.handles_fit) (hp : w.pack_ok pack) :
    ∃ cmd op r, w.run pack inv c = some r ∧ r.trace = w.prelude ++ [Event.invoke cmd op] ∧
      r.res = (inv cmd op).res ∧
      (w.is_random = false → r.c = check_origin c (inv cmd op)) ∧
      (∀ h ∈ w.handle_args, op.value_field h.2.1 h.2.2 = h.1) ∧
      (w.as_called → op.paramTypes = expected_tags cmd w.iv_supplied) ∧
      (∀ i, (i ∉ r.filled → i ∉ r.read →
          op.paramTypes.get i = TEEC_NONE ∧ op.params.get i = TEEC_Parameter.zero) ∧
        (i ∈ r.filled → op.paramTypes.get i ≠ TEEC_NONE)) := by
  cases w <;>
    simp only [Call.handles_fit, Call.handle_args, List.mem_cons, List.mem_singleton,
      List.not_mem_nil, or_false, forall_eq_or_imp, forall_eq, false_imp_iff, imp_true_iff,
      and_true, implies_true] at hfit <;>
    simp only [Call.pack_ok, Call.attrs, Option.some.injEq, forall_eq', reduceCtorEq,
      false_imp_iff, implies_true] at hp <;>
    simp [Call.run, Call.prelude, Call.attrs, ta_crypt_cmd_reset_operation,
      ta_crypt_cmd_copy_operation, ta_crypt_cmd_digest_update, ta_crypt_cmd_digest_do_final,
      ta_crypt_cmd_set_operation_key2, ta_crypt_cmd_mac_init, ta_crypt_cmd_mac_update,
      ta_crypt_cmd_mac_final_compute, ta_crypt_cmd_cipher_init, ta_crypt_cmd_cipher_update,
      ta_crypt_cmd_cipher_do_final, ta_crypt_cmd_random_number_generate, ta_crypt_cmd_ae_init,
      ta_crypt_cmd_ae_update_aad, ta_crypt_cmd_ae_update, ta_crypt_cmd_ae_encrypt_final,
      ta_crypt_cmd_ae_decrypt_final, ta_crypt_cmd_asymmetric_operate,
      ta_crypt_cmd_asymmetric_encrypt, ta_crypt_cmd_asymmetric_decrypt,
      ta_crypt_cmd_asymmetric_sign, ta_crypt_cmd_asymmetric_verify,
      ta_crypt_cmd_get_object_value_attribute, ta_crypt_cmd_generate_key,
      ADBG_EXPECT_TEEC_SUCCESS, Ret.forget, hfit, hp]
  all_goals refine ⟨_, _, ⟨rfl, rfl⟩, rfl, ?_⟩
  all_goals try split_ifs
  all_goals refine ⟨?_, ?_, ?_, ?_⟩
  all_goals first
    | (intro i
       fin_cases i <;>
       simp [Binder.set_paramTypes, Binder.tmpref_size, Binder.tmpref_buffer, Binder.value_a,
         Binder.value_b, Binder.init, TEEC_OPERATION_INITIALIZER, TEEC_PARAM_TYPES,
         ParamTypes.get, Params.get, Params.set]
       done)
    | (intro a i f hmem
       simp only [Call.handle_args, List.mem_cons, List.mem_singleton, List.not_mem_nil,
         or_false, Prod.mk.injEq] at hmem
       all_goals
         (try casesm* _ ∨ _) <;> (try casesm* _ ∧ _) <;> subst_vars <;>
         simp [TEEC_Operation.value_field, Binder.set_paramTypes, Binder.tmpref_size,
           Binder.tmpref_buffer, Binder.value_a, Binder.value_b, Binder.init,
           TEEC_OPERATION_INITIALIZER, Params.get, Params.set, mod_u32, *]
       done)
    | (intro hr
       first
         | rfl
         | (simp [Call.is_random] at hr; done))
    | (intro hc
       first
         | rfl
         | (simp [Call.as_called] at hc
            rcases hc with hc | hc | hc <;> subst hc <;> rfl)
         | (subst_vars
            simp_all [expected_tags, Call.iv_supplied, Binder.set_paramTypes,
              Binder.tmpref_size, Binder.tmpref_buffer, Binder.value_a, Binder.value_b]
            done))

set_option maxHeartbeats 1000000 in
/-- A call with a handle that does not fit aborts on its assertion, once packing (if any)
has succeeded. -/
theorem run_aborts (pack : Packer) (inv : Invoker) (c : ADBG_Case_t) (w : Call)
    (hp : w.pack_ok pack) (hfit : ¬ w.handles_fit) : w.run pack inv c = none := by
  cases w <;>
    simp only [Call.handles_fit, Call.handle_args, List.mem_cons, List.mem_singleton,
      List.not_mem_nil, or_false, forall_eq_or_imp, forall_eq, false_imp_iff, imp_true_iff,
      and_true, implies_true, not_true_eq_false] at hfit <;>
    simp only [Call.pack_ok, Call.attrs, Option.some.injEq, forall_eq', reduceCtorEq,
      false_imp_iff, implies_true] at hp <;>
    simp [Call.run, ta_crypt_cmd_reset_operation,
      ta_crypt_cmd_copy_operation, ta_crypt_cmd_digest_update, ta_crypt_cmd_digest_do_final,
      ta_crypt_cmd_set_operation_key2, ta_crypt_cmd_mac_init, ta_crypt_cmd_mac_update,
      ta_crypt_cmd_mac_final_compute, ta_crypt_cmd_cipher_init, ta_crypt_cmd_cipher_update,
      ta_crypt_cmd_cipher_do_final, ta_crypt_cmd_random_number_generate, ta_crypt_cmd_ae_init,
      ta_crypt_cmd_ae_update_aad, ta_crypt_cmd_ae_update, ta_crypt_cmd_ae_encrypt_final,
      ta_crypt_cmd_ae_decrypt_final, ta_crypt_cmd_asymmetric_operate,
      ta_crypt_cmd_asymmetric_encrypt, ta_crypt_cmd_asymmetric_decrypt,
      ta_crypt_cmd_asymmetric_sign, ta_crypt_cmd_asymmetric_verify,
      ta_crypt_cmd_get_object_value_attribute, ta_crypt_cmd_generate_key,
      ADBG_EXPECT_TEEC_SUCCESS, hp] <;>
    intros <;> simp_all

set_option maxHeartbeats 1000000 in
/-- A call whose packing fails returns the packing status at once: a failure is recorded and
nothing else has happened. -/
theorem run_pack_failure (pack : Packer) (inv : Invoker) (c : ADBG_Case_t) (w : Call)
    (hp : ¬ w.pack_ok pack) :
    ∃ ps, w.attrs = some ps ∧ (pack ps).res ≠ TEEC_SUCCESS ∧
      w.run pack inv c = some
        { res := (pack ps).res, c := ⟨Failure.teec_result (pack ps).res :: c.failures⟩,
          trace := [Event.pack_attrs ps], filled := [], read := [], out := () } := by
  cases w <;>
    simp only [Call.pack_ok, Call.attrs, Option.some.injEq, forall_eq', reduceCtorEq,
      false_imp_iff, implies_true, not_true_eq_false] at hp <;>
    simp [Call.run, Call.attrs, ta_crypt_cmd_asymmetric_operate,
      ta_crypt_cmd_asymmetric_encrypt, ta_crypt_cmd_asymmetric_decrypt,
      ta_crypt_cmd_asymmetric_sign, ta_crypt_cmd_asymmetric_verify, ta_crypt_cmd_generate_key,
      ADBG_EXPECT_TEEC_SUCCESS, Ret.forget, Binder.init, hp]

/-- A result that contains an invocation comes from a call whose handles fit and whose
packing succeeded. -/
theorem invoked_only_if_fit (pack : Packer) (inv : Invoker) (c : ADBG_Case_t) (w : Call)
    (r : Ret Unit) (cmd : TA_CRYPT_CMD) (op : TEEC_Operation)
    (hrun : w.run pack inv c = some r) (hev : Event.invoke cmd op ∈ r.trace) :
    w.handles_fit ∧ w.pack_ok pack := by
  by_cases hp : w.pack_ok pack
  · by_cases hfit : w.handles_fit
    · exact ⟨hfit, hp⟩
    · rw [run_aborts pack inv c w hp hfit] at hrun
      cases hrun
  · obtain ⟨ps, _, _, hr⟩ := run_pack_failure pack inv c w hp
    rw [hr] at hrun
    cases hrun
    simp at hev

/-- The events before the invocation are packing events. -/
theorem invoke_not_in_prelude (w : Call) (cmd : TA_CRYPT_CMD) (op : TEEC_Operation) :
    Event.invoke cmd op ∉ w.prelude := by
  unfold Call.prelude
  cases w.attrs <;> simp

/-- The tag vector handed to the invoker by a call that reached it. -/
theorem invoked_tags (pack : Packer) (inv : Invoker) (c : ADBG_Case_t) (w : Call)
    (r : Ret Unit) (cmd : TA_CRYPT_CMD) (op : TEEC_Operation)
    (hrun : w.run pack inv c = some r) (hev : Event.invoke cmd op ∈ r.trace)
    (hc : w.as_called) : op.paramTypes = expected_tags cmd w.iv_supplied := by
  obtain ⟨hfit, hp⟩ := invoked_only_if_fit pack inv c w r cmd op hrun hev
  obtain ⟨cmd2, op2, r2, h2, ht, _, _, _, htag, _⟩ := run_reaches_invoker pack inv c w hfit hp
  rw [hrun] at h2
  cases h2
  rw [ht, List.mem_append] at hev
  rcases hev with hev | hev
  · exact absurd hev (invoke_not_in_prelude w cmd op)
  · simp only [List.mem_singleton, Event.invoke.injEq] at hev
    obtain ⟨rfl, rfl⟩ := hev
    exact htag hc

/-- C1, at a callee that succeeds and reports 20 bytes where 64 were offered. -/
theorem output_length_read_back_witness :
    (7 : Nat) ≤ UINT32_MAX ∧
    ReadsBack (sizing_callee 20) [] TA_CRYPT_CMD_DIGEST_DO_FINAL 2 id
      (ta_crypt_cmd_digest_do_final (sizing_callee 20) fresh_case 7 none 0 none 64) ∧
    ReadsBack (sizing_callee 20) [Event.pack_attrs sample_attrs]
      TA_CRYPT_CMD_ASYMMETRIC_SIGN_DIGEST 3 id
      (ta_crypt_cmd_asymmetric_operate pack_attrs (sizing_callee 20) fresh_case 7
        TA_CRYPT_CMD_ASYMMETRIC_SIGN_DIGEST sample_attrs none 0 none 64) :=
  have h := output_length_read_back pack_attrs (sizing_callee 20) fresh_case 7 none 0 none 64
    none 16 TA_CRYPT_CMD_ASYMMETRIC_SIGN_DIGEST sample_attrs (by decide)
  ⟨by decide, h.1, h.2.2.2.2.2.2.2.2 (by decide)⟩

/-- C2 as stated fails: the callee reports a short buffer and rewrites the size of the digest
slot to the 32 bytes it needs, `ta_crypt_cmd_digest_do_final` returns the short-buffer
status, and the caller's length still holds the 16 bytes it offered. -/
theorem short_buffer_size_not_copied :
    ¬ ReportsRequired (short_buffer_callee 2 32) [] TA_CRYPT_CMD_DIGEST_DO_FINAL 2
        (ta_crypt_cmd_digest_do_final (short_buffer_callee 2 32) fresh_case 1 none 0 none 16) ∧
    (ta_crypt_cmd_digest_do_final (short_buffer_callee 2 32) fresh_case 1 none 0 none 16).map
        (fun r => (r.res, r.out)) = some (TEEC_ERROR_SHORT_BUFFER, 16) := by
  refine ⟨?_, by decide⟩
  rintro ⟨r, op, hr, ht, h⟩
  have hn : ¬ ¬ (1 : Nat) ≤ UINT32_MAX := by decide
  simp only [ta_crypt_cmd_digest_do_final, hn, if_false, Option.some.injEq] at hr
  subst hr
  simp only [List.nil_append, List.cons.injEq, Event.invoke.injEq, true_and, and_true] at ht
  subst ht
  exact absurd (h rfl).2 (by decide)

/-- C2 (amended): for the four do-final style wrappers, when the handle fits (and, for the
asymmetric wrapper, packing succeeded) the command is invoked once, and when it fails
with the short-buffer status the wrapper returns that status and the caller's length
variable keeps the capacity that was passed in, whatever the callee wrote to the size
field of the output slot. -/
theorem short_buffer_keeps_capacity (pack : Packer) (inv : Invoker) (c : ADBG_Case_t)
    (oph : Nat) (src : Ptr) (src_len : Nat) (dst : Ptr) (dst_len : Nat)
    (cmd : TA_CRYPT_CMD) (params : List TEE_Attribute) (hfit : oph ≤ UINT32_MAX) :
    KeepsCapacity inv [] TA_CRYPT_CMD_DIGEST_DO_FINAL dst_len
      (ta_crypt_cmd_digest_do_final inv c oph src src_len dst dst_len) ∧
    KeepsCapacity inv [] TA_CRYPT_CMD_MAC_FINAL_COMPUTE dst_len
      (ta_crypt_cmd_mac_final_compute inv c oph src src_len dst dst_len) ∧
    KeepsCapacity inv [] TA_CRYPT_CMD_CIPHER_DO_FINAL dst_len
      (ta_crypt_cmd_cipher_do_final inv c oph src src_len dst dst_len) ∧
    ((pack params).res = TEEC_SUCCESS →
      KeepsCapacity inv [Event.pack_attrs params] cmd dst_len
        (ta_crypt_cmd_asymmetric_operate pack inv c oph cmd params src src_len dst dst_len)) := by
  have hn : ¬ ¬ oph ≤ UINT32_MAX := not_not.mpr hfit
  have hs : ∀ x : Nat, x = TEEC_ERROR_SHORT_BUFFER → ¬ x = TEEC_SUCCESS :=
    fun x hx => hx ▸ teec_success_ne_short
  refine ⟨?_, ?_, ?_, ?_⟩
  · exact ⟨_, _, if_neg hn, rfl, fun h => ⟨h, if_neg (hs _ h)⟩⟩
  · exact ⟨_, _, if_neg hn, rfl, fun h => ⟨h, if_neg (hs _ h)⟩⟩
  · exact ⟨_, _, if_neg hn, rfl, fun h => ⟨h, if_neg (hs _ h)⟩⟩
  · intro hp
    have he : ¬ ¬ (ADBG_EXPECT_TEEC_SUCCESS c (pack params).res).1 = true := by
      simp [ADBG_EXPECT_TEEC_SUCCESS, hp]
    exact ⟨_, _, (if_neg he).trans (if_neg hn), rfl, fun h => ⟨h, if_neg (hs _ h)⟩⟩

/-- C2 (amended), at a callee that asks for 32 bytes where 16 were offered. -/
theorem short_buffer_keeps_capacity_witness :
    (1 : Nat) ≤ UINT32_MAX ∧
    KeepsCapacity (short_buffer_callee 2 32) [] TA_CRYPT_CMD_DIGEST_DO_FINAL 16
      (ta_crypt_cmd_digest_do_final (short_buffer_callee 2 32) fresh_case 1 none 0 none 16) ∧
    KeepsCapacity (short_buffer_callee 3 32) [Event.pack_attrs sample_attrs]
      TA_CRYPT_CMD_ASYMMETRIC_SIGN_DIGEST 16
      (ta_crypt_cmd_asymmetric_operate pack_attrs (short_buffer_callee 3 32) fresh_case 1
        TA_CRYPT_CMD_ASYMMETRIC_SIGN_DIGEST sample_attrs none 0 none 16) :=
  have h2 := short_buffer_keeps_capacity pack_attrs (short_buffer_callee 2 32) fresh_case 1
    none 0 none 16 TA_CRYPT_CMD_ASYMMETRIC_SIGN_DIGEST sample_attrs (by decide)
  have h3 := short_buffer_keeps_capacity pack_attrs (short_buffer_callee 3 32) fresh_case 1
    none 0 none 16 TA_CRYPT_CMD_ASYMMETRIC_SIGN_DIGEST sample_attrs (by decide)
  ⟨by decide, h2.1, h3.2.2.2 (by decide)⟩

/-- C3: with a handle that fits in 32 bits, `ta_crypt_cmd_digest_do_final` invokes the
digest-do-final command once, with the tag vector (value-input, memref-input,
memref-output, none), the handle in `value.a` of slot 0, the chunk and its length in
slot 1, the digest buffer and the caller's capacity in slot 2, and everything else zero. -/
theorem digest_do_final_block (inv : Invoker) (c : ADBG_Case_t) (oph : Nat) (chunk : Ptr)
    (chunk_len : Nat) (hash : Ptr) (hash_len : Nat) (hfit : oph ≤ UINT32_MAX) :
    ∃ r, ta_crypt_cmd_digest_do_final inv c oph chunk chunk_len hash hash_len = some r ∧
      r.trace = [Event.invoke TA_CRYPT_CMD_DIGEST_DO_FINAL
        { started := 0
          paramTypes := TEEC_PARAM_TYPES TEEC_VALUE_INPUT TEEC_MEMREF_TEMP_INPUT
            TEEC_MEMREF_TEMP_OUTPUT TEEC_NONE
          params :=
            { s0 := { tmpref := { buffer := none, size := 0 }, value := { a := oph, b := 0 } }
              s1 := { tmpref := { buffer := chunk, size := chunk_len },
                      value := { a := 0, b := 0 } }
              s2 := { tmpref := { buffer := hash, size := hash_len },
                      value := { a := 0, b := 0 } }
              s3 := TEEC_Parameter.zero } }] := by
  have hn : ¬ ¬ oph ≤ UINT32_MAX := not_not.mpr hfit
  refine ⟨_, if_neg hn, ?_⟩
  have hm : oph % 2 ^ 32 = oph := mod_u32 hfit
  simp only [Binder.set_paramTypes, Binder.tmpref_size, Binder.tmpref_buffer, Binder.value_a,
    Binder.init, TEEC_OPERATION_INITIALIZER, Params.get, Params.set, hm, TEEC_Parameter.zero]

/-- C3, at handle 7 with a 3-byte chunk and a 16-byte digest buffer. -/
theorem digest_do_final_block_witness :
    (7 : Nat) ≤ UINT32_MAX ∧
    ∃ r, ta_crypt_cmd_digest_do_final (sizing_callee 16) fresh_case 7 (some [97, 98, 99]) 3
        none 16 = some r ∧
      r.trace = [Event.invoke TA_CRYPT_CMD_DIGEST_DO_FINAL
        { started := 0
          paramTypes := TEEC_PARAM_TYPES TEEC_VALUE_INPUT TEEC_MEMREF_TEMP_INPUT
            TEEC_MEMREF_TEMP_OUTPUT TEEC_NONE
          params :=
            { s0 := { tmpref := { buffer := none, size := 0 }, value := { a := 7, b := 0 } }
              s1 := { tmpref := { buffer := some [97, 98, 99], size := 3 },
                      value := { a := 0, b := 0 } }
              s2 := { tmpref := { buffer := none, size := 16 },
                      value := { a := 0, b := 0 } }
              s3 := TEEC_Parameter.zero } }] :=
  ⟨by decide, digest_do_final_block (sizing_callee 16) fresh_case 7 (some [97, 98, 99]) 3
    none 16 (by decide)⟩

/-- C4: with handles that fit in 32 bits, `ta_crypt_cmd_set_operation_key2` invokes the
set-key-2 command once, with the tag vector (value-input, value-input, none, none), the
operation handle in `value.a` and the first key in `value.b` of slot 0, the second key in
`value.a` of slot 1, and everything else zero. -/
theorem set_operation_key2_block (inv : Invoker) (c : ADBG_Case_t) (oph key1 key2 : Nat)
    (hoph : oph ≤ UINT32_MAX) (hkey1 : key1 ≤ UINT32_MAX) (hkey2 : key2 ≤ UINT32_MAX) :
    ∃ r, ta_crypt_cmd_set_operation_key2 inv c oph key1 key2 = some r ∧
      r.trace = [Event.invoke TA_CRYPT_CMD_SET_OPERATION_KEY2
        { started := 0
          paramTypes := TEEC_PARAM_TYPES TEEC_VALUE_INPUT TEEC_VALUE_INPUT TEEC_NONE TEEC_NONE
          params :=
            { s0 := { tmpref := { buffer := none, size := 0 }, value := { a := oph, b := key1 } }
              s1 := { tmpref := { buffer := none, size := 0 }, value := { a := key2, b := 0 } }
              s2 := TEEC_Parameter.zero
              s3 := TEEC_Parameter.zero } }] := by
  have h0 : ¬ ¬ oph ≤ UINT32_MAX := not_not.mpr hoph
  have h1 : ¬ ¬ key1 ≤ UINT32_MAX := not_not.mpr hkey1
  have h2 : ¬ ¬ key2 ≤ UINT32_MAX := not_not.mpr hkey2
  refine ⟨_, (if_neg h0).trans ((if_neg h1).trans (if_neg h2)), ?_⟩
  have m0 : oph % 2 ^ 32 = oph := mod_u32 hoph
  have m1 : key1 % 2 ^ 32 = key1 := mod_u32 hkey1
  have m2 : key2 % 2 ^ 32 = key2 := mod_u32 hkey2
  simp only [Binder.set_paramTypes, Binder.value_a, Binder.value_b,
    Binder.init, TEEC_OPERATION_INITIALIZER, Params.get, Params.set, m0, m1, m2,
    TEEC_Parameter.zero]

/-- C4, at operation handle 7 and key handles 8 and 9. -/
theorem set_operation_key2_block_witness :
    (7 : Nat) ≤ UINT32_MAX ∧ (8 : Nat) ≤ UINT32_MAX ∧ (9 : Nat) ≤ UINT32_MAX ∧
    ∃ r, ta_crypt_cmd_set_operation_key2 (sizing_callee 0) fresh_case 7 8 9 = some r ∧
      r.trace = [Event.invoke TA_CRYPT_CMD_SET_OPERATION_KEY2
        { started := 0
          paramTypes := TEEC_PARAM_TYPES TEEC_VALUE_INPUT TEEC_VALUE_INPUT TEEC_NONE TEEC_NONE
          params :=
            { s0 := { tmpref := { buffer := none, size := 0 }, value := { a := 7, b := 8 } }
              s1 := { tmpref := { buffer := none, size := 0 }, value := { a := 9, b := 0 } }
              s2 := TEEC_Parameter.zero
              s3 := TEEC_Parameter.zero } }] :=
  ⟨by decide, by decide, by decide,
    set_operation_key2_block (sizing_callee 0) fresh_case 7 8 9 (by decide) (by decide)
      (by decide)⟩

/-- C5 as stated fails: `ta_crypt_cmd_mac_init` and `ta_crypt_cmd_cipher_init` issue their
command with the tag vector (value-input, none, none, none) when the IV is `NULL` and
with (value-input, memref-input, none, none) when an IV is supplied. -/
theorem init_tags_depend_on_iv :
    issued (ta_crypt_cmd_mac_init (sizing_callee 0) fresh_case 1 none 0) =
      [(TA_CRYPT_CMD_MAC_INIT,
        TEEC_PARAM_TYPES TEEC_VALUE_INPUT TEEC_NONE TEEC_NONE TEEC_NONE)] ∧
    issued (ta_crypt_cmd_mac_init (sizing_callee 0) fresh_case 1 (some [0, 0, 0, 0]) 4) =
      [(TA_CRYPT_CMD_MAC_INIT,
        TEEC_PARAM_TYPES TEEC_VALUE_INPUT TEEC_MEMREF_TEMP_INPUT TEEC_NONE TEEC_NONE)] ∧
    issued (ta_crypt_cmd_cipher_init (sizing_callee 0) fresh_case 1 none 0) =
      [(TA_CRYPT_CMD_CIPHER_INIT,
        TEEC_PARAM_TYPES TEEC_VALUE_INPUT TEEC_NONE TEEC_NONE TEEC_NONE)] ∧
    issued (ta_crypt_cmd_cipher_init (sizing_callee 0) fresh_case 1 (some [0, 0, 0, 0]) 4) =
      [(TA_CRYPT_CMD_CIPHER_INIT,
        TEEC_PARAM_TYPES TEEC_VALUE_INPUT TEEC_MEMREF_TEMP_INPUT TEEC_NONE TEEC_NONE)] ∧
    TEEC_PARAM_TYPES TEEC_VALUE_INPUT TEEC_NONE TEEC_NONE TEEC_NONE ≠
      TEEC_PARAM_TYPES TEEC_VALUE_INPUT TEEC_MEMREF_TEMP_INPUT TEEC_NONE TEEC_NONE := by
  decide

/-- C5 (amended): take two wrapper calls, with whatever arguments, that both hand a block to
the invoker under the same command identifier.  If the command is neither MAC init nor
cipher init, both blocks carry the same tag vector.  If it is MAC init or cipher init, the
tag vector is (value-input, memref-input, none, none) when the call supplied an IV and
(value-input, none, none, none) when its IV was `NULL`, so both blocks carry the same
vector exactly when both calls agree on supplying an IV. -/
theorem tag_vector_per_command (pack1 pack2 : Packer) (inv1 inv2 : Invoker)
    (c1 c2 : ADBG_Case_t) (w1 w2 : Call) (r1 r2 : Ret Unit) (cmd : TA_CRYPT_CMD)
    (op1 op2 : TEEC_Operation)
    (hrun1 : w1.run pack1 inv1 c1 = some r1) (hev1 : Event.invoke cmd op1 ∈ r1.trace)
    (hrun2 : w2.run pack2 inv2 c2 = some r2) (hev2 : Event.invoke cmd op2 ∈ r2.trace)
    (hc1 : w1.as_called) (hc2 : w2.as_called) :
    (cmd ≠ TA_CRYPT_CMD_MAC_INIT → cmd ≠ TA_CRYPT_CMD_CIPHER_INIT →
      op1.paramTypes = op2.paramTypes) ∧
    (cmd = TA_CRYPT_CMD_MAC_INIT ∨ cmd = TA_CRYPT_CMD_CIPHER_INIT →
      op1.paramTypes =
        (if w1.iv_supplied then
          TEEC_PARAM_TYPES TEEC_VALUE_INPUT TEEC_MEMREF_TEMP_INPUT TEEC_NONE TEEC_NONE
        else TEEC_PARAM_TYPES TEEC_VALUE_INPUT TEEC_NONE TEEC_NONE TEEC_NONE) ∧
      (op1.paramTypes = op2.paramTypes ↔ w1.iv_supplied = w2.iv_supplied)) := by
  have t1 := invoked_tags pack1 inv1 c1 w1 r1 cmd op1 hrun1 hev1 hc1
  have t2 := invoked_tags pack2 inv2 c2 w2 r2 cmd op2 hrun2 hev2 hc2
  rw [t1, t2]
  constructor
  · intro hm hci
    cases cmd <;> first | rfl | exact absurd rfl hm | exact absurd rfl hci
  · intro h
    rcases h with h | h <;> subst h <;>
      cases w1.iv_supplied <;> cases w2.iv_supplied <;> simp [expected_tags, TEEC_PARAM_TYPES]

/-- C5 (amended), at two MAC init calls, the first without and the second with an IV. -/
theorem tag_vector_per_command_witness :
    (Call.mac_init 1 none 0).as_called ∧ (Call.mac_init 2 (some [0]) 1).as_called ∧
    TEEC_PARAM_TYPES TEEC_VALUE_INPUT TEEC_NONE TEEC_NONE TEEC_NONE =
      (if (Call.mac_init 1 none 0).iv_supplied then
        TEEC_PARAM_TYPES TEEC_VALUE_INPUT TEEC_MEMREF_TEMP_INPUT TEEC_NONE TEEC_NONE
      else TEEC_PARAM_TYPES TEEC_VALUE_INPUT TEEC_NONE TEEC_NONE TEEC_NONE) ∧
    (TEEC_PARAM_TYPES TEEC_VALUE_INPUT TEEC_NONE TEEC_NONE TEEC_NONE =
        TEEC_PARAM_TYPES TEEC_VALUE_INPUT TEEC_MEMREF_TEMP_INPUT TEEC_NONE TEEC_NONE ↔
      (Call.mac_init 1 none 0).iv_supplied = (Call.mac_init 2 (some [0]) 1).iv_supplied) :=
  ⟨trivial, trivial,
    (tag_vector_per_command failing_packer failing_packer (sizing_callee 0) (sizing_callee 0)
      fresh_case fresh_case (Call.mac_init 1 none 0) (Call.mac_init 2 (some [0]) 1)
      _ _ TA_CRYPT_CMD_MAC_INIT
      { started := 0
        paramTypes := TEEC_PARAM_TYPES TEEC_VALUE_INPUT TEEC_NONE TEEC_NONE TEEC_NONE
        params :=
          { s0 := { tmpref := { buffer := none, size := 0 }, value := { a := 1, b := 0 } }
            s1 := TEEC_Parameter.zero
            s2 := TEEC_Parameter.zero
            s3 := TEEC_Parameter.zero } }
      { started := 0
        paramTypes :=
          TEEC_PARAM_TYPES TEEC_VALUE_INPUT TEEC_MEMREF_TEMP_INPUT TEEC_NONE TEEC_NONE
        params :=
          { s0 := { tmpref := { buffer := none, size := 0 }, value := { a := 2, b := 0 } }
            s1 := { tmpref := { buffer := some [0], size := 1 }, value := { a := 0, b := 0 } }
            s2 := TEEC_Parameter.zero
            s3 := TEEC_Parameter.zero } }
      rfl (by decide) rfl (by decide) trivial trivial).2 (Or.inl rfl)⟩

/-- C6: a call whose handles fit and whose packing succeeded hands one block to the invoker;
in that block every slot that the wrapper neither assigned before the call nor reads
after it is tagged none and still has its zero initial content, and every slot the
wrapper assigned carries a tag other than none. -/
theorem unused_slots_are_none (pack : Packer) (inv : Invoker) (c : ADBG_Case_t) (w : Call)
    (hfit : w.handles_fit) (hp : w.pack_ok pack) :
    ∃ cmd op r, w.run pack inv c = some r ∧ r.trace = w.prelude ++ [Event.invoke cmd op] ∧
      ∀ i : Fin 4,
        (i ∉ r.filled → i ∉ r.read →
          op.paramTypes.get i = TEEC_NONE ∧ op.params.get i = TEEC_Parameter.zero) ∧
        (i ∈ r.filled → op.paramTypes.get i ≠ TEEC_NONE) := by
  obtain ⟨cmd, op, r, hrun, ht, _, _, _, _, hs⟩ := run_reaches_invoker pack inv c w hfit hp
  exact ⟨cmd, op, r, hrun, ht, hs⟩

/-- C6, at a MAC init call without an IV (slot 1 is not assigned and is tagged none) and at an
object value attribute call (slot 1 is not assigned but read back, and is tagged). -/
theorem unused_slots_are_none_witness :
    ((Call.mac_init 1 none 0).handles_fit ∧ (Call.mac_init 1 none 0).pack_ok pack_attrs ∧
      ∃ cmd op r,
        (Call.mac_init 1 none 0).run pack_attrs (sizing_callee 0) fresh_case = some r ∧
        r.trace = (Call.mac_init 1 none 0).prelude ++ [Event.invoke cmd op] ∧
        ∀ i : Fin 4,
          (i ∉ r.filled → i ∉ r.read →
            op.paramTypes.get i = TEEC_NONE ∧ op.params.get i = TEEC_Parameter.zero) ∧
          (i ∈ r.filled → op.paramTypes.get i ≠ TEEC_NONE)) ∧
    ∃ cmd op r, (Call.get_object_value_attribute 1 2 0 0).run pack_attrs (sizing_callee 0)
        fresh_case = some r ∧
      r.trace = (Call.get_object_value_attribute 1 2 0 0).prelude ++ [Event.invoke cmd op] ∧
      ∀ i : Fin 4,
        (i ∉ r.filled → i ∉ r.read →
          op.paramTypes.get i = TEEC_NONE ∧ op.params.get i = TEEC_Parameter.zero) ∧
        (i ∈ r.filled → op.paramTypes.get i ≠ TEEC_NONE) :=
  ⟨⟨by decide, by decide,
    unused_slots_are_none pack_attrs (sizing_callee 0) fresh_case (Call.mac_init 1 none 0)
      (by decide) (by decide)⟩,
   unused_slots_are_none pack_attrs (sizing_callee 0) fresh_case
      (Call.get_object_value_attribute 1 2 0 0) (by decide) (by decide)⟩

/-- C7 as stated fails: `ta_crypt_cmd_asymmetric_operate` packs the attributes before it
checks the handle, and returns the packing error without evaluating the assertion: with
a handle of 2^32 and a packing that fails, no assertion fails. -/
theorem pack_failure_precedes_handle_check :
    ¬ (4294967296 : Nat) ≤ UINT32_MAX ∧
    ¬ (Call.asymmetric_operate 4294967296 TA_CRYPT_CMD_ASYMMETRIC_ENCRYPT [] none 0 none
        16).handles_fit ∧
    ta_crypt_cmd_asymmetric_operate failing_packer (sizing_callee 0) fresh_case 4294967296
        TA_CRYPT_CMD_ASYMMETRIC_ENCRYPT [] none 0 none 16 =
      some { res := TEEC_ERROR_OUT_OF_MEMORY
             c := ⟨[Failure.teec_result TEEC_ERROR_OUT_OF_MEMORY]⟩
             trace := [Event.pack_attrs []]
             filled := []
             read := []
             out := 16 } := by
  decide

/-- C7 (amended): every wrapper checks its handle arguments before any command is invoked.
When the packing of the attribute list (which the asymmetric and generate-key wrappers do
first) has succeeded, or the wrapper packs nothing, the assertion fails exactly when
some handle argument exceeds 2^32-1, and otherwise one command is invoked and each value
field destined for a handle holds the numeric value of that handle.  When the packing
fails the wrapper returns its status with no assertion evaluated and no command
invoked. -/
theorem handle_assertions (pack : Packer) (inv : Invoker) (c : ADBG_Case_t) (w : Call) :
    (w.pack_ok pack →
      (w.run pack inv c = none ↔ ∃ h ∈ w.handle_args, UINT32_MAX < h.1) ∧
      (w.handles_fit →
        ∃ cmd op r, w.run pack inv c = some r ∧
          r.trace = w.prelude ++ [Event.invoke cmd op] ∧
          ∀ h ∈ w.handle_args, op.value_field h.2.1 h.2.2 = h.1)) ∧
    (¬ w.pack_ok pack →
      ∃ r, w.run pack inv c = some r ∧ r.res ≠ TEEC_SUCCESS ∧ r.trace = w.prelude) := by
  constructor
  · intro hp
    have hiff : (∃ h ∈ w.handle_args, UINT32_MAX < h.1) ↔ ¬ w.handles_fit := by
      unfold Call.handles_fit
      push_neg
      rfl
    constructor
    · rw [hiff]
      constructor
      · intro hnone hfit
        obtain ⟨_, _, r, hrun, _⟩ := run_reaches_invoker pack inv c w hfit hp
        rw [hnone] at hrun
        cases hrun
      · exact run_aborts pack inv c w hp
    · intro hfit
      obtain ⟨cmd, op, r, hrun, ht, _, _, hh, _⟩ := run_reaches_invoker pack inv c w hfit hp
      exact ⟨cmd, op, r, hrun, ht, hh⟩
  · intro hp
    obtain ⟨ps, ha, hne, hrun⟩ := run_pack_failure pack inv c w hp
    exact ⟨_, hrun, hne, by simp [Call.prelude, ha]⟩

/-- C7 (amended), at a set-key-2 call whose second key does not fit, at one whose handles all
fit, and at an asymmetric call whose packing fails. -/
theorem handle_assertions_witness :
    ((Call.set_operation_key2 1 2 4294967296).run pack_attrs (sizing_callee 0) fresh_case =
        none ↔
      ∃ h ∈ (Call.set_operation_key2 1 2 4294967296).handle_args, UINT32_MAX < h.1) ∧
    (∃ cmd op r, (Call.set_operation_key2 1 2 3).run pack_attrs (sizing_callee 0) fresh_case
        = some r ∧
      r.trace = (Call.set_operation_key2 1 2 3).prelude ++ [Event.invoke cmd op] ∧
      ∀ h ∈ (Call.set_operation_key2 1 2 3).handle_args, op.value_field h.2.1 h.2.2 = h.1) ∧
    ∃ r, (Call.asymmetric_sign 4294967296 [] none 0 none 16).run failing_packer
        (sizing_callee 0) fresh_case = some r ∧
      r.res ≠ TEEC_SUCCESS ∧
      r.trace = (Call.asymmetric_sign 4294967296 [] none 0 none 16).prelude :=
  ⟨((handle_assertions pack_attrs (sizing_callee 0) fresh_case
      (Call.set_operation_key2 1 2 4294967296)).1 (by decide)).1,
   ((handle_assertions pack_attrs (sizing_callee 0) fresh_case
      (Call.set_operation_key2 1 2 3)).1 (by decide)).2 (by decide),
   (handle_assertions failing_packer (sizing_callee 0) fresh_case
      (Call.asymmetric_sign 4294967296 [] none 0 none 16)).2 (by decide)⟩

/-- C8: a call of any wrapper but the random-number one, whose handles fit and whose packing
succeeded, invokes one command and returns the status of the invoker unchanged; it
records one failure when that status is not success and the origin is not the trusted
application, and leaves the test case as it was when the status is success or the origin
is the trusted application. -/
theorem origin_check (pack : Packer) (inv : Invoker) (c : ADBG_Case_t) (w : Call)
    (hrand : w.is_random = false) (hfit : w.handles_fit) (hp : w.pack_ok pack) :
    ∃ cmd op r, w.run pack inv c = some r ∧ r.trace = w.prelude ++ [Event.invoke cmd op] ∧
      r.res = (inv cmd op).res ∧
      ((inv cmd op).res ≠ TEEC_SUCCESS ∧ (inv cmd op).ret_orig ≠ TEEC_ORIGIN_TRUSTED_APP →
        r.c.failures =
          Failure.error_origin TEEC_ORIGIN_TRUSTED_APP (inv cmd op).ret_orig :: c.failures) ∧
      ((inv cmd op).res = TEEC_SUCCESS ∨ (inv cmd op).ret_orig = TEEC_ORIGIN_TRUSTED_APP →
        r.c = c) := by
  obtain ⟨cmd, op, r, hrun, ht, hres, hc, _⟩ := run_reaches_invoker pack inv c w hfit hp
  refine ⟨cmd, op, r, hrun, ht, hres, ?_, ?_⟩
  · rintro ⟨h1, h2⟩
    rw [hc hrand]
    simp [check_origin, ADBG_EXPECT_TEEC_ERROR_ORIGIN, h1, Ne.symm h2]
  · intro h
    rw [hc hrand]
    rcases h with h | h
    · simp [check_origin, h]
    · simp [check_origin, ADBG_EXPECT_TEEC_ERROR_ORIGIN, h]

/-- C8, at a reset call answered with a failure whose origin is the communication layer. -/
theorem origin_check_witness :
    (Call.reset_operation 1).is_random = false ∧ (Call.reset_operation 1).handles_fit ∧
    (Call.reset_operation 1).pack_ok pack_attrs ∧
    ∃ cmd op r, (Call.reset_operation 1).run pack_attrs
        (failing_callee TEEC_ERROR_OUT_OF_MEMORY TEEC_ORIGIN_COMMS) fresh_case = some r ∧
      r.trace = (Call.reset_operation 1).prelude ++ [Event.invoke cmd op] ∧
      r.res = (failing_callee TEEC_ERROR_OUT_OF_MEMORY TEEC_ORIGIN_COMMS cmd op).res ∧
      ((failing_callee TEEC_ERROR_OUT_OF_MEMORY TEEC_ORIGIN_COMMS cmd op).res ≠ TEEC_SUCCESS ∧
          (failing_callee TEEC_ERROR_OUT_OF_MEMORY TEEC_ORIGIN_COMMS cmd op).ret_orig ≠
            TEEC_ORIGIN_TRUSTED_APP →
        r.c.failures =
          Failure.error_origin TEEC_ORIGIN_TRUSTED_APP
            (failing_callee TEEC_ERROR_OUT_OF_MEMORY TEEC_ORIGIN_COMMS cmd op).ret_orig ::
              fresh_case.failures) ∧
      ((failing_callee TEEC_ERROR_OUT_OF_MEMORY TEEC_ORIGIN_COMMS cmd op).res = TEEC_SUCCESS ∨
          (failing_callee TEEC_ERROR_OUT_OF_MEMORY TEEC_ORIGIN_COMMS cmd op).ret_orig =
            TEEC_ORIGIN_TRUSTED_APP →
        r.c = fresh_case) :=
  ⟨rfl, by decide, by decide,
    origin_check pack_attrs (failing_callee TEEC_ERROR_OUT_OF_MEMORY TEEC_ORIGIN_COMMS)
      fresh_case (Call.reset_operation 1) rfl (by decide) (by decide)⟩

/-- C9: when `pack_attrs` fails, `ta_crypt_cmd_asymmetric_operate`,
`ta_crypt_cmd_asymmetric_verify` and `ta_crypt_cmd_generate_key` each return the packing
status with one failure recorded; the only thing that happened is the one call of
`pack_attrs`, no command was invoked, and the caller's output length is the one passed
in. -/
theorem pack_failure_returns_early (pack : Packer) (inv : Invoker) (c : ADBG_Case_t)
    (oph : Nat) (cmd : TA_CRYPT_CMD) (key_size : Nat) (params : List TEE_Attribute)
    (src : Ptr) (src_len : Nat) (dst : Ptr) (dst_len : Nat)
    (hfail : (pack params).res ≠ TEEC_SUCCESS) :
    ta_crypt_cmd_asymmetric_operate pack inv c oph cmd params src src_len dst dst_len =
      some { res := (pack params).res
             c := ⟨Failure.teec_result (pack params).res :: c.failures⟩
             trace := [Event.pack_attrs params]
             filled := []
             read := []
             out := dst_len } ∧
    ta_crypt_cmd_asymmetric_verify pack inv c oph params src src_len dst dst_len =
      some { res := (pack params).res
             c := ⟨Failure.teec_result (pack params).res :: c.failures⟩
             trace := [Event.pack_attrs params]
             filled := []
             read := []
             out := () } ∧
    ta_crypt_cmd_generate_key pack inv c oph key_size params =
      some { res := (pack params).res
             c := ⟨Failure.teec_result (pack params).res :: c.failures⟩
             trace := [Event.pack_attrs params]
             filled := []
             read := []
             out := () } := by
  refine ⟨?_, ?_, ?_⟩ <;>
    simp [ta_crypt_cmd_asymmetric_operate, ta_crypt_cmd_asymmetric_verify,
      ta_crypt_cmd_generate_key, ADBG_EXPECT_TEEC_SUCCESS, hfail, Binder.init]

/-- C9, at a packing that runs out of memory, with a handle that would not even fit. -/
theorem pack_failure_returns_early_witness :
    (failing_packer sample_attrs).res ≠ TEEC_SUCCESS ∧
    ta_crypt_cmd_asymmetric_operate failing_packer (sizing_callee 0) fresh_case 4294967296
        TA_CRYPT_CMD_ASYMMETRIC_DECRYPT sample_attrs none 0 none 256 =
      some { res := (failing_packer sample_attrs).res
             c := ⟨Failure.teec_result (failing_packer sample_attrs).res :: fresh_case.failures⟩
             trace := [Event.pack_attrs sample_attrs]
             filled := []
             read := []
             out := 256 } :=
  ⟨by decide,
    (pack_failure_returns_early failing_packer (sizing_callee 0) fresh_case 4294967296
      TA_CRYPT_CMD_ASYMMETRIC_DECRYPT 0 sample_attrs none 0 none 256 (by decide)).1⟩

/-- Four bytes written for a `uint32_t` read back as the same number. -/
theorem of_le32_le32 {x : Nat} (hx : x ≤ UINT32_MAX) :
    of_le32 (x % 256) (x / 256 % 256) (x / 65536 % 256) (x / 16777216 % 256) = x := by
  unfold UINT32_MAX at hx
  unfold of_le32
  omega

/-- Every attribute has a header of twelve bytes. -/
theorem pack_headers_length (attrs : List TEE_Attribute) :
    ∀ off, (pack_headers attrs off).length = 12 * attrs.length := by
  induction attrs with
  | nil => intro off; rfl
  | cons a rest ih =>
    intro off
    unfold pack_headers
    split <;> simp [le32, ih] <;> omega

/-- Decoding the headers of `attrs`: when the payloads of `attrs` lie in the buffer right
behind a part `before` and the header offsets start at the length of `before`, the
decoder reconstructs the meaning of every attribute, in order. -/
theorem unpack_headers_pack_headers (attrs : List TEE_Attribute) :
    ∀ (before behind tail : List Nat),
      (∀ a ∈ attrs, a.in_range) →
      before.length + (pack_payloads attrs).length ≤ UINT32_MAX →
      unpack_headers (before ++ pack_payloads attrs ++ behind) attrs.length
          (pack_headers attrs before.length ++ tail) =
        some (attrs.map TEE_Attribute.meaning) := by
  induction attrs with
  | nil => intro before behind tail _ _; rfl
  | cons a rest ih =>
    intro before behind tail hrange hsize
    have ha : a.in_range := hrange a (List.mem_cons_self a rest)
    have hrest : ∀ b ∈ rest, b.in_range := fun b hb => hrange b (List.mem_cons_of_mem a hb)
    obtain ⟨hid, hva, hvb⟩ := ha
    by_cases hv : is_value_id a.attributeID = true
    · have hsize2 : before.length + (pack_payloads rest).length ≤ UINT32_MAX := by
        simpa [pack_payloads, hv] using hsize
      have step := ih before behind tail hrest hsize2
      simp only [pack_headers, pack_payloads, hv, if_true, le32, List.cons_append,
        List.nil_append, List.length_cons, unpack_headers, of_le32_le32 hid, of_le32_le32 hva,
        of_le32_le32 hvb, step, Option.map_some', List.map_cons, TEE_Attribute.meaning]
    · have hlen : (pack_payloads (a :: rest)).length =
          a.ref_buffer.length + (pack_payloads rest).length := by
        simp [pack_payloads, hv]
      rw [hlen] at hsize
      have hoff : before.length ≤ UINT32_MAX := by omega
      have hblen : a.ref_buffer.length ≤ UINT32_MAX := by omega
      have hsize2 : (before ++ a.ref_buffer).length + (pack_payloads rest).length ≤
          UINT32_MAX := by
        rw [List.length_append]; omega
      have step := ih (before ++ a.ref_buffer) behind tail hrest hsize2
      have hbuf : before ++ pack_payloads (a :: rest) ++ behind =
          before ++ a.ref_buffer ++ pack_payloads rest ++ behind := by
        simp [pack_payloads, hv, List.append_assoc]
      have hfits : ¬ (before ++ a.ref_buffer ++ pack_payloads rest ++ behind).length <
          before.length + a.ref_buffer.length := by
        simp only [List.length_append]; omega
      have hslice : ((before ++ a.ref_buffer ++ pack_payloads rest ++ behind).drop
          before.length).take a.ref_buffer.length = a.ref_buffer := by
        simp [List.append_assoc, List.drop_append]
      rw [hbuf]
      rw [List.length_append] at step
      simp only [pack_headers, hv, Bool.false_eq_true, if_false, le32, List.cons_append,
        List.nil_append, List.length_cons, unpack_headers, of_le32_le32 hid,
        of_le32_le32 hoff, of_le32_le32 hblen, hfits, hslice, step, Option.map_some',
        List.map_cons, TEE_Attribute.meaning]

/-- C10: for every attribute list whose fields have the range of their C types and that
`pack_attrs` packs successfully, decoding the packed buffer from the buffer and its
length alone reconstructs, for each attribute and in the same order, the same identifier
together with the same payload bytes (reference attributes) or the same two 32-bit
scalars (value attributes); and this buffer with its length is what
`ta_crypt_cmd_asymmetric_operate`, `ta_crypt_cmd_asymmetric_verify` and
`ta_crypt_cmd_generate_key` place in slot 1, tagged memory-reference input. -/
theorem pack_attrs_round_trip (attrs : List TEE_Attribute)
    (hrange : ∀ a ∈ attrs, a.in_range) (hok : (pack_attrs attrs).res = TEEC_SUCCESS) :
    unpack_attrs (pack_attrs attrs).buf (pack_attrs attrs).blen =
      some (attrs.map TEE_Attribute.meaning) ∧
    ∀ (inv : Invoker) (c : ADBG_Case_t) (h : Nat) (cmd : TA_CRYPT_CMD) (key_size : Nat)
      (src : Ptr) (src_len : Nat) (dst : Ptr) (dst_len : Nat), h ≤ UINT32_MAX →
      (∃ r op, ta_crypt_cmd_asymmetric_operate pack_attrs inv c h cmd attrs src src_len dst
          dst_len = some r ∧
        r.trace = [Event.pack_attrs attrs, Event.invoke cmd op] ∧
        op.paramTypes.get 1 = TEEC_MEMREF_TEMP_INPUT ∧
        (op.params.get 1).tmpref = ⟨(pack_attrs attrs).buf, (pack_attrs attrs).blen⟩) ∧
      (∃ r op, ta_crypt_cmd_asymmetric_verify pack_attrs inv c h attrs src src_len dst
          dst_len = some r ∧
        r.trace = [Event.pack_attrs attrs,
          Event.invoke TA_CRYPT_CMD_ASYMMETRIC_VERIFY_DIGEST op] ∧
        op.paramTypes.get 1 = TEEC_MEMREF_TEMP_INPUT ∧
        (op.params.get 1).tmpref = ⟨(pack_attrs attrs).buf, (pack_attrs attrs).blen⟩) ∧
      (∃ r op, ta_crypt_cmd_generate_key pack_attrs inv c h key_size attrs = some r ∧
        r.trace = [Event.pack_attrs attrs, Event.invoke TA_CRYPT_CMD_GENERATE_KEY op] ∧
        op.paramTypes.get 1 = TEEC_MEMREF_TEMP_INPUT ∧
        (op.params.get 1).tmpref = ⟨(pack_attrs attrs).buf, (pack_attrs attrs).blen⟩) := by
  constructor
  · by_cases hnil : attrs = []
    · subst hnil
      rfl
    · have hne : EncodingError ≠ TEEC_SUCCESS := by decide
      by_cases hcount : UINT32_MAX < attrs.length
      · simp [pack_attrs, hnil, hcount, hne] at hok
      · by_cases hsize : PACKED_SIZE_MAX < packed_size attrs
        · simp [pack_attrs, hnil, hcount, hsize, hne] at hok
        · have hlen : (le32 attrs.length ++ pack_headers attrs (4 + 12 * attrs.length) ++
              pack_payloads attrs).length = packed_size attrs := by
            simp [le32, pack_headers_length, packed_size]
            omega
          have hpos : packed_size attrs ≠ 0 := by unfold packed_size; omega
          have hbefore : (le32 attrs.length ++
              pack_headers attrs (4 + 12 * attrs.length)).length = 4 + 12 * attrs.length := by
            simp [le32, pack_headers_length]; omega
          have hbound : (le32 attrs.length ++
              pack_headers attrs (4 + 12 * attrs.length)).length +
                (pack_payloads attrs).length ≤ UINT32_MAX := by
            rw [hbefore]
            unfold packed_size PACKED_SIZE_MAX at hsize
            omega
          have step := unpack_headers_pack_headers attrs
            (le32 attrs.length ++ pack_headers attrs (4 + 12 * attrs.length)) []
            (pack_payloads attrs) hrange hbound
          rw [hbefore, List.append_nil] at step
          have hcount2 : attrs.length ≤ UINT32_MAX := by omega
          have htake : (le32 attrs.length ++ pack_headers attrs (4 + 12 * attrs.length) ++
              pack_payloads attrs).take (packed_size attrs) =
              le32 attrs.length ++ pack_headers attrs (4 + 12 * attrs.length) ++
                pack_payloads attrs := by
            rw [← hlen]; exact List.take_length _
          simp only [pack_attrs, hnil, hcount, hsize, if_false, unpack_attrs, hpos, htake]
          simp only [le32, List.cons_append, List.nil_append, of_le32_le32 hcount2] at step ⊢
          exact step
  · intro inv c h cmd key_size src src_len dst dst_len hfit
    have hn : ¬ ¬ h ≤ UINT32_MAX := not_not.mpr hfit
    have he : ¬ ¬ (ADBG_EXPECT_TEEC_SUCCESS c (pack_attrs attrs).res).1 = true := by
      simp [ADBG_EXPECT_TEEC_SUCCESS, hok]
    exact ⟨⟨_, _, (if_neg he).trans (if_neg hn), rfl, rfl, rfl⟩,
      ⟨_, _, (if_neg he).trans (if_neg hn), rfl, rfl, rfl⟩,
      ⟨_, _, (if_neg he).trans (if_neg hn), rfl, rfl, rfl⟩⟩

/-- C10, at a list of one value attribute and one reference attribute of three bytes. -/
theorem pack_attrs_round_trip_witness :
    (∀ a ∈ sample_attrs, a.in_range) ∧ (pack_attrs sample_attrs).res = TEEC_SUCCESS ∧
    unpack_attrs (pack_attrs sample_attrs).buf (pack_attrs sample_attrs).blen =
      some [Unpacked.value 0xF0000441 3 0, Unpacked.ref 0xC0000130 [1, 2, 3]] :=
  ⟨by decide, by decide, (pack_attrs_round_trip sample_attrs (by decide) (by decide)).1⟩

/-- The loop of `set_ck_attr` with `remaining` iterations left at `idx`, when no entry below
`idx` has the type. -/
theorem set_ck_attr_from_spec (attrs : List CK_ATTRIBUTE) (count : Nat) (der : List Nat) :
    ∀ (remaining idx : Nat), idx + remaining = count →
      (∀ j b, j < idx → attrs.get? j = some b → b.type ≠ CKA_EC_PARAMS) →
      SetsEcParams attrs count der
        (set_ck_attr_from attrs CKA_EC_PARAMS (some der) der.length remaining idx) := by
  intro remaining
  induction remaining with
  | zero =>
    intro idx hk hbefore
    exact Or.inr ⟨fun j b hj hb => hbefore j b (by omega) hb, rfl⟩
  | succ k ih =>
    intro idx hk hbefore
    have hlt : idx < count := by omega
    unfold set_ck_attr_from
    cases hget : attrs.get? idx with
    | none =>
      simp only []
      apply ih (idx + 1) (by omega)
      intro j b hj hb
      by_cases hji : j = idx
      · subst hji; rw [hget] at hb; cases hb
      · exact hbefore j b (by omega) hb
    | some a =>
      simp only []
      by_cases hty : a.type = CKA_EC_PARAMS
      · rw [if_pos hty]
        refine Or.inl ⟨idx, a, hlt, hget, hty, hbefore, ?_⟩
        rw [← hty]
      · rw [if_neg hty]
        apply ih (idx + 1) (by omega)
        intro j b hj hb
        by_cases hji : j = idx
        · subst hji; rw [hget] at hb; cases hb; exact hty
        · exact hbefore j b (by omega) hb

/-- C16: for each of the five curves and every attribute array, the call by algorithm and the
call by curve identifier return the same value and leave the same array: the first entry
of type `CKA_EC_PARAMS` gets the DER object identifier of the curve, a blob whose first
byte is 0x06 and whose second byte is its length minus 2, and the result is 0, or the
result is 1 and the array is unchanged when there is no such entry; for every other
algorithm or curve identifier the result is -1 and the array is unchanged. -/
theorem ck_ec_params_attr_agree (attrs : List CK_ATTRIBUTE) (count : Nat) :
    (∀ e ∈ ec_curves,
      ck_ec_params_attr_from_tee_algo attrs count e.1 =
        ck_ec_params_attr_from_tee_curve attrs count e.2.1 ∧
      SetsEcParams attrs count e.2.2 (ck_ec_params_attr_from_tee_curve attrs count e.2.1) ∧
      e.2.2.get? 0 = some 0x06 ∧ e.2.2.get? 1 = some (e.2.2.length - 2)) ∧
    (∀ algo, (∀ e ∈ ec_curves, algo ≠ e.1) →
      ck_ec_params_attr_from_tee_algo attrs count algo = (-1, attrs)) ∧
    (∀ curve, (∀ e ∈ ec_curves, curve ≠ e.2.1) →
      ck_ec_params_attr_from_tee_curve attrs count curve = (-1, attrs)) := by
  have hspec := fun der =>
    set_ck_attr_from_spec attrs count der count 0 (Nat.zero_add count)
      (fun j _ hj => absurd hj (Nat.not_lt_zero j))
  refine ⟨?_, ?_, ?_⟩
  · intro e he
    simp only [ec_curves, List.mem_cons, List.mem_singleton, List.not_mem_nil, or_false] at he
    rcases he with rfl | rfl | rfl | rfl | rfl
    · exact ⟨rfl, hspec _, rfl, rfl⟩
    · exact ⟨rfl, hspec _, rfl, rfl⟩
    · exact ⟨rfl, hspec _, rfl, rfl⟩
    · exact ⟨rfl, hspec _, rfl, rfl⟩
    · exact ⟨rfl, hspec _, rfl, rfl⟩
  · intro algo h
    have h1 := h _ (by simp [ec_curves] : (TEE_ALG_ECDSA_P192, TEE_ECC_CURVE_NIST_P192,
      nist_secp192r1_der) ∈ ec_curves)
    have h2 := h _ (by simp [ec_curves] : (TEE_ALG_ECDSA_P224, TEE_ECC_CURVE_NIST_P224,
      nist_secp224r1_der) ∈ ec_curves)
    have h3 := h _ (by simp [ec_curves] : (TEE_ALG_ECDSA_P256, TEE_ECC_CURVE_NIST_P256,
      nist_secp256r1_der) ∈ ec_curves)
    have h4 := h _ (by simp [ec_curves] : (TEE_ALG_ECDSA_P384, TEE_ECC_CURVE_NIST_P384,
      nist_secp384r1_der) ∈ ec_curves)
    have h5 := h _ (by simp [ec_curves] : (TEE_ALG_ECDSA_P521, TEE_ECC_CURVE_NIST_P521,
      nist_secp521r1_der) ∈ ec_curves)
    simp only [ck_ec_params_attr_from_tee_algo, h1, h2, h3, h4, h5, if_false]
  · intro curve h
    have h1 := h _ (by simp [ec_curves] : (TEE_ALG_ECDSA_P192, TEE_ECC_CURVE_NIST_P192,
      nist_secp192r1_der) ∈ ec_curves)
    have h2 := h _ (by simp [ec_curves] : (TEE_ALG_ECDSA_P224, TEE_ECC_CURVE_NIST_P224,
      nist_secp224r1_der) ∈ ec_curves)
    have h3 := h _ (by simp [ec_curves] : (TEE_ALG_ECDSA_P256, TEE_ECC_CURVE_NIST_P256,
      nist_secp256r1_der) ∈ ec_curves)
    have h4 := h _ (by simp [ec_curves] : (TEE_ALG_ECDSA_P384, TEE_ECC_CURVE_NIST_P384,
      nist_secp384r1_der) ∈ ec_curves)
    have h5 := h _ (by simp [ec_curves] : (TEE_ALG_ECDSA_P521, TEE_ECC_CURVE_NIST_P521,
      nist_secp521r1_der) ∈ ec_curves)
    simp only [ck_ec_params_attr_from_tee_curve, h1, h2, h3, h4, h5, if_false]

/-- On the sample template the P-256 parameters land in the first matching entry only. -/
theorem ck_ec_params_sample_template :
    ck_ec_params_attr_from_tee_curve sample_template 3 TEE_ECC_CURVE_NIST_P256 =
    (0, [ { type := 0, pValue := none, ulValueLen := 0 },
          { type := 0x180, pValue := some nist_secp256r1_der, ulValueLen := 10 },
          { type := 0x180, pValue := none, ulValueLen := 0 } ]) := by decide

/-- Where a scanning loop stops: not before its start, not behind its bound, at the first
index at which the condition holds. -/
theorem scan_spec (stop : Nat → Bool) :
    ∀ (remaining k : Nat),
      k ≤ scan stop remaining k ∧ scan stop remaining k ≤ k + remaining ∧
      (∀ j, k ≤ j → j < scan stop remaining k → stop j = false) ∧
      (scan stop remaining k < k + remaining → stop (scan stop remaining k) = true) := by
  intro remaining
  induction remaining with
  | zero =>
    intro k
    refine ⟨Nat.le_refl _, Nat.le_refl _, ?_, ?_⟩
    · intro j h1 h2; simp only [scan] at h2; omega
    · intro h; simp only [scan] at h; omega
  | succ r ih =>
    intro k
    unfold scan
    by_cases hs : stop k = true
    · rw [if_pos hs]
      refine ⟨Nat.le_refl _, by omega, ?_, fun _ => hs⟩
      intro j h1 h2; omega
    · rw [if_neg hs]
      obtain ⟨h1, h2, h3, h4⟩ := ih (k + 1)
      refine ⟨by omega, by omega, ?_, ?_⟩
      · intro j hj1 hj2
        by_cases hjk : j = k
        · subst hjk; simpa using hs
        · exact h3 j (by omega) hj2
      · intro h; exact h4 (by omega)


/-- The indices of the forging step when the comparison passes without wrap-around. -/
theorem forge_step_facts (tmp : List Nat) (i : Nat) (hsize : tmp.length < SIZE_MOD)
    (hguard : ((forge_step tmp i).n : Int) < (tmp.length : Int) - (i : Int) - 1) :
    (forge_step tmp i).n + i + 1 < tmp.length ∧
    (forge_step tmp i).bound = tmp.length - i - 1 ∧
    (∀ j, j < (forge_step tmp i).n → tmp.getD j 0 ≠ 0xff) ∧
    tmp.getD (forge_step tmp i).n 0 = 0xff ∧
    (forge_step tmp i).n < (forge_step tmp i).m ∧ (forge_step tmp i).m ≤ tmp.length ∧
    (∀ j, (forge_step tmp i).n < j → j < (forge_step tmp i).m → tmp.getD j 0 = 0xff) ∧
    ((forge_step tmp i).m < tmp.length → tmp.getD (forge_step tmp i).m 0 ≠ 0xff) ∧
    (forge_step tmp i).move_len = tmp.length - (forge_step tmp i).m := by
  have hlt : (forge_step tmp i).n + i + 1 < tmp.length := by omega
  have hsub : size_sub tmp.length i = tmp.length - i := by
    simp only [size_sub, SIZE_MOD, Nat.reducePow] at hsize ⊢
    omega
  have hn : (forge_step tmp i).n = scan (fun k => tmp.getD k 0 = 0xff) (tmp.length - i) 0 := by
    simp only [forge_step, hsub]
  have hbound : (forge_step tmp i).bound = tmp.length - i - 1 := by
    simp only [forge_step, hsub]
    simp only [size_sub, SIZE_MOD, Nat.reducePow] at hsize ⊢
    omega
  obtain ⟨_, _, n3, n4⟩ := scan_spec (fun k => tmp.getD k 0 = 0xff) (tmp.length - i) 0
  rw [← hn] at n3 n4
  have hm : (forge_step tmp i).m = scan (fun k => tmp.getD k 0 ≠ 0xff)
      (tmp.length - ((forge_step tmp i).n + 1)) ((forge_step tmp i).n + 1) := rfl
  obtain ⟨m1, m2, m3, m4⟩ := scan_spec (fun k => tmp.getD k 0 ≠ 0xff)
    (tmp.length - ((forge_step tmp i).n + 1)) ((forge_step tmp i).n + 1)
  rw [← hm] at m1 m2 m3 m4
  have hmove : (forge_step tmp i).move_len = size_sub tmp.length (forge_step tmp i).m := rfl
  refine ⟨hlt, hbound, ?_, ?_, by omega, by omega, ?_, ?_, ?_⟩
  · intro j hj
    have := n3 j (Nat.zero_le j) hj
    simpa using this
  · have := n4 (by omega)
    simpa using this
  · intro j hj1 hj2
    have := m3 j (by omega) hj2
    simpa using this
  · intro hlt2
    have := m4 (by omega)
    simpa using this
  · rw [hmove]
    simp only [size_sub, SIZE_MOD, Nat.reducePow] at hsize ⊢
    omega

/-- C19: in the forging step of test 4011, let `n` be the index at which the search for 0xff
below `T - i` stops and `m` the index behind `n` at which the run of 0xff ends (`T` if it
does not end).  When `n < T - i - 1` and `m - n >= i`, `n` is the first index holding
0xff, `m` is the first index after `n` holding another byte or `T`, the comparison of the
test passes, and the forged buffer has length `T` and consists of the original bytes
`[0, n + i)`, the original bytes `[m, T)` and `m - n - i` zero bytes. -/
theorem forge_result (tmp : List Nat) (i : Nat) (hsize : tmp.length < SIZE_MOD)
    (hguard : ((forge_step tmp i).n : Int) < (tmp.length : Int) - (i : Int) - 1)
    (hrun : i ≤ (forge_step tmp i).m - (forge_step tmp i).n) :
    (∀ j, j < (forge_step tmp i).n → tmp.getD j 0 ≠ 0xff) ∧
    tmp.getD (forge_step tmp i).n 0 = 0xff ∧
    (forge_step tmp i).n < (forge_step tmp i).m ∧ (forge_step tmp i).m ≤ tmp.length ∧
    (∀ j, (forge_step tmp i).n < j → j < (forge_step tmp i).m → tmp.getD j 0 = 0xff) ∧
    ((forge_step tmp i).m < tmp.length → tmp.getD (forge_step tmp i).m 0 ≠ 0xff) ∧
    ∃ forged, forge tmp i = some forged ∧ forged.length = tmp.length ∧
      forged = tmp.take ((forge_step tmp i).n + i) ++ tmp.drop (forge_step tmp i).m ++
        List.replicate ((forge_step tmp i).m - (forge_step tmp i).n - i) 0 := by
  obtain ⟨hlt, hbound, f1, f2, f3, f4, f5, f6, hmove⟩ := forge_step_facts tmp i hsize hguard
  have hn2 : (forge_step tmp i).n2 =
      (forge_step tmp i).n + i + (tmp.length - (forge_step tmp i).m) := by
    have : (forge_step tmp i).n2 = size_sub (size_add (size_add (forge_step tmp i).n i)
      tmp.length) (forge_step tmp i).m := rfl
    rw [this]
    simp only [size_sub, size_add, SIZE_MOD, Nat.reducePow] at hsize ⊢
    omega
  have hfill : (forge_step tmp i).fill_len =
      (forge_step tmp i).m - (forge_step tmp i).n - i := by
    have : (forge_step tmp i).fill_len = size_sub tmp.length (forge_step tmp i).n2 := rfl
    rw [this, hn2]
    simp only [size_sub, SIZE_MOD, Nat.reducePow] at hsize ⊢
    omega
  have hpass : (forge_step tmp i).n < (forge_step tmp i).bound := by
    rw [hbound]; omega
  have hforge : forge tmp i = some (memset (memmove tmp ((forge_step tmp i).n + i)
      (forge_step tmp i).m (forge_step tmp i).move_len) (forge_step tmp i).n2 0
      (forge_step tmp i).fill_len) := by
    unfold forge
    simp only [hpass, not_true_eq_false, if_false]
  refine ⟨f1, f2, f3, f4, f5, f6, _, hforge, ?_, ?_⟩
  · simp only [memmove, memset, hmove, hn2, hfill, List.length_append, List.length_take,
      List.length_drop, List.length_replicate]
    omega
  · simp only [memmove, memset, hmove, hn2, hfill]
    generalize (forge_step tmp i).n = n at *
    generalize (forge_step tmp i).m = m at *
    have e1 : (tmp.drop m).take (tmp.length - m) = tmp.drop m :=
      List.take_of_length_le (by simp)
    have e2 : (tmp.take (n + i) ++ tmp.drop m).length = n + i + (tmp.length - m) := by
      simp only [List.length_append, List.length_take, List.length_drop]; omega
    have e3 : (tmp.take (n + i) ++ tmp.drop m ++ tmp.drop (n + i + (tmp.length - m))).drop
        (n + i + (tmp.length - m) + (m - n - i)) = [] := by
      apply List.drop_of_length_le
      simp only [List.length_append, List.length_take, List.length_drop]; omega
    rw [e1, List.take_left' e2, e3, List.append_nil]

/-- C19, at a block of 13 bytes with a run of six 0xff from index 2 and iteration 2. -/
theorem forge_result_witness :
    sample_block.length < SIZE_MOD ∧
    ((forge_step sample_block 2).n : Int) < (sample_block.length : Int) - (2 : Int) - 1 ∧
    2 ≤ (forge_step sample_block 2).m - (forge_step sample_block 2).n ∧
    (forge_step sample_block 2).n = 2 ∧ (forge_step sample_block 2).m = 8 ∧
    forge sample_block 2 = some [0, 1, 255, 255, 0, 10, 11, 12, 13, 0, 0, 0, 0] ∧
    ∃ forged, forge sample_block 2 = some forged ∧ forged.length = sample_block.length ∧
      forged = sample_block.take ((forge_step sample_block 2).n + 2) ++
        sample_block.drop (forge_step sample_block 2).m ++
        List.replicate ((forge_step sample_block 2).m - (forge_step sample_block 2).n - 2) 0 :=
  ⟨by decide, by decide, by decide, by decide, by decide, by decide,
    (forge_result sample_block 2 (by decide) (by decide) (by decide)).2.2.2.2.2.2⟩

/-- C20: in the forging step of test 4011, for a buffer of `T` bytes and an iteration `i` with
`i + 1 < T` that passes the comparison `n < T - i - 1`: the destination and the source of
the move and the zero fill lie within the `T` bytes, and the new `n` does not exceed `T`
(so that the length `T - n` of the zero fill does not wrap around), if and only if the run
of 0xff from `n` has at least `i` bytes. -/
theorem forge_in_bounds_iff (tmp : List Nat) (i : Nat) (hsize : tmp.length < SIZE_MOD)
    (hi : i + 1 < tmp.length)
    (hguard : (forge_step tmp i).n < (forge_step tmp i).bound) :
    (in_bounds ((forge_step tmp i).n + i) (forge_step tmp i).move_len tmp.length ∧
      in_bounds (forge_step tmp i).m (forge_step tmp i).move_len tmp.length ∧
      in_bounds (forge_step tmp i).n2 (forge_step tmp i).fill_len tmp.length ∧
      (forge_step tmp i).n2 ≤ tmp.length) ↔
    i ≤ (forge_step tmp i).m - (forge_step tmp i).n := by
  have hbound : (forge_step tmp i).bound = tmp.length - i - 1 := by
    have : (forge_step tmp i).bound = size_sub (size_sub tmp.length i) 1 := rfl
    rw [this]
    simp only [size_sub, SIZE_MOD, Nat.reducePow] at hsize ⊢
    omega
  have hg : ((forge_step tmp i).n : Int) < (tmp.length : Int) - (i : Int) - 1 := by
    rw [hbound] at hguard
    omega
  obtain ⟨hlt, _, _, _, f3, f4, _, _, hmove⟩ := forge_step_facts tmp i hsize hg
  have hn2 : (forge_step tmp i).n2 = size_sub (size_add (size_add (forge_step tmp i).n i)
      tmp.length) (forge_step tmp i).m := rfl
  have hfill : (forge_step tmp i).fill_len = size_sub tmp.length (forge_step tmp i).n2 := rfl
  rw [hfill, hn2, hmove]
  simp only [in_bounds, size_sub, size_add, SIZE_MOD, Nat.reducePow] at hsize ⊢
  generalize (forge_step tmp i).n = n at *
  generalize (forge_step tmp i).m = m at *
  constructor
  · rintro ⟨h1, -, -, -⟩
    omega
  · intro h
    omega

/-- C20, at a block of 13 bytes with a run of six 0xff from index 2 and iteration 2. -/
theorem forge_in_bounds_iff_witness :
    sample_block.length < SIZE_MOD ∧ 2 + 1 < sample_block.length ∧
    (forge_step sample_block 2).n < (forge_step sample_block 2).bound ∧
    ((in_bounds ((forge_step sample_block 2).n + 2) (forge_step sample_block 2).move_len
        sample_block.length ∧
      in_bounds (forge_step sample_block 2).m (forge_step sample_block 2).move_len
        sample_block.length ∧
      in_bounds (forge_step sample_block 2).n2 (forge_step sample_block 2).fill_len
        sample_block.length ∧
      (forge_step sample_block 2).n2 ≤ sample_block.length) ↔
    2 ≤ (forge_step sample_block 2).m - (forge_step sample_block 2).n) :=
  ⟨by decide, by decide, by decide,
    forge_in_bounds_iff sample_block 2 (by decide) (by decide) (by decide)⟩

/-- Buffers of the same size compare equal exactly when they are equal. -/
theorem memcmp_eq_zero_iff : ∀ (a b : List Nat) (n : Nat), a.length = n → b.length = n →
    (memcmp a b n = 0 ↔ a = b) := by
  intro a
  induction a with
  | nil =>
    intro b n ha hb
    subst ha
    cases b with
    | nil => simp [memcmp]
    | cons _ _ => simp at hb
  | cons x xs ih =>
    intro b n ha hb
    cases b with
    | nil => subst hb; simp at ha
    | cons y ys =>
      cases n with
      | zero => simp at ha
      | succ n =>
        simp only [List.length_cons, Nat.add_right_cancel_iff] at ha hb
        unfold memcmp
        by_cases h1 : x < y
        · simp [h1]; omega
        · by_cases h2 : y < x
          · simp [h1, h2]; omega
          · have hxy : x = y := by omega
            simp [h1, h2, hxy, ih ys n ha hb]

/-- The buffer keeps its size when the callee writes to it. -/
theorem written_length (before : List Nat) (after : Ptr) :
    (written before after).length = before.length := by
  cases after with
  | none => rfl
  | some bs =>
    simp only [written, List.length_take, List.length_append, List.length_drop]
    omega

/-- A list of failures with more entries in front is another list. -/
theorem cons_append_ne_self {α : Type} (x : α) (xs l : List α) : x :: (xs ++ l) ≠ l := by
  intro h
  have := congrArg List.length h
  simp at this
  omega

/-- A list with up to five more entries in front is another list. -/
theorem cons_chain_ne_self {α : Type} (x1 x2 x3 x4 x5 : α) (l : List α) :
    x1 :: x2 :: l ≠ l ∧ x1 :: x2 :: x3 :: l ≠ l ∧ x1 :: x2 :: x3 :: x4 :: l ≠ l ∧
      x1 :: x2 :: x3 :: x4 :: x5 :: l ≠ l :=
  ⟨cons_append_ne_self x1 [x2] l, cons_append_ne_self x1 [x2, x3] l,
    cons_append_ne_self x1 [x2, x3, x4] l, cons_append_ne_self x1 [x2, x3, x4, x5] l⟩

/-- The comparison for equality records a failure exactly when the sides differ. -/
theorem expect_compare_unsigned_eq (c : ADBG_Case_t) (lhs rhs : Nat) :
    (ADBG_EXPECT_COMPARE_UNSIGNED_EQ c lhs rhs).2 =
      if rhs = lhs then c else ⟨Failure.compare_unsigned lhs rhs :: c.failures⟩ := by
  unfold ADBG_EXPECT_COMPARE_UNSIGNED_EQ
  by_cases h : lhs = rhs
  · simp [h]
  · simp [h, Ne.symm h]

/-- The comparison for difference with zero records a failure exactly when the other side is
zero. -/
theorem expect_compare_signed_ne (c : ADBG_Case_t) (rhs : Int) :
    (ADBG_EXPECT_COMPARE_SIGNED_NE c 0 rhs).2 =
      if rhs = 0 then ⟨Failure.compare_signed 0 rhs :: c.failures⟩ else c := by
  unfold ADBG_EXPECT_COMPARE_SIGNED_NE
  by_cases h : rhs = 0
  · simp [h]
  · simp [h, Ne.symm h]

/-- What the wrapper returns for a request of 45 random bytes into a zeroed buffer. -/
theorem rng_wrapper_result (inv : Invoker) (c : ADBG_Case_t) :
    ta_crypt_cmd_random_number_generate inv c (some (List.replicate 45 0)) 45 =
      some { res := (rng_answer inv).res
             c := (ADBG_EXPECT_COMPARE_UNSIGNED_EQ (check_origin c (rng_answer inv)) 45
               ((rng_answer inv).op.params.get 0).tmpref.size).2
             trace := [Event.invoke TA_CRYPT_CMD_RANDOM_NUMBER_GENEREATE rng_block]
             filled := [0, 0]
             read := [0]
             out := () } := rfl

set_option maxHeartbeats 1000000 in
/-- C15: once the session is open, test 4004 records no failure if and only if both
random-number commands succeed, each reports back the requested size of 45 bytes in its
output slot, each of the two buffers is not all-zero, and the two buffers differ. -/
theorem random_test_passes_iff (inv1 inv2 : Invoker) (c : ADBG_Case_t) :
    (xtest_tee_test_4004 TEEC_SUCCESS inv1 inv2 c).failures = c.failures ↔
      ((rng_answer inv1).res = TEEC_SUCCESS ∧
        ((rng_answer inv1).op.params.get 0).tmpref.size = 45 ∧
        rng_bytes inv1 ≠ List.replicate 45 0 ∧
        (rng_answer inv2).res = TEEC_SUCCESS ∧
        ((rng_answer inv2).op.params.get 0).tmpref.size = 45 ∧
        rng_bytes inv2 ≠ List.replicate 45 0 ∧
        rng_bytes inv2 ≠ rng_bytes inv1) := by
  have hz1 : memcmp (rng_bytes inv1) (List.replicate 45 0) 45 = 0 ↔
      rng_bytes inv1 = List.replicate 45 0 :=
    memcmp_eq_zero_iff _ _ 45 (by simp [rng_bytes, written_length]) (by simp)
  have hz2 : memcmp (rng_bytes inv2) (List.replicate 45 0) 45 = 0 ↔
      rng_bytes inv2 = List.replicate 45 0 :=
    memcmp_eq_zero_iff _ _ 45 (by simp [rng_bytes, written_length]) (by simp)
  have hz3 : memcmp (rng_bytes inv2) (rng_bytes inv1) 45 = 0 ↔
      rng_bytes inv2 = rng_bytes inv1 :=
    memcmp_eq_zero_iff _ _ 45 (by simp [rng_bytes, written_length])
      (by simp [rng_bytes, written_length])
  have hm1 : ∀ (r : Ret Unit), r.trace =
      [Event.invoke TA_CRYPT_CMD_RANDOM_NUMBER_GENEREATE rng_block] →
      r.memory_after inv1 0 (List.replicate 45 0) = rng_bytes inv1 := by
    intro r hr
    simp [Ret.memory_after, hr, rng_bytes, rng_answer]
  have hm2 : ∀ (r : Ret Unit), r.trace =
      [Event.invoke TA_CRYPT_CMD_RANDOM_NUMBER_GENEREATE rng_block] →
      r.memory_after inv2 0 (List.replicate 45 0) = rng_bytes inv2 := by
    intro r hr
    simp [Ret.memory_after, hr, rng_bytes, rng_answer]
  simp only [xtest_tee_test_4004, rng_wrapper_result]
  rw [hm1 _ rfl, hm2 _ rfl]
  simp only [ne_eq]
  rw [← hz1, ← hz2, ← hz3]
  simp only [expect_compare_unsigned_eq, expect_compare_signed_ne]
  generalize memcmp (rng_bytes inv1) (List.replicate 45 0) 45 = m1
  generalize memcmp (rng_bytes inv2) (List.replicate 45 0) 45 = m2
  generalize memcmp (rng_bytes inv2) (rng_bytes inv1) 45 = m3
  generalize ((rng_answer inv1).op.params.get 0).tmpref.size = n1
  generalize ((rng_answer inv2).op.params.get 0).tmpref.size = n2
  generalize rng_answer inv1 = a1
  generalize rng_answer inv2 = a2
  have ne2 := fun (x1 x2 : Failure) => (cons_chain_ne_self x1 x2 x1 x1 x1 c.failures).1
  have ne3 := fun (x1 x2 x3 : Failure) => (cons_chain_ne_self x1 x2 x3 x1 x1 c.failures).2.1
  have ne4 := fun (x1 x2 x3 x4 : Failure) =>
    (cons_chain_ne_self x1 x2 x3 x4 x1 c.failures).2.2.1
  have ne5 := fun (x1 x2 x3 x4 x5 : Failure) =>
    (cons_chain_ne_self x1 x2 x3 x4 x5 c.failures).2.2.2
  by_cases h1 : a1.res = TEEC_SUCCESS
  · by_cases h2 : a2.res = TEEC_SUCCESS
    · by_cases s1 : n1 = 45 <;> by_cases z1 : m1 = 0 <;> by_cases s2 : n2 = 45 <;>
      by_cases z2 : m2 = 0 <;> by_cases d : m3 = 0 <;>
      simp [ADBG_EXPECT_TEEC_SUCCESS, check_origin, ADBG_EXPECT_TEEC_ERROR_ORIGIN,
        h1, s1, z1, h2, s2, z2, d, ne2, ne3, ne4, ne5]
    · by_cases s1 : n1 = 45 <;> by_cases z1 : m1 = 0 <;> by_cases s2 : n2 = 45 <;>
      by_cases o2 : TEEC_ORIGIN_TRUSTED_APP = a2.ret_orig <;>
      simp [ADBG_EXPECT_TEEC_SUCCESS, check_origin, ADBG_EXPECT_TEEC_ERROR_ORIGIN,
        h1, s1, z1, h2, s2, o2, ne2, ne3, ne4, ne5]
  · by_cases s1 : n1 = 45 <;> by_cases o1 : TEEC_ORIGIN_TRUSTED_APP = a1.ret_orig <;>
    simp [ADBG_EXPECT_TEEC_SUCCESS, check_origin, ADBG_EXPECT_TEEC_ERROR_ORIGIN,
      h1, s1, o1, ne2, ne3, ne4, ne5]

/- Test functions: how a run proceeds -/

/-- A statement is skipped when control is not in the body. -/
theorem run_of_not_next {σ : Type} (w : World) (fuel : Nat) (s : Stmt σ) (st : Run σ)
    (h : st.flow ≠ Flow.next) : s.run w fuel st = st := by
  unfold Stmt.run
  cases hf : st.flow with
  | next => exact absurd hf h
  | out => rfl
  | spin => rfl

/-- The statements are skipped when control is not in the body. -/
theorem exec_of_not_next {σ : Type} (w : World) (fuel : Nat) (p : List (Stmt σ)) (st : Run σ)
    (h : st.flow ≠ Flow.next) : exec w fuel p st = st := by
  induction p with
  | nil => rfl
  | cons s rest ih => simp only [exec, run_of_not_next w fuel s st h, ih]

/-- Running two lists of statements in a row. -/
theorem exec_append {σ : Type} (w : World) (fuel : Nat) (p q : List (Stmt σ)) (st : Run σ) :
    exec w fuel (p ++ q) st = exec w fuel q (exec w fuel p st) := by
  induction p generalizing st with
  | nil => rfl
  | cons s rest ih => exact ih _

/-- A property kept by the body of every case is kept by the loop over the cases. -/
theorem exec_cases {σ κ : Type} (w : World) (fuel : Nat) (body : κ → List (Stmt σ))
    (P : Run σ → Prop) (hbody : ∀ cs st, P st → P (exec w fuel (body cs) st))
    (cases : List κ) (st : Run σ) (h : P st) : P (exec w fuel (cases.flatMap body) st) := by
  induction cases generalizing st with
  | nil => exact h
  | cons cs rest ih =>
    rw [List.flatMap_cons, exec_append]
    exact ih _ (hbody cs st h)

/-- A call keeps a run tidy. -/
theorem tidy_invoke_run {σ : Type} (w : World) (call : σ → TestCall) (store : σ → Reply → σ)
    (st : Run σ) (hn : st.flow = Flow.next) (h : st.Tidy) :
    (invoke_run w call store st).Tidy := by
  have hall := h.1 (by rw [hn]; decide)
  by_cases hr : (w st.calls).res = TEEC_SUCCESS
  · refine ⟨fun _ e he => ?_, fun ho => ?_⟩
    · simp only [invoke_run, List.mem_append, List.mem_singleton] at he
      rcases he with he | he
      · exact hall e he
      · rw [he]; exact hr
    · simp [invoke_run, ADBG_EXPECT_TEEC_SUCCESS, hr] at ho
  · refine ⟨fun ho => ?_, fun _ => ⟨st.log, _, rfl, hall, hr⟩⟩
    simp [invoke_run, ADBG_EXPECT_TEEC_SUCCESS, hr] at ho

/-- The flow after a call is in the body or at `out`. -/
theorem invoke_run_flow {σ : Type} (w : World) (call : σ → TestCall) (store : σ → Reply → σ)
    (st : Run σ) :
    (invoke_run w call store st).flow = Flow.next ∨
      (invoke_run w call store st).flow = Flow.out := by
  by_cases hr : (w st.calls).res = TEEC_SUCCESS <;>
    simp [invoke_run, ADBG_EXPECT_TEEC_SUCCESS, hr]

/-- A loop keeps a run tidy. -/
theorem tidy_loop_run {σ : Type} (w : World) (cond : σ → Bool) (call : σ → TestCall)
    (after : σ → σ) (leave : σ → Bool) (fuel : Nat) (st : Run σ)
    (hn : st.flow = Flow.next) (h : st.Tidy) :
    (loop_run w cond call after leave fuel st).Tidy := by
  induction fuel generalizing st with
  | zero =>
    unfold loop_run
    by_cases hc : cond st.vars = true
    · simp only [hc, if_true]
      exact ⟨fun _ => h.1 (by rw [hn]; decide), fun ho => by simp at ho⟩
    · simp only [hc]; exact h
  | succ n ih =>
    unfold loop_run
    by_cases hc : cond st.vars = true
    · simp only [hc, if_true]
      have ht := tidy_invoke_run w call (fun v _ => v) st hn h
      rcases invoke_run_flow w call (fun v _ => v) st with hf | hf
      · simp only [hf]
        by_cases hl : leave (after (invoke_run w call (fun v _ => v) st).vars) = true
        · simp only [hl, if_true]
          exact ⟨fun hx => ht.1 (by rw [hf]; decide), fun ho => by simp [hf] at ho⟩
        · simp only [hl]
          exact ih _ rfl ⟨fun hx => ht.1 (by rw [hf]; decide), fun ho => by simp [hf] at ho⟩
      · simp only [hf]; exact ht
    · simp only [hc]; exact h

/-- A statement keeps a run tidy. -/
theorem tidy_run {σ : Type} (w : World) (fuel : Nat) (s : Stmt σ) (st : Run σ)
    (h : st.Tidy) : (s.run w fuel st).Tidy := by
  by_cases hn : st.flow = Flow.next
  · unfold Stmt.run
    simp only [hn]
    cases s with
    | invoke call store => exact tidy_invoke_run w call store st hn h
    | assign f => exact ⟨fun _ => h.1 (by rw [hn]; decide), fun ho => by simp [hn] at ho⟩
    | expect check => exact ⟨fun _ => h.1 (by rw [hn]; decide), fun ho => by simp [hn] at ho⟩
    | loop cond call after leave => exact tidy_loop_run w cond call after leave fuel st hn h
  · rw [run_of_not_next w fuel s st hn]; exact h

/-- A list of statements keeps a run tidy. -/
theorem tidy_exec {σ : Type} (w : World) (fuel : Nat) (p : List (Stmt σ)) (st : Run σ)
    (h : st.Tidy) : (exec w fuel p st).Tidy := by
  induction p generalizing st with
  | nil => exact h
  | cons s rest ih => exact ih _ (tidy_run w fuel s st h)

/-- Where a list splits at an element without a property that all later elements and all
elements before a second mark have. -/
theorem split_unique {α : Type} (P : α → Prop) (a b a2 b2 : List α) (x y : α)
    (h : a ++ x :: b = a2 ++ y :: b2) (ha : ∀ z ∈ a2, P z) (hb : ∀ z ∈ b2, P z)
    (hx : ¬ P x) : a = a2 ∧ x = y ∧ b = b2 := by
  induction a generalizing a2 with
  | nil =>
    cases a2 with
    | nil =>
      simp only [List.nil_append, List.cons.injEq] at h
      exact ⟨rfl, h.1, h.2⟩
    | cons z t =>
      simp only [List.nil_append, List.cons_append, List.cons.injEq] at h
      exact absurd (h.1 ▸ ha z (List.mem_cons_self _ _)) hx
  | cons h0 t ih =>
    cases a2 with
    | nil =>
      simp only [List.nil_append, List.cons_append, List.cons.injEq] at h
      exact absurd (hb x (by rw [← h.2]; simp)) hx
    | cons z t2 =>
      simp only [List.cons_append, List.cons.injEq] at h
      obtain ⟨r1, r2, r3⟩ := ih t2 h.2 (fun z hz => ha z (List.mem_cons_of_mem _ hz))
      exact ⟨by rw [h.1, r1], r2, r3⟩

/-- In a test built by `run_cases`, no call other than closing the session follows a call
that failed. -/
theorem run_cases_after_failure {σ κ : Type} (w : World) (fuel : Nat) (cases : List κ)
    (body : κ → List (Stmt σ)) (init : σ) (c : ADBG_Case_t)
    (pre post : List (TestCall × Reply)) (e : TestCall × Reply)
    (hlog : (run_cases w fuel cases body init TEEC_SUCCESS c).log = pre ++ e :: post)
    (he : e.2.res ≠ TEEC_SUCCESS) : calls_of post = [TestCall.close_session] := by
  have h0 : (⟨init, c, [], 0, Flow.next⟩ : Run σ).Tidy :=
    ⟨fun _ e he => by simp at he, fun ho => by simp at ho⟩
  have ht := tidy_exec w fuel (cases.flatMap body) _ h0
  simp only [run_cases, ADBG_EXPECT_TEEC_SUCCESS, if_true, not_true_eq_false, if_false]
    at hlog
  generalize exec w fuel (cases.flatMap body) ⟨init, c, [], 0, Flow.next⟩ = r at ht hlog
  unfold at_out at hlog
  cases hf : r.flow with
  | next =>
    simp only [hf] at hlog
    have hall := ht.1 (by rw [hf]; decide)
    have : e ∈ r.log ++ [(TestCall.close_session, Reply.nothing)] := by rw [hlog]; simp
    simp only [List.mem_append, List.mem_singleton] at this
    rcases this with h1 | h1
    · exact absurd (hall e h1) he
    · rw [h1] at he; exact absurd rfl he
  | spin =>
    simp only [hf] at hlog
    have hall := ht.1 (by rw [hf]; decide)
    exact absurd (hall e (by rw [hlog]; simp)) he
  | out =>
    simp only [hf] at hlog
    obtain ⟨p0, e0, hp, hall, _⟩ := ht.2 hf
    rw [hp, List.append_assoc] at hlog
    have := split_unique (fun z : TestCall × Reply => z.2.res = TEEC_SUCCESS) pre post p0
      [(TestCall.close_session, Reply.nothing)] e e0 hlog.symm hall
      (fun z hz => by simp at hz; rw [hz]; rfl) he
    rw [this.2.2]; rfl

/-- A call adds to the log. -/
theorem invoke_run_log {σ : Type} (w : World) (call : σ → TestCall) (store : σ → Reply → σ)
    (st : Run σ) : ∃ ext, (invoke_run w call store st).log = st.log ++ ext :=
  ⟨_, rfl⟩

/-- A loop adds to the log. -/
theorem loop_run_log {σ : Type} (w : World) (cond : σ → Bool) (call : σ → TestCall)
    (after : σ → σ) (leave : σ → Bool) (fuel : Nat) (st : Run σ) :
    ∃ ext, (loop_run w cond call after leave fuel st).log = st.log ++ ext := by
  induction fuel generalizing st with
  | zero =>
    unfold loop_run
    by_cases hc : cond st.vars = true
    · exact ⟨[], by simp [hc]⟩
    · exact ⟨[], by simp [hc]⟩
  | succ n ih =>
    unfold loop_run
    by_cases hc : cond st.vars = true
    · simp only [hc, if_true]
      rcases invoke_run_flow w call (fun v _ => v) st with hf | hf
      · simp only [hf]
        by_cases hl : leave (after (invoke_run w call (fun v _ => v) st).vars) = true
        · simp only [hl, if_true]
          exact ⟨_, rfl⟩
        · simp only [hl, Bool.false_eq_true, if_false]
          obtain ⟨ext, he⟩ := ih ⟨after (invoke_run w call (fun v _ => v) st).vars,
            (invoke_run w call (fun v _ => v) st).c, (invoke_run w call (fun v _ => v) st).log,
            (invoke_run w call (fun v _ => v) st).calls, Flow.next⟩
          exact ⟨[(call st.vars, w st.calls)] ++ ext, by rw [he]; simp [invoke_run]⟩
      · simp only [hf]; exact ⟨_, rfl⟩
    · exact ⟨[], by simp [hc]⟩

/-- A statement adds to the log. -/
theorem run_log {σ : Type} (w : World) (fuel : Nat) (s : Stmt σ) (st : Run σ) :
    ∃ ext, (s.run w fuel st).log = st.log ++ ext := by
  by_cases hn : st.flow = Flow.next
  · unfold Stmt.run
    simp only [hn]
    cases s with
    | invoke call store => exact invoke_run_log w call store st
    | assign f => exact ⟨[], by simp⟩
    | expect check => exact ⟨[], by simp⟩
    | loop cond call after leave => exact loop_run_log w cond call after leave fuel st
  · rw [run_of_not_next w fuel s st hn]; exact ⟨[], by simp⟩

/-- A list of statements adds to the log. -/
theorem exec_log {σ : Type} (w : World) (fuel : Nat) (p : List (Stmt σ)) (st : Run σ) :
    ∃ ext, (exec w fuel p st).log = st.log ++ ext := by
  induction p generalizing st with
  | nil => exact ⟨[], by simp [exec]⟩
  | cons s rest ih =>
    obtain ⟨e1, h1⟩ := run_log w fuel s st
    obtain ⟨e2, h2⟩ := ih (s.run w fuel st)
    exact ⟨e1 ++ e2, by simp only [exec, h2, h1, List.append_assoc]⟩

/-- The label `out` adds to the log. -/
theorem at_out_log {σ : Type} (st : Run σ) : ∃ ext, (at_out st).log = st.log ++ ext := by
  unfold at_out
  cases st.flow with
  | next => exact ⟨_, rfl⟩
  | out => exact ⟨_, rfl⟩
  | spin => exact ⟨[], by simp⟩

/-- A test built by `run_cases` with a first case starts with the calls of that case. -/
theorem run_cases_first {σ κ : Type} (w : World) (fuel : Nat) (cs : κ) (rest : List κ)
    (body : κ → List (Stmt σ)) (init : σ) (c : ADBG_Case_t) :
    ∃ ext, (run_cases w fuel (cs :: rest) body init TEEC_SUCCESS c).log =
      (exec w fuel (body cs) ⟨init, c, [], 0, Flow.next⟩).log ++ ext := by
  simp only [run_cases, ADBG_EXPECT_TEEC_SUCCESS, if_true, not_true_eq_false, if_false,
    List.flatMap_cons, exec_append]
  obtain ⟨e1, h1⟩ := exec_log w fuel (rest.flatMap body)
    (exec w fuel (body cs) ⟨init, c, [], 0, Flow.next⟩)
  obtain ⟨e2, h2⟩ := at_out_log (exec w fuel (rest.flatMap body)
    (exec w fuel (body cs) ⟨init, c, [], 0, Flow.next⟩))
  exact ⟨e1 ++ e2, by rw [h2, h1, List.append_assoc]⟩

/-- A call statement run in the body. -/
theorem run_invoke_next {σ : Type} (w : World) (fuel : Nat) (call : σ → TestCall)
    (store : σ → Reply → σ) (v : σ) (c : ADBG_Case_t) (log : List (TestCall × Reply))
    (calls : Nat) :
    (Stmt.invoke call store).run w fuel ⟨v, c, log, calls, Flow.next⟩ =
      invoke_run w call store ⟨v, c, log, calls, Flow.next⟩ := rfl

/-- An assignment run in the body. -/
theorem run_assign_next {σ : Type} (w : World) (fuel : Nat) (f : σ → σ) (v : σ)
    (c : ADBG_Case_t) (log : List (TestCall × Reply)) (calls : Nat) :
    (Stmt.assign f).run w fuel ⟨v, c, log, calls, Flow.next⟩ =
      ⟨f v, c, log, calls, Flow.next⟩ := rfl

/-- A recording check run in the body. -/
theorem run_expect_next {σ : Type} (w : World) (fuel : Nat)
    (check : σ → ADBG_Case_t → ADBG_Case_t) (v : σ) (c : ADBG_Case_t)
    (log : List (TestCall × Reply)) (calls : Nat) :
    (Stmt.expect check).run w fuel ⟨v, c, log, calls, Flow.next⟩ =
      ⟨v, check v c, log, calls, Flow.next⟩ := rfl

/-- A statement met while control is inside a loop is not run. -/
theorem run_spin {σ : Type} (w : World) (fuel : Nat) (s : Stmt σ) (v : σ) (c : ADBG_Case_t)
    (log : List (TestCall × Reply)) (calls : Nat) :
    s.run w fuel ⟨v, c, log, calls, Flow.spin⟩ = ⟨v, c, log, calls, Flow.spin⟩ := rfl

/- Test 4001: hash operations -/

/-- Live handles over two logs in a row. -/
theorem audit_append (k : Kind) (nf : Bool) (l1 l2 : List (TestCall × Reply))
    (live : List Nat) :
    audit k nf (l1 ++ l2) live = (audit k nf l1 live).bind (audit k nf l2) := by
  induction l1 generalizing live with
  | nil => rfl
  | cons e rest ih =>
    obtain ⟨call, r⟩ := e
    have ih2 : ∀ live, audit k nf (List.append rest l2) live =
        (audit k nf rest live).bind (audit k nf l2) := ih
    simp only [List.cons_append, audit, ih2]
    split_ifs <;> try rfl
    cases call.frees k with
    | none => rfl
    | some h => simp only []; split_ifs <;> rfl

/-- The body of a hash case on a run where every call succeeds: the calls it makes. -/
theorem hash_case_body_log (w : World) (hw : AllSucceed w) (cs : xtest_hash_case)
    (st : Run Vars4001) (hn : st.flow = Flow.next) :
    (exec w 0 (hash_case_body cs) st).flow = Flow.next ∧
    (exec w 0 (hash_case_body cs) st).calls = st.calls + 10 ∧
    (exec w 0 (hash_case_body cs) st).log = st.log ++
      [ (TestCall.allocate_operation cs.algo TEE_MODE_DIGEST 0, w st.calls),
        (TestCall.allocate_operation cs.algo TEE_MODE_DIGEST 0, w (st.calls + 1)),
        (TestCall.digest_update (w st.calls).handle cs.in_ cs.in_incr, w (st.calls + 2)),
        (TestCall.copy_operation (w (st.calls + 1)).handle (w st.calls).handle,
          w (st.calls + 3)),
        (TestCall.digest_do_final (w (st.calls + 1)).handle (ptr_add cs.in_ cs.in_incr)
          (size_sub cs.in_len cs.in_incr) 64, w (st.calls + 4)),
        (TestCall.reset_operation (w st.calls).handle, w (st.calls + 5)),
        (TestCall.digest_do_final (w st.calls).handle cs.in_ cs.in_len 64, w (st.calls + 6)),
        (TestCall.digest_do_final (w st.calls).handle cs.in_ cs.in_len 64, w (st.calls + 7)),
        (TestCall.free_operation (w st.calls).handle, w (st.calls + 8)),
        (TestCall.free_operation (w (st.calls + 1)).handle, w (st.calls + 9)) ] := by
  obtain ⟨vars, c, log, calls, flow⟩ := st
  simp only at hn
  subst hn
  have hw2 : ∀ k, (w k).res = TEEC_SUCCESS := hw
  simp [hash_case_body, exec, Stmt.run, invoke_run, ADBG_EXPECT_TEEC_SUCCESS, hw2,
    Vars4001.clear_out, Vars4001.store_out]

/-- The body of a hash case on a run where every call succeeds leaves the live operation
handles as they were. -/
theorem hash_case_body_audit (w : World) (hw : AllSucceed w) (cs : xtest_hash_case)
    (st : Run Vars4001)
    (h : st.flow = Flow.next ∧ audit Kind.operation false st.log [] = some []) :
    (exec w 0 (hash_case_body cs) st).flow = Flow.next ∧
      audit Kind.operation false (exec w 0 (hash_case_body cs) st).log [] = some [] := by
  obtain ⟨hf, _, hlog⟩ := hash_case_body_log w hw cs st h.1
  refine ⟨hf, ?_⟩
  have hw0 := hw st.calls
  have hw1 := hw (st.calls + 1)
  rw [hlog, audit_append, h.2]
  by_cases hh : (w (st.calls + 1)).handle = (w st.calls).handle <;>
    simp [audit, TestCall.allocates, TestCall.frees, hw0, hw1, hh]

/-- C11 as stated fails: when the digest update of the first case fails, the two operation
handles allocated before it (1 and 2) are live, the test goes to `out`, and the only call
that follows is the closing of the session. -/
theorem handles_left_on_failure :
    calls_of (xtest_tee_test_4001 (failing_at numbering_world 2 TEEC_ERROR_OUT_OF_MEMORY)
        TEEC_SUCCESS fresh_case).log =
      [ TestCall.allocate_operation TEE_ALG_MD5 TEE_MODE_DIGEST 0,
        TestCall.allocate_operation TEE_ALG_MD5 TEE_MODE_DIGEST 0,
        TestCall.digest_update 1 (some hash_data_md5_in1) 6,
        TestCall.close_session ] ∧
    audit Kind.operation false
      (xtest_tee_test_4001 (failing_at numbering_world 2 TEEC_ERROR_OUT_OF_MEMORY)
        TEEC_SUCCESS fresh_case).log.dropLast [] = some [2, 1] ∧
    audit Kind.operation false
      (xtest_tee_test_4001 (failing_at numbering_world 2 TEEC_ERROR_OUT_OF_MEMORY)
        TEEC_SUCCESS fresh_case).log [] = none := by
  set_option maxRecDepth 100000 in decide

/-- C11 (amended): in test 4001 with its session open, on a run where every command succeeds
every operation handle that was allocated is freed exactly once and none is live when the
session is closed, which is the last call; and on every run, no call other than the
closing of the session follows a command that failed, so that what was allocated before
the failure is not freed by the test. -/
theorem operation_handles_freed (w : World) (c : ADBG_Case_t) :
    (AllSucceed w →
      audit Kind.operation false (xtest_tee_test_4001 w TEEC_SUCCESS c).log [] = some [] ∧
      (xtest_tee_test_4001 w TEEC_SUCCESS c).log.getLast? =
        some (TestCall.close_session, Reply.nothing)) ∧
    ∀ pre e post, (xtest_tee_test_4001 w TEEC_SUCCESS c).log = pre ++ e :: post →
      e.2.res ≠ TEEC_SUCCESS → calls_of post = [TestCall.close_session] := by
  refine ⟨fun hw => ?_, fun pre e post hlog he =>
    run_cases_after_failure w 0 hash_cases hash_case_body Vars4001.init c pre post e hlog he⟩
  have h := exec_cases w 0 hash_case_body
    (fun st => st.flow = Flow.next ∧ audit Kind.operation false st.log [] = some [])
    (fun cs st hst => hash_case_body_audit w hw cs st hst) hash_cases
    ⟨Vars4001.init, c, [], 0, Flow.next⟩ ⟨rfl, rfl⟩
  simp only [xtest_tee_test_4001, run_cases, ADBG_EXPECT_TEEC_SUCCESS, if_true,
    not_true_eq_false, if_false]
  generalize exec w 0 (hash_cases.flatMap hash_case_body) ⟨Vars4001.init, c, [], 0, Flow.next⟩
    = r at h
  unfold at_out
  simp only [h.1]
  refine ⟨?_, by simp⟩
  rw [audit_append, h.2]
  rfl

/-- C11 (amended), in the world where every call succeeds and the k-th call hands back the
handle k + 1, and in the world where the third call fails. -/
theorem operation_handles_freed_witness :
    AllSucceed numbering_world ∧
    audit Kind.operation false
      (xtest_tee_test_4001 numbering_world TEEC_SUCCESS fresh_case).log [] = some [] ∧
    calls_of ((xtest_tee_test_4001 (failing_at numbering_world 2 TEEC_ERROR_OUT_OF_MEMORY)
      TEEC_SUCCESS fresh_case).log.drop 3) = [TestCall.close_session] :=
  ⟨fun _ => rfl,
   ((operation_handles_freed numbering_world fresh_case).1 (fun _ => rfl)).1,
   (operation_handles_freed (failing_at numbering_world 2 TEEC_ERROR_OUT_OF_MEMORY)
      fresh_case).2
      ((xtest_tee_test_4001 (failing_at numbering_world 2 TEEC_ERROR_OUT_OF_MEMORY)
        TEEC_SUCCESS fresh_case).log.take 2)
      (TestCall.digest_update 1 (some hash_data_md5_in1) 6,
        ⟨TEEC_ERROR_OUT_OF_MEMORY, 3, [], 0⟩)
      ((xtest_tee_test_4001 (failing_at numbering_world 2 TEEC_ERROR_OUT_OF_MEMORY)
        TEEC_SUCCESS fresh_case).log.drop 3)
      (by set_option maxRecDepth 100000 in decide) (by decide)⟩

/-- The body of a hash case on a run where every call succeeds: the checks it makes. -/
theorem hash_case_body_checks (w : World) (hw : AllSucceed w) (cs : xtest_hash_case)
    (st : Run Vars4001) (hn : st.flow = Flow.next) :
    (exec w 0 (hash_case_body cs) st).c =
      (ADBG_EXPECT_BUFFER
        (ADBG_EXPECT_BUFFER
          (ADBG_EXPECT_BUFFER st.c cs.out cs.out_len
            (written (List.replicate 64 0) (some (w (st.calls + 4)).out))
            (w (st.calls + 4)).out_size).2
          cs.out cs.out_len
          (written (List.replicate 64 0) (some (w (st.calls + 6)).out))
          (w (st.calls + 6)).out_size).2
        cs.out cs.out_len
        (written (List.replicate 64 0) (some (w (st.calls + 7)).out))
        (w (st.calls + 7)).out_size).2 := by
  obtain ⟨vars, c, log, calls, flow⟩ := st
  simp only at hn
  subst hn
  have hw2 : ∀ k, (w k).res = TEEC_SUCCESS := hw
  simp [hash_case_body, exec, Stmt.run, invoke_run, ADBG_EXPECT_TEEC_SUCCESS, hw2,
    Vars4001.clear_out, Vars4001.store_out]

/-- The buffer check records a failure exactly when the lengths or the bytes differ. -/
theorem expect_buffer_passes (c : ADBG_Case_t) (e : Ptr) (el : Nat) (a : List Nat) (al : Nat) :
    (ADBG_EXPECT_BUFFER c e el a al).2 =
      if el = al ∧ chunk e el = a.take al then c
      else ⟨Failure.buffer (chunk e el) (a.take al) :: c.failures⟩ := by
  unfold ADBG_EXPECT_BUFFER
  simp only []
  split_ifs <;> rfl

/-- C13 as stated fails: the one MD5 entry of the table is the first entry, its input is the
11 bytes of "cdefghijklm", not the 13 bytes of "abcdefghijklm", and with 6 bytes for the
update 5 bytes are left for the do-final. -/
theorem md5_input_is_eleven_bytes :
    hash_cases.filter (fun cs => cs.algo = TEE_ALG_MD5) = hash_cases.take 1 ∧
    (hash_cases.take 1).map (fun cs => (cs.in_incr, cs.in_, cs.in_len)) =
      [(6, some (ascii "cdefghijklm"), 11)] ∧
    ascii "cdefghijklm" ≠ ascii "abcdefghijklm" ∧
    (11 : Nat) ≠ 13 ∧
    (hash_cases.take 1).map (fun cs => size_sub cs.in_len cs.in_incr) = [5] ∧
    (5 : Nat) ≠ 7 := by
  decide

/-- C13 (amended): the one MD5 entry of the hash table, the first, carries the 11 bytes of
"cdefghijklm", the increment 6 and the 16 expected bytes 61 12 71 83 70 8d 3a c7 f1 9b 66
06 fc ae 7d f6.  On a run of test 4001 where every command succeeds, the first five calls
are the two allocations, a digest update on the first operation with the 6 bytes
"cdefgh", the copy to the second operation, and a digest do-final on the second operation
with the 5 bytes "ijklm"; and the MD5 case records no failure exactly when each of its
three do-final calls leaves 16 bytes that are the expected ones. -/
theorem md5_case_feeding (w : World) (c : ADBG_Case_t) (hw : AllSucceed w) :
    hash_cases.filter (fun cs => cs.algo = TEE_ALG_MD5) = hash_cases.take 1 ∧
    hash_cases.take 1 =
      [ ⟨TEE_ALG_MD5, 6, some (ascii "cdefghijklm"), 11,
          some [0x61, 0x12, 0x71, 0x83, 0x70, 0x8d, 0x3a, 0xc7,
                0xf1, 0x9b, 0x66, 0x06, 0xfc, 0xae, 0x7d, 0xf6], 16⟩ ] ∧
    (∃ p1 p2, calls_of ((xtest_tee_test_4001 w TEEC_SUCCESS c).log.take 5) =
      [ TestCall.allocate_operation TEE_ALG_MD5 TEE_MODE_DIGEST 0,
        TestCall.allocate_operation TEE_ALG_MD5 TEE_MODE_DIGEST 0,
        TestCall.digest_update (w 0).handle p1 6,
        TestCall.copy_operation (w 1).handle (w 0).handle,
        TestCall.digest_do_final (w 1).handle p2 5 64 ] ∧
      p1 = some (ascii "cdefghijklm") ∧ chunk p1 6 = ascii "cdefgh" ∧
      p2 = some (ascii "ijklm") ∧ chunk p2 5 = ascii "ijklm" ∧
      chunk p1 6 ++ chunk p2 5 = ascii "cdefghijklm") ∧
    ∀ cs ∈ hash_cases.take 1,
      ((exec w 0 (hash_case_body cs) ⟨Vars4001.init, c, [], 0, Flow.next⟩).c = c ↔
        ∀ k ∈ [4, 6, 7], (w k).out_size = 16 ∧
          (written (List.replicate 64 0) (some (w k).out)).take 16 =
            [0x61, 0x12, 0x71, 0x83, 0x70, 0x8d, 0x3a, 0xc7,
             0xf1, 0x9b, 0x66, 0x06, 0xfc, 0xae, 0x7d, 0xf6]) := by
  refine ⟨by decide, by decide, ?_, ?_⟩
  · refine ⟨some (ascii "cdefghijklm"), some (ascii "ijklm"), ?_, rfl, by decide, rfl,
      by decide, by decide⟩
    have hc : hash_cases = XTEST_HASH_CASE TEE_ALG_MD5 6 hash_data_md5_in1 hash_data_md5_out1
      :: hash_cases.tail := rfl
    obtain ⟨ext, he⟩ := run_cases_first w 0
      (XTEST_HASH_CASE TEE_ALG_MD5 6 hash_data_md5_in1 hash_data_md5_out1) hash_cases.tail
      hash_case_body Vars4001.init c
    obtain ⟨_, _, hl⟩ := hash_case_body_log w hw
      (XTEST_HASH_CASE TEE_ALG_MD5 6 hash_data_md5_in1 hash_data_md5_out1)
      ⟨Vars4001.init, c, [], 0, Flow.next⟩ rfl
    rw [xtest_tee_test_4001, hc, he, hl]
    simp only [List.nil_append, List.cons_append, List.take_succ_cons, List.take_zero,
      calls_of, List.map_cons, List.map_nil, Nat.zero_add]
    have e1 : (XTEST_HASH_CASE TEE_ALG_MD5 6 hash_data_md5_in1 hash_data_md5_out1).in_ =
      some (ascii "cdefghijklm") := by decide
    have e2 : ptr_add (XTEST_HASH_CASE TEE_ALG_MD5 6 hash_data_md5_in1 hash_data_md5_out1).in_
        (XTEST_HASH_CASE TEE_ALG_MD5 6 hash_data_md5_in1 hash_data_md5_out1).in_incr =
      some (ascii "ijklm") := by decide
    have e3 : size_sub (XTEST_HASH_CASE TEE_ALG_MD5 6 hash_data_md5_in1
        hash_data_md5_out1).in_len
        (XTEST_HASH_CASE TEE_ALG_MD5 6 hash_data_md5_in1 hash_data_md5_out1).in_incr = 5 := by
      decide
    rw [e2, e3, e1]
    rfl
  · intro cs hcs
    have hcs2 : cs = XTEST_HASH_CASE TEE_ALG_MD5 6 hash_data_md5_in1 hash_data_md5_out1 := by
      simpa [hash_cases] using hcs
    subst hcs2
    rw [hash_case_body_checks w hw _ _ rfl]
    simp only [expect_buffer_passes, Nat.zero_add]
    have o1 : (XTEST_HASH_CASE TEE_ALG_MD5 6 hash_data_md5_in1 hash_data_md5_out1).out_len = 16 :=
      rfl
    have o2 : chunk (XTEST_HASH_CASE TEE_ALG_MD5 6 hash_data_md5_in1 hash_data_md5_out1).out 16
      = [0x61, 0x12, 0x71, 0x83, 0x70, 0x8d, 0x3a, 0xc7,
         0xf1, 0x9b, 0x66, 0x06, 0xfc, 0xae, 0x7d, 0xf6] := by decide
    rw [o1, o2]
    simp only [List.mem_cons, List.mem_singleton, forall_eq_or_imp, forall_eq,
      List.not_mem_nil, false_imp_iff, implies_true, and_true]
    generalize written (List.replicate 64 0) (some (w 4).out) = b4
    generalize written (List.replicate 64 0) (some (w 6).out) = b6
    generalize written (List.replicate 64 0) (some (w 7).out) = b7
    generalize (w 4).out_size = n4
    generalize (w 6).out_size = n6
    generalize (w 7).out_size = n7
    generalize [0x61, 0x12, 0x71, 0x83, 0x70, 0x8d, 0x3a, 0xc7,
      0xf1, 0x9b, 0x66, 0x06, 0xfc, 0xae, 0x7d, 0xf6] = D
    have hq : ∀ (n : Nat) (b : List Nat),
        (16 = n ∧ D = List.take n b) ↔ (n = 16 ∧ List.take 16 b = D) := by
      intro n b
      constructor
      · rintro ⟨rfl, h⟩; exact ⟨rfl, h.symm⟩
      · rintro ⟨rfl, h⟩; exact ⟨rfl, h.symm⟩
    simp only [hq]
    obtain ⟨fs⟩ := c
    have ne1 := fun (x1 : Failure) => List.cons_ne_self x1 fs
    have ne2 := fun (x1 x2 : Failure) => (cons_chain_ne_self x1 x2 x1 x1 x1 fs).1
    have ne3 := fun (x1 x2 x3 : Failure) => (cons_chain_ne_self x1 x2 x3 x1 x1 fs).2.1
    by_cases h4 : n4 = 16 ∧ List.take 16 b4 = D <;>
    by_cases h6 : n6 = 16 ∧ List.take 16 b6 = D <;>
    by_cases h7 : n7 = 16 ∧ List.take 16 b7 = D <;>
    simp only [h4, h6, h7, if_true, if_false, ADBG_Case_t.mk.injEq, ne1, ne2, ne3,
      and_self, and_true, true_and, and_false, false_and]

/-- C13 (amended), in the world where every call succeeds and the k-th call hands back the
handle k + 1. -/
theorem md5_case_feeding_witness :
    AllSucceed numbering_world ∧
    calls_of ((xtest_tee_test_4001 numbering_world TEEC_SUCCESS fresh_case).log.take 5) =
      [ TestCall.allocate_operation TEE_ALG_MD5 TEE_MODE_DIGEST 0,
        TestCall.allocate_operation TEE_ALG_MD5 TEE_MODE_DIGEST 0,
        TestCall.digest_update 1 (some (ascii "cdefghijklm")) 6,
        TestCall.copy_operation 2 1,
        TestCall.digest_do_final 2 (some (ascii "ijklm")) 5 64 ] :=
  ⟨fun _ => rfl, by
    obtain ⟨p1, p2, h, rfl, _, rfl, _⟩ :=
      (md5_case_feeding numbering_world fresh_case (fun _ => rfl)).2.2.1
    exact h⟩

/- Test 4002: MAC operations -/

/-- The turns due at an offset from which the loop goes on. -/
theorem updates_due_step (cs : xtest_mac_case) (o : Nat) (hm : cs.multiple_incr = true)
    (hi : 1 ≤ cs.in_incr) (h : o + cs.in_incr < cs.in_len) :
    updates_due cs o = updates_due cs (o + cs.in_incr) + 1 := by
  unfold updates_due
  simp only [hm, if_true]
  have : cs.in_len - 1 - o = (cs.in_len - 1 - (o + cs.in_incr)) + cs.in_incr := by omega
  rw [this, Nat.add_div_right _ hi]

/-- No turn is due at an offset at which the loop stops. -/
theorem updates_due_stop (cs : xtest_mac_case) (o : Nat)
    (hi : 1 ≤ cs.in_incr) (h : ¬ o + cs.in_incr < cs.in_len) : updates_due cs o = 0 := by
  unfold updates_due
  by_cases hm : cs.multiple_incr = true
  · simp only [hm, if_true]
    exact Nat.div_eq_of_lt (by omega)
  · simp [hm, h]

/-- The loop of updates on a run where every call succeeds, with enough turns allowed: it
ends in the body, after the turns that are due. -/
theorem mac_update_loop_run (w : World) (hw : AllSucceed w) (cs : xtest_mac_case)
    (hi : 1 ≤ cs.in_incr) (hwrap : cs.in_len + cs.in_incr < SIZE_MOD) (fuel : Nat)
    (v : Vars4002) (c : ADBG_Case_t) (log : List (TestCall × Reply)) (calls : Nat)
    (ho : v.offs ≤ cs.in_len) (hfuel : cs.in_len - v.offs ≤ fuel) :
    (mac_update_loop cs).run w fuel ⟨v, c, log, calls, Flow.next⟩ =
      ⟨{ v with offs := v.offs + updates_due cs v.offs * cs.in_incr }, c,
        log ++ update_entries w v.op1 cs (updates_due cs v.offs) v.offs calls,
        calls + updates_due cs v.offs, Flow.next⟩ := by
  simp only [Stmt.run, mac_update_loop]
  induction fuel generalizing v log calls with
  | zero =>
    have hc : ¬ size_add v.offs cs.in_incr < cs.in_len := by
      unfold size_add; rw [Nat.mod_eq_of_lt (by omega)]; omega
    have hc2 : ¬ v.offs + cs.in_incr < cs.in_len := by omega
    simp [loop_run, hc, updates_due_stop cs v.offs hi hc2, update_entries]
  | succ n ih =>
    have hs : size_add v.offs cs.in_incr = v.offs + cs.in_incr := by
      unfold size_add; rw [Nat.mod_eq_of_lt (by omega)]
    by_cases hc : v.offs + cs.in_incr < cs.in_len
    · have hw0 := hw calls
      by_cases hm : cs.multiple_incr = true
      · have := ih { v with offs := v.offs + cs.in_incr }
          (log ++ [(TestCall.mac_update v.op1 (ptr_add cs.in_ v.offs) cs.in_incr, w calls)])
          (calls + 1) (by simp only []; omega) (by simp only []; omega)
        simp only [hm, Bool.not_true] at this
        simp only [loop_run, hs, hc, invoke_run, ADBG_EXPECT_TEEC_SUCCESS, hw0, hm,
          decide_True, if_true, Bool.not_true, Bool.false_eq_true, if_false, this,
          updates_due_step cs v.offs hm hi hc, update_entries, List.append_assoc,
          List.singleton_append, Run.mk.injEq, Vars4002.mk.injEq, true_and, and_true]
        constructor <;> ring
      · have hk : updates_due cs v.offs = 1 := by simp [updates_due, hm, hc]
        simp [loop_run, hs, hc, invoke_run, ADBG_EXPECT_TEEC_SUCCESS, hw0, hm, hk,
          update_entries]
    · simp [loop_run, hs, hc, updates_due_stop cs v.offs hi hc, update_entries]

/-- The body of a MAC case on a run where every call succeeds, with enough turns allowed to
the loop: it ends in the body, after the calls listed by `mac_case_entries`, with as many
updates as are due when there is an input and none when the input is null. -/
theorem mac_case_body_log (w : World) (hw : AllSucceed w) (cs : xtest_mac_case) (fuel : Nat)
    (hin : cs.in_ ≠ none → 1 ≤ cs.in_incr ∧ cs.in_len + cs.in_incr < SIZE_MOD ∧
      cs.in_len ≤ fuel)
    (st : Run Vars4002) (hn : st.flow = Flow.next) :
    (exec w fuel (mac_case_body cs) st).flow = Flow.next ∧
    (exec w fuel (mac_case_body cs) st).log = st.log ++
      mac_case_entries w cs (if cs.in_ ≠ none then updates_due cs 0 else 0) st.calls := by
  obtain ⟨vars, c, log, calls, flow⟩ := st
  simp only at hn
  subst hn
  have hw2 : ∀ k, (w k).res = TEEC_SUCCESS := hw
  by_cases hnull : cs.in_ ≠ none
  · obtain ⟨hi, hwrap, hfuel⟩ := hin hnull
    have hloop := fun v c log calls (ho : v.offs = 0) =>
      mac_update_loop_run w hw cs hi hwrap fuel v c log calls (by omega) (by omega)
    by_cases hdes : cs.key_type = TEE_TYPE_DES ∨ cs.key_type = TEE_TYPE_DES3 <;>
    simp [mac_case_body, mac_case_setup, mac_case_updates, mac_case_finish, exec, run_invoke_next, run_assign_next, run_expect_next,
      invoke_run, ADBG_EXPECT_TEEC_SUCCESS, hw2, hloop,
      Vars4002.clear_out, Vars4002.store_out, hnull, hdes, mac_case_entries, mac_key_size]
  · by_cases hdes : cs.key_type = TEE_TYPE_DES ∨ cs.key_type = TEE_TYPE_DES3 <;>
    simp [mac_case_body, mac_case_setup, mac_case_updates, mac_case_finish, exec, run_invoke_next, run_assign_next, run_expect_next,
      invoke_run, ADBG_EXPECT_TEEC_SUCCESS, hw2,
      Vars4002.clear_out, Vars4002.store_out, hnull, hdes, mac_case_entries, mac_key_size,
      update_entries]

/-- C14: entry 34 of the MAC table is an AES-CMAC case with the 16-byte key 2b7e1516 28aed2a6
abf71588 09cf4f3c, a null input of length zero and the 16 expected bytes bb1d6929 e9593728
7fa37d12 9b756746.  For this case, on a run where every command succeeds, the body of test
4002 makes thirteen calls, none of them a MAC update: after the MAC init on the first
operation comes at once the copy to the second operation, then MAC final-compute on the
second operation with a null chunk of length zero, MAC init on the first operation, and
MAC final-compute on the first operation with a null chunk of length zero. -/
theorem cmac_empty_message (w : World) (fuel : Nat) (st : Run Vars4002) (hw : AllSucceed w)
    (hn : st.flow = Flow.next) :
    mac_cases[34]? = some (cmac_no_input mac_cmac_vect1_key mac_cmac_vect1_out) ∧
    cmac_no_input mac_cmac_vect1_key mac_cmac_vect1_out =
      ⟨TEE_ALG_AES_CMAC, TEE_TYPE_AES,
        some [0x2b, 0x7e, 0x15, 0x16, 0x28, 0xae, 0xd2, 0xa6,
              0xab, 0xf7, 0x15, 0x88, 0x09, 0xcf, 0x4f, 0x3c], 16,
        0, none, 0,
        some [0xbb, 0x1d, 0x69, 0x29, 0xe9, 0x59, 0x37, 0x28,
              0x7f, 0xa3, 0x7d, 0x12, 0x9b, 0x75, 0x67, 0x46], 16, false⟩ ∧
    ∃ new,
      (exec w fuel (mac_case_body (cmac_no_input mac_cmac_vect1_key mac_cmac_vect1_out))
        st).log = st.log ++ new ∧
      update_chunks new = [] ∧
      calls_of new =
        [ TestCall.allocate_operation TEE_ALG_AES_CMAC TEE_MODE_MAC 128,
          TestCall.allocate_operation TEE_ALG_AES_CMAC TEE_MODE_MAC 128,
          TestCall.allocate_transient_object TEE_TYPE_AES 128,
          TestCall.populate_transient_object (w (st.calls + 2)).handle
            [⟨TEE_ATTR_SECRET_VALUE, some mac_cmac_vect1_key, 16⟩],
          TestCall.set_operation_key (w st.calls).handle (w (st.calls + 2)).handle,
          TestCall.free_transient_object (w (st.calls + 2)).handle,
          TestCall.mac_init (w st.calls).handle none 0,
          TestCall.copy_operation (w (st.calls + 1)).handle (w st.calls).handle,
          TestCall.mac_final_compute (w (st.calls + 1)).handle none 0 64,
          TestCall.mac_init (w st.calls).handle none 0,
          TestCall.mac_final_compute (w st.calls).handle none 0 64,
          TestCall.free_operation (w st.calls).handle,
          TestCall.free_operation (w (st.calls + 1)).handle ] := by
  refine ⟨by decide, by decide, _, (mac_case_body_log w hw _ fuel
    (fun h => absurd rfl h) st hn).2, ?_, ?_⟩
  · simp [mac_case_entries, update_entries, update_chunks, cmac_no_input]
  · have hk : mac_key_size (cmac_no_input mac_cmac_vect1_key mac_cmac_vect1_out) = 128 := by
      decide
    have f1 : (cmac_no_input mac_cmac_vect1_key mac_cmac_vect1_out).algo = TEE_ALG_AES_CMAC :=
      rfl
    have f2 : (cmac_no_input mac_cmac_vect1_key mac_cmac_vect1_out).key_type = TEE_TYPE_AES :=
      rfl
    have f3 : (cmac_no_input mac_cmac_vect1_key mac_cmac_vect1_out).key =
      some mac_cmac_vect1_key := rfl
    have f4 : (cmac_no_input mac_cmac_vect1_key mac_cmac_vect1_out).key_len = 16 := rfl
    have f5 : (cmac_no_input mac_cmac_vect1_key mac_cmac_vect1_out).in_ = none := rfl
    have f6 : (cmac_no_input mac_cmac_vect1_key mac_cmac_vect1_out).in_len = 0 := rfl
    have f7 : (cmac_no_input mac_cmac_vect1_key mac_cmac_vect1_out).in_incr = 0 := rfl
    simp [mac_case_entries, update_entries, calls_of, hk, f1, f2, f3, f4, f5, f6, f7, ptr_add,
      size_sub]

/-- C14, from the start of a run in the world where every call succeeds and the k-th call
hands back the handle k + 1. -/
theorem cmac_empty_message_witness :
    AllSucceed numbering_world ∧
    ∃ new,
      (exec numbering_world 0
        (mac_case_body (cmac_no_input mac_cmac_vect1_key mac_cmac_vect1_out))
        ⟨Vars4002.init, fresh_case, [], 0, Flow.next⟩).log = [] ++ new ∧
      update_chunks new = [] ∧
      calls_of new =
        [ TestCall.allocate_operation TEE_ALG_AES_CMAC TEE_MODE_MAC 128,
          TestCall.allocate_operation TEE_ALG_AES_CMAC TEE_MODE_MAC 128,
          TestCall.allocate_transient_object TEE_TYPE_AES 128,
          TestCall.populate_transient_object 3
            [⟨TEE_ATTR_SECRET_VALUE, some mac_cmac_vect1_key, 16⟩],
          TestCall.set_operation_key 1 3,
          TestCall.free_transient_object 3,
          TestCall.mac_init 1 none 0,
          TestCall.copy_operation 2 1,
          TestCall.mac_final_compute 2 none 0 64,
          TestCall.mac_init 1 none 0,
          TestCall.mac_final_compute 1 none 0 64,
          TestCall.free_operation 1,
          TestCall.free_operation 2 ] :=
  ⟨fun _ => rfl,
   (cmac_empty_message numbering_world 0 ⟨Vars4002.init, fresh_case, [], 0, Flow.next⟩
      (fun _ => rfl) rfl).2.2⟩

/-- The update chunks of two logs in a row. -/
theorem update_chunks_append (l1 l2 : List (TestCall × Reply)) :
    update_chunks (l1 ++ l2) = update_chunks l1 ++ update_chunks l2 := by
  induction l1 with
  | nil => rfl
  | cons e rest ih =>
    obtain ⟨call, r⟩ := e
    cases call <;> simp [update_chunks, ih]

/-- The final-compute chunks of two logs in a row. -/
theorem final_chunks_append (l1 l2 : List (TestCall × Reply)) :
    final_chunks (l1 ++ l2) = final_chunks l1 ++ final_chunks l2 := by
  induction l1 with
  | nil => rfl
  | cons e rest ih =>
    obtain ⟨call, r⟩ := e
    cases call <;> simp [final_chunks, ih]

/-- The copy destinations of two logs in a row. -/
theorem copy_targets_append (l1 l2 : List (TestCall × Reply)) :
    copy_targets (l1 ++ l2) = copy_targets l1 ++ copy_targets l2 := by
  induction l1 with
  | nil => rfl
  | cons e rest ih =>
    obtain ⟨call, r⟩ := e
    cases call <;> simp [copy_targets, ih]

/-- The chunks of the updates of `k` turns of the loop. -/
theorem update_chunks_entries (w : World) (op1 : Nat) (cs : xtest_mac_case) (k o n : Nat) :
    update_chunks (update_entries w op1 cs k o n) =
      (List.range k).map (fun j => chunk (ptr_add cs.in_ (o + j * cs.in_incr)) cs.in_incr) := by
  induction k generalizing o n with
  | zero => rfl
  | succ k ih =>
    rw [List.range_succ_eq_map, List.map_cons, List.map_map]
    simp only [update_entries, update_chunks, ih, Nat.zero_mul, Nat.add_zero, List.cons.injEq,
      true_and]
    apply List.map_congr_left
    intro j _
    simp only [Function.comp, Nat.succ_eq_add_one]
    congr 2
    ring

/-- The updates of the loop are updates only. -/
theorem update_entries_others (w : World) (op1 : Nat) (cs : xtest_mac_case) (k o n : Nat) :
    final_chunks (update_entries w op1 cs k o n) = [] ∧
      copy_targets (update_entries w op1 cs k o n) = [] ∧
      (update_entries w op1 cs k o n).length = k := by
  induction k generalizing o n with
  | zero => exact ⟨rfl, rfl, rfl⟩
  | succ k ih =>
    obtain ⟨h1, h2, h3⟩ := ih (o + cs.in_incr) (n + 1)
    exact ⟨by simp [update_entries, final_chunks, h1],
      by simp [update_entries, copy_targets, h2], by simp [update_entries, h3]⟩

/-- Consecutive pieces of one length, as long as they fit, make up the front of the data. -/
theorem flatten_pieces (data : List Nat) (incr k : Nat) :
    ((List.range k).map (fun j => (data.drop (j * incr)).take incr)).flatten =
      data.take (k * incr) := by
  induction k with
  | zero => simp
  | succ k ih =>
    rw [List.range_succ, List.map_append, List.flatten_append, ih, Nat.succ_mul,
      List.take_add]
    simp

/-- The turns due from the start end before the end of a non-empty input. -/
theorem updates_due_bound (cs : xtest_mac_case) (hpos : 0 < cs.in_len) :
    updates_due cs 0 * cs.in_incr < cs.in_len := by
  unfold updates_due
  by_cases hm : cs.multiple_incr = true
  · simp only [hm, if_true, Nat.sub_zero]
    have := Nat.div_mul_le_self (cs.in_len - 1) cs.in_incr
    omega
  · by_cases hc : 0 + cs.in_incr < cs.in_len
    · simp only [hm, hc, if_true, Bool.false_eq_true, if_false]; omega
    · simp only [hm, hc, Bool.false_eq_true, if_false]; omega

/-- C17: take a MAC case with a non-null input of `in_len` bytes and `in_incr >= 1`, sizes
that fit `size_t`, and a run of the body of test 4002 where every command succeeds.  The
updates are handed, in order, the consecutive pieces of `in_incr` bytes of the input, each
starting where the one before ended (piece j starts at j * in_incr); there is at most one
of them when `multiple_incr` is false; the final-compute on the copied operation is handed
the whole remainder, which is not empty when the input is not; and the pieces followed by
the remainder make up the input. -/
theorem mac_chunks_cover_input (w : World) (cs : xtest_mac_case) (data : List Nat)
    (fuel : Nat) (st : Run Vars4002) (hw : AllSucceed w) (hn : st.flow = Flow.next)
    (hdata : cs.in_ = some data) (hlen : cs.in_len = data.length) (hi : 1 ≤ cs.in_incr)
    (hwrap : cs.in_len + cs.in_incr < SIZE_MOD) (hfuel : cs.in_len ≤ fuel) :
    ∃ new k copied p len,
      (exec w fuel (mac_case_body cs) st).log = st.log ++ new ∧
      update_chunks new =
        (List.range k).map (fun j => (data.drop (j * cs.in_incr)).take cs.in_incr) ∧
      (∀ ch ∈ update_chunks new, ch.length = cs.in_incr) ∧
      (cs.multiple_incr = false → k ≤ 1) ∧
      copy_targets new = [copied] ∧
      (final_chunks new).head? = some (copied, p, len) ∧
      chunk p len = data.drop (k * cs.in_incr) ∧
      (data ≠ [] → chunk p len ≠ []) ∧
      (update_chunks new).flatten ++ chunk p len = data := by
  have hnn : cs.in_ ≠ none := by rw [hdata]; simp
  obtain ⟨_, hlog⟩ := mac_case_body_log w hw cs fuel (fun _ => ⟨hi, hwrap, hfuel⟩) st hn
  rw [if_pos hnn] at hlog
  have hk : updates_due cs 0 * cs.in_incr ≤ data.length := by
    rcases Nat.eq_zero_or_pos cs.in_len with h0 | hpos
    · have : updates_due cs 0 = 0 := by
        unfold updates_due; simp [h0]
      rw [this]; omega
    · have := updates_due_bound cs hpos; omega
  have hchunks : update_chunks (mac_case_entries w cs (updates_due cs 0) st.calls) =
      (List.range (updates_due cs 0)).map
        (fun j => (data.drop (j * cs.in_incr)).take cs.in_incr) := by
    simp [mac_case_entries, update_chunks_append, update_chunks, update_chunks_entries, hdata,
      ptr_add, chunk]
  have hfinal : chunk (ptr_add cs.in_ (updates_due cs 0 * cs.in_incr))
      (size_sub cs.in_len (updates_due cs 0 * cs.in_incr)) =
      data.drop (updates_due cs 0 * cs.in_incr) := by
    have hs : size_sub cs.in_len (updates_due cs 0 * cs.in_incr) =
        data.length - updates_due cs 0 * cs.in_incr := by
      have h1 : updates_due cs 0 * cs.in_incr % SIZE_MOD = updates_due cs 0 * cs.in_incr :=
        Nat.mod_eq_of_lt (by omega)
      have e : cs.in_len + SIZE_MOD - updates_due cs 0 * cs.in_incr =
        (cs.in_len - updates_due cs 0 * cs.in_incr) + SIZE_MOD := by omega
      unfold size_sub
      rw [h1, e, Nat.add_mod_right, Nat.mod_eq_of_lt (by omega), hlen]
    rw [hs, hdata]
    simp only [ptr_add, chunk, Option.map_some', Option.getD_some]
    exact List.take_of_length_le (by simp)
  refine ⟨_, updates_due cs 0, (w (st.calls + 1)).handle,
    ptr_add cs.in_ (updates_due cs 0 * cs.in_incr),
    size_sub cs.in_len (updates_due cs 0 * cs.in_incr), hlog, hchunks, ?_, ?_, ?_, ?_, hfinal,
    ?_, ?_⟩
  · rw [hchunks]
    intro ch hch
    simp only [List.mem_map, List.mem_range] at hch
    obtain ⟨j, hj, rfl⟩ := hch
    have : (j + 1) * cs.in_incr ≤ updates_due cs 0 * cs.in_incr :=
      Nat.mul_le_mul_right _ hj
    simp only [List.length_take, List.length_drop]
    have e : (j + 1) * cs.in_incr = j * cs.in_incr + cs.in_incr := by ring
    omega
  · intro hm
    unfold updates_due
    simp only [hm, Bool.false_eq_true, if_false]
    split_ifs <;> omega
  · have := update_entries_others w (w st.calls).handle cs (updates_due cs 0) 0 (st.calls + 7)
    simp [mac_case_entries, copy_targets_append, copy_targets, this.2.1]
  · have := update_entries_others w (w st.calls).handle cs (updates_due cs 0) 0 (st.calls + 7)
    simp [mac_case_entries, final_chunks_append, final_chunks, this.1]
  · intro hne
    rw [hfinal]
    have hpos : 0 < cs.in_len := by
      rw [hlen]; exact List.length_pos.mpr hne
    have := updates_due_bound cs hpos
    intro h
    have := congrArg List.length h
    simp at this
    omega
  · rw [hchunks, hfinal, flatten_pieces, List.take_append_drop]

/-- C17, at entry 1 of the table (HMAC-MD5, 43 bytes of input in pieces of 4, several
updates) from the start of a run in the world where every call succeeds. -/
theorem mac_chunks_cover_input_witness :
    mac_cases[1]? = some (XTEST_MAC_CASE_MULT TEE_ALG_HMAC_MD5 TEE_TYPE_HMAC_MD5
      mac_data_md5_key1 4 mac_data_md5_in1 mac_data_md5_out1) ∧
    AllSucceed numbering_world ∧
    ∃ new k copied p len,
      (exec numbering_world 43 (mac_case_body (XTEST_MAC_CASE_MULT TEE_ALG_HMAC_MD5
        TEE_TYPE_HMAC_MD5 mac_data_md5_key1 4 mac_data_md5_in1 mac_data_md5_out1))
        ⟨Vars4002.init, fresh_case, [], 0, Flow.next⟩).log = [] ++ new ∧
      update_chunks new =
        (List.range k).map (fun j => (mac_data_md5_in1.drop (j * 4)).take 4) ∧
      (∀ ch ∈ update_chunks new, ch.length = 4) ∧
      (true = false → k ≤ 1) ∧
      copy_targets new = [copied] ∧
      (final_chunks new).head? = some (copied, p, len) ∧
      chunk p len = mac_data_md5_in1.drop (k * 4) ∧
      (mac_data_md5_in1 ≠ [] → chunk p len ≠ []) ∧
      (update_chunks new).flatten ++ chunk p len = mac_data_md5_in1 :=
  ⟨by decide, fun _ => rfl,
   mac_chunks_cover_input numbering_world (XTEST_MAC_CASE_MULT TEE_ALG_HMAC_MD5
      TEE_TYPE_HMAC_MD5 mac_data_md5_key1 4 mac_data_md5_in1 mac_data_md5_out1)
      mac_data_md5_in1 43 ⟨Vars4002.init, fresh_case, [], 0, Flow.next⟩ (fun _ => rfl) rfl rfl
      (by decide) (by decide) (by decide) (by decide)⟩

/-- A statement that is not a loop does not leave control inside a loop. -/
theorem run_no_spin {σ : Type} (w : World) (fuel : Nat) (s : Stmt σ) (st : Run σ)
    (hs : s.is_loop = false) (h : st.flow ≠ Flow.spin) : (s.run w fuel st).flow ≠ Flow.spin := by
  by_cases hn : st.flow = Flow.next
  · unfold Stmt.run
    simp only [hn]
    cases s with
    | invoke call store =>
      rcases invoke_run_flow w call store st with hf | hf <;> simp [hf]
    | assign f => simp
    | expect check => simp
    | loop cond call after leave => simp [Stmt.is_loop] at hs
  · rw [run_of_not_next w fuel s st hn]; exact h

/-- Statements without a loop do not leave control inside a loop. -/
theorem exec_no_spin {σ : Type} (w : World) (fuel : Nat) (p : List (Stmt σ)) (st : Run σ)
    (hp : ∀ s ∈ p, s.is_loop = false) (h : st.flow ≠ Flow.spin) :
    (exec w fuel p st).flow ≠ Flow.spin := by
  induction p generalizing st with
  | nil => exact h
  | cons s rest ih =>
    exact ih _ (fun x hx => hp x (List.mem_cons_of_mem _ hx))
      (run_no_spin w fuel s st (hp s (List.mem_cons_self _ _)) h)

/-- After statements that end with an assignment, in the body, the assignment has been
made. -/
theorem exec_assign_last {σ : Type} (w : World) (fuel : Nat) (p : List (Stmt σ)) (f : σ → σ)
    (st : Run σ) (h : (exec w fuel (p ++ [Stmt.assign f]) st).flow = Flow.next) :
    ∃ v, (exec w fuel (p ++ [Stmt.assign f]) st).vars = f v := by
  rw [exec_append] at h ⊢
  generalize exec w fuel p st = r at h ⊢
  simp only [exec, Stmt.run] at h ⊢
  cases hr : r.flow with
  | next => simp only [hr]; exact ⟨_, rfl⟩
  | out => simp [hr] at h
  | spin => simp [hr] at h

/-- The loop of updates with pieces of at least one byte, sizes that fit `size_t` and as
many turns allowed as the input has bytes comes to an end, whatever the replies are. -/
theorem mac_update_loop_ends (w : World) (cs : xtest_mac_case)
    (hi : 1 ≤ cs.in_incr) (hwrap : cs.in_len + cs.in_incr < SIZE_MOD) (fuel : Nat)
    (st : Run Vars4002) (hn : st.flow = Flow.next)
    (ho : st.vars.offs ≤ cs.in_len) (hfuel : cs.in_len - st.vars.offs ≤ fuel) :
    ((mac_update_loop cs).run w fuel st).flow ≠ Flow.spin := by
  simp only [Stmt.run, mac_update_loop, hn]
  induction fuel generalizing st with
  | zero =>
    have hc : ¬ size_add st.vars.offs cs.in_incr < cs.in_len := by
      unfold size_add; rw [Nat.mod_eq_of_lt (by omega)]; omega
    simp [loop_run, hc, hn]
  | succ n ih =>
    have hs : size_add st.vars.offs cs.in_incr = st.vars.offs + cs.in_incr := by
      unfold size_add; rw [Nat.mod_eq_of_lt (by omega)]
    by_cases hc : st.vars.offs + cs.in_incr < cs.in_len
    · by_cases hr : (w st.calls).res = TEEC_SUCCESS
      · by_cases hm : cs.multiple_incr = true
        · have := ih ⟨{ st.vars with offs := st.vars.offs + cs.in_incr }, st.c,
            st.log ++ [(TestCall.mac_update st.vars.op1 (ptr_add cs.in_ st.vars.offs)
              cs.in_incr, w st.calls)], st.calls + 1, Flow.next⟩ rfl
            (by simp only []; omega) (by simp only []; omega)
          simp only [hm, Bool.not_true] at this
          simpa [loop_run, hs, hc, invoke_run, ADBG_EXPECT_TEEC_SUCCESS, hr, hm] using this
        · simp [loop_run, hs, hc, invoke_run, ADBG_EXPECT_TEEC_SUCCESS, hr, hm]
      · simp [loop_run, hs, hc, invoke_run, ADBG_EXPECT_TEEC_SUCCESS, hr]
    · simp [loop_run, hs, hc, hn]

/-- With pieces of no bytes the loop of updates over a non-empty input goes on as long as
the updates succeed: whatever number of turns is allowed, all of them are used. -/
theorem mac_update_loop_spins (w : World) (hw : AllSucceed w) (cs : xtest_mac_case)
    (hi : cs.in_incr = 0) (hpos : 0 < cs.in_len) (hm : cs.multiple_incr = true) (fuel : Nat)
    (v : Vars4002) (c : ADBG_Case_t) (log : List (TestCall × Reply)) (calls : Nat)
    (ho : v.offs = 0) :
    (mac_update_loop cs).run w fuel ⟨v, c, log, calls, Flow.next⟩ =
      ⟨v, c, log ++ update_entries w v.op1 cs fuel 0 calls, calls + fuel, Flow.spin⟩ := by
  simp only [Stmt.run, mac_update_loop]
  have hs : size_add 0 cs.in_incr = 0 := by rw [hi]; rfl
  induction fuel generalizing log calls with
  | zero => simp [loop_run, ho, hs, hpos, update_entries]
  | succ n ih =>
    have hw0 := hw calls
    have := ih (log ++ [(TestCall.mac_update v.op1 (ptr_add cs.in_ 0) cs.in_incr, w calls)])
      (calls + 1)
    simp only [hm, Bool.not_true] at this
    have hv : ({ v with offs := 0 } : Vars4002) = v := by rw [← ho]
    simp only [loop_run, ho, hs, hpos, invoke_run, ADBG_EXPECT_TEEC_SUCCESS, hw0, hm,
      decide_True, if_true, Bool.not_true, Bool.false_eq_true, if_false, hv, this,
      update_entries, List.append_assoc, List.singleton_append, Run.mk.injEq, true_and,
      and_true]
    rw [hi]
    exact ⟨rfl, by omega⟩

/-- The body of a MAC case with pieces of at least one byte, sizes that fit `size_t` and as
many turns allowed as the input has bytes comes to an end, whatever the replies are. -/
theorem mac_case_body_ends (w : World) (cs : xtest_mac_case)
    (hi : 1 ≤ cs.in_incr) (hwrap : cs.in_len + cs.in_incr < SIZE_MOD) (fuel : Nat)
    (hfuel : cs.in_len ≤ fuel) (st : Run Vars4002) (h : st.flow ≠ Flow.spin) :
    (exec w fuel (mac_case_body cs) st).flow ≠ Flow.spin := by
  unfold mac_case_body
  rw [exec_append, exec_append]
  apply exec_no_spin _ _ _ _ (by simp [mac_case_finish, Stmt.is_loop])
  have h1 : (exec w fuel (mac_case_setup cs) st).flow ≠ Flow.spin := by
    apply exec_no_spin _ _ _ _ _ h
    unfold mac_case_setup
    split_ifs <;> simp [Stmt.is_loop]
  have h2 : (exec w fuel (mac_case_setup cs) st).flow = Flow.next →
      (exec w fuel (mac_case_setup cs) st).vars.offs = 0 := by
    have : ∃ p, mac_case_setup cs = p ++ [Stmt.assign (fun v => { v with offs := 0 })] := by
      unfold mac_case_setup
      exact ⟨_, rfl⟩
    obtain ⟨p, hp⟩ := this
    rw [hp]
    intro hf
    obtain ⟨v, hv⟩ := exec_assign_last w fuel p _ st hf
    rw [hv]
  generalize exec w fuel (mac_case_setup cs) st = r at h1 h2
  unfold mac_case_updates
  split_ifs
  · simp only [exec]
    by_cases hn : r.flow = Flow.next
    · exact mac_update_loop_ends w cs hi hwrap fuel r hn (by rw [h2 hn]; omega) (by omega)
    · rw [run_of_not_next w fuel _ r hn]; exact h1
  · exact h1

/-- The body of a MAC case with a non-null, non-empty input, pieces of no bytes and several
updates asked for, on a run where every call succeeds: whatever number of turns is
allowed, control is still inside the loop of updates when they are used up, and each turn
has made one update. -/
theorem mac_case_body_spins (w : World) (hw : AllSucceed w) (cs : xtest_mac_case) (fuel : Nat)
    (hi : cs.in_incr = 0) (hnull : cs.in_ ≠ none) (hpos : 0 < cs.in_len)
    (hm : cs.multiple_incr = true) (st : Run Vars4002) (hn : st.flow = Flow.next) :
    (exec w fuel (mac_case_body cs) st).flow = Flow.spin ∧
    ∃ new, (exec w fuel (mac_case_body cs) st).log = st.log ++ new ∧
      (update_chunks new).length = fuel := by
  obtain ⟨vars, c, log, calls, flow⟩ := st
  simp only at hn
  subst hn
  have hw2 : ∀ k, (w k).res = TEEC_SUCCESS := hw
  have hloop := fun v c log calls (ho : v.offs = 0) =>
    mac_update_loop_spins w hw cs hi hpos hm fuel v c log calls ho
  have hlen : ∀ op1 n, (update_chunks (update_entries w op1 cs fuel 0 n)).length = fuel := by
    intro op1 n
    rw [update_chunks_entries]; simp
  by_cases hdes : cs.key_type = TEE_TYPE_DES ∨ cs.key_type = TEE_TYPE_DES3
  · simp only [mac_case_body, mac_case_setup, mac_case_updates, mac_case_finish, hdes, hnull,
      if_true, ne_eq, not_false_eq_true, List.append_assoc, List.cons_append, List.nil_append,
      exec, run_invoke_next, run_assign_next, run_expect_next, run_spin,
      invoke_run, ADBG_EXPECT_TEEC_SUCCESS, hw2, hloop]
    exact ⟨trivial, _, rfl, by simp [update_chunks, hlen]⟩
  · simp only [mac_case_body, mac_case_setup, mac_case_updates, mac_case_finish, hdes, hnull,
      if_true, if_false, ne_eq, not_false_eq_true, List.append_assoc, List.cons_append,
      List.nil_append, exec, run_invoke_next, run_assign_next, run_expect_next, run_spin,
      invoke_run, ADBG_EXPECT_TEEC_SUCCESS, hw2, hloop]
    exact ⟨trivial, _, rfl, by simp [update_chunks, hlen]⟩

/-- C18: in the body of test 4002 for a MAC case with `in_incr >= 1` and sizes that fit
`size_t`, the loop of updates comes to an end on every run, within as many turns as the
input has bytes; with `multiple_incr` set, a non-null input of `in_len > 0` bytes and all
commands succeeding it makes ceil(in_len / in_incr) - 1 updates.  With a non-null input,
`in_len > 0`, `multiple_incr` set and `in_incr = 0`, the run is still inside the loop after
any number of turns while the updates succeed, one update made in each turn.  In the table
`mac_cases` every entry with a non-null input has `in_incr >= 1`, and all sizes fit. -/
theorem mac_update_loop_terminates (w : World) (cs : xtest_mac_case) (fuel : Nat)
    (st : Run Vars4002) :
    (1 ≤ cs.in_incr → cs.in_len + cs.in_incr < SIZE_MOD → cs.in_len ≤ fuel →
      (st.flow ≠ Flow.spin → (exec w fuel (mac_case_body cs) st).flow ≠ Flow.spin) ∧
      (AllSucceed w → st.flow = Flow.next → cs.in_ ≠ none → cs.multiple_incr = true →
        0 < cs.in_len →
        (exec w fuel (mac_case_body cs) st).flow = Flow.next ∧
        ∃ new, (exec w fuel (mac_case_body cs) st).log = st.log ++ new ∧
          (update_chunks new).length = (cs.in_len + cs.in_incr - 1) / cs.in_incr - 1)) ∧
    (cs.in_incr = 0 → cs.in_ ≠ none → 0 < cs.in_len → cs.multiple_incr = true →
      AllSucceed w → st.flow = Flow.next →
      (exec w fuel (mac_case_body cs) st).flow = Flow.spin ∧
      ∃ new, (exec w fuel (mac_case_body cs) st).log = st.log ++ new ∧
        (update_chunks new).length = fuel) ∧
    (∀ e ∈ mac_cases, e.in_len + e.in_incr < SIZE_MOD ∧ (e.in_ ≠ none → 1 ≤ e.in_incr)) := by
  refine ⟨fun hi hwrap hfuel => ⟨fun h => mac_case_body_ends w cs hi hwrap fuel hfuel st h,
    fun hw hn hnull hm hpos => ?_⟩,
    fun hi hnull hpos hm hw hn => mac_case_body_spins w hw cs fuel hi hnull hpos hm st hn,
    by set_option maxRecDepth 100000 in decide⟩
  obtain ⟨hf, hlog⟩ := mac_case_body_log w hw cs fuel (fun _ => ⟨hi, hwrap, hfuel⟩) st hn
  rw [if_pos hnull] at hlog
  refine ⟨hf, _, hlog, ?_⟩
  have hk : updates_due cs 0 = (cs.in_len + cs.in_incr - 1) / cs.in_incr - 1 := by
    unfold updates_due
    simp only [hm, if_true, Nat.sub_zero]
    have e : cs.in_len + cs.in_incr - 1 = (cs.in_len - 1) + cs.in_incr := by omega
    rw [e, Nat.add_div_right _ hi]
    rfl
  simp [mac_case_entries, update_chunks_append, update_chunks, update_chunks_entries, hk]

/-- C18, at entry 1 of the table (43 bytes of input in pieces of 4: ten updates) and at the
same case with pieces of no bytes (still in the loop after five turns), from the start of
a run in the world where every call succeeds. -/
theorem mac_update_loop_terminates_witness :
    (AllSucceed numbering_world ∧ (1 : Nat) ≤ 4 ∧ 43 + 4 < SIZE_MOD) ∧
    (∃ new, (exec numbering_world 43 (mac_case_body (XTEST_MAC_CASE_MULT TEE_ALG_HMAC_MD5
        TEE_TYPE_HMAC_MD5 mac_data_md5_key1 4 mac_data_md5_in1 mac_data_md5_out1))
        ⟨Vars4002.init, fresh_case, [], 0, Flow.next⟩).log = [] ++ new ∧
      (update_chunks new).length = 10) ∧
    (exec numbering_world 5 (mac_case_body (XTEST_MAC_CASE_MULT TEE_ALG_HMAC_MD5
        TEE_TYPE_HMAC_MD5 mac_data_md5_key1 0 mac_data_md5_in1 mac_data_md5_out1))
        ⟨Vars4002.init, fresh_case, [], 0, Flow.next⟩).flow = Flow.spin :=
  ⟨⟨fun _ => rfl, by decide, by decide⟩,
   (((mac_update_loop_terminates numbering_world (XTEST_MAC_CASE_MULT TEE_ALG_HMAC_MD5
      TEE_TYPE_HMAC_MD5 mac_data_md5_key1 4 mac_data_md5_in1 mac_data_md5_out1) 43
      ⟨Vars4002.init, fresh_case, [], 0, Flow.next⟩).1 (by decide) (by decide)
      (by decide)).2 (fun _ => rfl) rfl (by decide) rfl (by decide)).2,
   ((mac_update_loop_terminates numbering_world (XTEST_MAC_CASE_MULT TEE_ALG_HMAC_MD5
      TEE_TYPE_HMAC_MD5 mac_data_md5_key1 0 mac_data_md5_in1 mac_data_md5_out1) 5
      ⟨Vars4002.init, fresh_case, [], 0, Flow.next⟩).2.1 rfl (by decide) (by decide) rfl
      (fun _ => rfl) rfl).1⟩

/- Test 4003: cipher operations -/

/-- The body of a cipher case on a run where every call succeeds: it ends in the body, with
`key2_handle` null again, after the calls listed by `ciph_case_entries`. -/
theorem ciph_case_body_log (w : World) (hw : AllSucceed w) (cs : xtest_ciph_case)
    (st : Run Vars4003) (hn : st.flow = Flow.next) :
    (exec w 0 (ciph_case_body cs) st).flow = Flow.next ∧
    (exec w 0 (ciph_case_body cs) st).vars.key2_handle = TEE_HANDLE_NULL ∧
    (exec w 0 (ciph_case_body cs) st).log =
      st.log ++ ciph_case_entries w cs st.vars.key2_handle st.calls := by
  obtain ⟨vars, c, log, calls, flow⟩ := st
  simp only at hn
  subst hn
  have hw2 : ∀ k, (w k).res = TEEC_SUCCESS := hw
  by_cases hk2 : cs.key2 ≠ none <;>
  by_cases hdes : cs.key_type = TEE_TYPE_DES ∨ cs.key_type = TEE_TYPE_DES3 <;>
  by_cases hctr : cs.algo = TEE_ALG_AES_CTR <;>
  simp [ciph_case_body, exec, run_invoke_next, run_assign_next, run_expect_next,
    invoke_run, ADBG_EXPECT_TEEC_SUCCESS, hw2, hk2, hdes, hctr, ciph_case_entries,
    ciph_key_size, -List.reduceReplicate]

/-- The body of a cipher case on a run where every call succeeds, started with `key2_handle`
null, leaves the live key objects as they were when a free call on the null handle
counts as no call. -/
theorem ciph_case_body_audit (w : World) (hw : AllSucceed w) (cs : xtest_ciph_case)
    (st : Run Vars4003)
    (h : st.flow = Flow.next ∧ st.vars.key2_handle = TEE_HANDLE_NULL ∧
      audit Kind.object true st.log [] = some []) :
    (exec w 0 (ciph_case_body cs) st).flow = Flow.next ∧
      (exec w 0 (ciph_case_body cs) st).vars.key2_handle = TEE_HANDLE_NULL ∧
      audit Kind.object true (exec w 0 (ciph_case_body cs) st).log [] = some [] := by
  obtain ⟨hf, hk, hlog⟩ := ciph_case_body_log w hw cs st h.1
  refine ⟨hf, hk, ?_⟩
  have hw1 := hw (st.calls + 1)
  have hw3 := hw (st.calls + 3)
  rw [hlog, audit_append, h.2.2, h.2.1]
  by_cases hk2 : cs.key2 ≠ none
  · by_cases hh : (w (st.calls + 3)).handle = (w (st.calls + 1)).handle <;>
      simp [ciph_case_entries, hk2, audit, TestCall.allocates, TestCall.frees, hw1, hw3, hh]
  · simp [ciph_case_entries, hk2, audit, TestCall.allocates, TestCall.frees, hw1]

/-- C12 as stated fails: in a case without a second key, on a run where every call succeeds
and the handles handed back are 1, 2, ..., the calls on key objects are one allocation
(handle 2), the free call on handle 2, and a free call on `TEE_HANDLE_NULL`, a handle no
allocation handed back. -/
theorem null_key_handle_freed :
    one_key_case.key2 = none ∧
    object_entries (xtest_tee_test_4003 numbering_world [one_key_case] TEEC_SUCCESS
        fresh_case).log =
      [ (TestCall.allocate_transient_object TEE_TYPE_AES 128, ⟨TEEC_SUCCESS, 2, [], 0⟩),
        (TestCall.free_transient_object 2, ⟨TEEC_SUCCESS, 5, [], 0⟩),
        (TestCall.free_transient_object TEE_HANDLE_NULL, ⟨TEEC_SUCCESS, 6, [], 0⟩) ] ∧
    (2 : Nat) ≠ TEE_HANDLE_NULL ∧
    audit Kind.object false
      (xtest_tee_test_4003 numbering_world [one_key_case] TEEC_SUCCESS fresh_case).log [] =
      none := by
  set_option maxRecDepth 100000 in decide

/-- C12 (amended): on a run of test 4003 where every command succeeds, over any table of
cases, every transient key object that is allocated is freed exactly once, by a free call
on a handle that an earlier allocation handed back and that has not been freed since, and
none is live when the session is closed; the free calls that are not of this kind are
applied to `TEE_HANDLE_NULL`.  Case by case: with a second key the calls on key objects
are the two allocations and then the free calls on the first and on the second handle;
without a second key they are one allocation, the free call on its handle, and one more
free call, on `TEE_HANDLE_NULL`. -/
theorem key_objects_freed (w : World) (cases : List xtest_ciph_case) (c : ADBG_Case_t)
    (hw : AllSucceed w) :
    audit Kind.object true (xtest_tee_test_4003 w cases TEEC_SUCCESS c).log [] = some [] ∧
    ∀ (cs : xtest_ciph_case) (st : Run Vars4003), st.flow = Flow.next →
      st.vars.key2_handle = TEE_HANDLE_NULL →
      (exec w 0 (ciph_case_body cs) st).vars.key2_handle = TEE_HANDLE_NULL ∧
      ∃ new, (exec w 0 (ciph_case_body cs) st).log = st.log ++ new ∧
        object_entries new =
          if cs.key2 ≠ none then
            [ (TestCall.allocate_transient_object cs.key_type (ciph_key_size cs),
                w (st.calls + 1)),
              (TestCall.allocate_transient_object cs.key_type (cs.key2_len * 8 % SIZE_MOD),
                w (st.calls + 3)),
              (TestCall.free_transient_object (w (st.calls + 1)).handle, w (st.calls + 6)),
              (TestCall.free_transient_object (w (st.calls + 3)).handle, w (st.calls + 7)) ]
          else
            [ (TestCall.allocate_transient_object cs.key_type (ciph_key_size cs),
                w (st.calls + 1)),
              (TestCall.free_transient_object (w (st.calls + 1)).handle, w (st.calls + 4)),
              (TestCall.free_transient_object TEE_HANDLE_NULL, w (st.calls + 5)) ] := by
  constructor
  · have h := exec_cases w 0 ciph_case_body
      (fun st => st.flow = Flow.next ∧ st.vars.key2_handle = TEE_HANDLE_NULL ∧
        audit Kind.object true st.log [] = some [])
      (fun cs st hst => ciph_case_body_audit w hw cs st hst) cases
      ⟨Vars4003.init, c, [], 0, Flow.next⟩ ⟨rfl, rfl, rfl⟩
    simp only [xtest_tee_test_4003, run_cases, ADBG_EXPECT_TEEC_SUCCESS, if_true,
      not_true_eq_false, if_false]
    generalize exec w 0 (cases.flatMap ciph_case_body) ⟨Vars4003.init, c, [], 0, Flow.next⟩
      = r at h
    unfold at_out
    simp only [h.1]
    rw [audit_append, h.2.2]
    rfl
  · intro cs st hn hk
    obtain ⟨_, hk2, hlog⟩ := ciph_case_body_log w hw cs st hn
    refine ⟨hk2, _, hlog, ?_⟩
    rw [hk]
    by_cases h2 : cs.key2 ≠ none <;>
      simp [ciph_case_entries, h2, object_entries, List.filter, TestCall.allocates,
        TestCall.frees]

/-- C12 (amended), in the world where every call succeeds and the k-th call hands back the
handle k + 1, over a table of a case with one key and a case with two keys. -/
theorem key_objects_freed_witness :
    AllSucceed numbering_world ∧
    audit Kind.object true
      (xtest_tee_test_4003 numbering_world [one_key_case, two_key_case] TEEC_SUCCESS
        fresh_case).log [] = some [] :=
  ⟨fun _ => rfl,
   (key_objects_freed numbering_world [one_key_case, two_key_case] fresh_case
      (fun _ => rfl)).1⟩

/- The helper `create_key` -/

/-- The destination offset of the move when fewer bytes were read back than declared, for a
declared length that fits the buffer. -/
theorem pad_step_dst (out_size length : Nat) (h : out_size < length) (hl : length ≤ 512) :
    (pad_step out_size length).dst = length - out_size ∧
      (pad_step out_size length).fill_len = length - out_size := by
  have e : size_sub length out_size = length - out_size := by
    simp only [size_sub, SIZE_MOD, Nat.reducePow]
    omega
  exact ⟨e, e⟩

/-- C22: in `create_key`, when the size read back is smaller than the declared length, the
source range and the destination range of the left-padding move (and the range of the
zero fill) lie within the 512 bytes of `out` if and only if twice the declared length less
the size read back is at most 512; they do so whenever the declared length is at most
256. -/
theorem pad_move_in_bounds_iff (out_size length : Nat) (h : out_size < length) :
    ((in_bounds (pad_step out_size length).src (pad_step out_size length).len 512 ∧
        in_bounds (pad_step out_size length).dst (pad_step out_size length).len 512 ∧
        in_bounds 0 (pad_step out_size length).fill_len 512) ↔
      2 * length - out_size ≤ 512) ∧
    (length ≤ 256 →
      in_bounds (pad_step out_size length).src (pad_step out_size length).len 512 ∧
        in_bounds (pad_step out_size length).dst (pad_step out_size length).len 512 ∧
        in_bounds 0 (pad_step out_size length).fill_len 512) := by
  have hsrc : (pad_step out_size length).src = 0 := rfl
  have hlen : (pad_step out_size length).len = length := rfl
  have key : 2 * length - out_size ≤ 512 →
      in_bounds (pad_step out_size length).src (pad_step out_size length).len 512 ∧
        in_bounds (pad_step out_size length).dst (pad_step out_size length).len 512 ∧
        in_bounds 0 (pad_step out_size length).fill_len 512 := by
    intro h2
    obtain ⟨hd, hf⟩ := pad_step_dst out_size length h (by omega)
    rw [hsrc, hlen, hd, hf]
    simp only [in_bounds]
    omega
  refine ⟨⟨fun hb => ?_, key⟩, fun h256 => key (by omega)⟩
  obtain ⟨h1, h2, _⟩ := hb
  rw [hsrc, hlen] at h1
  simp only [in_bounds] at h1
  obtain ⟨hd, _⟩ := pad_step_dst out_size length h (by omega)
  rw [hlen, hd] at h2
  simp only [in_bounds] at h2
  omega

/-- C22, for an attribute of 4 bytes read back with 3 bytes. -/
theorem pad_move_in_bounds_iff_witness :
    (3 : Nat) < 4 ∧
    ((in_bounds (pad_step 3 4).src (pad_step 3 4).len 512 ∧
        in_bounds (pad_step 3 4).dst (pad_step 3 4).len 512 ∧
        in_bounds 0 (pad_step 3 4).fill_len 512) ↔
      2 * 4 - 3 ≤ 512) :=
  ⟨by decide, (pad_move_in_bounds_iff 3 4 (by decide)).1⟩

/-- The buffer behind the left padding. -/
theorem pad_left_short (out : List Nat) (out_size length : Nat) (hout : out.length = 512)
    (h : out_size < length) (hb : 2 * length - out_size ≤ 512) :
    (pad_left out out_size length).2 = length ∧
      (pad_left out out_size length).1.take length =
        List.replicate (length - out_size) 0 ++ out.take out_size ∧
      (pad_left out out_size length).1.length = 512 := by
  obtain ⟨hd, hf⟩ := pad_step_dst out_size length h (by omega)
  have hsrc : (pad_step out_size length).src = 0 := rfl
  have hlen : (pad_step out_size length).len = length := rfl
  simp only [pad_left, h, if_true, hd, hf, hsrc, hlen, memmove, memset, List.take_zero,
    List.nil_append, List.drop_zero, Nat.zero_add, true_and]
  obtain ⟨d, rfl⟩ : ∃ d, length = d + out_size := ⟨length - out_size, by omega⟩
  simp only [Nat.add_sub_cancel]
  have e1 : (out.take d).length = d := by
    rw [List.length_take]; omega
  have e2 : List.drop d (List.take d out ++ List.take (d + out_size) out ++
        List.drop (d + (d + out_size)) out) =
      List.take (d + out_size) out ++ List.drop (d + (d + out_size)) out := by
    rw [List.append_assoc, List.drop_left' e1]
  rw [e2]
  constructor
  · have e3 : (List.replicate d (0 : Nat)).length = d := by simp
    rw [List.take_append_eq_append_take, e3, List.take_of_length_le (by rw [e3]; omega),
      Nat.add_sub_cancel_left,
      List.take_append_of_le_length (by rw [List.length_take]; omega), List.take_take]
    congr 2
    omega
  · simp only [List.length_append, List.length_replicate, List.length_take, List.length_drop]
    omega

/-- What holds of a comparison that `create_key` makes for one of the attributes `attrs`: the
attribute is not the curve, the read-back succeeded, `out` and `out_size` at the
comparison are those behind the read-back with the left padding applied, and the two sides
are found equal exactly when lengths and bytes agree. -/
theorem create_key_loop_comparisons (w : World) (handle : Nat) (all : List KeyAttr)
    (P : Comparison → Prop)
    (hP : ∀ cm : Comparison, cm.attr ∈ all → cm.attr.attributeID ≠ TEE_ATTR_ECC_CURVE →
      cm.reply.res = TEEC_SUCCESS →
      cm.read = written (List.replicate 512 0) (some cm.reply.out) →
      cm.read_size = cm.reply.out_size →
      (cm.out, cm.out_size) = pad_left cm.read cm.read_size cm.attr.length →
      (cm.equal = true ↔ cm.attr.length = cm.out_size ∧
        chunk cm.attr.buffer cm.attr.length = cm.out.take cm.out_size) → P cm)
    (attrs : List KeyAttr) (t : Trail) (cmps : List Comparison)
    (hsub : ∀ a ∈ attrs, a ∈ all) (h : ∀ cm ∈ cmps, P cm) :
    ∀ cm ∈ (create_key_loop w handle attrs t cmps).2.2, P cm := by
  induction attrs generalizing t cmps with
  | nil => exact h
  | cons a rest ih =>
    have hrest : ∀ x ∈ rest, x ∈ all := fun x hx => hsub x (List.mem_cons_of_mem _ hx)
    unfold create_key_loop
    by_cases hc : a.attributeID = TEE_ATTR_ECC_CURVE
    · simp only [hc, if_true]
      exact ih t cmps hrest h
    · simp only [hc, if_false, Trail.invoke]
      generalize hread : written (List.replicate 512 0) (some (w t.calls).out) = read
      generalize hp : pad_left read (w t.calls).out_size a.length = p
      by_cases hr : (w t.calls).res = TEEC_SUCCESS
      · have hnew : P ⟨a, w t.calls, read, (w t.calls).out_size, p.1, p.2,
            (ADBG_EXPECT_BUFFER (ADBG_EXPECT_TEEC_SUCCESS t.c (w t.calls).res).2 a.buffer
              a.length p.1 p.2).1⟩ := by
          apply hP _ (hsub a (List.mem_cons_self _ _)) hc hr hread.symm rfl hp.symm
          simp only [ADBG_EXPECT_BUFFER]
          split_ifs with hq
          · simpa using hq
          · simpa using hq
        have hall : ∀ cm ∈ cmps ++ [⟨a, w t.calls, read, (w t.calls).out_size, p.1, p.2,
            (ADBG_EXPECT_BUFFER (ADBG_EXPECT_TEEC_SUCCESS t.c (w t.calls).res).2 a.buffer
              a.length p.1 p.2).1⟩], P cm := by
          intro cm hcm
          rcases List.mem_append.mp hcm with h1 | h1
          · exact h cm h1
          · rw [List.mem_singleton.mp h1]; exact hnew
        have hok : (ADBG_EXPECT_TEEC_SUCCESS t.c (w t.calls).res).1 = true := by
          simp [ADBG_EXPECT_TEEC_SUCCESS, hr]
        simp only [hok, not_true_eq_false, if_false]
        split_ifs
        · exact ih _ _ hrest hall
        · exact hall
      · have hok : (ADBG_EXPECT_TEEC_SUCCESS t.c (w t.calls).res).1 = false := by
          simp [ADBG_EXPECT_TEEC_SUCCESS, hr]
        simp only [hok, Bool.false_eq_true, not_false_eq_true, if_true]
        exact h

/-- When the loop of `create_key` ends with true, it has compared every attribute but the
curve, in order, and found the two sides equal each time. -/
theorem create_key_loop_true (w : World) (handle : Nat) (attrs : List KeyAttr) (t : Trail)
    (cmps : List Comparison) (h : (create_key_loop w handle attrs t cmps).1 = true) :
    ∃ new, (create_key_loop w handle attrs t cmps).2.2 = cmps ++ new ∧
      new.map (fun cm => cm.attr) =
        attrs.filter (fun a => a.attributeID ≠ TEE_ATTR_ECC_CURVE) ∧
      ∀ cm ∈ new, cm.equal = true := by
  induction attrs generalizing t cmps with
  | nil => exact ⟨[], by simp [create_key_loop], rfl, by simp⟩
  | cons a rest ih =>
    unfold create_key_loop at h ⊢
    by_cases hc : a.attributeID = TEE_ATTR_ECC_CURVE
    · simp only [hc, if_true] at h ⊢
      obtain ⟨new, h1, h2, h3⟩ := ih t cmps h
      exact ⟨new, h1, by simp [List.filter, hc, h2], h3⟩
    · simp only [hc, if_false, Trail.invoke] at h ⊢
      generalize written (List.replicate 512 0) (some (w t.calls).out) = read at h ⊢
      generalize pad_left read (w t.calls).out_size a.length = p at h ⊢
      by_cases hr : (ADBG_EXPECT_TEEC_SUCCESS t.c (w t.calls).res).1 = true
      · simp only [hr, not_true_eq_false, if_false] at h ⊢
        by_cases he : (ADBG_EXPECT_BUFFER (ADBG_EXPECT_TEEC_SUCCESS t.c (w t.calls).res).2
            a.buffer a.length p.1 p.2).1 = true
        · simp only [he, not_true_eq_false, if_false] at h ⊢
          obtain ⟨new, h1, h2, h3⟩ := ih _ _ h
          refine ⟨[⟨a, w t.calls, read, (w t.calls).out_size, p.1, p.2, true⟩] ++ new,
            by rw [h1, List.append_assoc], by simp [List.filter, hc, h2], ?_⟩
          intro cm hcm
          rcases List.mem_append.mp hcm with h4 | h4
          · rw [List.mem_singleton.mp h4]
          · exact h3 cm h4
        · simp [he] at h
      · simp [hr] at h

/-- C21: every comparison that `create_key` makes is for an attribute other than the curve
whose read-back succeeded.  With `L` the declared length and `out_size` the size read
back, and 2 * L - out_size <= 512: if out_size < L the buffer compared is L - out_size zero
bytes followed by the out_size bytes read back, with the compared length L; if
out_size >= L the bytes and the size read back are compared as they are.  The two sides are
found equal exactly when the lengths agree and the bytes do, and when `create_key` returns
true every attribute but the curve has been compared, in order, and found equal in length
and content. -/
theorem create_key_comparisons (w : World) (t : Trail) (max_key_size key_type : Nat)
    (attrs : List KeyAttr) (handle : Nat) :
    (∀ cm ∈ (create_key w t max_key_size key_type attrs handle).2.2.2,
      cm.attr ∈ attrs ∧ cm.attr.attributeID ≠ TEE_ATTR_ECC_CURVE ∧
      cm.reply.res = TEEC_SUCCESS ∧
      cm.read = written (List.replicate 512 0) (some cm.reply.out) ∧
      cm.read_size = cm.reply.out_size ∧
      (cm.equal = true ↔ cm.attr.length = cm.out_size ∧
        chunk cm.attr.buffer cm.attr.length = cm.out.take cm.out_size) ∧
      (2 * cm.attr.length - cm.read_size ≤ 512 →
        (cm.read_size < cm.attr.length →
          cm.out_size = cm.attr.length ∧
          cm.out.take cm.attr.length =
            List.replicate (cm.attr.length - cm.read_size) 0 ++ cm.read.take cm.read_size) ∧
        (cm.attr.length ≤ cm.read_size → cm.out = cm.read ∧ cm.out_size = cm.read_size))) ∧
    ((create_key w t max_key_size key_type attrs handle).1 = true →
      (create_key w t max_key_size key_type attrs handle).2.2.2.map (fun cm => cm.attr) =
        attrs.filter (fun a => a.attributeID ≠ TEE_ATTR_ECC_CURVE) ∧
      ∀ cm ∈ (create_key w t max_key_size key_type attrs handle).2.2.2,
        cm.attr.length = cm.out_size ∧
        chunk cm.attr.buffer cm.attr.length = cm.out.take cm.out_size) := by
  have hloop := fun (t2 : Trail) (h2 : Nat) => create_key_loop_comparisons w h2 attrs
    (fun cm => cm.attr ∈ attrs ∧ cm.attr.attributeID ≠ TEE_ATTR_ECC_CURVE ∧
      cm.reply.res = TEEC_SUCCESS ∧
      cm.read = written (List.replicate 512 0) (some cm.reply.out) ∧
      cm.read_size = cm.reply.out_size ∧
      (cm.equal = true ↔ cm.attr.length = cm.out_size ∧
        chunk cm.attr.buffer cm.attr.length = cm.out.take cm.out_size) ∧
      (2 * cm.attr.length - cm.read_size ≤ 512 →
        (cm.read_size < cm.attr.length →
          cm.out_size = cm.attr.length ∧
          cm.out.take cm.attr.length =
            List.replicate (cm.attr.length - cm.read_size) 0 ++ cm.read.take cm.read_size) ∧
        (cm.attr.length ≤ cm.read_size → cm.out = cm.read ∧ cm.out_size = cm.read_size)))
    (by
      intro cm h1 h2 h3 h4 h5 h6 h7
      refine ⟨h1, h2, h3, h4, h5, h7, fun hb => ⟨fun hlt => ?_, fun hge => ?_⟩⟩
      · have hlen : cm.read.length = 512 := by
          rw [h4, written_length]; exact List.length_replicate 512 0
        obtain ⟨p1, p2, _⟩ := pad_left_short cm.read cm.read_size cm.attr.length hlen hlt hb
        rw [← h6] at p1 p2
        exact ⟨p1, p2⟩
      · have : pad_left cm.read cm.read_size cm.attr.length = (cm.read, cm.read_size) := by
          unfold pad_left; rw [if_neg (Nat.not_lt.mpr hge)]
        rw [this] at h6
        exact ⟨(Prod.mk.inj h6).1, (Prod.mk.inj h6).2⟩)
    attrs t2 [] (fun a ha => ha) (fun cm hcm => absurd hcm (List.not_mem_nil cm))
  by_cases h1 : (t.invoke w (TestCall.allocate_transient_object key_type max_key_size)).2.1
      = true
  · by_cases h2 : ((t.invoke w (TestCall.allocate_transient_object key_type
        max_key_size)).2.2.invoke w (TestCall.populate_transient_object
          (t.invoke w (TestCall.allocate_transient_object key_type max_key_size)).1.handle
          attrs)).2.1 = true
    · simp only [create_key, h1, h2, not_true_eq_false, if_false]
      refine ⟨fun cm hcm => hloop _ _ cm hcm, fun h => ?_⟩
      obtain ⟨new, e1, e2, e3⟩ := create_key_loop_true w _ attrs _ [] h
      simp only [List.nil_append] at e1
      refine ⟨by rw [e1]; exact e2, fun cm hcm => ?_⟩
      have hq := (hloop _ _ cm hcm).2.2.2.2.2.1
      rw [e1] at hcm
      exact hq.mp (e3 cm hcm)
    · simp only [create_key, h1, h2, not_true_eq_false, if_false, not_false_eq_true, if_true]
      exact ⟨fun cm hcm => by simp at hcm, fun h => by simp at h⟩
  · simp only [create_key, h1, not_false_eq_true, if_true]
    exact ⟨fun cm hcm => by simp at hcm, fun h => by simp at h⟩

/-- C21, for one attribute of the four bytes 00 01 00 01 read back as the three bytes
01 00 01: `create_key` returns true, the one comparison is of four bytes on both sides. -/
theorem create_key_comparisons_witness :
    (create_key short_read_world ⟨fresh_case, [], 0⟩ 32 TEE_TYPE_RSA_KEYPAIR [sample_key_attr]
      0).1 = true ∧
    (create_key short_read_world ⟨fresh_case, [], 0⟩ 32 TEE_TYPE_RSA_KEYPAIR [sample_key_attr]
        0).2.2.2.map (fun cm => cm.attr) =
      [sample_key_attr].filter (fun a => a.attributeID ≠ TEE_ATTR_ECC_CURVE) ∧
    ∀ cm ∈ (create_key short_read_world ⟨fresh_case, [], 0⟩ 32 TEE_TYPE_RSA_KEYPAIR
        [sample_key_attr] 0).2.2.2,
      cm.attr.length = cm.out_size ∧
      chunk cm.attr.buffer cm.attr.length = cm.out.take cm.out_size :=
  ⟨by set_option maxRecDepth 100000 in decide,
   (create_key_comparisons short_read_world ⟨fresh_case, [], 0⟩ 32 TEE_TYPE_RSA_KEYPAIR
      [sample_key_attr] 0).2 (by set_option maxRecDepth 100000 in decide)⟩

/- Key sizes in bits -/

/-- Subtraction of `size_t` values that does not wrap around. -/
theorem size_sub_eq (a b : Nat) (hb : b ≤ a) (ha : a < SIZE_MOD) : size_sub a b = a - b := by
  simp only [size_sub, SIZE_MOD, Nat.reducePow] at ha ⊢
  omega

/-- The statement `key_size -= key_size / 8` on the bits of `n` bytes leaves 7 bits a
byte. -/
theorem without_parity_eq (n : Nat) (h : n * 8 < SIZE_MOD) :
    size_sub (n * 8 % SIZE_MOD) (n * 8 % SIZE_MOD / 8) = 7 * n := by
  rw [Nat.mod_eq_of_lt h, Nat.mul_div_cancel n (by decide : 0 < 8),
    size_sub_eq _ _ (by omega) h]
  omega

/-- The key size of a MAC case in bits: 7 bits a byte for DES and triple DES, 8 bits a byte
otherwise. -/
theorem mac_key_size_eq (cs : xtest_mac_case) (h : cs.key_len * 8 < SIZE_MOD) :
    mac_key_size cs =
      if cs.key_type = TEE_TYPE_DES ∨ cs.key_type = TEE_TYPE_DES3 then 7 * cs.key_len
      else 8 * cs.key_len := by
  unfold mac_key_size
  split_ifs
  · exact without_parity_eq _ h
  · rw [Nat.mod_eq_of_lt h, Nat.mul_comm]

/-- The key size of a cipher case in bits: 7 bits a byte for DES and triple DES, 8 bits a
byte otherwise. -/
theorem ciph_key_size_eq (cs : xtest_ciph_case) (h : cs.key1_len * 8 < SIZE_MOD) :
    ciph_key_size cs =
      if cs.key_type = TEE_TYPE_DES ∨ cs.key_type = TEE_TYPE_DES3 then 7 * cs.key1_len
      else 8 * cs.key1_len := by
  unfold ciph_key_size
  split_ifs
  · exact without_parity_eq _ h
  · rw [Nat.mod_eq_of_lt h, Nat.mul_comm]

/-- The body of a MAC case on a run where every call succeeds starts with the two operations
and the key object allocated with the key size of the case. -/
theorem mac_case_body_allocations (w : World) (hw : AllSucceed w) (cs : xtest_mac_case)
    (fuel : Nat) (st : Run Vars4002) (hn : st.flow = Flow.next) :
    ∃ ext, (exec w fuel (mac_case_body cs) st).log = st.log ++
      [ (TestCall.allocate_operation cs.algo TEE_MODE_MAC (mac_key_size cs), w st.calls),
        (TestCall.allocate_operation cs.algo TEE_MODE_MAC (mac_key_size cs),
          w (st.calls + 1)),
        (TestCall.allocate_transient_object cs.key_type (mac_key_size cs),
          w (st.calls + 2)) ] ++ ext := by
  obtain ⟨vars, c, log, calls, flow⟩ := st
  simp only at hn
  subst hn
  have hw2 : ∀ k, (w k).res = TEEC_SUCCESS := hw
  unfold mac_case_body
  rw [List.append_assoc, exec_append]
  obtain ⟨ext, he⟩ := exec_log w fuel (mac_case_updates cs ++ mac_case_finish cs)
    (exec w fuel (mac_case_setup cs) ⟨vars, c, log, calls, Flow.next⟩)
  rw [he]
  by_cases hdes : cs.key_type = TEE_TYPE_DES ∨ cs.key_type = TEE_TYPE_DES3 <;>
  · simp only [mac_case_setup, hdes, if_true, if_false, List.append_assoc, List.cons_append,
      List.nil_append, exec, run_invoke_next, run_assign_next, invoke_run,
      ADBG_EXPECT_TEEC_SUCCESS, hw2, mac_key_size]
    exact ⟨_, rfl⟩

/-- C23: on a run where every command succeeds, for a case whose key has `L` bytes with
8 * L representable: the body of test 4002 allocates the key object (and both operations)
with 7 * L bits when the key type is DES or triple DES and with 8 * L bits otherwise, and
so does the body of test 4003 for the key object of its first key; test 4003 allocates
the operation with that size when there is no second key and with the size doubled when
there is one, which is twice the size as long as twice the size is representable.  For
keys of 8, 16 and 24 bytes of type DES or triple DES the sizes are 56, 112 and 168, as for
every such entry of `mac_cases`.  A second key comes only with the initialiser for
AES-XTS, whose key type is AES, and its key object is allocated with 8 bits a byte. -/
theorem key_size_in_bits (w : World) (hw : AllSucceed w) :
    (∀ (cs : xtest_mac_case) (fuel : Nat) (st : Run Vars4002),
      cs.key_len * 8 < SIZE_MOD → st.flow = Flow.next →
      ∃ ks ext,
        ks = (if cs.key_type = TEE_TYPE_DES ∨ cs.key_type = TEE_TYPE_DES3 then 7 * cs.key_len
          else 8 * cs.key_len) ∧
        (exec w fuel (mac_case_body cs) st).log = st.log ++
          [ (TestCall.allocate_operation cs.algo TEE_MODE_MAC ks, w st.calls),
            (TestCall.allocate_operation cs.algo TEE_MODE_MAC ks, w (st.calls + 1)),
            (TestCall.allocate_transient_object cs.key_type ks, w (st.calls + 2)) ] ++ ext ∧
        (cs.key_type = TEE_TYPE_DES ∨ cs.key_type = TEE_TYPE_DES3 →
          (cs.key_len = 8 → ks = 56) ∧ (cs.key_len = 16 → ks = 112) ∧
          (cs.key_len = 24 → ks = 168))) ∧
    (∀ (cs : xtest_ciph_case) (st : Run Vars4003),
      cs.key1_len * 8 < SIZE_MOD → st.flow = Flow.next →
      ∃ ks ops ext,
        ks = (if cs.key_type = TEE_TYPE_DES ∨ cs.key_type = TEE_TYPE_DES3 then
          7 * cs.key1_len else 8 * cs.key1_len) ∧
        (exec w 0 (ciph_case_body cs) st).log = st.log ++
          [ (TestCall.allocate_operation cs.algo cs.mode ops, w st.calls),
            (TestCall.allocate_transient_object cs.key_type ks, w (st.calls + 1)) ] ++ ext ∧
        ops = (if cs.key2 ≠ none then 2 * ks % SIZE_MOD else ks) ∧
        (2 * ks < SIZE_MOD → ops = if cs.key2 ≠ none then 2 * ks else ks) ∧
        (2 * ks < SIZE_MOD → 0 < cs.key1_len → (ops = 2 * ks ↔ cs.key2 ≠ none)) ∧
        (cs.key_type = TEE_TYPE_DES ∨ cs.key_type = TEE_TYPE_DES3 →
          (cs.key1_len = 8 → ks = 56) ∧ (cs.key1_len = 16 → ks = 112) ∧
          (cs.key1_len = 24 → ks = 168)) ∧
        (cs.key2 ≠ none → cs.key2_len * 8 < SIZE_MOD →
          (TestCall.allocate_transient_object cs.key_type (8 * cs.key2_len),
            w (st.calls + 3)) ∈ ext)) ∧
    (∀ cs ∈ mac_cases, cs.key_type = TEE_TYPE_DES ∨ cs.key_type = TEE_TYPE_DES3 →
      (cs.key_len, mac_key_size cs) ∈ [(8, 56), (16, 112), (24, 168)]) ∧
    (∀ (algo key_type : Nat) (key key2 iv ptx ctx : List Nat) (in_incr line : Nat),
      ∀ cs ∈ XTEST_CIPH_CASE_NO_IV algo key_type key in_incr ptx ctx line ++
          XTEST_CIPH_CASE algo key_type key iv in_incr ptx ctx line ++
          XTEST_CIPH_CASE_AES_XTS key key2 iv in_incr ptx ctx line,
        cs.key2 ≠ none → cs.key_type = TEE_TYPE_AES ∧ cs.key_type ≠ TEE_TYPE_DES ∧
          cs.key_type ≠ TEE_TYPE_DES3) := by
  refine ⟨?_, ?_, by set_option maxRecDepth 100000 in decide, ?_⟩
  · intro cs fuel st hL hn
    obtain ⟨ext, he⟩ := mac_case_body_allocations w hw cs fuel st hn
    refine ⟨mac_key_size cs, ext, mac_key_size_eq cs hL, he, fun hdes => ?_⟩
    rw [mac_key_size_eq cs hL, if_pos hdes]
    omega
  · intro cs st hL hn
    obtain ⟨_, _, hlog⟩ := ciph_case_body_log w hw cs st hn
    have hks := ciph_key_size_eq cs hL
    by_cases hk2 : cs.key2 ≠ none
    · refine ⟨ciph_key_size cs, ciph_key_size cs * 2 % SIZE_MOD,
        (ciph_case_entries w cs st.vars.key2_handle st.calls).drop 2, hks, ?_, ?_, ?_, ?_, ?_, ?_⟩
      · rw [hlog, List.append_assoc]
        unfold ciph_case_entries
        rw [if_pos hk2]
        rfl
      · rw [if_pos hk2, Nat.mul_comm]
      · intro h2
        rw [if_pos hk2, Nat.mul_comm, Nat.mod_eq_of_lt h2]
      · intro h2 _
        rw [Nat.mul_comm, Nat.mod_eq_of_lt h2]
        exact ⟨fun _ => hk2, fun _ => rfl⟩
      · intro hdes
        rw [hks, if_pos hdes]
        omega
      · intro _ h2
        have e : cs.key2_len * 8 % SIZE_MOD = 8 * cs.key2_len := by
          rw [Nat.mod_eq_of_lt h2, Nat.mul_comm]
        rw [← e]
        unfold ciph_case_entries
        rw [if_pos hk2]
        simp
    · refine ⟨ciph_key_size cs, ciph_key_size cs,
        (ciph_case_entries w cs st.vars.key2_handle st.calls).drop 2, hks, ?_, ?_, ?_, ?_, ?_, ?_⟩
      · rw [hlog, List.append_assoc]
        unfold ciph_case_entries
        rw [if_neg hk2]
        rfl
      · rw [if_neg hk2]
      · intro _
        rw [if_neg hk2]
      · intro _ hpos
        constructor
        · intro h
          have h0 : ciph_key_size cs = 0 := by omega
          rw [hks] at h0
          split_ifs at h0 <;> omega
        · intro h; exact absurd h hk2
      · intro hdes
        rw [hks, if_pos hdes]
        omega
      · intro h; exact absurd h hk2
  · intro algo key_type key key2 iv ptx ctx in_incr line cs hcs
    simp only [XTEST_CIPH_CASE_NO_IV, XTEST_CIPH_CASE, XTEST_CIPH_CASE_AES_XTS,
      List.cons_append, List.nil_append, List.mem_cons, List.mem_singleton,
      List.not_mem_nil, or_false] at hcs
    rcases hcs with rfl | rfl | rfl | rfl | rfl | rfl
    · intro h; exact absurd rfl h
    · intro h; exact absurd rfl h
    · intro h; exact absurd rfl h
    · intro h; exact absurd rfl h
    · intro _
      exact ⟨rfl, (by decide : TEE_TYPE_AES ≠ TEE_TYPE_DES),
        (by decide : TEE_TYPE_AES ≠ TEE_TYPE_DES3)⟩
    · intro _
      exact ⟨rfl, (by decide : TEE_TYPE_AES ≠ TEE_TYPE_DES),
        (by decide : TEE_TYPE_AES ≠ TEE_TYPE_DES3)⟩

/-- Witness for C23 at `numbering_world`: the case with two AES keys of 16 bytes allocates
the operation with 256 bits and the first key object with 128 bits. -/
theorem key_size_in_bits_witness :
    AllSucceed numbering_world ∧
    (exec numbering_world 0 (ciph_case_body two_key_case)
        ⟨Vars4003.init, fresh_case, [], 0, Flow.next⟩).log.take 2 =
      [ (TestCall.allocate_operation TEE_ALG_AES_XTS TEE_MODE_ENCRYPT 256, numbering_world 0),
        (TestCall.allocate_transient_object TEE_TYPE_AES 128, numbering_world 1) ] := by
  refine ⟨fun _ => rfl, ?_⟩
  obtain ⟨ks, ops, ext, hks, hlog, hops, _⟩ :=
    (key_size_in_bits numbering_world (fun _ => rfl)).2.1 two_key_case
      ⟨Vars4003.init, fresh_case, [], 0, Flow.next⟩ (by decide) rfl
  have e1 : ks = 128 := by rw [hks]; decide
  have e2 : ops = 256 := by rw [hops, e1]; decide
  rw [hlog, e1, e2]
  rfl

/- The parity bits of DES keys -/

/-- A scanning loop from 0 stops before its bound exactly when some index before the bound
makes it stop. -/
theorem scan_lt_iff (stop : Nat → Bool) (n : Nat) :
    scan stop n 0 < n ↔ ∃ k, k < n ∧ stop k = true := by
  obtain ⟨_, h2, h3, h4⟩ := scan_spec stop n 0
  constructor
  · intro h
    exact ⟨_, h, h4 (by omega)⟩
  · rintro ⟨k, hk, hs⟩
    by_contra hge
    have := h3 k (Nat.zero_le k) (by omega)
    rw [this] at hs
    exact Bool.noConfusion hs

/-- What `test_secret_value` does when the read of the attribute succeeds. -/
theorem test_secret_value_result (w : World) (t : Trail) (key key_size : Nat)
    (hw : (w t.calls).res = TEEC_SUCCESS) :
    test_secret_value w t key key_size =
      if 0 < (w t.calls).out_size then
        ((ADBG_EXPECT_COMPARE_UNSIGNED_LT
            (ADBG_EXPECT_COMPARE_UNSIGNED_EQ t.c (w t.calls).out_size (key_size / 8)).2
            (scan (fun k => (written (List.replicate 2048 0) (some (w t.calls).out)).getD k 0 ≠ 0)
              (w t.calls).out_size 0) (w t.calls).out_size).1,
         ⟨(ADBG_EXPECT_COMPARE_UNSIGNED_LT
            (ADBG_EXPECT_COMPARE_UNSIGNED_EQ t.c (w t.calls).out_size (key_size / 8)).2
            (scan (fun k => (written (List.replicate 2048 0) (some (w t.calls).out)).getD k 0 ≠ 0)
              (w t.calls).out_size 0) (w t.calls).out_size).2,
          t.log ++ [(TestCall.get_object_buffer_attribute key TEE_ATTR_SECRET_VALUE 2048,
            w t.calls)], t.calls + 1⟩)
      else
        (true, ⟨(ADBG_EXPECT_COMPARE_UNSIGNED_EQ t.c (w t.calls).out_size (key_size / 8)).2,
          t.log ++ [(TestCall.get_object_buffer_attribute key TEE_ATTR_SECRET_VALUE 2048,
            w t.calls)], t.calls + 1⟩) := by
  have hb : TEE_ATTR_SECRET_VALUE &&& TEE_ATTR_BIT_VALUE = 0 := by decide
  unfold test_secret_value test_keygen_attributes
  simp only [KEY_ATTR, hb, if_true, Trail.invoke, ADBG_EXPECT_TEEC_SUCCESS, hw]
  generalize written (List.replicate 2048 0) (some (w t.calls).out) = buf
  have h1 : ((1 : Nat) ≠ 0) = True := by decide
  simp only [h1, if_true, test_keygen_attributes, not_true_eq_false, if_false]
  generalize ADBG_EXPECT_COMPARE_UNSIGNED_LT _ _ _ = e
  rcases e with ⟨b, c⟩
  cases b <;> rfl

/-- What `generate_and_test_key` does for a DES or triple DES key when every command
succeeds: the four commands, and no failure is recorded exactly when the secret value read
back has `with_parity key_size / 8` bytes, not all of them zero. -/
theorem generate_des_key (w : World) (t : Trail) (key_type check_keysize key_size : Nat)
    (params : List KeyAttr) (hw : AllSucceed w)
    (hdes : key_type = TEE_TYPE_DES ∨ key_type = TEE_TYPE_DES3) :
    (generate_and_test_key w t key_type check_keysize key_size params).2.log = t.log ++
      [ (TestCall.allocate_transient_object key_type key_size, w t.calls),
        (TestCall.generate_key (w t.calls).handle key_size params, w (t.calls + 1)),
        (TestCall.get_object_buffer_attribute (w t.calls).handle TEE_ATTR_SECRET_VALUE 2048,
          w (t.calls + 2)),
        (TestCall.free_transient_object (w t.calls).handle, w (t.calls + 3)) ] ∧
    ((generate_and_test_key w t key_type check_keysize key_size params).2.c = t.c ↔
      (w (t.calls + 2)).out_size = with_parity key_size / 8 ∧
      (0 < (w (t.calls + 2)).out_size → ∃ k, k < (w (t.calls + 2)).out_size ∧
        (written (List.replicate 2048 0) (some (w (t.calls + 2)).out)).getD k 0 ≠ 0)) := by
  have hw2 : ∀ k, (w k).res = TEEC_SUCCESS := hw
  rcases t with ⟨⟨fs⟩, log, calls⟩
  unfold generate_and_test_key check_generated
  simp only [Trail.invoke, ADBG_EXPECT_TEEC_SUCCESS, hw2, if_true, not_true_eq_false,
    if_false, if_pos hdes]
  rw [test_secret_value_result w _ _ _ (hw2 _)]
  simp only [hw2, if_true, not_true_eq_false, if_false, Nat.add_assoc, Nat.reduceAdd,
    List.append_assoc, List.singleton_append, List.cons_append, List.nil_append]
  generalize written (List.replicate 2048 0) (some (w (calls + 2)).out) = buf
  have hscan := scan_lt_iff (fun k => buf.getD k 0 ≠ 0) (w (calls + 2)).out_size
  generalize scan (fun k => decide (buf.getD k 0 ≠ 0)) (w (calls + 2)).out_size 0 = n
    at hscan ⊢
  simp only [decide_eq_true_eq] at hscan
  rw [← hscan]
  simp only [expect_compare_unsigned_eq, ADBG_EXPECT_COMPARE_UNSIGNED_LT, ADBG_EXPECT_TRUE]
  by_cases ha : 0 < (w (calls + 2)).out_size
  · by_cases hb : n < (w (calls + 2)).out_size
    · by_cases hc : with_parity key_size / 8 = (w (calls + 2)).out_size
      · simp [ha, hb, hc]
      · simp [ha, hb, hc, Ne.symm hc]
    · by_cases hc : with_parity key_size / 8 = (w (calls + 2)).out_size
      · simp [ha, hb, hc]
        exact cons_append_ne_self _ [_] fs
      · simp [ha, hb, hc, Ne.symm hc]
        exact cons_append_ne_self _ [_, _] fs
  · by_cases hc : with_parity key_size / 8 = (w (calls + 2)).out_size
    · simp [ha, hc]
    · simp [ha, hc, Ne.symm hc]

/-- The first byte of a buffer that is not empty, once the callee has written bytes to it,
is the first byte written. -/
theorem written_head (b : Nat) (bs before : List Nat) (h : 0 < before.length) :
    (written before (some (b :: bs))).getD 0 0 = b := by
  obtain ⟨n, hn⟩ : ∃ n, before.length = n + 1 := ⟨before.length - 1, by omega⟩
  unfold written
  simp only [hn, List.cons_append, List.take_succ_cons]
  rfl

/-- C24: the two conversions of a DES key size are inverse to each other.  For `k` a multiple
of 7 with `k + k / 7` below 2^32, the size `with_parity k` that `generate_and_test_key`
passes on is `k + k / 7`, a multiple of 8, and `without_parity`, the deduction of tests 4002
and 4003, takes it back to `k`; for `x` a multiple of 8, `y = without_parity x` is
`x - x / 8` and `y + y / 7 = x`, which is `with_parity y` when `x` is below 2^32.  The key
sizes of tests 4002 and 4003 for DES and triple DES are `without_parity` of the bits of the
key, and for a generated DES or triple DES key of 56, 112 or 168 bits the size with parity
is 64, 128 or 192 bits, and on a run where every command succeeds
`generate_and_test_key` records no failure exactly when the secret value read back has
8, 16 or 24 bytes, one of them not zero. -/
theorem des_parity_inverse :
    (∀ k, k % 7 = 0 → k + k / 7 < 2 ^ 32 →
      with_parity k = k + k / 7 ∧ with_parity k % 8 = 0 ∧
        without_parity (with_parity k) = k) ∧
    (∀ x, x % 8 = 0 → x < SIZE_MOD →
      without_parity x = x - x / 8 ∧ without_parity x + without_parity x / 7 = x ∧
        (x < 2 ^ 32 → with_parity (without_parity x) = x)) ∧
    (∀ cs : xtest_mac_case, cs.key_type = TEE_TYPE_DES ∨ cs.key_type = TEE_TYPE_DES3 →
      mac_key_size cs = without_parity (cs.key_len * 8 % SIZE_MOD)) ∧
    (∀ cs : xtest_ciph_case, cs.key_type = TEE_TYPE_DES ∨ cs.key_type = TEE_TYPE_DES3 →
      ciph_key_size cs = without_parity (cs.key1_len * 8 % SIZE_MOD)) ∧
    (∀ (w : World) (t : Trail) (key_type check_keysize key_size bytes : Nat)
      (params : List KeyAttr), AllSucceed w →
      key_type = TEE_TYPE_DES ∨ key_type = TEE_TYPE_DES3 →
      (key_size, bytes) ∈ [(56, 8), (112, 16), (168, 24)] →
      with_parity key_size = 8 * bytes ∧
        (TestCall.get_object_buffer_attribute (w t.calls).handle TEE_ATTR_SECRET_VALUE 2048,
          w (t.calls + 2)) ∈
          (generate_and_test_key w t key_type check_keysize key_size params).2.log ∧
        ((generate_and_test_key w t key_type check_keysize key_size params).2.c = t.c ↔
          (w (t.calls + 2)).out_size = bytes ∧ ∃ k, k < bytes ∧
            (written (List.replicate 2048 0) (some (w (t.calls + 2)).out)).getD k 0 ≠ 0)) := by
  refine ⟨?_, ?_, ?_, ?_, ?_⟩
  · intro k h7 hk
    have e : with_parity k = k + k / 7 := by
      unfold with_parity
      exact Nat.mod_eq_of_lt hk
    refine ⟨e, by rw [e]; omega, ?_⟩
    unfold without_parity
    rw [e, size_sub_eq _ _ (by omega) (by unfold SIZE_MOD; omega)]
    omega
  · intro x h8 hx
    have e : without_parity x = x - x / 8 := by
      unfold without_parity
      exact size_sub_eq _ _ (by omega) hx
    refine ⟨e, by rw [e]; omega, fun h32 => ?_⟩
    unfold with_parity
    rw [e, Nat.mod_eq_of_lt (by omega)]
    omega
  · intro cs hdes
    unfold mac_key_size without_parity
    rw [if_pos hdes]
  · intro cs hdes
    unfold ciph_key_size without_parity
    rw [if_pos hdes]
  · intro w t key_type check_keysize key_size bytes params hw hdes hmem
    obtain ⟨hlog, hc⟩ := generate_des_key w t key_type check_keysize key_size params hw hdes
    have hb : with_parity key_size = 8 * bytes ∧ with_parity key_size / 8 = bytes ∧
        0 < bytes := by
      simp only [List.mem_cons, Prod.mk.injEq, List.mem_singleton, List.not_mem_nil,
        or_false] at hmem
      rcases hmem with ⟨rfl, rfl⟩ | ⟨rfl, rfl⟩ | ⟨rfl, rfl⟩ <;> decide
    refine ⟨hb.1, ?_, ?_⟩
    · rw [hlog]
      simp
    · rw [hc, hb.2.1]
      constructor
      · rintro ⟨h1, h2⟩
        refine ⟨h1, ?_⟩
        rw [← h1]
        exact h2 (by omega)
      · rintro ⟨h1, h2⟩
        refine ⟨h1, fun _ => ?_⟩
        rw [h1]
        exact h2

/-- Witness for C24: the size 56 and back; the size 64 and back; and a DES key of 56 bits
that reads back as the eight bytes 1 to 8 has no failure recorded. -/
theorem des_parity_inverse_witness :
    (56 % 7 = 0 ∧ 56 + 56 / 7 < 2 ^ 32 ∧ with_parity 56 = 64 ∧
      without_parity (with_parity 56) = 56) ∧
    (64 % 8 = 0 ∧ 64 < SIZE_MOD ∧ without_parity 64 = 56 ∧
      with_parity (without_parity 64) = 64) ∧
    (AllSucceed eight_byte_world ∧
      (generate_and_test_key eight_byte_world ⟨fresh_case, [], 0⟩ TEE_TYPE_DES 1 56 []).2.c =
        fresh_case) :=
  ⟨⟨by decide, by decide, (des_parity_inverse.1 56 (by decide) (by decide)).1,
      (des_parity_inverse.1 56 (by decide) (by decide)).2.2⟩,
   ⟨by decide, by decide, (des_parity_inverse.2.1 64 (by decide) (by decide)).1,
      (des_parity_inverse.2.1 64 (by decide) (by decide)).2.2 (by decide)⟩,
   ⟨fun _ => rfl,
    ((des_parity_inverse.2.2.2.2 eight_byte_world ⟨fresh_case, [], 0⟩ TEE_TYPE_DES 1 56 8 []
      (fun _ => rfl) (Or.inl rfl) (by decide)).2.2).mpr
      ⟨rfl, 0, by decide, by
        show (written (List.replicate 2048 0) (some [1, 2, 3, 4, 5, 6, 7, 8])).getD 0 0 ≠ 0
        rw [written_head 1 _ _ (by rw [List.length_replicate]; decide)]
        decide⟩⟩⟩

/- Test 4007: the key sizes of a row -/

/-- The sizes of a row from a size that does not exceed `max_size`: that size, then the sizes
from the next one. -/
theorem row_sizes_cons (key_size quanta max_size : Nat) (hq : 1 ≤ quanta)
    (h : key_size ≤ max_size) :
    row_sizes key_size quanta max_size =
      key_size :: row_sizes (key_size + quanta) quanta max_size := by
  unfold row_sizes
  rw [if_pos h]
  by_cases h2 : key_size + quanta ≤ max_size
  · rw [if_pos h2]
    have e : (max_size - key_size) / quanta = (max_size - (key_size + quanta)) / quanta + 1 := by
      have : max_size - key_size = max_size - (key_size + quanta) + quanta := by omega
      rw [this, Nat.add_div_right _ (by omega)]
    rw [e, List.range_succ_eq_map, List.map_cons, List.map_map]
    simp only [Nat.zero_mul, Nat.add_zero, List.cons.injEq, true_and]
    apply List.map_congr_left
    intro j _
    simp only [Function.comp, Nat.succ_eq_add_one, Nat.add_mul, Nat.one_mul]
    omega
  · rw [if_neg h2]
    have e : (max_size - key_size) / quanta = 0 := by
      apply Nat.div_eq_of_lt
      omega
    rw [e]
    simp [List.range_succ]

/-- No size of a row from a size above `max_size`. -/
theorem row_sizes_nil (key_size quanta max_size : Nat) (h : ¬ key_size ≤ max_size) :
    row_sizes key_size quanta max_size = [] := by
  unfold row_sizes
  rw [if_neg h]

/-- The sizes of a row are the sizes `min_size + j * quanta` that do not exceed `max_size`. -/
theorem mem_row_sizes (min_size quanta max_size s : Nat) (hq : 1 ≤ quanta) :
    s ∈ row_sizes min_size quanta max_size ↔ ∃ j, s = min_size + j * quanta ∧ s ≤ max_size := by
  unfold row_sizes
  by_cases h : min_size ≤ max_size
  · rw [if_pos h]
    simp only [List.mem_map, List.mem_range]
    constructor
    · rintro ⟨j, hj, rfl⟩
      refine ⟨j, rfl, ?_⟩
      have h1 : j ≤ (max_size - min_size) / quanta := by omega
      have h2 := Nat.mul_le_mul_right quanta h1
      have h3 := Nat.div_mul_le_self (max_size - min_size) quanta
      omega
    · rintro ⟨j, rfl, hle⟩
      refine ⟨j, ?_, rfl⟩
      have h1 : j * quanta ≤ max_size - min_size := by omega
      have h2 : j ≤ (max_size - min_size) / quanta := (Nat.le_div_iff_mul_le (by omega)).2 h1
      omega
  · rw [if_neg h]
    simp only [List.not_mem_nil, false_iff, not_exists, not_and]
    intro j hj
    have := Nat.zero_le (j * quanta)
    omega

/-- The sizes of a row increase. -/
theorem row_sizes_increasing (min_size quanta max_size : Nat) (hq : 1 ≤ quanta) :
    (row_sizes min_size quanta max_size).Pairwise (fun a b => a < b) := by
  unfold row_sizes
  split_ifs
  · rw [List.pairwise_map]
    refine List.Pairwise.imp ?_ (List.pairwise_lt_range _)
    intro a b hab
    have := Nat.mul_lt_mul_of_pos_right hab (show 0 < quanta by omega)
    omega
  · exact List.Pairwise.nil

/-- The macro `ADBG_EXPECT_TRUE` hands back the value it checks. -/
theorem expect_true_fst (c : ADBG_Case_t) (b : Bool) : (ADBG_EXPECT_TRUE c b).1 = b := by
  unfold ADBG_EXPECT_TRUE
  cases b <;> rfl

/-- The loop over the key sizes of a row, from the size `key_size` on, with turns enough:
it ends, and the calls of `generate_and_test_key` it makes are for the sizes of the row from
`key_size` on, in order, up to the first call found false. -/
theorem keygen_sizes_run (w : World) (key_type quanta max_size : Nat) (hq : 1 ≤ quanta)
    (hmax : max_size + quanta < 2 ^ 32) :
    ∀ (fuel key_size : Nat) (r : KeygenRun), max_size < key_size + fuel * quanta →
      ∃ r2 E, keygen_sizes w key_type quanta max_size fuel key_size r = some r2 ∧
        r2.tried = r.tried ++ E ∧
        E.map Attempt.key_size <+: row_sizes key_size quanta max_size ∧
        (∀ a ∈ E, a.key_type = key_type ∧
          a.passed = (generate_and_test_key w a.before key_type 1 a.key_size []).1) ∧
        (∀ a ∈ E.dropLast, a.passed = true) ∧
        ((∀ a ∈ E, a.passed = true) →
          E.map Attempt.key_size = row_sizes key_size quanta max_size) ∧
        (∀ a, E.head? = some a → a.before = r.trail) := by
  intro fuel
  induction fuel with
  | zero =>
    intro key_size r hf
    have hn : ¬ key_size ≤ max_size := by omega
    refine ⟨r, [], ?_, by simp, ?_, ?_, ?_, ?_, ?_⟩
    · simp only [keygen_sizes, if_neg hn]
    · exact List.nil_prefix
    · intro a ha; exact absurd ha (List.not_mem_nil a)
    · intro a ha; exact absurd ha (List.not_mem_nil a)
    · intro _; rw [row_sizes_nil _ _ _ hn]; rfl
    · intro a ha; exact Option.noConfusion ha
  | succ fuel ih =>
    intro key_size r hf
    by_cases hle : key_size ≤ max_size
    · have hnext : (key_size + quanta) % 2 ^ 32 = key_size + quanta :=
        Nat.mod_eq_of_lt (by omega)
      have hf2 : max_size < key_size + quanta + fuel * quanta := by
        rw [Nat.succ_mul] at hf
        omega
      rw [row_sizes_cons _ _ _ hq hle]
      by_cases hx : (generate_and_test_key w r.trail key_type 1 key_size []).1 = true
      · obtain ⟨r2, E, h1, h2, h3, h4, h5, h6, _⟩ := ih (key_size + quanta)
          { trail := { (generate_and_test_key w r.trail key_type 1 key_size []).2 with
              c := (ADBG_EXPECT_TRUE (generate_and_test_key w r.trail key_type 1 key_size []).2.c
                true).2 },
            tried := r.tried ++ [⟨r.trail, key_type, key_size, true⟩] } hf2
        refine ⟨r2, ⟨r.trail, key_type, key_size, true⟩ :: E, ?_, ?_, ?_, ?_, ?_, ?_, ?_⟩
        · simp only [keygen_sizes, if_pos hle, expect_true_fst, hx, hnext, not_true_eq_false,
            if_false]
          exact h1
        · rw [h2, List.append_assoc]
          rfl
        · rw [List.map_cons]
          exact Iff.mpr ( List.prefix_cons_inj key_size) h3
        · intro a ha
          rcases List.mem_cons.1 ha with rfl | ha
          · exact ⟨rfl, hx.symm⟩
          · exact h4 a ha
        · intro a ha
          cases E with
          | nil => exact absurd ha (List.not_mem_nil a)
          | cons b E =>
            rw [List.dropLast_cons₂] at ha
            rcases List.mem_cons.1 ha with rfl | ha
            · rfl
            · exact h5 a ha
        · intro hall
          rw [List.map_cons, h6 (fun a ha => hall a (List.mem_cons_of_mem _ ha))]
        · intro a ha
          simp only [List.head?_cons, Option.some.injEq] at ha
          rw [← ha]
      · simp only [Bool.not_eq_true] at hx
        refine ⟨⟨⟨(ADBG_EXPECT_TRUE (generate_and_test_key w r.trail key_type 1 key_size []).2.c
              false).2, (generate_and_test_key w r.trail key_type 1 key_size []).2.log,
            (generate_and_test_key w r.trail key_type 1 key_size []).2.calls⟩,
            r.tried ++ [⟨r.trail, key_type, key_size, false⟩]⟩,
          [⟨r.trail, key_type, key_size, false⟩], ?_, rfl, ?_, ?_, ?_, ?_, ?_⟩
        · simp only [keygen_sizes, if_pos hle, expect_true_fst, hx, Bool.false_eq_true,
            not_false_eq_true, if_true]
        · rw [List.map_cons, List.map_nil]
          exact Iff.mpr ( List.prefix_cons_inj key_size) List.nil_prefix
        · intro a ha
          rw [List.mem_singleton] at ha
          rw [ha]
          exact ⟨rfl, hx.symm⟩
        · intro a ha; exact absurd ha (List.not_mem_nil a)
        · intro hall
          exact Bool.noConfusion (hall _ (List.mem_singleton.2 rfl))
        · intro a ha
          simp only [List.head?_cons, Option.some.injEq] at ha
          rw [← ha]
    · refine ⟨r, [], ?_, by simp, ?_, ?_, ?_, ?_, ?_⟩
      · simp only [keygen_sizes, if_neg hle]
      · exact List.nil_prefix
      · intro a ha; exact absurd ha (List.not_mem_nil a)
      · intro a ha; exact absurd ha (List.not_mem_nil a)
      · intro _; rw [row_sizes_nil _ _ _ hle]; rfl
      · intro a ha; exact Option.noConfusion ha

/-- The rows of a table are run one after the other. -/
theorem keygen_noparams_append (w : World) (level fuel : Nat)
    (pre post : List key_types_noparam) :
    ∀ r, keygen_noparams w level fuel (pre ++ post) r =
      (keygen_noparams w level fuel pre r).bind (keygen_noparams w level fuel post) := by
  induction pre with
  | nil => intro r; rfl
  | cons kt pre ih =>
    intro r
    simp only [List.cons_append, keygen_noparams]
    cases keygen_row w level fuel kt r with
    | none => rfl
    | some r1 => exact ih r1

/-- With turns enough for each of its rows, `keygen_noparams` ends. -/
theorem keygen_noparams_ends (w : World) (level fuel : Nat) :
    ∀ (rows : List key_types_noparam) (r : KeygenRun),
      (∀ row ∈ rows, 1 ≤ row.quanta ∧ row.max_size + row.quanta < 2 ^ 32 ∧
        row.max_size < row.min_size + fuel * row.quanta) →
      ∃ r2, keygen_noparams w level fuel rows r = some r2 := by
  intro rows
  induction rows with
  | nil => intro r _; exact ⟨r, rfl⟩
  | cons kt rows ih =>
    intro r h
    obtain ⟨hq, hmax, hfuel⟩ := h kt (List.mem_cons_self kt rows)
    have hrow : ∃ r1, keygen_row w level fuel kt r = some r1 := by
      unfold keygen_row
      by_cases hl : kt.level > level
      · exact ⟨r, by simp only [if_pos hl]⟩
      · obtain ⟨r1, _, h1, _⟩ :=
          keygen_sizes_run w kt.key_type kt.quanta kt.max_size hq hmax fuel kt.min_size r hfuel
        exact ⟨r1, by simp only [if_neg hl]; exact h1⟩
    obtain ⟨r1, h1⟩ := hrow
    simp only [keygen_noparams, h1]
    exact ih r1 (fun row hrow => h row (List.mem_cons_of_mem kt hrow))

/-- C25: for a row `kt` of the table with a level that is not above the level of the run,
`quanta` at least 1 and `max_size + quanta` below 2^32, reached after the rows `pre` with
turns enough, `keygen_noparams` goes through the row and on to the rows behind it, and the
calls of `generate_and_test_key` it makes for the row (`E`, each with the type of the row,
the size and what the call was found to be) are for sizes of `row_sizes`, in that order,
each call but the last found true, and for all sizes of the row unless the last call was
found false; `row_sizes` holds the sizes `min_size + j * quanta` that do not exceed
`max_size`, in increasing order.  A row above the level makes no call.  In the table of
test 4007 every row meets the conditions, the AES row has the sizes 128, 192, 256, the DES
row 56 and the triple DES row 112 and 168, and with 512 turns the test ends. -/
theorem keygen_noparams_sizes (w : World) (level fuel : Nat)
    (pre post : List key_types_noparam) (kt : key_types_noparam) (r r1 : KeygenRun)
    (hpre : keygen_noparams w level fuel pre r = some r1)
    (hlevel : kt.level ≤ level) (hq : 1 ≤ kt.quanta)
    (hmax : kt.max_size + kt.quanta < 2 ^ 32)
    (hfuel : kt.max_size < kt.min_size + fuel * kt.quanta) :
    (∃ r2 E, keygen_row w level fuel kt r1 = some r2 ∧
      keygen_noparams w level fuel (pre ++ kt :: post) r =
        keygen_noparams w level fuel post r2 ∧
      r2.tried = r1.tried ++ E ∧
      E.map Attempt.key_size <+: row_sizes kt.min_size kt.quanta kt.max_size ∧
      (∀ a ∈ E, a.key_type = kt.key_type ∧
        a.passed = (generate_and_test_key w a.before kt.key_type 1 a.key_size []).1) ∧
      (∀ a ∈ E.dropLast, a.passed = true) ∧
      ((∀ a ∈ E, a.passed = true) →
        E.map Attempt.key_size = row_sizes kt.min_size kt.quanta kt.max_size) ∧
      (∀ a, E.head? = some a → a.before = r1.trail)) ∧
    (∀ s, s ∈ row_sizes kt.min_size kt.quanta kt.max_size ↔
      ∃ j, s = kt.min_size + j * kt.quanta ∧ s ≤ kt.max_size) ∧
    (row_sizes kt.min_size kt.quanta kt.max_size).Pairwise (fun a b => a < b) ∧
    (∀ (row : key_types_noparam) (r0 : KeygenRun), level < row.level →
      keygen_row w level fuel row r0 = some r0) ∧
    (∀ row ∈ symmetric_key_types, row.level ≤ level ∧ 1 ≤ row.quanta ∧
      row.max_size + row.quanta < 2 ^ 32 ∧
      row.max_size < row.min_size + 512 * row.quanta ∧
      (row.key_type = TEE_TYPE_AES →
        row_sizes row.min_size row.quanta row.max_size = [128, 192, 256]) ∧
      (row.key_type = TEE_TYPE_DES →
        row_sizes row.min_size row.quanta row.max_size = [56]) ∧
      (row.key_type = TEE_TYPE_DES3 →
        row_sizes row.min_size row.quanta row.max_size = [112, 168])) ∧
    (∀ (open_res : Nat) (c : ADBG_Case_t),
      ∃ r2, xtest_tee_test_4007_symmetric w level 512 open_res c = some r2) := by
  have htable : ∀ row ∈ symmetric_key_types, row.level = 0 ∧ 1 ≤ row.quanta ∧
      row.max_size + row.quanta < 2 ^ 32 ∧
      row.max_size < row.min_size + 512 * row.quanta ∧
      (row.key_type = TEE_TYPE_AES →
        row_sizes row.min_size row.quanta row.max_size = [128, 192, 256]) ∧
      (row.key_type = TEE_TYPE_DES →
        row_sizes row.min_size row.quanta row.max_size = [56]) ∧
      (row.key_type = TEE_TYPE_DES3 →
        row_sizes row.min_size row.quanta row.max_size = [112, 168]) := by
    set_option maxRecDepth 100000 in decide
  refine ⟨?_, fun s => mem_row_sizes _ _ _ s hq, row_sizes_increasing _ _ _ hq, ?_, ?_, ?_⟩
  · obtain ⟨r2, E, h1, h2⟩ :=
      keygen_sizes_run w kt.key_type kt.quanta kt.max_size hq hmax fuel kt.min_size r1 hfuel
    have hrow : keygen_row w level fuel kt r1 = some r2 := by
      unfold keygen_row
      simp only [if_neg (Nat.not_lt.2 hlevel)]
      exact h1
    refine ⟨r2, E, hrow, ?_, h2⟩
    rw [keygen_noparams_append, hpre]
    simp only [Option.bind, keygen_noparams, hrow]
  · intro row r0 hl
    unfold keygen_row
    simp only [if_pos hl]
  · intro row hrow
    obtain ⟨h0, h⟩ := htable row hrow
    exact ⟨by omega, h⟩
  · intro open_res c
    unfold xtest_tee_test_4007_symmetric
    by_cases ho : (ADBG_EXPECT_TEEC_SUCCESS c open_res).1 = true
    · obtain ⟨r2, h2⟩ := keygen_noparams_ends w level 512 symmetric_key_types
        ⟨⟨(ADBG_EXPECT_TEEC_SUCCESS c open_res).2, [], 0⟩, []⟩
        (fun row hrow => ⟨(htable row hrow).2.1, (htable row hrow).2.2.1,
          (htable row hrow).2.2.2.1⟩)
      simp only [ho, not_true_eq_false, if_false, h2]
      exact ⟨_, rfl⟩
    · simp only [ho, not_false_eq_true, if_true]
      exact ⟨_, rfl⟩

/-- Witness for C25: the AES row of test 4007, first of its table, with three turns. -/
theorem keygen_noparams_sizes_witness :
    keygen_noparams one_byte_world 0 3 [] ⟨⟨fresh_case, [], 0⟩, []⟩ =
      some ⟨⟨fresh_case, [], 0⟩, []⟩ ∧
    (0 ≤ 0 ∧ 1 ≤ 64 ∧ 256 + 64 < 2 ^ 32 ∧ 256 < 128 + 3 * 64) ∧
    ∃ r2 E, keygen_row one_byte_world 0 3 ⟨0, "AES", TEE_TYPE_AES, 64, 128, 256⟩
        ⟨⟨fresh_case, [], 0⟩, []⟩ = some r2 ∧
      r2.tried = [] ++ E ∧ E.map Attempt.key_size <+: [128, 192, 256] :=
  ⟨rfl, by decide,
    match (keygen_noparams_sizes one_byte_world 0 3 [] []
      ⟨0, "AES", TEE_TYPE_AES, 64, 128, 256⟩ ⟨⟨fresh_case, [], 0⟩, []⟩
      ⟨⟨fresh_case, [], 0⟩, []⟩ rfl (by decide) (by decide) (by decide) (by decide)).1 with
    | ⟨r2, E, h1, _, h3, h4, _⟩ => ⟨r2, E, h1, h3, h4⟩⟩

end Regression4000
